import Mathlib

/-!
# QtQuickVcp: connection lifecycle and channel synchronisation

A shallow embedding of the client classes `ApplicationStatus`
(`src/application/applicationstatus.cpp`) and `ApplicationLauncher`
(`src/application/applicationlauncher.cpp`), and of the base class of a bound remote
component, `RemoteComponentBase` (`src/machinetalk/halremote/remotecomponentbase.cpp`).

Every member function becomes a function on a record of the member variables.
Calls into the transport (sockets, context) and emitted Qt signals are appended
to an effect log, so that the order of outward actions can be stated.  A slot
connected to a signal of the same object runs synchronously at the `emit`.
Exceptions of the transport (`zmq::error_t`) are an explicit argument of the
functions whose `try` block can catch one.
-/

set_option autoImplicit false

namespace QtQuickVcp

/-! ## Shared vocabulary -/

/-- Modelled from the spec: the socket states `Down`, `Trying`, `Up`; the enum is
declared in a header that is not among the sources. -/
inductive SocketState
  | Down | Trying | Up
  deriving DecidableEq

/-- Connection states of the simple client variants; the member set is the one of
`enum State` in `pathview/previewclient.h`. -/
inductive State
  | Disconnected | Connecting | Connected | Timeout | Error
  deriving DecidableEq

/-- Modelled from the spec: the error kinds of section 3 (`None` is `NoError` in the
code); the enum is declared in a header that is not among the sources. -/
inductive ConnectionError
  | NoError | SocketError | BindError | ServiceError | CommandError | TimeoutError
  deriving DecidableEq

/-- Message type tags (`pb::ContainerType`) that occur in the sources. -/
inductive ContainerType
  | MT_PING | MT_PING_ACKNOWLEDGE | MT_ERROR
  | MT_EMCSTAT_FULL_UPDATE | MT_EMCSTAT_INCREMENTAL_UPDATE
  | MT_LAUNCHER_FULL_UPDATE | MT_LAUNCHER_INCREMENTAL_UPDATE | MT_LAUNCHER_ERROR
  | MT_LAUNCHER_START | MT_LAUNCHER_KILL | MT_LAUNCHER_TERMINATE
  | MT_LAUNCHER_WRITE_STDIN | MT_LAUNCHER_CALL | MT_LAUNCHER_SHUTDOWN
  | MT_HALRCOMP_BIND | MT_HALRCOMP_BIND_CONFIRM | MT_HALRCOMP_BIND_REJECT
  | MT_HALRCOMP_SET | MT_HALRCOMP_SET_REJECT | MT_HALRCOMP_ERROR
  | MT_HALRCOMP_FULL_UPDATE | MT_HALRCOMP_INCREMENTAL_UPDATE
  deriving DecidableEq

/-- A JSON value (`QJsonValue`); a number is a `double`, taken here as a rational. -/
inductive QJsonValue
  | undefined
  | null
  | bool (b : Bool)
  | double (d : Rat)
  | string (s : String)
  | array (items : List QJsonValue)
  | object (members : List (String × QJsonValue))

/-- A JSON object (`QJsonObject`): its members in order. -/
abbrev QJsonObject := List (String × QJsonValue)

/-- The member stored under a key (`QJsonObject::operator[]`), `undefined` when absent. -/
def QJsonObject.value (o : QJsonObject) (key : String) : QJsonValue :=
  match o.lookup key with
  | some v => v
  | none => QJsonValue.undefined

/-- Whether the value is a number (`QJsonValue::isDouble`). -/
def QJsonValue.isDouble : QJsonValue → Bool
  | QJsonValue.double _ => true
  | _ => false

/-- The number held by the value, `0` when it is not a number (`QJsonValue::toDouble`). -/
def QJsonValue.toDouble : QJsonValue → Rat
  | QJsonValue.double d => d
  | _ => 0

/-- Conversion of a number to `int` (`static_cast<int>`): the fraction is dropped. -/
def truncToInt (d : Rat) : Int := Int.tdiv d.num d.den

/-- The protocol parameters sub-message (`pb::ProtocolParameters`).  The keep-alive
period is an integer; the sources double it, and the product is taken here without a
bound on its size. -/
structure ProtocolParameters where
  keepalive_timer : Int

/-- The message envelope (`pb::Container`), with the fields the sources read or write.
An optional field that is not set is `none`. -/
structure Container where
  type : Option ContainerType
  emc_status_motion : Option QJsonObject
  emc_status_config : Option QJsonObject
  emc_status_io : Option QJsonObject
  emc_status_task : Option QJsonObject
  emc_status_interp : Option QJsonObject
  pparams : Option ProtocolParameters
  note : List String
  index : Option Int
  name : Option String
  launcher : List QJsonObject

/-- The envelope with no field set (the state after `Clear()`). -/
def Container.Clear : Container :=
  { type := none, emc_status_motion := none, emc_status_config := none,
    emc_status_io := none, emc_status_task := none, emc_status_interp := none,
    pparams := none, note := [], index := none, name := none, launcher := [] }

/-- An exception of the transport (`zmq::error_t`): `num()` and `what()`. -/
structure ZmqError where
  num : Int
  what : String

/-- The text `QString("Error %1: ").arg(num) + msg` built at each error site. -/
def errorText (num : Int) (msg : String) : String :=
  "Error " ++ toString num ++ ": " ++ msg

/-- A timer (`QTimer`): whether it is running, and its interval. -/
structure QTimer where
  active : Bool
  interval : Int

/-- Stops the timer (`QTimer::stop`). -/
def QTimer.stop (t : QTimer) : QTimer := { t with active := false }

/-- Starts the timer (`QTimer::start`). -/
def QTimer.start (t : QTimer) : QTimer := { t with active := true }

/-- Sets the interval (`QTimer::setInterval`). -/
def QTimer.setInterval (t : QTimer) (msec : Int) : QTimer := { t with interval := msec }

/-- The helper functions of `MachinetalkService` and the enum constants of
`applicationstatus.h` used by the sources; neither is among the sources, so they are
parameters of the embedding. -/
structure External where
  recurseDescriptor : String → QJsonObject → QJsonObject
  recurseMessage : QJsonObject → QJsonObject → QJsonObject
  updateValue : Container → QJsonValue → QJsonValue
  TaskModeAuto : Int
  TaskModeMdi : Int
  InterpreterIdle : Int

/-- The concatenation of the note lines of an error frame, as built by the loops
`errorString.append(QString::fromStdString(rx.note(i)) + "\n")`. -/
def appendNotes (acc : String) : List String → String
  | [] => acc
  | n :: rest => appendNotes (acc ++ (n ++ "\n")) rest

/-- The sockets a client owns. -/
inductive Socket
  | status | subscribe | command
  deriving DecidableEq

/-- The Qt signals of the two client classes; a signal that carries a JSON member
carries its current value, which is not repeated here. -/
inductive Signal
  | connectedChanged (arg : Bool)
  | connectionStateChanged (arg : State)
  | errorStringChanged (arg : String)
  | errorChanged (arg : ConnectionError)
  | syncedChanged (arg : Bool)
  | runningChanged (arg : Bool)
  | motionChanged | configChanged | ioChanged | taskChanged | interpChanged
  | launchersChanged
  | launchercmdUriChanged (arg : String)
  | launcherUriChanged (arg : String)
  | heartbeatPeriodChanged (arg : Int)

/-- An outward action of a client: a signal, or a call into the transport. -/
inductive Effect
  | emit (signal : Signal)
  | contextStart
  | contextStop
  | connectTo (socket : Socket) (uri : String)
  | close (socket : Socket)
  | subscribeTo (socket : Socket) (topic : String)
  | unsubscribeFrom (socket : Socket) (topic : String)
  | sendMessage (socket : Socket) (message : Container)

/-- The messages handed to `sendMessage` in an effect log, in order. -/
def sentMessages : List Effect → List Container
  | [] => []
  | Effect.sendMessage _ message :: rest => message :: sentMessages rest
  | _ :: rest => sentMessages rest

/-! ## ApplicationStatus -/

/-- The sub-channels of the status service (`enum StatusChannel`). -/
inductive StatusChannel
  | MotionChannel | ConfigChannel | IoChannel | TaskChannel | InterpChannel
  deriving DecidableEq

/-- Modelled from the spec: the flag value of each sub-channel.  The enum is declared in
`applicationstatus.h`, which is not among the sources; section 3 describes the synced
mask as a bitwise accumulation of per-channel flags, so each channel is one bit. -/
def StatusChannel.flag : StatusChannel → Nat
  | MotionChannel => 1
  | ConfigChannel => 2
  | IoChannel => 4
  | TaskChannel => 8
  | InterpChannel => 16

/-- The position of the bit that is a sub-channel's flag. -/
def StatusChannel.bit : StatusChannel → Nat
  | MotionChannel => 0
  | ConfigChannel => 1
  | IoChannel => 2
  | TaskChannel => 3
  | InterpChannel => 4

/-- The topic name of each sub-channel, as compared in `statusMessageReceived`. -/
def StatusChannel.topic : StatusChannel → String
  | MotionChannel => "motion"
  | ConfigChannel => "config"
  | IoChannel => "io"
  | TaskChannel => "task"
  | InterpChannel => "interp"

/-- The status sub-message of a channel carried by an envelope, if any. -/
def StatusChannel.sub (c : StatusChannel) (rx : Container) : Option QJsonObject :=
  match c with
  | MotionChannel => rx.emc_status_motion
  | ConfigChannel => rx.emc_status_config
  | IoChannel => rx.emc_status_io
  | TaskChannel => rx.emc_status_task
  | InterpChannel => rx.emc_status_interp

/-- The member variables of `ApplicationStatus`.  A pointer member is `true` when it is
not null.  `effects` is the log of outward actions; `fault` records that a member
function was called through a null socket pointer, which the source leaves undefined. -/
structure ApplicationStatus where
  m_statusUri : String
  m_statusSocketState : SocketState
  m_connected : Bool
  m_connectionState : State
  m_error : ConnectionError
  m_errorString : String
  m_running : Bool
  m_synced : Bool
  m_syncedChannels : Nat
  m_channels : Nat
  m_context : Bool
  m_statusSocket : Bool
  m_statusHeartbeatTimer : QTimer
  m_subscriptions : List String
  m_motion : QJsonObject
  m_config : QJsonObject
  m_io : QJsonObject
  m_task : QJsonObject
  m_interp : QJsonObject
  m_rx : Container
  effects : List Effect
  fault : Bool

namespace ApplicationStatus

open State SocketState ConnectionError ContainerType StatusChannel

/-- Appends an emitted signal to the effect log. -/
def emit (signal : Signal) (s : ApplicationStatus) : ApplicationStatus :=
  { s with effects := s.effects ++ [Effect.emit signal] }

/-- A call of a member function of `m_statusSocket`: logged when the pointer is not
null, a fault otherwise. -/
def statusSocketCall (e : Effect) (s : ApplicationStatus) : ApplicationStatus :=
  if s.m_statusSocket then { s with effects := s.effects ++ [e] }
  else { s with fault := true }

/-- Member function `ApplicationStatus::updateRunning`, the slot connected to `taskChanged` and
`interpChanged`. -/
def updateRunning (ext : External) (s : ApplicationStatus) : ApplicationStatus :=
  let running : Bool :=
    (s.m_task.value "taskMode").isDouble && (s.m_interp.value "interpState").isDouble
      && (decide (truncToInt (s.m_task.value "taskMode").toDouble = ext.TaskModeAuto)
          || decide (truncToInt (s.m_task.value "taskMode").toDouble = ext.TaskModeMdi))
      && decide (truncToInt (s.m_interp.value "interpState").toDouble ≠ ext.InterpreterIdle)
  if running ≠ s.m_running then
    emit (Signal.runningChanged running) { s with m_running := running }
  else s

/-- Member function `ApplicationStatus::initializeObject`. -/
def initializeObject (ext : External) (channel : StatusChannel) (s : ApplicationStatus) :
    ApplicationStatus :=
  match channel with
  | MotionChannel =>
      emit Signal.motionChanged { s with m_motion := ext.recurseDescriptor "EmcStatusMotion" [] }
  | ConfigChannel =>
      emit Signal.configChanged { s with m_config := ext.recurseDescriptor "EmcStatusConfig" [] }
  | IoChannel =>
      emit Signal.ioChanged { s with m_io := ext.recurseDescriptor "EmcStatusIo" [] }
  | TaskChannel =>
      updateRunning ext
        (emit Signal.taskChanged { s with m_task := ext.recurseDescriptor "EmcStatusTask" [] })
  | InterpChannel =>
      updateRunning ext
        (emit Signal.interpChanged
          { s with m_interp := ext.recurseDescriptor "EmcStatusInterp" [] })

/-- The constructor `ApplicationStatus::ApplicationStatus`.  `m_syncedChannels` is not
in the initialiser list; it starts as the empty mask of section 3 of the spec. -/
def new (ext : External) : ApplicationStatus :=
  let s : ApplicationStatus :=
    { m_statusUri := "", m_statusSocketState := Down, m_connected := false,
      m_connectionState := Disconnected, m_error := NoError, m_errorString := "",
      m_running := false, m_synced := false, m_syncedChannels := 0,
      m_channels := MotionChannel.flag ||| ConfigChannel.flag ||| IoChannel.flag
        ||| TaskChannel.flag ||| InterpChannel.flag,
      m_context := false, m_statusSocket := false,
      m_statusHeartbeatTimer := { active := false, interval := 0 },
      m_subscriptions := [], m_motion := [], m_config := [], m_io := [], m_task := [],
      m_interp := [], m_rx := Container.Clear, effects := [], fault := false }
  let s := initializeObject ext MotionChannel s
  let s := initializeObject ext ConfigChannel s
  let s := initializeObject ext IoChannel s
  let s := initializeObject ext TaskChannel s
  initializeObject ext InterpChannel s

/-- Member function `ApplicationStatus::startStatusHeartbeat`. -/
def startStatusHeartbeat (interval : Int) (s : ApplicationStatus) : ApplicationStatus :=
  let s := { s with m_statusHeartbeatTimer := s.m_statusHeartbeatTimer.stop }
  if interval > 0 then
    let s := { s with m_statusHeartbeatTimer := s.m_statusHeartbeatTimer.setInterval interval }
    { s with m_statusHeartbeatTimer := s.m_statusHeartbeatTimer.start }
  else s

/-- Member function `ApplicationStatus::stopStatusHeartbeat`. -/
def stopStatusHeartbeat (s : ApplicationStatus) : ApplicationStatus :=
  { s with m_statusHeartbeatTimer := s.m_statusHeartbeatTimer.stop }

/-- Member function `ApplicationStatus::refreshStatusHeartbeat`. -/
def refreshStatusHeartbeat (s : ApplicationStatus) : ApplicationStatus :=
  if s.m_statusHeartbeatTimer.active then
    let s := { s with m_statusHeartbeatTimer := s.m_statusHeartbeatTimer.stop }
    { s with m_statusHeartbeatTimer := s.m_statusHeartbeatTimer.start }
  else s

/-- Member function `ApplicationStatus::updateSync`. -/
def updateSync (channel : StatusChannel) (s : ApplicationStatus) : ApplicationStatus :=
  let s := { s with m_syncedChannels := s.m_syncedChannels ||| channel.flag }
  if s.m_syncedChannels = s.m_channels then
    let s := { s with m_synced := true }
    emit (Signal.syncedChanged s.m_synced) s
  else s

/-- Member function `ApplicationStatus::clearSync`. -/
def clearSync (s : ApplicationStatus) : ApplicationStatus :=
  let s := { s with m_synced := false }
  let s := { s with m_syncedChannels := 0 }
  emit (Signal.syncedChanged s.m_synced) s

/-- Member function `ApplicationStatus::disconnectSockets`. -/
def disconnectSockets (s : ApplicationStatus) : ApplicationStatus :=
  let s := { s with m_statusSocketState := Down }
  let s :=
    if s.m_statusSocket then
      { s with effects := s.effects ++ [Effect.close Socket.status], m_statusSocket := false }
    else s
  if s.m_context then
    { s with effects := s.effects ++ [Effect.contextStop], m_context := false }
  else s

/-- Member function `ApplicationStatus::subscribe`.  The guards are the source's `m_channels | XChannel`
(a bitwise or, as the spec notes in its open question). -/
def subscribe (s : ApplicationStatus) : ApplicationStatus :=
  let s := { s with m_statusSocketState := Trying }
  let s :=
    if (s.m_channels ||| MotionChannel.flag) ≠ 0 then
      let s := statusSocketCall (Effect.subscribeTo Socket.status "motion") s
      { s with m_subscriptions := s.m_subscriptions ++ ["motion"] }
    else s
  let s :=
    if (s.m_channels ||| ConfigChannel.flag) ≠ 0 then
      let s := statusSocketCall (Effect.subscribeTo Socket.status "config") s
      { s with m_subscriptions := s.m_subscriptions ++ ["config"] }
    else s
  let s :=
    if (s.m_channels ||| TaskChannel.flag) ≠ 0 then
      let s := statusSocketCall (Effect.subscribeTo Socket.status "task") s
      { s with m_subscriptions := s.m_subscriptions ++ ["task"] }
    else s
  let s :=
    if (s.m_channels ||| IoChannel.flag) ≠ 0 then
      let s := statusSocketCall (Effect.subscribeTo Socket.status "io") s
      { s with m_subscriptions := s.m_subscriptions ++ ["io"] }
    else s
  if (s.m_channels ||| InterpChannel.flag) ≠ 0 then
    let s := statusSocketCall (Effect.subscribeTo Socket.status "interp") s
    { s with m_subscriptions := s.m_subscriptions ++ ["interp"] }
  else s

/-- The body of the `foreach` loop of `ApplicationStatus::unsubscribe`. -/
def unsubscribeFrom (ext : External) (s : ApplicationStatus) (subscription : String) :
    ApplicationStatus :=
  let s := statusSocketCall (Effect.unsubscribeFrom Socket.status subscription) s
  if subscription = "motion" then initializeObject ext MotionChannel s
  else if subscription = "config" then initializeObject ext ConfigChannel s
  else if subscription = "io" then initializeObject ext IoChannel s
  else if subscription = "task" then initializeObject ext TaskChannel s
  else if subscription = "interp" then initializeObject ext InterpChannel s
  else s

/-- Member function `ApplicationStatus::unsubscribe`. -/
def unsubscribe (ext : External) (s : ApplicationStatus) : ApplicationStatus :=
  let s := { s with m_statusSocketState := Down }
  let s := s.m_subscriptions.foldl (unsubscribeFrom ext) s
  { s with m_subscriptions := [] }

/-- Member function `ApplicationStatus::cleanup`. -/
def cleanup (ext : External) (s : ApplicationStatus) : ApplicationStatus :=
  let s := if s.m_connected then unsubscribe ext s else s
  let s := disconnectSockets s
  { s with m_subscriptions := [] }

/-- Member function `ApplicationStatus::updateError`. -/
def updateError (ext : External) (error : ConnectionError) (errorString : String)
    (s : ApplicationStatus) : ApplicationStatus :=
  let s :=
    if s.m_errorString ≠ errorString then
      let s := { s with m_errorString := errorString }
      emit (Signal.errorStringChanged s.m_errorString) s
    else s
  if s.m_error ≠ error then
    let s := if error ≠ NoError then cleanup ext s else s
    let s := { s with m_error := error }
    emit (Signal.errorChanged s.m_error) s
  else s

/-- Member function `ApplicationStatus::updateState(state, error, errorString)`. -/
def updateState (ext : External) (state : State) (error : ConnectionError)
    (errorString : String) (s : ApplicationStatus) : ApplicationStatus :=
  let s :=
    if state ≠ s.m_connectionState then
      let s :=
        if s.m_connected then
          let s := stopStatusHeartbeat s
          let s := clearSync s
          let s := { s with m_connected := false }
          emit (Signal.connectedChanged false) s
        else if state = Connected then
          let s := { s with m_connected := true }
          emit (Signal.connectedChanged true) s
        else s
      let s := { s with m_connectionState := state }
      let s := emit (Signal.connectionStateChanged s.m_connectionState) s
      if state = Disconnected ∨ state = Error then
        let s := initializeObject ext MotionChannel s
        let s := initializeObject ext ConfigChannel s
        let s := initializeObject ext IoChannel s
        let s := initializeObject ext TaskChannel s
        initializeObject ext InterpChannel s
      else s
    else s
  updateError ext error errorString s

/-- Member function `ApplicationStatus::updateState(state)`: the overload without an error. -/
def updateStateTo (ext : External) (state : State) (s : ApplicationStatus) :
    ApplicationStatus :=
  updateState ext state NoError "" s

/-- Member function `ApplicationStatus::connectSockets`; `connectError` is the exception thrown inside
the `try` block, if any.  The result pairs the return value with the new state. -/
def connectSockets (ext : External) (connectError : Option ZmqError)
    (s : ApplicationStatus) : Bool × ApplicationStatus :=
  let s := { s with m_context := true }
  let s := { s with effects := s.effects ++ [Effect.contextStart] }
  let s := { s with m_statusSocket := true }
  match connectError with
  | some e => (false, updateState ext Error SocketError (errorText e.num e.what) s)
  | none => (true, { s with effects := s.effects ++ [Effect.connectTo Socket.status s.m_statusUri] })

/-- Member function `ApplicationStatus::start`. -/
def start (ext : External) (connectError : Option ZmqError) (s : ApplicationStatus) :
    ApplicationStatus :=
  let s := updateStateTo ext Connecting s
  let r := connectSockets ext connectError s
  if r.1 then subscribe r.2 else r.2

/-- Member function `ApplicationStatus::stop`. -/
def stop (ext : External) (s : ApplicationStatus) : ApplicationStatus :=
  let s := cleanup ext s
  updateStateTo ext Disconnected s

/-- Member function `ApplicationStatus::updateMotion`. -/
def updateMotion (ext : External) (motion : QJsonObject) (s : ApplicationStatus) :
    ApplicationStatus :=
  emit Signal.motionChanged { s with m_motion := ext.recurseMessage motion s.m_motion }

/-- Member function `ApplicationStatus::updateConfig`. -/
def updateConfig (ext : External) (config : QJsonObject) (s : ApplicationStatus) :
    ApplicationStatus :=
  emit Signal.configChanged { s with m_config := ext.recurseMessage config s.m_config }

/-- Member function `ApplicationStatus::updateIo`. -/
def updateIo (ext : External) (io : QJsonObject) (s : ApplicationStatus) :
    ApplicationStatus :=
  emit Signal.ioChanged { s with m_io := ext.recurseMessage io s.m_io }

/-- Member function `ApplicationStatus::updateTask`. -/
def updateTask (ext : External) (task : QJsonObject) (s : ApplicationStatus) :
    ApplicationStatus :=
  updateRunning ext
    (emit Signal.taskChanged { s with m_task := ext.recurseMessage task s.m_task })

/-- Member function `ApplicationStatus::updateInterp`. -/
def updateInterp (ext : External) (interp : QJsonObject) (s : ApplicationStatus) :
    ApplicationStatus :=
  updateRunning ext
    (emit Signal.interpChanged { s with m_interp := ext.recurseMessage interp s.m_interp })

/-- One of the five topic blocks of `statusMessageReceived`: when the topic is the
channel's and the message carries the channel's sub-message, the member is updated and,
for a full update, the channel is marked synced. -/
def receiveChannel (update : QJsonObject → ApplicationStatus → ApplicationStatus)
    (channel : StatusChannel) (topic : String) (sub : Option QJsonObject)
    (s : ApplicationStatus) : ApplicationStatus :=
  match sub with
  | some m =>
      if topic = channel.topic then
        let s := update m s
        if s.m_rx.type = some MT_EMCSTAT_FULL_UPDATE then updateSync channel s else s
      else s
  | none => s

/-- The five topic blocks of `statusMessageReceived` in the order of the source: motion,
config, io, task, interp.  Used to state what the blocks do together. -/
def receiveChannels (ext : External) (topic : String) (s : ApplicationStatus) :
    ApplicationStatus :=
  let s := receiveChannel (updateMotion ext) MotionChannel topic s.m_rx.emc_status_motion s
  let s := receiveChannel (updateConfig ext) ConfigChannel topic s.m_rx.emc_status_config s
  let s := receiveChannel (updateIo ext) IoChannel topic s.m_rx.emc_status_io s
  let s := receiveChannel (updateTask ext) TaskChannel topic s.m_rx.emc_status_task s
  receiveChannel (updateInterp ext) InterpChannel topic s.m_rx.emc_status_interp s

/-- Member function `ApplicationStatus::statusMessageReceived`; `topic` is the first frame and `rx` the
parsed second frame. -/
def statusMessageReceived (ext : External) (topic : String) (rx : Container)
    (s : ApplicationStatus) : ApplicationStatus :=
  let s := { s with m_rx := rx }
  if s.m_rx.type = some MT_EMCSTAT_FULL_UPDATE
      ∨ s.m_rx.type = some MT_EMCSTAT_INCREMENTAL_UPDATE then
    let s := receiveChannel (updateMotion ext) MotionChannel topic s.m_rx.emc_status_motion s
    let s := receiveChannel (updateConfig ext) ConfigChannel topic s.m_rx.emc_status_config s
    let s := receiveChannel (updateIo ext) IoChannel topic s.m_rx.emc_status_io s
    let s := receiveChannel (updateTask ext) TaskChannel topic s.m_rx.emc_status_task s
    let s := receiveChannel (updateInterp ext) InterpChannel topic s.m_rx.emc_status_interp s
    if s.m_rx.type = some MT_EMCSTAT_FULL_UPDATE then
      let s :=
        if s.m_statusSocketState ≠ Up then
          let s := { s with m_statusSocketState := Up }
          updateStateTo ext Connected s
        else s
      match s.m_rx.pparams with
      | some pparams => startStatusHeartbeat (pparams.keepalive_timer * 2) s
      | none => s
    else refreshStatusHeartbeat s
  else if s.m_rx.type = some MT_PING then
    if s.m_statusSocketState = Up then refreshStatusHeartbeat s
    else
      let s := updateStateTo ext Connecting s
      let s := unsubscribe ext s
      subscribe s
  else s

/-- Member function `ApplicationStatus::pollError`. -/
def pollError (ext : External) (errorNum : Int) (errorMsg : String)
    (s : ApplicationStatus) : ApplicationStatus :=
  let errorString := errorText errorNum errorMsg
  updateState ext Error SocketError errorString s

/-- Member function `ApplicationStatus::statusHeartbeatTimerTick`. -/
def statusHeartbeatTimerTick (ext : External) (s : ApplicationStatus) : ApplicationStatus :=
  let s := { s with m_statusSocketState := Down }
  updateStateTo ext Timeout s

/-- What can happen to an `ApplicationStatus` object: the calls `start()` and `stop()`
of the service base class, a message on the status socket, a poll error of the context,
and a tick of the heartbeat timer. -/
inductive Event
  | start (connectError : Option ZmqError)
  | stop
  | statusMessageReceived (topic : String) (rx : Container)
  | pollError (errorNum : Int) (errorMsg : String)
  | statusHeartbeatTimerTick

/-- Whether the event can occur in a state: a message needs an open status socket, a
poll error a running context, a tick a running timer. -/
def Event.enabled (s : ApplicationStatus) : Event → Bool
  | Event.start _ => true
  | Event.stop => true
  | Event.statusMessageReceived _ _ => s.m_statusSocket
  | Event.pollError _ _ => s.m_context
  | Event.statusHeartbeatTimerTick => s.m_statusHeartbeatTimer.active

/-- The state after an event. -/
def step (ext : External) (e : Event) (s : ApplicationStatus) : ApplicationStatus :=
  match e with
  | Event.start connectError => start ext connectError s
  | Event.stop => stop ext s
  | Event.statusMessageReceived topic rx => statusMessageReceived ext topic rx s
  | Event.pollError errorNum errorMsg => pollError ext errorNum errorMsg s
  | Event.statusHeartbeatTimerTick => statusHeartbeatTimerTick ext s

/-- The state after a sequence of events, first event first. -/
def run (ext : External) (es : List Event) (s : ApplicationStatus) : ApplicationStatus :=
  es.foldl (fun s e => step ext e s) s

/-- The states an object can be in between two events: the constructed state, and the
state after an enabled event in such a state. -/
inductive Reachable (ext : External) : ApplicationStatus → Prop
  | init : Reachable ext (new ext)
  | step (s : ApplicationStatus) (e : Event) :
      Reachable ext s → e.enabled s = true → Reachable ext (step ext e s)

/-- The event is a full update for the channel: its type is `MT_EMCSTAT_FULL_UPDATE`,
its topic the channel's name, and it carries the channel's status sub-message. -/
def Event.isFullUpdateFor (c : StatusChannel) : Event → Prop
  | Event.statusMessageReceived topic rx =>
      rx.type = some MT_EMCSTAT_FULL_UPDATE ∧ topic = c.topic ∧ (c.sub rx).isSome = true
  | _ => False

/-- The mask with the flags of all five sub-channels, the value of `m_channels` set by
the constructor. -/
def allChannels : Nat :=
  MotionChannel.flag ||| ConfigChannel.flag ||| IoChannel.flag ||| TaskChannel.flag
    ||| InterpChannel.flag

/-- The relations between the members that every event keeps, whether or not it is
enabled: the connected flag goes with the state `Connected`, the socket state `Up` occurs
only in `Connected`, outside `Connected` nothing is synced, and an error is recorded
exactly in the state `Error`. -/
def Coherent (s : ApplicationStatus) : Prop :=
  (s.m_connected = true ↔ s.m_connectionState = Connected) ∧
  (s.m_statusSocketState = Up → s.m_connectionState = Connected) ∧
  (s.m_connectionState ≠ Connected → s.m_syncedChannels = 0 ∧ s.m_synced = false) ∧
  (s.m_error ≠ NoError ↔ s.m_connectionState = Error)

/-- The relations between the members that hold between two events: the connected flag
and the socket state `Up` go with the state `Connected`; outside `Connected` nothing is
synced and the heartbeat timer is stopped; the socket and the context are open while
`Connected`; an error is recorded exactly in the state `Error`, where the socket and the
context are closed; the aggregate flag is raised only on the full mask; `m_channels`
keeps the value set by the constructor; the context lives as long as the socket; and no
member function has been called through a null socket pointer. -/
def Invariant (s : ApplicationStatus) : Prop :=
  (s.m_connected = true ↔ s.m_connectionState = Connected) ∧
  (s.m_statusSocketState = Up ↔ s.m_connectionState = Connected) ∧
  (s.m_connectionState ≠ Connected → s.m_syncedChannels = 0 ∧ s.m_synced = false) ∧
  (s.m_statusHeartbeatTimer.active = true → s.m_connectionState = Connected) ∧
  (s.m_connectionState = Connected → s.m_statusSocket = true ∧ s.m_context = true) ∧
  (s.m_error ≠ NoError ↔ s.m_connectionState = Error) ∧
  (s.m_connectionState = Error → s.m_statusSocket = false ∧ s.m_context = false) ∧
  (s.m_synced = true → s.m_syncedChannels = s.m_channels) ∧
  s.m_channels = allChannels ∧
  s.m_context = s.m_statusSocket ∧
  s.fault = false

end ApplicationStatus

/-! ## ApplicationLauncher -/

/-- The member variables of `ApplicationLauncher` (`applicationlauncher.h`).  A pointer
member is `true` when it is not null.  `effects` is the log of outward actions; `fault`
records that a member function was called through a null socket pointer, which the
source leaves undefined. -/
structure ApplicationLauncher where
  m_subscribeUri : String
  m_commandUri : String
  m_commandIdentity : String
  m_heartbeatPeriod : Int
  m_connected : Bool
  m_subscribeSocketState : SocketState
  m_commandSocketState : SocketState
  m_connectionState : State
  m_error : ConnectionError
  m_errorString : String
  m_launchers : QJsonValue
  m_synced : Bool
  m_context : Bool
  m_subscribeSocket : Bool
  m_commandSocket : Bool
  m_commandHeartbeatTimer : QTimer
  m_subscribeHeartbeatTimer : QTimer
  m_commandPingOutstanding : Bool
  m_rx : Container
  m_tx : Container
  effects : List Effect
  fault : Bool

namespace ApplicationLauncher

open State SocketState ConnectionError ContainerType

/-- Appends an emitted signal to the effect log. -/
def emit (signal : Signal) (s : ApplicationLauncher) : ApplicationLauncher :=
  { s with effects := s.effects ++ [Effect.emit signal] }

/-- A call of a member function of `m_subscribeSocket`: logged when the pointer is not
null, a fault otherwise. -/
def subscribeSocketCall (e : Effect) (s : ApplicationLauncher) : ApplicationLauncher :=
  if s.m_subscribeSocket then { s with effects := s.effects ++ [e] }
  else { s with fault := true }

/-- Member function `ApplicationLauncher::initializeObject`. -/
def initializeObject (s : ApplicationLauncher) : ApplicationLauncher :=
  let s := { s with m_launchers := QJsonValue.array [] }
  emit Signal.launchersChanged s

/-- The constructor `ApplicationLauncher::ApplicationLauncher`. -/
def new : ApplicationLauncher :=
  initializeObject
    { m_subscribeUri := "", m_commandUri := "", m_commandIdentity := "launcher",
      m_heartbeatPeriod := 3000, m_connected := false, m_subscribeSocketState := Down,
      m_commandSocketState := Down, m_connectionState := Disconnected, m_error := NoError,
      m_errorString := "", m_launchers := QJsonValue.array [], m_synced := false,
      m_context := false, m_subscribeSocket := false, m_commandSocket := false,
      m_commandHeartbeatTimer := { active := false, interval := 0 },
      m_subscribeHeartbeatTimer := { active := false, interval := 0 },
      m_commandPingOutstanding := false, m_rx := Container.Clear, m_tx := Container.Clear,
      effects := [], fault := false }

/-- The setter `setLaunchercmdUri` of `applicationlauncher.h`. -/
def setLaunchercmdUri (arg : String) (s : ApplicationLauncher) : ApplicationLauncher :=
  if s.m_commandUri = arg then s
  else emit (Signal.launchercmdUriChanged arg) { s with m_commandUri := arg }

/-- The setter `setLauncherUri` of `applicationlauncher.h`. -/
def setLauncherUri (arg : String) (s : ApplicationLauncher) : ApplicationLauncher :=
  if s.m_subscribeUri = arg then s
  else emit (Signal.launcherUriChanged arg) { s with m_subscribeUri := arg }

/-- The setter `heartbeatPeriod(int)` of `applicationlauncher.h`. -/
def heartbeatPeriod (arg : Int) (s : ApplicationLauncher) : ApplicationLauncher :=
  if s.m_heartbeatPeriod = arg then s
  else emit (Signal.heartbeatPeriodChanged arg) { s with m_heartbeatPeriod := arg }

/-- Member function `ApplicationLauncher::disconnectSockets`. -/
def disconnectSockets (s : ApplicationLauncher) : ApplicationLauncher :=
  let s := { s with m_commandSocketState := Down }
  let s := { s with m_subscribeSocketState := Down }
  let s :=
    if s.m_commandSocket then
      { s with effects := s.effects ++ [Effect.close Socket.command], m_commandSocket := false }
    else s
  let s :=
    if s.m_subscribeSocket then
      { s with effects := s.effects ++ [Effect.close Socket.subscribe],
               m_subscribeSocket := false }
    else s
  if s.m_context then
    { s with effects := s.effects ++ [Effect.contextStop], m_context := false }
  else s

/-- Member function `ApplicationLauncher::subscribe`. -/
def subscribe (topic : String) (s : ApplicationLauncher) : ApplicationLauncher :=
  let s := { s with m_subscribeSocketState := Trying }
  subscribeSocketCall (Effect.subscribeTo Socket.subscribe topic) s

/-- Member function `ApplicationLauncher::unsubscribe`. -/
def unsubscribe (topic : String) (s : ApplicationLauncher) : ApplicationLauncher :=
  let s := { s with m_subscribeSocketState := Down }
  subscribeSocketCall (Effect.unsubscribeFrom Socket.subscribe topic) s

/-- Member function `ApplicationLauncher::startCommandHeartbeat`. -/
def startCommandHeartbeat (s : ApplicationLauncher) : ApplicationLauncher :=
  let s := { s with m_commandPingOutstanding := false }
  if s.m_heartbeatPeriod > 0 then
    let s := { s with m_commandHeartbeatTimer :=
                        s.m_commandHeartbeatTimer.setInterval s.m_heartbeatPeriod }
    { s with m_commandHeartbeatTimer := s.m_commandHeartbeatTimer.start }
  else s

/-- Member function `ApplicationLauncher::stopCommandHeartbeat`. -/
def stopCommandHeartbeat (s : ApplicationLauncher) : ApplicationLauncher :=
  { s with m_commandHeartbeatTimer := s.m_commandHeartbeatTimer.stop }

/-- Member function `ApplicationLauncher::startSubscribeHeartbeat`. -/
def startSubscribeHeartbeat (interval : Int) (s : ApplicationLauncher) : ApplicationLauncher :=
  let s := { s with m_subscribeHeartbeatTimer := s.m_subscribeHeartbeatTimer.stop }
  if interval > 0 then
    let s := { s with m_subscribeHeartbeatTimer :=
                        s.m_subscribeHeartbeatTimer.setInterval interval }
    { s with m_subscribeHeartbeatTimer := s.m_subscribeHeartbeatTimer.start }
  else s

/-- Member function `ApplicationLauncher::stopSubscribeHeartbeat`. -/
def stopSubscribeHeartbeat (s : ApplicationLauncher) : ApplicationLauncher :=
  { s with m_subscribeHeartbeatTimer := s.m_subscribeHeartbeatTimer.stop }

/-- Member function `ApplicationLauncher::refreshSubscribeHeartbeat`. -/
def refreshSubscribeHeartbeat (s : ApplicationLauncher) : ApplicationLauncher :=
  if s.m_subscribeHeartbeatTimer.active then
    let s := { s with m_subscribeHeartbeatTimer := s.m_subscribeHeartbeatTimer.stop }
    { s with m_subscribeHeartbeatTimer := s.m_subscribeHeartbeatTimer.start }
  else s

/-- Member function `ApplicationLauncher::updateSync`. -/
def updateSync (s : ApplicationLauncher) : ApplicationLauncher :=
  let s := { s with m_synced := true }
  emit (Signal.syncedChanged s.m_synced) s

/-- Member function `ApplicationLauncher::clearSync`. -/
def clearSync (s : ApplicationLauncher) : ApplicationLauncher :=
  let s := { s with m_synced := false }
  let s := emit (Signal.syncedChanged s.m_synced) s
  initializeObject s

/-- Member function `ApplicationLauncher::cleanup`. -/
def cleanup (s : ApplicationLauncher) : ApplicationLauncher :=
  let s := if s.m_connected then unsubscribe "launcher" s else s
  let s := stopCommandHeartbeat s
  disconnectSockets s

/-- Member function `ApplicationLauncher::updateError`. -/
def updateError (error : ConnectionError) (errorString : String) (s : ApplicationLauncher) :
    ApplicationLauncher :=
  let s :=
    if s.m_errorString ≠ errorString then
      let s := { s with m_errorString := errorString }
      emit (Signal.errorStringChanged s.m_errorString) s
    else s
  if s.m_error ≠ error then
    let s := if error ≠ NoError then cleanup s else s
    let s := { s with m_error := error }
    emit (Signal.errorChanged s.m_error) s
  else s

/-- Member function `ApplicationLauncher::updateState(state, error, errorString)`. -/
def updateState (state : State) (error : ConnectionError) (errorString : String)
    (s : ApplicationLauncher) : ApplicationLauncher :=
  let s :=
    if state ≠ s.m_connectionState then
      let s :=
        if s.m_connected then
          let s := stopSubscribeHeartbeat s
          let s := clearSync s
          let s := { s with m_connected := false }
          emit (Signal.connectedChanged false) s
        else if state = Connected then
          let s := { s with m_connected := true }
          emit (Signal.connectedChanged true) s
        else s
      let s := { s with m_connectionState := state }
      let s := emit (Signal.connectionStateChanged s.m_connectionState) s
      if state = Disconnected ∨ state = Error then initializeObject s else s
    else s
  updateError error errorString s

/-- Member function `ApplicationLauncher::updateState(state)`: the overload without an error. -/
def updateStateTo (state : State) (s : ApplicationLauncher) : ApplicationLauncher :=
  updateState state NoError "" s

/-- Member function `ApplicationLauncher::sendCommandMessage`; `sendError` is the exception thrown
inside the `try` block, if any. -/
def sendCommandMessage (type : ContainerType) (sendError : Option ZmqError)
    (s : ApplicationLauncher) : ApplicationLauncher :=
  if s.m_commandSocket = false then s
  else
    let s := { s with m_tx := { s.m_tx with type := some type } }
    match sendError with
    | none =>
        let s := { s with effects := s.effects ++ [Effect.sendMessage Socket.command s.m_tx] }
        { s with m_tx := Container.Clear }
    | some e => updateState Error SocketError (errorText e.num e.what) s

/-- Member function `ApplicationLauncher::start(int index)`. -/
def startIndex (index : Int) (sendError : Option ZmqError) (s : ApplicationLauncher) :
    ApplicationLauncher :=
  if s.m_connected = false then s
  else
    let s := { s with m_tx := { s.m_tx with index := some index } }
    sendCommandMessage MT_LAUNCHER_START sendError s

/-- Member function `ApplicationLauncher::kill`. -/
def kill (index : Int) (sendError : Option ZmqError) (s : ApplicationLauncher) :
    ApplicationLauncher :=
  if s.m_connected = false then s
  else
    let s := { s with m_tx := { s.m_tx with index := some index } }
    sendCommandMessage MT_LAUNCHER_KILL sendError s

/-- Member function `ApplicationLauncher::terminate`. -/
def terminate (index : Int) (sendError : Option ZmqError) (s : ApplicationLauncher) :
    ApplicationLauncher :=
  if s.m_connected = false then s
  else
    let s := { s with m_tx := { s.m_tx with index := some index } }
    sendCommandMessage MT_LAUNCHER_TERMINATE sendError s

/-- Member function `ApplicationLauncher::writeToStdin`. -/
def writeToStdin (index : Int) (data : String) (sendError : Option ZmqError)
    (s : ApplicationLauncher) : ApplicationLauncher :=
  if s.m_connected = false then s
  else
    let s := { s with m_tx := { s.m_tx with index := some index } }
    let s := { s with m_tx := { s.m_tx with name := some data } }
    sendCommandMessage MT_LAUNCHER_WRITE_STDIN sendError s

/-- Member function `ApplicationLauncher::call`. -/
def call (command : String) (sendError : Option ZmqError) (s : ApplicationLauncher) :
    ApplicationLauncher :=
  if s.m_connected = false then s
  else
    let s := { s with m_tx := { s.m_tx with name := some command } }
    sendCommandMessage MT_LAUNCHER_CALL sendError s

/-- Member function `ApplicationLauncher::shutdown`. -/
def shutdown (sendError : Option ZmqError) (s : ApplicationLauncher) : ApplicationLauncher :=
  if s.m_connected = false then s
  else sendCommandMessage MT_LAUNCHER_SHUTDOWN sendError s

/-- Member function `ApplicationLauncher::connectSockets`; `connectError` is the exception thrown inside
the `try` block, if any.  The result pairs the return value with the new state. -/
def connectSockets (connectError : Option ZmqError) (s : ApplicationLauncher) :
    Bool × ApplicationLauncher :=
  let s := { s with m_context := true }
  let s := { s with effects := s.effects ++ [Effect.contextStart] }
  let s := { s with m_commandSocket := true }
  let s := { s with m_subscribeSocket := true }
  match connectError with
  | some e => (false, updateState Error SocketError (errorText e.num e.what) s)
  | none =>
      (true, { s with effects := s.effects ++ [Effect.connectTo Socket.command s.m_commandUri,
                                               Effect.connectTo Socket.subscribe s.m_subscribeUri] })

/-- Member function `ApplicationLauncher::start()`. -/
def start (connectError sendError : Option ZmqError) (s : ApplicationLauncher) :
    ApplicationLauncher :=
  let s := { s with m_commandSocketState := Trying }
  let s := updateStateTo Connecting s
  let r := connectSockets connectError s
  if r.1 then
    let s := subscribe "launcher" r.2
    let s := startCommandHeartbeat s
    sendCommandMessage MT_PING sendError s
  else r.2

/-- Member function `ApplicationLauncher::stop`. -/
def stop (s : ApplicationLauncher) : ApplicationLauncher :=
  let s := cleanup s
  updateStateTo Disconnected s

/-- Member function `ApplicationLauncher::pollError`. -/
def pollError (errorNum : Int) (errorMsg : String) (s : ApplicationLauncher) :
    ApplicationLauncher :=
  let errorString := errorText errorNum errorMsg
  updateState Error SocketError errorString s

/-- Member function `ApplicationLauncher::subscribeMessageReceived`; `_topic` is the first frame (read
only by the debug output) and `rx` the parsed second frame. -/
def subscribeMessageReceived (ext : External) (_topic : String) (rx : Container)
    (s : ApplicationLauncher) : ApplicationLauncher :=
  let s := { s with m_rx := rx }
  if s.m_rx.type = some MT_LAUNCHER_FULL_UPDATE then
    let s := { s with m_launchers := QJsonValue.array [] }
    let s := { s with m_launchers := ext.updateValue s.m_rx s.m_launchers }
    let s := emit Signal.launchersChanged s
    let s :=
      if s.m_subscribeSocketState ≠ Up then
        let s := { s with m_subscribeSocketState := Up }
        updateStateTo Connected s
      else s
    let s := updateSync s
    match s.m_rx.pparams with
    | some pparams => startSubscribeHeartbeat (pparams.keepalive_timer * 2) s
    | none => s
  else if s.m_rx.type = some MT_LAUNCHER_INCREMENTAL_UPDATE then
    let s := { s with m_launchers := ext.updateValue s.m_rx s.m_launchers }
    let s := emit Signal.launchersChanged s
    refreshSubscribeHeartbeat s
  else if s.m_rx.type = some MT_PING then
    if s.m_subscribeSocketState = Up then refreshSubscribeHeartbeat s
    else
      let s := updateStateTo Connecting s
      let s := unsubscribe "launcher" s
      subscribe "launcher" s
  else if s.m_rx.type = some MT_LAUNCHER_ERROR then
    let errorString := appendNotes "" s.m_rx.note
    let s := { s with m_subscribeSocketState := Down }
    updateState Error CommandError errorString s
  else s

/-- Member function `ApplicationLauncher::commandMessageReceived`; `rx` is the parsed first frame. -/
def commandMessageReceived (rx : Container) (s : ApplicationLauncher) : ApplicationLauncher :=
  let s := { s with m_rx := rx }
  if s.m_rx.type = some MT_PING_ACKNOWLEDGE then
    let s := { s with m_commandPingOutstanding := false }
    if s.m_commandSocketState ≠ Up then
      let s := { s with m_commandSocketState := Up }
      updateStateTo Connected s
    else s
  else if s.m_rx.type = some MT_ERROR then
    let errorString := appendNotes "" s.m_rx.note
    let s := { s with m_commandSocketState := Down }
    updateState Error ServiceError errorString s
  else s

/-- Member function `ApplicationLauncher::commandHeartbeatTimerTick`; `sendError` is the exception the
send of the probe throws, if any. -/
def commandHeartbeatTimerTick (sendError : Option ZmqError) (s : ApplicationLauncher) :
    ApplicationLauncher :=
  let s :=
    if s.m_commandPingOutstanding then
      let s := { s with m_commandSocketState := Trying }
      updateStateTo Timeout s
    else s
  let s := sendCommandMessage MT_PING sendError s
  { s with m_commandPingOutstanding := true }

/-- Member function `ApplicationLauncher::subscribeHeartbeatTimerTick`. -/
def subscribeHeartbeatTimerTick (s : ApplicationLauncher) : ApplicationLauncher :=
  let s := { s with m_subscribeSocketState := Down }
  updateStateTo Timeout s

/-- What can happen to an `ApplicationLauncher` object: the calls `start()` and
`stop()` of the service base class, the property setters, the command senders, a message
on either socket, a poll error of the context, and a tick of either heartbeat timer. -/
inductive Event
  | start (connectError sendError : Option ZmqError)
  | stop
  | setLaunchercmdUri (arg : String)
  | setLauncherUri (arg : String)
  | heartbeatPeriod (arg : Int)
  | startIndex (index : Int) (sendError : Option ZmqError)
  | kill (index : Int) (sendError : Option ZmqError)
  | terminate (index : Int) (sendError : Option ZmqError)
  | writeToStdin (index : Int) (data : String) (sendError : Option ZmqError)
  | call (command : String) (sendError : Option ZmqError)
  | shutdown (sendError : Option ZmqError)
  | subscribeMessageReceived (topic : String) (rx : Container)
  | commandMessageReceived (rx : Container)
  | pollError (errorNum : Int) (errorMsg : String)
  | commandHeartbeatTimerTick (sendError : Option ZmqError)
  | subscribeHeartbeatTimerTick

/-- Whether the event can occur in a state: a message needs its socket open, a poll
error a running context, a tick its timer running. -/
def Event.enabled (s : ApplicationLauncher) : Event → Bool
  | Event.subscribeMessageReceived _ _ => s.m_subscribeSocket
  | Event.commandMessageReceived _ => s.m_commandSocket
  | Event.pollError _ _ => s.m_context
  | Event.commandHeartbeatTimerTick _ => s.m_commandHeartbeatTimer.active
  | Event.subscribeHeartbeatTimerTick => s.m_subscribeHeartbeatTimer.active
  | _ => true

/-- The state after an event. -/
def step (ext : External) (e : Event) (s : ApplicationLauncher) : ApplicationLauncher :=
  match e with
  | Event.start connectError sendError => start connectError sendError s
  | Event.stop => stop s
  | Event.setLaunchercmdUri arg => setLaunchercmdUri arg s
  | Event.setLauncherUri arg => setLauncherUri arg s
  | Event.heartbeatPeriod arg => heartbeatPeriod arg s
  | Event.startIndex index sendError => startIndex index sendError s
  | Event.kill index sendError => kill index sendError s
  | Event.terminate index sendError => terminate index sendError s
  | Event.writeToStdin index data sendError => writeToStdin index data sendError s
  | Event.call command sendError => call command sendError s
  | Event.shutdown sendError => shutdown sendError s
  | Event.subscribeMessageReceived topic rx => subscribeMessageReceived ext topic rx s
  | Event.commandMessageReceived rx => commandMessageReceived rx s
  | Event.pollError errorNum errorMsg => pollError errorNum errorMsg s
  | Event.commandHeartbeatTimerTick sendError => commandHeartbeatTimerTick sendError s
  | Event.subscribeHeartbeatTimerTick => subscribeHeartbeatTimerTick s

/-- The state after a sequence of events, first event first. -/
def run (ext : External) (es : List Event) (s : ApplicationLauncher) : ApplicationLauncher :=
  es.foldl (fun s e => step ext e s) s

/-- The states an object can be in between two events: the constructed state, and the
state after an enabled event in such a state. -/
inductive Reachable (ext : External) : ApplicationLauncher → Prop
  | init : Reachable ext new
  | step (s : ApplicationLauncher) (e : Event) :
      Reachable ext s → e.enabled s = true → Reachable ext (step ext e s)

/-- The relations between the members that every event keeps, whether or not it is
enabled: the connected flag goes with the state `Connected`, and an error is recorded
exactly in the state `Error`. -/
def Coherent (s : ApplicationLauncher) : Prop :=
  (s.m_connected = true ↔ s.m_connectionState = Connected) ∧
  (s.m_error ≠ NoError ↔ s.m_connectionState = Error)

/-- The relations between the members that hold between two events: the connected flag
goes with the state `Connected`; an error is recorded exactly in the state `Error`,
where the context is closed; the two sockets live as long as the context; the context is
open while connected and while the command heartbeat timer runs; and no member function
has been called through a null socket pointer. -/
def Invariant (s : ApplicationLauncher) : Prop :=
  (s.m_connected = true ↔ s.m_connectionState = Connected) ∧
  (s.m_error ≠ NoError ↔ s.m_connectionState = Error) ∧
  (s.m_connectionState = Error → s.m_context = false) ∧
  s.m_commandSocket = s.m_context ∧
  s.m_subscribeSocket = s.m_context ∧
  (s.m_connected = true → s.m_context = true) ∧
  (s.m_commandHeartbeatTimer.active = true → s.m_context = true) ∧
  s.fault = false

end ApplicationLauncher

/-- An environment whose helper functions return their argument unchanged, with the
task-mode and interpreter-state constants of the machinetalk protocol; used where a
statement is evaluated on a concrete run. -/
def External.sample : External :=
  { recurseDescriptor := fun _ o => o, recurseMessage := fun _ o => o,
    updateValue := fun _ v => v, TaskModeAuto := 2, TaskModeMdi := 3, InterpreterIdle := 1 }

/-- An envelope of the given type with no other field set. -/
def Container.ofType (t : ContainerType) : Container :=
  { Container.Clear with type := some t }

/-- Whether every event of a sequence is enabled in the state in which it occurs. -/
def ApplicationStatus.allEnabled (ext : External) :
    List ApplicationStatus.Event → ApplicationStatus → Bool
  | [], _ => true
  | e :: es, s => e.enabled s && ApplicationStatus.allEnabled ext es (ApplicationStatus.step ext e s)

/-- Whether every event of a sequence is enabled in the state in which it occurs. -/
def ApplicationLauncher.allEnabled (ext : External) :
    List ApplicationLauncher.Event → ApplicationLauncher → Bool
  | [], _ => true
  | e :: es, s =>
      e.enabled s && ApplicationLauncher.allEnabled ext es (ApplicationLauncher.step ext e s)

/-- The calls into the transport in an effect log, in order, each written as the name of
the call followed by its topic where it has one; signals are left out. -/
def transportCalls : List Effect → List String
  | [] => []
  | Effect.emit _ :: rest => transportCalls rest
  | Effect.contextStart :: rest => "contextStart" :: transportCalls rest
  | Effect.contextStop :: rest => "contextStop" :: transportCalls rest
  | Effect.connectTo _ _ :: rest => "connectTo" :: transportCalls rest
  | Effect.close _ :: rest => "close" :: transportCalls rest
  | Effect.subscribeTo _ topic :: rest => ("subscribeTo " ++ topic) :: transportCalls rest
  | Effect.unsubscribeFrom _ topic :: rest =>
      ("unsubscribeFrom " ++ topic) :: transportCalls rest
  | Effect.sendMessage _ _ :: rest => "sendMessage" :: transportCalls rest

/-- The types of the messages handed to `sendMessage` in an effect log, in order. -/
def sentTypes (effects : List Effect) : List (Option ContainerType) :=
  (sentMessages effects).map (fun m => m.type)

/-! ## Sample runs -/

/-- A full update for the motion channel. -/
def sampleMotionFullUpdate : Container :=
  { Container.ofType ContainerType.MT_EMCSTAT_FULL_UPDATE with emc_status_motion := some [] }

/-- An incremental update for the motion channel. -/
def sampleMotionIncrementalUpdate : Container :=
  { Container.ofType ContainerType.MT_EMCSTAT_INCREMENTAL_UPDATE with
    emc_status_motion := some [] }

/-- A status client that has been started and has received one full update: it is
`Connected` and subscribed to the five topics. -/
def sampleStatusConnectedRun : List ApplicationStatus.Event :=
  [ ApplicationStatus.Event.start none,
    ApplicationStatus.Event.statusMessageReceived "motion" sampleMotionFullUpdate ]

/-- The state after `sampleStatusConnectedRun`. -/
def sampleStatusConnected : ApplicationStatus :=
  ApplicationStatus.run External.sample sampleStatusConnectedRun
    (ApplicationStatus.new External.sample)

/-- A full update for each of the five channels, after a start. -/
def sampleStatusSyncedRun : List ApplicationStatus.Event :=
  [ ApplicationStatus.Event.start none,
    ApplicationStatus.Event.statusMessageReceived "motion" sampleMotionFullUpdate,
    ApplicationStatus.Event.statusMessageReceived "config"
      { Container.ofType ContainerType.MT_EMCSTAT_FULL_UPDATE with emc_status_config := some [] },
    ApplicationStatus.Event.statusMessageReceived "io"
      { Container.ofType ContainerType.MT_EMCSTAT_FULL_UPDATE with emc_status_io := some [] },
    ApplicationStatus.Event.statusMessageReceived "task"
      { Container.ofType ContainerType.MT_EMCSTAT_FULL_UPDATE with emc_status_task := some [] },
    ApplicationStatus.Event.statusMessageReceived "interp"
      { Container.ofType ContainerType.MT_EMCSTAT_FULL_UPDATE with emc_status_interp := some [] } ]

/-- A launcher client that is started, acknowledged on the command socket and synced by
a full update, and then misses an acknowledge: the first tick sends a probe, the second
finds it outstanding and raises the timeout. -/
def sampleLauncherTimeoutRun : List ApplicationLauncher.Event :=
  [ ApplicationLauncher.Event.start none none,
    ApplicationLauncher.Event.commandMessageReceived
      (Container.ofType ContainerType.MT_PING_ACKNOWLEDGE),
    ApplicationLauncher.Event.subscribeMessageReceived "launcher"
      (Container.ofType ContainerType.MT_LAUNCHER_FULL_UPDATE),
    ApplicationLauncher.Event.commandHeartbeatTimerTick none,
    ApplicationLauncher.Event.commandHeartbeatTimerTick none ]

/-- The state after `sampleLauncherTimeoutRun`: `Timeout`, with the subscribe socket state
still `Up`. -/
def sampleLauncherTimeout : ApplicationLauncher :=
  ApplicationLauncher.run External.sample sampleLauncherTimeoutRun ApplicationLauncher.new

/-- The state after `sampleLauncherTimeoutRun` followed by one more full update on the
subscribe socket. -/
def sampleLauncherResynced : ApplicationLauncher :=
  ApplicationLauncher.step External.sample
    (ApplicationLauncher.Event.subscribeMessageReceived "launcher"
      (Container.ofType ContainerType.MT_LAUNCHER_FULL_UPDATE))
    sampleLauncherTimeout

/-- A launcher client that is started, acknowledged, and has sent one probe that is not
yet acknowledged. -/
def sampleLauncherProbing : ApplicationLauncher :=
  ApplicationLauncher.run External.sample
    [ ApplicationLauncher.Event.start none none,
      ApplicationLauncher.Event.commandMessageReceived
        (Container.ofType ContainerType.MT_PING_ACKNOWLEDGE),
      ApplicationLauncher.Event.commandHeartbeatTimerTick none ]
    ApplicationLauncher.new

/-! ## Transitions of the connection state -/

/-- The state announced by an effect, when the effect is the signal
`connectionStateChanged`. -/
def stateChange : Effect → Option State
  | Effect.emit (Signal.connectionStateChanged st) => some st
  | _ => none

/-- The states announced by `connectionStateChanged` in an effect log, in order: the
transitions of the connection state, which `updateState` announces once per change. -/
def stateChanges (effects : List Effect) : List State :=
  effects.filterMap stateChange

/-- The number of transitions to `Timeout` in an effect log. -/
def timeoutTransitions (effects : List Effect) : Nat :=
  (stateChanges effects).count State.Timeout

/-- Whether an event of the launcher leaves a probe of the command channel
unacknowledged: every event does, except an `MT_PING_ACKNOWLEDGE` on the command socket
and a call of `start()`, which begins a new connection with a new initial probe. -/
def ApplicationLauncher.Event.keepsProbeOutstanding : ApplicationLauncher.Event → Bool
  | ApplicationLauncher.Event.start _ _ => false
  | ApplicationLauncher.Event.commandMessageReceived rx =>
      decide (rx.type ≠ some ContainerType.MT_PING_ACKNOWLEDGE)
  | _ => true

/-- A launcher client right after `start()`: the initial probe has been sent and the
command heartbeat timer runs. -/
def sampleLauncherStarted : ApplicationLauncher :=
  ApplicationLauncher.start none none ApplicationLauncher.new

/-- A full update of the launcher service that declares a keep-alive period. -/
def sampleLauncherFullUpdate : Container :=
  { Container.ofType ContainerType.MT_LAUNCHER_FULL_UPDATE with
    pparams := some { keepalive_timer := 1000 } }

/-- A launcher client that is started and connected by a full update, misses the
acknowledge of a probe, receives one more full update and is then stopped. -/
def sampleLauncherStoppedRun : List ApplicationLauncher.Event :=
  [ ApplicationLauncher.Event.start none none,
    ApplicationLauncher.Event.subscribeMessageReceived "launcher" sampleLauncherFullUpdate,
    ApplicationLauncher.Event.commandHeartbeatTimerTick none,
    ApplicationLauncher.Event.commandHeartbeatTimerTick none,
    ApplicationLauncher.Event.subscribeMessageReceived "launcher" sampleLauncherFullUpdate,
    ApplicationLauncher.Event.stop ]

/-- The state after `sampleLauncherStoppedRun`. -/
def sampleLauncherStopped : ApplicationLauncher :=
  ApplicationLauncher.run External.sample sampleLauncherStoppedRun ApplicationLauncher.new

/-- The run of `sampleLauncherStoppedRun` with a poll error in place of the final
`stop()`. -/
def sampleLauncherFailedRun : List ApplicationLauncher.Event :=
  [ ApplicationLauncher.Event.start none none,
    ApplicationLauncher.Event.subscribeMessageReceived "launcher" sampleLauncherFullUpdate,
    ApplicationLauncher.Event.commandHeartbeatTimerTick none,
    ApplicationLauncher.Event.commandHeartbeatTimerTick none,
    ApplicationLauncher.Event.subscribeMessageReceived "launcher" sampleLauncherFullUpdate,
    ApplicationLauncher.Event.pollError 5 "poll" ]

/-- The state after `sampleLauncherFailedRun`. -/
def sampleLauncherFailed : ApplicationLauncher :=
  ApplicationLauncher.run External.sample sampleLauncherFailedRun ApplicationLauncher.new

/-- A full update for the motion channel that declares a keep-alive period. -/
def sampleMotionFullUpdateKeepalive : Container :=
  { sampleMotionFullUpdate with pparams := some { keepalive_timer := 1000 } }

/-- A status client that is started and has received a full update with a keep-alive
period: it is `Connected` and its heartbeat timer runs. -/
def sampleStatusHeartbeatRun : List ApplicationStatus.Event :=
  [ ApplicationStatus.Event.start none,
    ApplicationStatus.Event.statusMessageReceived "motion" sampleMotionFullUpdateKeepalive ]

/-- The state after `sampleStatusHeartbeatRun`. -/
def sampleStatusHeartbeat : ApplicationStatus :=
  ApplicationStatus.run External.sample sampleStatusHeartbeatRun
    (ApplicationStatus.new External.sample)

/-- A status client that was `Connected` and has missed a heartbeat: it is in `Timeout`
with its socket open and the five topics subscribed. -/
def sampleStatusTimeout : ApplicationStatus :=
  ApplicationStatus.statusHeartbeatTimerTick External.sample sampleStatusHeartbeat

/-- The state of a launcher client in which a probe sent by a command heartbeat tick has
not been acknowledged: after any events `es` from construction the tick sends its probe,
and the events `between` follow it. -/
def ApplicationLauncher.afterProbe (ext : External) (es : List ApplicationLauncher.Event)
    (sendError : Option ZmqError) (between : List ApplicationLauncher.Event) :
    ApplicationLauncher :=
  ApplicationLauncher.run ext between
    (ApplicationLauncher.commandHeartbeatTimerTick sendError
      (ApplicationLauncher.run ext es ApplicationLauncher.new))

/-! ## RemoteComponentBase

The generated base class of a bound remote component
(`src/machinetalk/halremote/remotecomponentbase.cpp`).  The two channel objects and the
pure virtual functions that a subclass implements are not among the sources: a call of
one of them is appended to the effect log and changes no member of the base class.  A
subclass that calls back into the base class from such a function (for instance
`sendHalrcompBind` from `bindComponent`, which is the last statement of its caller) is
the sequence of the two events.  An `emit` of a signal that the constructor connects to a
slot of the same object runs the slot at once. -/

/-- Modelled from the spec: the states of a channel object (`RpcClient::State`,
`HalrcompSubscribe::State`).  The enums are declared in headers that are not among the
sources, which compare with `Trying` and `Up`; section 3 of the spec names `Down`,
`Trying` and `Up`. -/
inductive ChannelState
  | Down | Trying | Up
  deriving DecidableEq

/-- The states of the bind/sync state machine (`RemoteComponentBase::State`), as assigned
by `fsmDown`, `fsmTrying`, `fsmBind`, `fsmBinding`, `fsmSyncing`, `fsmSync`, `fsmSynced`
and `fsmError`. -/
inductive RemoteComponentBase.State
  | Down | Trying | Bind | Binding | Syncing | Sync | Synced | Error
  deriving DecidableEq

/-- The two channel objects of a component: `m_halrcmdChannel` and `m_halrcompChannel`. -/
inductive RemoteComponentBase.ChannelId
  | halrcmd | halrcomp
  deriving DecidableEq

/-- The pure virtual functions that the state machine calls as entry, exit and transition
actions. -/
inductive RemoteComponentBase.Virtual
  | addPins | removePins | unsyncPins | bindComponent
  | setConnected | setError | setDisconnected | setConnecting | setTimeout
  deriving DecidableEq

/-- The signals of `RemoteComponentBase`: the public ones, the entered and exited signals
of the states, and the event signals, each of which the constructor connects to the event
function of the same name. -/
inductive RemoteComponentBase.Signal
  | stateChanged (state : RemoteComponentBase.State)
  | errorStringChanged (errorString : String)
  | halrcmdMessageReceived (rx : Container)
  | halrcompMessageReceived (topic : String) (rx : Container)
  | fsmDownEntered | fsmDownExited | fsmTryingEntered | fsmTryingExited
  | fsmBindEntered | fsmBindExited | fsmBindingEntered | fsmBindingExited
  | fsmSyncingEntered | fsmSyncingExited | fsmSyncEntered | fsmSyncExited
  | fsmSyncedEntered | fsmSyncedExited | fsmErrorEntered | fsmErrorExited
  | fsmDownConnect | fsmTryingHalrcmdUp | fsmTryingDisconnect
  | fsmBindHalrcompBindMsgSent | fsmBindNoBind
  | fsmBindingBindConfirmed | fsmBindingBindRejected | fsmBindingHalrcmdTrying
  | fsmBindingDisconnect
  | fsmSyncingHalrcmdTrying | fsmSyncingHalrcompUp | fsmSyncingSyncFailed
  | fsmSyncingDisconnect
  | fsmSyncPinsSynced
  | fsmSyncedHalrcompTrying | fsmSyncedHalrcmdTrying | fsmSyncedSetRejected
  | fsmSyncedHalrcompSetMsgSent | fsmSyncedDisconnect
  | fsmErrorDisconnect

/-- An outward action of a component: a signal, a call of a pure virtual function, or a
call of a member function of a channel object. -/
inductive RemoteComponentBase.Effect
  | emit (signal : RemoteComponentBase.Signal)
  | call (f : RemoteComponentBase.Virtual)
  | setReady (channel : RemoteComponentBase.ChannelId) (ready : Bool)
  | sendSocketMessage (type : ContainerType) (tx : Container)
  | halrcompFullUpdateReceived (topic : String) (rx : Container)
  | halrcompIncrementalUpdateReceived (topic : String) (rx : Container)
  | halrcompErrorReceived (topic : String) (rx : Container)
  | addSocketTopic (name : String)
  | removeSocketTopic (name : String)
  | clearSocketTopics

/-- The part of a channel object that the sources write: its debug name and the property
`ready` set by `setReady`. -/
structure RemoteComponentBase.Channel where
  debugName : String
  ready : Bool

/-- The member variables of `RemoteComponentBase`, as initialised by the constructor.
`effects` is the log of outward actions. -/
structure RemoteComponentBase where
  m_componentCompleted : Bool
  m_ready : Bool
  m_debugName : String
  m_halrcmdChannel : RemoteComponentBase.Channel
  m_halrcompChannel : RemoteComponentBase.Channel
  m_state : RemoteComponentBase.State
  m_previousState : RemoteComponentBase.State
  m_errorString : String
  effects : List RemoteComponentBase.Effect

namespace RemoteComponentBase

open State

/-- The constructor `RemoteComponentBase::RemoteComponentBase`.  The initial value of
`ready` is set by the channel classes, which are not among the sources; it is taken as
false (a new channel is closed). -/
def new : RemoteComponentBase :=
  { m_componentCompleted := false, m_ready := false, m_debugName := "Remote Component Base",
    m_halrcmdChannel := { debugName := "Remote Component Base" ++ " - halrcmd", ready := false },
    m_halrcompChannel := { debugName := "Remote Component Base" ++ " - halrcomp", ready := false },
    m_state := Down, m_previousState := Down, m_errorString := "", effects := [] }

/-- Appends an emitted signal to the effect log. -/
def emit (signal : Signal) (s : RemoteComponentBase) : RemoteComponentBase :=
  { s with effects := s.effects ++ [Effect.emit signal] }

/-- Appends the call of a pure virtual function to the effect log. -/
def call (f : Virtual) (s : RemoteComponentBase) : RemoteComponentBase :=
  { s with effects := s.effects ++ [Effect.call f] }

/-- Member function `RemoteComponentBase::addHalrcompTopic`. -/
def addHalrcompTopic (name : String) (s : RemoteComponentBase) : RemoteComponentBase :=
  { s with effects := s.effects ++ [Effect.addSocketTopic name] }

/-- Member function `RemoteComponentBase::removeHalrcompTopic`. -/
def removeHalrcompTopic (name : String) (s : RemoteComponentBase) : RemoteComponentBase :=
  { s with effects := s.effects ++ [Effect.removeSocketTopic name] }

/-- Member function `RemoteComponentBase::clearHalrcompTopics`. -/
def clearHalrcompTopics (s : RemoteComponentBase) : RemoteComponentBase :=
  { s with effects := s.effects ++ [Effect.clearSocketTopics] }

/-- Member function `RemoteComponentBase::startHalrcmdChannel`. -/
def startHalrcmdChannel (s : RemoteComponentBase) : RemoteComponentBase :=
  { s with m_halrcmdChannel := { s.m_halrcmdChannel with ready := true },
           effects := s.effects ++ [Effect.setReady ChannelId.halrcmd true] }

/-- Member function `RemoteComponentBase::stopHalrcmdChannel`. -/
def stopHalrcmdChannel (s : RemoteComponentBase) : RemoteComponentBase :=
  { s with m_halrcmdChannel := { s.m_halrcmdChannel with ready := false },
           effects := s.effects ++ [Effect.setReady ChannelId.halrcmd false] }

/-- Member function `RemoteComponentBase::startHalrcompChannel`. -/
def startHalrcompChannel (s : RemoteComponentBase) : RemoteComponentBase :=
  { s with m_halrcompChannel := { s.m_halrcompChannel with ready := true },
           effects := s.effects ++ [Effect.setReady ChannelId.halrcomp true] }

/-- Member function `RemoteComponentBase::stopHalrcompChannel`. -/
def stopHalrcompChannel (s : RemoteComponentBase) : RemoteComponentBase :=
  { s with m_halrcompChannel := { s.m_halrcompChannel with ready := false },
           effects := s.effects ++ [Effect.setReady ChannelId.halrcomp false] }

/-- Member function `RemoteComponentBase::fsmDown`. -/
def fsmDown (s : RemoteComponentBase) : RemoteComponentBase :=
  let s := { s with m_state := Down }
  emit (Signal.stateChanged s.m_state) s

/-- Member function `RemoteComponentBase::fsmDownEntry`, the slot connected to `fsmDownEntered`. -/
def fsmDownEntry (s : RemoteComponentBase) : RemoteComponentBase :=
  call Virtual.setDisconnected s

/-- Member function `RemoteComponentBase::fsmDownExit`, the slot connected to `fsmDownExited`. -/
def fsmDownExit (s : RemoteComponentBase) : RemoteComponentBase :=
  call Virtual.setConnecting s

/-- Member function `RemoteComponentBase::fsmTrying`. -/
def fsmTrying (s : RemoteComponentBase) : RemoteComponentBase :=
  let s := { s with m_state := Trying }
  emit (Signal.stateChanged s.m_state) s

/-- Member function `RemoteComponentBase::fsmBind`. -/
def fsmBind (s : RemoteComponentBase) : RemoteComponentBase :=
  let s := { s with m_state := State.Bind }
  emit (Signal.stateChanged s.m_state) s

/-- Member function `RemoteComponentBase::fsmBinding`. -/
def fsmBinding (s : RemoteComponentBase) : RemoteComponentBase :=
  let s := { s with m_state := Binding }
  emit (Signal.stateChanged s.m_state) s

/-- Member function `RemoteComponentBase::fsmSyncing`. -/
def fsmSyncing (s : RemoteComponentBase) : RemoteComponentBase :=
  let s := { s with m_state := Syncing }
  emit (Signal.stateChanged s.m_state) s

/-- Member function `RemoteComponentBase::fsmSync`. -/
def fsmSync (s : RemoteComponentBase) : RemoteComponentBase :=
  let s := { s with m_state := Sync }
  emit (Signal.stateChanged s.m_state) s

/-- Member function `RemoteComponentBase::fsmSynced`. -/
def fsmSynced (s : RemoteComponentBase) : RemoteComponentBase :=
  let s := { s with m_state := Synced }
  emit (Signal.stateChanged s.m_state) s

/-- Member function `RemoteComponentBase::fsmSyncedEntry`, the slot connected to `fsmSyncedEntered`. -/
def fsmSyncedEntry (s : RemoteComponentBase) : RemoteComponentBase :=
  call Virtual.setConnected s

/-- Member function `RemoteComponentBase::fsmError`. -/
def fsmError (s : RemoteComponentBase) : RemoteComponentBase :=
  let s := { s with m_state := Error }
  emit (Signal.stateChanged s.m_state) s

/-- Member function `RemoteComponentBase::fsmErrorEntry`, the slot connected to `fsmErrorEntered`. -/
def fsmErrorEntry (s : RemoteComponentBase) : RemoteComponentBase :=
  call Virtual.setError s

/-- Member function `RemoteComponentBase::fsmDownConnectEvent`. -/
def fsmDownConnectEvent (s : RemoteComponentBase) : RemoteComponentBase :=
  if s.m_state = Down then
    let s := emit Signal.fsmDownExited s
    let s := fsmDownExit s
    let s := fsmTrying s
    let s := emit Signal.fsmTryingEntered s
    let s := call Virtual.addPins s
    startHalrcmdChannel s
  else s

/-- Member function `RemoteComponentBase::fsmTryingHalrcmdUpEvent`. -/
def fsmTryingHalrcmdUpEvent (s : RemoteComponentBase) : RemoteComponentBase :=
  if s.m_state = Trying then
    let s := emit Signal.fsmTryingExited s
    let s := fsmBind s
    let s := emit Signal.fsmBindEntered s
    call Virtual.bindComponent s
  else s

/-- Member function `RemoteComponentBase::fsmTryingDisconnectEvent`. -/
def fsmTryingDisconnectEvent (s : RemoteComponentBase) : RemoteComponentBase :=
  if s.m_state = Trying then
    let s := emit Signal.fsmTryingExited s
    let s := fsmDown s
    let s := emit Signal.fsmDownEntered s
    let s := fsmDownEntry s
    let s := stopHalrcmdChannel s
    let s := stopHalrcompChannel s
    call Virtual.removePins s
  else s

/-- Member function `RemoteComponentBase::fsmBindHalrcompBindMsgSentEvent`. -/
def fsmBindHalrcompBindMsgSentEvent (s : RemoteComponentBase) : RemoteComponentBase :=
  if s.m_state = State.Bind then
    let s := emit Signal.fsmBindExited s
    let s := fsmBinding s
    emit Signal.fsmBindingEntered s
  else s

/-- Member function `RemoteComponentBase::fsmBindNoBindEvent`. -/
def fsmBindNoBindEvent (s : RemoteComponentBase) : RemoteComponentBase :=
  if s.m_state = State.Bind then
    let s := emit Signal.fsmBindExited s
    let s := fsmSyncing s
    let s := emit Signal.fsmSyncingEntered s
    startHalrcompChannel s
  else s

/-- Member function `RemoteComponentBase::fsmBindingBindConfirmedEvent`. -/
def fsmBindingBindConfirmedEvent (s : RemoteComponentBase) : RemoteComponentBase :=
  if s.m_state = Binding then
    let s := emit Signal.fsmBindingExited s
    let s := fsmSyncing s
    let s := emit Signal.fsmSyncingEntered s
    startHalrcompChannel s
  else s

/-- Member function `RemoteComponentBase::fsmBindingBindRejectedEvent`. -/
def fsmBindingBindRejectedEvent (s : RemoteComponentBase) : RemoteComponentBase :=
  if s.m_state = Binding then
    let s := emit Signal.fsmBindingExited s
    let s := fsmError s
    let s := emit Signal.fsmErrorEntered s
    let s := fsmErrorEntry s
    stopHalrcmdChannel s
  else s

/-- Member function `RemoteComponentBase::fsmBindingHalrcmdTryingEvent`. -/
def fsmBindingHalrcmdTryingEvent (s : RemoteComponentBase) : RemoteComponentBase :=
  if s.m_state = Binding then
    let s := emit Signal.fsmBindingExited s
    let s := fsmTrying s
    emit Signal.fsmTryingEntered s
  else s

/-- Member function `RemoteComponentBase::fsmBindingDisconnectEvent`. -/
def fsmBindingDisconnectEvent (s : RemoteComponentBase) : RemoteComponentBase :=
  if s.m_state = Binding then
    let s := emit Signal.fsmBindingExited s
    let s := fsmDown s
    let s := emit Signal.fsmDownEntered s
    let s := fsmDownEntry s
    let s := stopHalrcmdChannel s
    let s := stopHalrcompChannel s
    call Virtual.removePins s
  else s

/-- Member function `RemoteComponentBase::fsmSyncingHalrcmdTryingEvent`. -/
def fsmSyncingHalrcmdTryingEvent (s : RemoteComponentBase) : RemoteComponentBase :=
  if s.m_state = Syncing then
    let s := emit Signal.fsmSyncingExited s
    let s := fsmTrying s
    let s := emit Signal.fsmTryingEntered s
    stopHalrcompChannel s
  else s

/-- Member function `RemoteComponentBase::fsmSyncingHalrcompUpEvent`. -/
def fsmSyncingHalrcompUpEvent (s : RemoteComponentBase) : RemoteComponentBase :=
  if s.m_state = Syncing then
    let s := emit Signal.fsmSyncingExited s
    let s := fsmSync s
    emit Signal.fsmSyncEntered s
  else s

/-- Member function `RemoteComponentBase::fsmSyncingSyncFailedEvent`. -/
def fsmSyncingSyncFailedEvent (s : RemoteComponentBase) : RemoteComponentBase :=
  if s.m_state = Syncing then
    let s := emit Signal.fsmSyncingExited s
    let s := fsmError s
    let s := emit Signal.fsmErrorEntered s
    let s := fsmErrorEntry s
    let s := stopHalrcompChannel s
    stopHalrcmdChannel s
  else s

/-- Member function `RemoteComponentBase::fsmSyncingDisconnectEvent`. -/
def fsmSyncingDisconnectEvent (s : RemoteComponentBase) : RemoteComponentBase :=
  if s.m_state = Syncing then
    let s := emit Signal.fsmSyncingExited s
    let s := fsmDown s
    let s := emit Signal.fsmDownEntered s
    let s := fsmDownEntry s
    let s := stopHalrcmdChannel s
    let s := stopHalrcompChannel s
    call Virtual.removePins s
  else s

/-- Member function `RemoteComponentBase::fsmSyncPinsSyncedEvent`. -/
def fsmSyncPinsSyncedEvent (s : RemoteComponentBase) : RemoteComponentBase :=
  if s.m_state = Sync then
    let s := emit Signal.fsmSyncExited s
    let s := fsmSynced s
    let s := emit Signal.fsmSyncedEntered s
    fsmSyncedEntry s
  else s

/-- Member function `RemoteComponentBase::fsmSyncedHalrcompTryingEvent`. -/
def fsmSyncedHalrcompTryingEvent (s : RemoteComponentBase) : RemoteComponentBase :=
  if s.m_state = Synced then
    let s := emit Signal.fsmSyncedExited s
    let s := fsmSyncing s
    let s := emit Signal.fsmSyncingEntered s
    let s := call Virtual.unsyncPins s
    call Virtual.setTimeout s
  else s

/-- Member function `RemoteComponentBase::fsmSyncedHalrcmdTryingEvent`. -/
def fsmSyncedHalrcmdTryingEvent (s : RemoteComponentBase) : RemoteComponentBase :=
  if s.m_state = Synced then
    let s := emit Signal.fsmSyncedExited s
    let s := fsmTrying s
    let s := emit Signal.fsmTryingEntered s
    let s := stopHalrcompChannel s
    let s := call Virtual.unsyncPins s
    call Virtual.setTimeout s
  else s

/-- Member function `RemoteComponentBase::fsmSyncedSetRejectedEvent`. -/
def fsmSyncedSetRejectedEvent (s : RemoteComponentBase) : RemoteComponentBase :=
  if s.m_state = Synced then
    let s := emit Signal.fsmSyncedExited s
    let s := fsmError s
    let s := emit Signal.fsmErrorEntered s
    let s := fsmErrorEntry s
    let s := stopHalrcompChannel s
    stopHalrcmdChannel s
  else s

/-- Member function `RemoteComponentBase::fsmSyncedHalrcompSetMsgSentEvent`: the body under the guard is
empty. -/
def fsmSyncedHalrcompSetMsgSentEvent (s : RemoteComponentBase) : RemoteComponentBase :=
  if s.m_state = Synced then s else s

/-- Member function `RemoteComponentBase::fsmSyncedDisconnectEvent`. -/
def fsmSyncedDisconnectEvent (s : RemoteComponentBase) : RemoteComponentBase :=
  if s.m_state = Synced then
    let s := emit Signal.fsmSyncedExited s
    let s := fsmDown s
    let s := emit Signal.fsmDownEntered s
    let s := fsmDownEntry s
    let s := stopHalrcmdChannel s
    let s := stopHalrcompChannel s
    call Virtual.removePins s
  else s

/-- Member function `RemoteComponentBase::fsmErrorDisconnectEvent`. -/
def fsmErrorDisconnectEvent (s : RemoteComponentBase) : RemoteComponentBase :=
  if s.m_state = Error then
    let s := emit Signal.fsmErrorExited s
    let s := fsmDown s
    let s := emit Signal.fsmDownEntered s
    let s := fsmDownEntry s
    let s := stopHalrcmdChannel s
    let s := stopHalrcompChannel s
    call Virtual.removePins s
  else s

/-- Member function `RemoteComponentBase::processHalrcmdChannelMessage`. -/
def processHalrcmdChannelMessage (rx : Container) (s : RemoteComponentBase) :
    RemoteComponentBase :=
  let s :=
    if rx.type = some ContainerType.MT_HALRCOMP_BIND_CONFIRM then
      if s.m_state = Binding then
        fsmBindingBindConfirmedEvent (emit Signal.fsmBindingBindConfirmed s)
      else s
    else s
  let s :=
    if rx.type = some ContainerType.MT_HALRCOMP_BIND_REJECT then
      let s := { s with m_errorString := "" }
      let s := { s with m_errorString := appendNotes s.m_errorString rx.note }
      let s := emit (Signal.errorStringChanged s.m_errorString) s
      if s.m_state = Binding then
        fsmBindingBindRejectedEvent (emit Signal.fsmBindingBindRejected s)
      else s
    else s
  let s :=
    if rx.type = some ContainerType.MT_HALRCOMP_SET_REJECT then
      let s := { s with m_errorString := "" }
      let s := { s with m_errorString := appendNotes s.m_errorString rx.note }
      let s := emit (Signal.errorStringChanged s.m_errorString) s
      if s.m_state = Synced then
        fsmSyncedSetRejectedEvent (emit Signal.fsmSyncedSetRejected s)
      else s
    else s
  emit (Signal.halrcmdMessageReceived rx) s

/-- Member function `RemoteComponentBase::processHalrcompChannelMessage`. -/
def processHalrcompChannelMessage (topic : String) (rx : Container) (s : RemoteComponentBase) :
    RemoteComponentBase :=
  let s :=
    if rx.type = some ContainerType.MT_HALRCOMP_FULL_UPDATE then
      { s with effects := s.effects ++ [Effect.halrcompFullUpdateReceived topic rx] }
    else s
  let s :=
    if rx.type = some ContainerType.MT_HALRCOMP_INCREMENTAL_UPDATE then
      { s with effects := s.effects ++ [Effect.halrcompIncrementalUpdateReceived topic rx] }
    else s
  let s :=
    if rx.type = some ContainerType.MT_HALRCOMP_ERROR then
      let s := { s with m_errorString := "" }
      let s := { s with m_errorString := appendNotes s.m_errorString rx.note }
      let s := emit (Signal.errorStringChanged s.m_errorString) s
      let s :=
        if s.m_state = Syncing then
          fsmSyncingSyncFailedEvent (emit Signal.fsmSyncingSyncFailed s)
        else s
      { s with effects := s.effects ++ [Effect.halrcompErrorReceived topic rx] }
    else s
  emit (Signal.halrcompMessageReceived topic rx) s

/-- Member function `RemoteComponentBase::sendHalrcmdMessage`. -/
def sendHalrcmdMessage (type : ContainerType) (tx : Container) (s : RemoteComponentBase) :
    RemoteComponentBase :=
  let s := { s with effects := s.effects ++ [Effect.sendSocketMessage type tx] }
  let s :=
    if type = ContainerType.MT_HALRCOMP_BIND then
      if s.m_state = State.Bind then
        fsmBindHalrcompBindMsgSentEvent (emit Signal.fsmBindHalrcompBindMsgSent s)
      else s
    else s
  if type = ContainerType.MT_HALRCOMP_SET then
    if s.m_state = Synced then
      fsmSyncedHalrcompSetMsgSentEvent (emit Signal.fsmSyncedHalrcompSetMsgSent s)
    else s
  else s

/-- Member function `RemoteComponentBase::sendHalrcompBind`. -/
def sendHalrcompBind (tx : Container) (s : RemoteComponentBase) : RemoteComponentBase :=
  sendHalrcmdMessage ContainerType.MT_HALRCOMP_BIND tx s

/-- Member function `RemoteComponentBase::sendHalrcompSet`. -/
def sendHalrcompSet (tx : Container) (s : RemoteComponentBase) : RemoteComponentBase :=
  sendHalrcmdMessage ContainerType.MT_HALRCOMP_SET tx s

/-- Member function `RemoteComponentBase::halrcmdChannelStateChanged`. -/
def halrcmdChannelStateChanged (state : ChannelState) (s : RemoteComponentBase) :
    RemoteComponentBase :=
  let s :=
    if state = ChannelState.Trying then
      let s :=
        if s.m_state = Syncing then
          fsmSyncingHalrcmdTryingEvent (emit Signal.fsmSyncingHalrcmdTrying s)
        else s
      let s :=
        if s.m_state = Synced then
          fsmSyncedHalrcmdTryingEvent (emit Signal.fsmSyncedHalrcmdTrying s)
        else s
      if s.m_state = Binding then
        fsmBindingHalrcmdTryingEvent (emit Signal.fsmBindingHalrcmdTrying s)
      else s
    else s
  if state = ChannelState.Up then
    if s.m_state = Trying then
      fsmTryingHalrcmdUpEvent (emit Signal.fsmTryingHalrcmdUp s)
    else s
  else s

/-- Member function `RemoteComponentBase::halrcompChannelStateChanged`. -/
def halrcompChannelStateChanged (state : ChannelState) (s : RemoteComponentBase) :
    RemoteComponentBase :=
  let s :=
    if state = ChannelState.Trying then
      if s.m_state = Synced then
        fsmSyncedHalrcompTryingEvent (emit Signal.fsmSyncedHalrcompTrying s)
      else s
    else s
  if state = ChannelState.Up then
    if s.m_state = Syncing then
      fsmSyncingHalrcompUpEvent (emit Signal.fsmSyncingHalrcompUp s)
    else s
  else s

/-- Member function `RemoteComponentBase::noBind`, the no bind trigger function. -/
def noBind (s : RemoteComponentBase) : RemoteComponentBase :=
  if s.m_state = State.Bind then fsmBindNoBindEvent (emit Signal.fsmBindNoBind s) else s

/-- Member function `RemoteComponentBase::pinsSynced`, the pins synced trigger function. -/
def pinsSynced (s : RemoteComponentBase) : RemoteComponentBase :=
  if s.m_state = Sync then fsmSyncPinsSyncedEvent (emit Signal.fsmSyncPinsSynced s) else s

/-- Member function `RemoteComponentBase::start`, the start trigger function. -/
def start (s : RemoteComponentBase) : RemoteComponentBase :=
  if s.m_state = Down then fsmDownConnectEvent (emit Signal.fsmDownConnect s) else s

/-- Member function `RemoteComponentBase::stop`, the stop trigger function. -/
def stop (s : RemoteComponentBase) : RemoteComponentBase :=
  let s :=
    if s.m_state = Trying then fsmTryingDisconnectEvent (emit Signal.fsmTryingDisconnect s)
    else s
  let s :=
    if s.m_state = Binding then fsmBindingDisconnectEvent (emit Signal.fsmBindingDisconnect s)
    else s
  let s :=
    if s.m_state = Syncing then fsmSyncingDisconnectEvent (emit Signal.fsmSyncingDisconnect s)
    else s
  let s :=
    if s.m_state = Synced then fsmSyncedDisconnectEvent (emit Signal.fsmSyncedDisconnect s)
    else s
  if s.m_state = Error then fsmErrorDisconnectEvent (emit Signal.fsmErrorDisconnect s)
  else s

/-- What can happen to a component: a call of a trigger function, a change of state of a
channel object, a message on a channel, the send of a message on the command channel, and
a change of the topic list. -/
inductive Event
  | start
  | stop
  | noBind
  | pinsSynced
  | halrcmdChannelStateChanged (state : ChannelState)
  | halrcompChannelStateChanged (state : ChannelState)
  | processHalrcmdChannelMessage (rx : Container)
  | processHalrcompChannelMessage (topic : String) (rx : Container)
  | sendHalrcmdMessage (type : ContainerType) (tx : Container)
  | addHalrcompTopic (name : String)
  | removeHalrcompTopic (name : String)
  | clearHalrcompTopics

/-- The state after an event. -/
def step (e : Event) (s : RemoteComponentBase) : RemoteComponentBase :=
  match e with
  | Event.start => start s
  | Event.stop => stop s
  | Event.noBind => noBind s
  | Event.pinsSynced => pinsSynced s
  | Event.halrcmdChannelStateChanged state => halrcmdChannelStateChanged state s
  | Event.halrcompChannelStateChanged state => halrcompChannelStateChanged state s
  | Event.processHalrcmdChannelMessage rx => processHalrcmdChannelMessage rx s
  | Event.processHalrcompChannelMessage topic rx => processHalrcompChannelMessage topic rx s
  | Event.sendHalrcmdMessage type tx => sendHalrcmdMessage type tx s
  | Event.addHalrcompTopic name => addHalrcompTopic name s
  | Event.removeHalrcompTopic name => removeHalrcompTopic name s
  | Event.clearHalrcompTopics => clearHalrcompTopics s

/-- The state after a sequence of events, first event first. -/
def run (es : List Event) (s : RemoteComponentBase) : RemoteComponentBase :=
  es.foldl (fun s e => step e s) s

/-- The actions of the state machine in an effect log, in order: the calls of the pure
virtual action functions and the calls that start or stop a channel.  Signals, sent
messages, message handlers and topic changes are left out. -/
def fsmActions : List Effect → List Effect
  | [] => []
  | Effect.call f :: rest => Effect.call f :: fsmActions rest
  | Effect.setReady channel ready :: rest => Effect.setReady channel ready :: fsmActions rest
  | _ :: rest => fsmActions rest

/-- The calls that start or stop a channel in an effect log, in order. -/
def channelCalls : List Effect → List (ChannelId × Bool)
  | [] => []
  | Effect.setReady channel ready :: rest => (channel, ready) :: channelCalls rest
  | _ :: rest => channelCalls rest

end RemoteComponentBase

/-! ## The transition table of section 4.4 -/

/-- The events of the transition table of section 4.4 of the spec, in its words. -/
inductive TableEvent
  | connect | disconnect
  | commandChannelUp | commandChannelTrying
  | dataChannelUp | dataChannelTrying
  | bindRequestSent | noBindNeeded | bindConfirmed | bindRejected
  | syncFailed | localItemsSynced | setRejected
  deriving DecidableEq

/-- The transition table of section 4.4 of the spec, row by row: the target state of an
event that the table lists for a state, and `none` for a pair it does not list. -/
def specTable : RemoteComponentBase.State → TableEvent → Option RemoteComponentBase.State
  | RemoteComponentBase.State.Down, TableEvent.connect => some RemoteComponentBase.State.Trying
  | RemoteComponentBase.State.Trying, TableEvent.commandChannelUp =>
      some RemoteComponentBase.State.Bind
  | RemoteComponentBase.State.Trying, TableEvent.disconnect => some RemoteComponentBase.State.Down
  | RemoteComponentBase.State.Bind, TableEvent.bindRequestSent =>
      some RemoteComponentBase.State.Binding
  | RemoteComponentBase.State.Bind, TableEvent.noBindNeeded =>
      some RemoteComponentBase.State.Syncing
  | RemoteComponentBase.State.Binding, TableEvent.bindConfirmed =>
      some RemoteComponentBase.State.Syncing
  | RemoteComponentBase.State.Binding, TableEvent.bindRejected =>
      some RemoteComponentBase.State.Error
  | RemoteComponentBase.State.Binding, TableEvent.commandChannelTrying =>
      some RemoteComponentBase.State.Trying
  | RemoteComponentBase.State.Binding, TableEvent.disconnect =>
      some RemoteComponentBase.State.Down
  | RemoteComponentBase.State.Syncing, TableEvent.dataChannelUp =>
      some RemoteComponentBase.State.Sync
  | RemoteComponentBase.State.Syncing, TableEvent.syncFailed =>
      some RemoteComponentBase.State.Error
  | RemoteComponentBase.State.Syncing, TableEvent.commandChannelTrying =>
      some RemoteComponentBase.State.Trying
  | RemoteComponentBase.State.Syncing, TableEvent.disconnect =>
      some RemoteComponentBase.State.Down
  | RemoteComponentBase.State.Sync, TableEvent.localItemsSynced =>
      some RemoteComponentBase.State.Synced
  | RemoteComponentBase.State.Synced, TableEvent.dataChannelTrying =>
      some RemoteComponentBase.State.Syncing
  | RemoteComponentBase.State.Synced, TableEvent.commandChannelTrying =>
      some RemoteComponentBase.State.Trying
  | RemoteComponentBase.State.Synced, TableEvent.setRejected =>
      some RemoteComponentBase.State.Error
  | RemoteComponentBase.State.Synced, TableEvent.disconnect =>
      some RemoteComponentBase.State.Down
  | RemoteComponentBase.State.Error, TableEvent.disconnect => some RemoteComponentBase.State.Down
  | _, _ => none

/-- The state that the table of section 4.4 gives after an event: the listed target, and
the state itself when the event is none of the table or the table does not list it for
the state. -/
def tableStep (state : RemoteComponentBase.State) (event : Option TableEvent) :
    RemoteComponentBase.State :=
  match event with
  | some te => (specTable state te).getD state
  | none => state

/-- The state that the table of section 4.4 gives after a sequence of events. -/
def tableRun (state : RemoteComponentBase.State) (events : List (Option TableEvent)) :
    RemoteComponentBase.State :=
  events.foldl tableStep state

/-- The event of the table that a call into the component delivers, if any: the trigger
functions, the changes of a channel state to `Up` or `Trying`, the confirm and reject
messages of the command channel, the error message of the data channel, and the send of a
bind request. -/
def RemoteComponentBase.Event.tableEvent : RemoteComponentBase.Event → Option TableEvent
  | RemoteComponentBase.Event.start => some TableEvent.connect
  | RemoteComponentBase.Event.stop => some TableEvent.disconnect
  | RemoteComponentBase.Event.noBind => some TableEvent.noBindNeeded
  | RemoteComponentBase.Event.pinsSynced => some TableEvent.localItemsSynced
  | RemoteComponentBase.Event.halrcmdChannelStateChanged state =>
      match state with
      | ChannelState.Up => some TableEvent.commandChannelUp
      | ChannelState.Trying => some TableEvent.commandChannelTrying
      | ChannelState.Down => none
  | RemoteComponentBase.Event.halrcompChannelStateChanged state =>
      match state with
      | ChannelState.Up => some TableEvent.dataChannelUp
      | ChannelState.Trying => some TableEvent.dataChannelTrying
      | ChannelState.Down => none
  | RemoteComponentBase.Event.processHalrcmdChannelMessage rx =>
      if rx.type = some ContainerType.MT_HALRCOMP_BIND_CONFIRM then some TableEvent.bindConfirmed
      else if rx.type = some ContainerType.MT_HALRCOMP_BIND_REJECT then
        some TableEvent.bindRejected
      else if rx.type = some ContainerType.MT_HALRCOMP_SET_REJECT then some TableEvent.setRejected
      else none
  | RemoteComponentBase.Event.processHalrcompChannelMessage _ rx =>
      if rx.type = some ContainerType.MT_HALRCOMP_ERROR then some TableEvent.syncFailed else none
  | RemoteComponentBase.Event.sendHalrcmdMessage type _ =>
      if type = ContainerType.MT_HALRCOMP_BIND then some TableEvent.bindRequestSent else none
  | RemoteComponentBase.Event.addHalrcompTopic _ => none
  | RemoteComponentBase.Event.removeHalrcompTopic _ => none
  | RemoteComponentBase.Event.clearHalrcompTopics => none

/-- A call into the component that delivers a given event of the table. -/
def TableEvent.deliver : TableEvent → RemoteComponentBase.Event
  | TableEvent.connect => RemoteComponentBase.Event.start
  | TableEvent.disconnect => RemoteComponentBase.Event.stop
  | TableEvent.commandChannelUp =>
      RemoteComponentBase.Event.halrcmdChannelStateChanged ChannelState.Up
  | TableEvent.commandChannelTrying =>
      RemoteComponentBase.Event.halrcmdChannelStateChanged ChannelState.Trying
  | TableEvent.dataChannelUp =>
      RemoteComponentBase.Event.halrcompChannelStateChanged ChannelState.Up
  | TableEvent.dataChannelTrying =>
      RemoteComponentBase.Event.halrcompChannelStateChanged ChannelState.Trying
  | TableEvent.bindRequestSent =>
      RemoteComponentBase.Event.sendHalrcmdMessage ContainerType.MT_HALRCOMP_BIND Container.Clear
  | TableEvent.noBindNeeded => RemoteComponentBase.Event.noBind
  | TableEvent.bindConfirmed =>
      RemoteComponentBase.Event.processHalrcmdChannelMessage
        (Container.ofType ContainerType.MT_HALRCOMP_BIND_CONFIRM)
  | TableEvent.bindRejected =>
      RemoteComponentBase.Event.processHalrcmdChannelMessage
        (Container.ofType ContainerType.MT_HALRCOMP_BIND_REJECT)
  | TableEvent.syncFailed =>
      RemoteComponentBase.Event.processHalrcompChannelMessage ""
        (Container.ofType ContainerType.MT_HALRCOMP_ERROR)
  | TableEvent.localItemsSynced => RemoteComponentBase.Event.pinsSynced
  | TableEvent.setRejected =>
      RemoteComponentBase.Event.processHalrcmdChannelMessage
        (Container.ofType ContainerType.MT_HALRCOMP_SET_REJECT)

/-- The least number of events of the table that lead from a state to `Synced`. -/
def RemoteComponentBase.State.distance : RemoteComponentBase.State → Nat
  | RemoteComponentBase.State.Synced => 0
  | RemoteComponentBase.State.Sync => 1
  | RemoteComponentBase.State.Syncing => 2
  | RemoteComponentBase.State.Binding => 3
  | RemoteComponentBase.State.Bind => 3
  | RemoteComponentBase.State.Trying => 4
  | RemoteComponentBase.State.Down => 5
  | RemoteComponentBase.State.Error => 6

/-- The note lines of an error frame, each followed by a newline. -/
def noteLines (notes : List String) : String :=
  String.join (notes.map (fun n => n ++ "\n"))

/-- The five-event sequence of section 8 of the spec: connect, command channel up, bind
confirmed, data channel up, local items synced. -/
def sampleBindSequence : List RemoteComponentBase.Event :=
  [ RemoteComponentBase.Event.start,
    RemoteComponentBase.Event.halrcmdChannelStateChanged ChannelState.Up,
    RemoteComponentBase.Event.processHalrcmdChannelMessage
      (Container.ofType ContainerType.MT_HALRCOMP_BIND_CONFIRM),
    RemoteComponentBase.Event.halrcompChannelStateChanged ChannelState.Up,
    RemoteComponentBase.Event.pinsSynced ]

/-- The sequence of section 8 with the send of the bind request after the command channel
is up: six events. -/
def sampleBindSentSequence : List RemoteComponentBase.Event :=
  [ RemoteComponentBase.Event.start,
    RemoteComponentBase.Event.halrcmdChannelStateChanged ChannelState.Up,
    RemoteComponentBase.Event.sendHalrcmdMessage ContainerType.MT_HALRCOMP_BIND Container.Clear,
    RemoteComponentBase.Event.processHalrcmdChannelMessage
      (Container.ofType ContainerType.MT_HALRCOMP_BIND_CONFIRM),
    RemoteComponentBase.Event.halrcompChannelStateChanged ChannelState.Up,
    RemoteComponentBase.Event.pinsSynced ]

/-- The five-event sequence without a bind: connect, command channel up, no bind needed,
data channel up, local items synced. -/
def sampleNoBindSequence : List RemoteComponentBase.Event :=
  [ RemoteComponentBase.Event.start,
    RemoteComponentBase.Event.halrcmdChannelStateChanged ChannelState.Up,
    RemoteComponentBase.Event.noBind,
    RemoteComponentBase.Event.halrcompChannelStateChanged ChannelState.Up,
    RemoteComponentBase.Event.pinsSynced ]

/-- A component in the state `Synced`, after `sampleBindSentSequence`. -/
def sampleComponentSynced : RemoteComponentBase :=
  RemoteComponentBase.run sampleBindSentSequence RemoteComponentBase.new

/-- A reject or error frame of the given type with two note lines. -/
def sampleRejection (t : ContainerType) : Container :=
  { Container.ofType t with note := ["first", "second"] }

/-! ## Observations on the effect log of RemoteComponentBase -/

/-- The types of the messages handed to `sendSocketMessage` of the command channel in an
effect log, in order. -/
def RemoteComponentBase.sentTypes : List RemoteComponentBase.Effect → List ContainerType
  | [] => []
  | RemoteComponentBase.Effect.sendSocketMessage type _ :: rest =>
      type :: RemoteComponentBase.sentTypes rest
  | _ :: rest => RemoteComponentBase.sentTypes rest

/-- The state announced by an effect, when the effect is the signal `stateChanged`. -/
def RemoteComponentBase.stateChange :
    RemoteComponentBase.Effect → Option RemoteComponentBase.State
  | RemoteComponentBase.Effect.emit (RemoteComponentBase.Signal.stateChanged state) => some state
  | _ => none

/-- The states announced by `stateChanged` in an effect log, in order: the states that the
state machine has entered. -/
def RemoteComponentBase.stateTrace (effects : List RemoteComponentBase.Effect) :
    List RemoteComponentBase.State :=
  effects.filterMap RemoteComponentBase.stateChange

/-- The states that the table of section 4.4 enters during a sequence of events, in
order; an event that the table does not list for the current state enters none. -/
def tableTrace (state : RemoteComponentBase.State) :
    List (Option TableEvent) → List RemoteComponentBase.State
  | [] => []
  | event :: rest =>
      match event.bind (specTable state) with
      | some target => target :: tableTrace target rest
      | none => tableTrace state rest

/-- The states that lie between a state and `Synced` on every path of the table of
section 4.4. -/
def RemoteComponentBase.State.ahead : RemoteComponentBase.State → List RemoteComponentBase.State
  | RemoteComponentBase.State.Synced => []
  | RemoteComponentBase.State.Sync => [RemoteComponentBase.State.Synced]
  | RemoteComponentBase.State.Syncing =>
      [RemoteComponentBase.State.Sync, RemoteComponentBase.State.Synced]
  | RemoteComponentBase.State.Binding =>
      [RemoteComponentBase.State.Syncing, RemoteComponentBase.State.Sync,
       RemoteComponentBase.State.Synced]
  | RemoteComponentBase.State.Bind =>
      [RemoteComponentBase.State.Syncing, RemoteComponentBase.State.Sync,
       RemoteComponentBase.State.Synced]
  | RemoteComponentBase.State.Trying =>
      [RemoteComponentBase.State.Bind, RemoteComponentBase.State.Syncing,
       RemoteComponentBase.State.Sync, RemoteComponentBase.State.Synced]
  | RemoteComponentBase.State.Down =>
      [RemoteComponentBase.State.Trying, RemoteComponentBase.State.Bind,
       RemoteComponentBase.State.Syncing, RemoteComponentBase.State.Sync,
       RemoteComponentBase.State.Synced]
  | RemoteComponentBase.State.Error =>
      [RemoteComponentBase.State.Trying, RemoteComponentBase.State.Bind,
       RemoteComponentBase.State.Syncing, RemoteComponentBase.State.Sync,
       RemoteComponentBase.State.Synced]

/-! ## Further sample runs -/

/-- A component in the state `Bind`: started, with the command channel up. -/
def sampleComponentBind : RemoteComponentBase :=
  RemoteComponentBase.run
    [ RemoteComponentBase.Event.start,
      RemoteComponentBase.Event.halrcmdChannelStateChanged ChannelState.Up ]
    RemoteComponentBase.new

/-- A component in the state `Sync`: started without a bind, with both channels up. -/
def sampleComponentSync : RemoteComponentBase :=
  RemoteComponentBase.run
    [ RemoteComponentBase.Event.start,
      RemoteComponentBase.Event.halrcmdChannelStateChanged ChannelState.Up,
      RemoteComponentBase.Event.noBind,
      RemoteComponentBase.Event.halrcompChannelStateChanged ChannelState.Up ]
    RemoteComponentBase.new

/-- A launcher client that is started and acknowledged on the command socket: it is
`Connected` with the command socket open. -/
def sampleLauncherConnected : ApplicationLauncher :=
  ApplicationLauncher.run External.sample
    [ ApplicationLauncher.Event.start none none,
      ApplicationLauncher.Event.commandMessageReceived
        (Container.ofType ContainerType.MT_PING_ACKNOWLEDGE) ]
    ApplicationLauncher.new

/-- A launcher client that is started, acknowledged on the command socket and synced by a
full update with a keep-alive period, and then hears nothing on the subscribe socket: the
tick of the subscribe heartbeat timer raises the timeout. -/
def sampleLauncherSilentRun : List ApplicationLauncher.Event :=
  [ ApplicationLauncher.Event.start none none,
    ApplicationLauncher.Event.commandMessageReceived
      (Container.ofType ContainerType.MT_PING_ACKNOWLEDGE),
    ApplicationLauncher.Event.subscribeMessageReceived "launcher" sampleLauncherFullUpdate,
    ApplicationLauncher.Event.subscribeHeartbeatTimerTick ]

/-- The state after `sampleLauncherSilentRun`: `Timeout`, with the command socket state
still `Up`. -/
def sampleLauncherSilent : ApplicationLauncher :=
  ApplicationLauncher.run External.sample sampleLauncherSilentRun ApplicationLauncher.new

/-- A status client that was `Connected` and has met a poll error: it is in `Error`. -/
def sampleStatusFailedRun : List ApplicationStatus.Event :=
  [ ApplicationStatus.Event.start none,
    ApplicationStatus.Event.statusMessageReceived "motion" sampleMotionFullUpdate,
    ApplicationStatus.Event.pollError 5 "poll" ]

/-- The state after `sampleStatusFailedRun`. -/
def sampleStatusFailed : ApplicationStatus :=
  ApplicationStatus.run External.sample sampleStatusFailedRun
    (ApplicationStatus.new External.sample)

/-- A full update for the motion channel whose keep-alive period is zero. -/
def sampleMotionFullUpdateNoKeepalive : Container :=
  { sampleMotionFullUpdate with pparams := some { keepalive_timer := 0 } }

/-- A full update of the launcher service whose keep-alive period is zero. -/
def sampleLauncherFullUpdateNoKeepalive : Container :=
  { Container.ofType ContainerType.MT_LAUNCHER_FULL_UPDATE with
    pparams := some { keepalive_timer := 0 } }

/-- A launcher client that is started and has received a full update declaring a
keep-alive period: its subscribe heartbeat timer runs. -/
def sampleLauncherHeartbeat : ApplicationLauncher :=
  ApplicationLauncher.run External.sample
    [ ApplicationLauncher.Event.start none none,
      ApplicationLauncher.Event.subscribeMessageReceived "launcher" sampleLauncherFullUpdate ]
    ApplicationLauncher.new

/-! ## The command senders of ApplicationLauncher -/

/-- The command senders of `ApplicationLauncher` with their arguments: `start(index)`,
`kill(index)`, `terminate(index)`, `writeToStdin(index, data)`, `call(command)` and
`shutdown()`. -/
inductive ApplicationLauncher.Command
  | start (index : Int)
  | kill (index : Int)
  | terminate (index : Int)
  | writeToStdin (index : Int) (data : String)
  | call (command : String)
  | shutdown

/-- The call of a command sender; `sendError` is the exception the send throws, if any. -/
def ApplicationLauncher.Command.send (c : ApplicationLauncher.Command)
    (sendError : Option ZmqError) (s : ApplicationLauncher) : ApplicationLauncher :=
  match c with
  | ApplicationLauncher.Command.start index => ApplicationLauncher.startIndex index sendError s
  | ApplicationLauncher.Command.kill index => ApplicationLauncher.kill index sendError s
  | ApplicationLauncher.Command.terminate index =>
      ApplicationLauncher.terminate index sendError s
  | ApplicationLauncher.Command.writeToStdin index data =>
      ApplicationLauncher.writeToStdin index data sendError s
  | ApplicationLauncher.Command.call command => ApplicationLauncher.call command sendError s
  | ApplicationLauncher.Command.shutdown => ApplicationLauncher.shutdown sendError s

/-- The message type that corresponds to a command sender. -/
def ApplicationLauncher.Command.type : ApplicationLauncher.Command → ContainerType
  | ApplicationLauncher.Command.start _ => ContainerType.MT_LAUNCHER_START
  | ApplicationLauncher.Command.kill _ => ContainerType.MT_LAUNCHER_KILL
  | ApplicationLauncher.Command.terminate _ => ContainerType.MT_LAUNCHER_TERMINATE
  | ApplicationLauncher.Command.writeToStdin _ _ => ContainerType.MT_LAUNCHER_WRITE_STDIN
  | ApplicationLauncher.Command.call _ => ContainerType.MT_LAUNCHER_CALL
  | ApplicationLauncher.Command.shutdown => ContainerType.MT_LAUNCHER_SHUTDOWN

/-- The outgoing envelope after a command sender has stored its arguments in it: the
fields `index` and `name` that the sender sets before it calls `sendCommandMessage`. -/
def ApplicationLauncher.Command.arguments (c : ApplicationLauncher.Command) (tx : Container) :
    Container :=
  match c with
  | ApplicationLauncher.Command.start index => { tx with index := some index }
  | ApplicationLauncher.Command.kill index => { tx with index := some index }
  | ApplicationLauncher.Command.terminate index => { tx with index := some index }
  | ApplicationLauncher.Command.writeToStdin index data =>
      { tx with index := some index, name := some data }
  | ApplicationLauncher.Command.call command => { tx with name := some command }
  | ApplicationLauncher.Command.shutdown => tx

/-- The message of a command: the outgoing envelope with the arguments of the command and
with its type. -/
def ApplicationLauncher.Command.message (c : ApplicationLauncher.Command) (tx : Container) :
    Container :=
  { c.arguments tx with type := some c.type }
/-! ## The actions of the transitions of RemoteComponentBase -/

/-- The actions of the state machine that the event function of a transition performs, in
the order of its statements, for the source and the target state of the transition: the
exit action of `Down` (`fsmDownExit`) and the entry actions of `Down`, `Synced` and
`Error` run inside the `emit` of the exited and entered signals, the other actions follow
the comment `execute actions`.  A pair of states that no event function connects has no
action. -/
def transitionActions :
    RemoteComponentBase.State → RemoteComponentBase.State → List RemoteComponentBase.Effect
  | RemoteComponentBase.State.Down, RemoteComponentBase.State.Trying =>
      [RemoteComponentBase.Effect.call RemoteComponentBase.Virtual.setConnecting,
       RemoteComponentBase.Effect.call RemoteComponentBase.Virtual.addPins,
       RemoteComponentBase.Effect.setReady RemoteComponentBase.ChannelId.halrcmd true]
  | RemoteComponentBase.State.Trying, RemoteComponentBase.State.Bind =>
      [RemoteComponentBase.Effect.call RemoteComponentBase.Virtual.bindComponent]
  | RemoteComponentBase.State.Bind, RemoteComponentBase.State.Syncing =>
      [RemoteComponentBase.Effect.setReady RemoteComponentBase.ChannelId.halrcomp true]
  | RemoteComponentBase.State.Binding, RemoteComponentBase.State.Syncing =>
      [RemoteComponentBase.Effect.setReady RemoteComponentBase.ChannelId.halrcomp true]
  | RemoteComponentBase.State.Binding, RemoteComponentBase.State.Error =>
      [RemoteComponentBase.Effect.call RemoteComponentBase.Virtual.setError,
       RemoteComponentBase.Effect.setReady RemoteComponentBase.ChannelId.halrcmd false]
  | RemoteComponentBase.State.Syncing, RemoteComponentBase.State.Trying =>
      [RemoteComponentBase.Effect.setReady RemoteComponentBase.ChannelId.halrcomp false]
  | RemoteComponentBase.State.Syncing, RemoteComponentBase.State.Error =>
      [RemoteComponentBase.Effect.call RemoteComponentBase.Virtual.setError,
       RemoteComponentBase.Effect.setReady RemoteComponentBase.ChannelId.halrcomp false,
       RemoteComponentBase.Effect.setReady RemoteComponentBase.ChannelId.halrcmd false]
  | RemoteComponentBase.State.Sync, RemoteComponentBase.State.Synced =>
      [RemoteComponentBase.Effect.call RemoteComponentBase.Virtual.setConnected]
  | RemoteComponentBase.State.Synced, RemoteComponentBase.State.Syncing =>
      [RemoteComponentBase.Effect.call RemoteComponentBase.Virtual.unsyncPins,
       RemoteComponentBase.Effect.call RemoteComponentBase.Virtual.setTimeout]
  | RemoteComponentBase.State.Synced, RemoteComponentBase.State.Trying =>
      [RemoteComponentBase.Effect.setReady RemoteComponentBase.ChannelId.halrcomp false,
       RemoteComponentBase.Effect.call RemoteComponentBase.Virtual.unsyncPins,
       RemoteComponentBase.Effect.call RemoteComponentBase.Virtual.setTimeout]
  | RemoteComponentBase.State.Synced, RemoteComponentBase.State.Error =>
      [RemoteComponentBase.Effect.call RemoteComponentBase.Virtual.setError,
       RemoteComponentBase.Effect.setReady RemoteComponentBase.ChannelId.halrcomp false,
       RemoteComponentBase.Effect.setReady RemoteComponentBase.ChannelId.halrcmd false]
  | RemoteComponentBase.State.Down, RemoteComponentBase.State.Down => []
  | _, RemoteComponentBase.State.Down =>
      [RemoteComponentBase.Effect.call RemoteComponentBase.Virtual.setDisconnected,
       RemoteComponentBase.Effect.setReady RemoteComponentBase.ChannelId.halrcmd false,
       RemoteComponentBase.Effect.setReady RemoteComponentBase.ChannelId.halrcomp false,
       RemoteComponentBase.Effect.call RemoteComponentBase.Virtual.removePins]
  | _, _ => []

/-- The actions of the state machine that an event leads to in a state: those of the
transition that the table of section 4.4 lists for the event, and none when it lists no
transition. -/
def stepActions (state : RemoteComponentBase.State) (event : Option TableEvent) :
    List RemoteComponentBase.Effect :=
  match event.bind (specTable state) with
  | some target => transitionActions state target
  | none => []

/-- The value of the property `ready` of a channel after a list of effects, given its
value before: that of the last `setReady` on the channel. -/
def RemoteComponentBase.readyAfter (channel : RemoteComponentBase.ChannelId) (ready : Bool) :
    List RemoteComponentBase.Effect → Bool
  | [] => ready
  | RemoteComponentBase.Effect.setReady c r :: rest =>
      RemoteComponentBase.readyAfter channel (if c = channel then r else ready) rest
  | _ :: rest => RemoteComponentBase.readyAfter channel ready rest

/-- Whether a pure virtual function is one of the five that mark the connection:
`setDisconnected`, `setConnecting`, `setConnected`, `setTimeout`, `setError`. -/
def RemoteComponentBase.Virtual.isMark : RemoteComponentBase.Virtual → Bool
  | RemoteComponentBase.Virtual.setDisconnected => true
  | RemoteComponentBase.Virtual.setConnecting => true
  | RemoteComponentBase.Virtual.setConnected => true
  | RemoteComponentBase.Virtual.setTimeout => true
  | RemoteComponentBase.Virtual.setError => true
  | _ => false

/-- The last of the five marking functions called in a list of effects, given the last
one called before the list. -/
def RemoteComponentBase.markFrom (mark : Option RemoteComponentBase.Virtual) :
    List RemoteComponentBase.Effect → Option RemoteComponentBase.Virtual
  | [] => mark
  | RemoteComponentBase.Effect.call f :: rest =>
      RemoteComponentBase.markFrom (if f.isMark then some f else mark) rest
  | _ :: rest => RemoteComponentBase.markFrom mark rest

/-- The connection mark of an effect log: the last of `setDisconnected`, `setConnecting`,
`setConnected`, `setTimeout` and `setError` that was called, and `none` when none was. -/
def RemoteComponentBase.connectionMark (effects : List RemoteComponentBase.Effect) :
    Option RemoteComponentBase.Virtual :=
  RemoteComponentBase.markFrom none effects

/-- The readiness of the two channels that goes with a state: the data channel is ready
exactly in `Syncing`, `Sync` and `Synced`, the command channel exactly outside `Down` and
`Error`. -/
def RemoteComponentBase.ChannelsReady (s : RemoteComponentBase) : Prop :=
  (s.m_halrcompChannel.ready = true ↔
    (s.m_state = RemoteComponentBase.State.Syncing ∨ s.m_state = RemoteComponentBase.State.Sync ∨
      s.m_state = RemoteComponentBase.State.Synced)) ∧
  (s.m_halrcmdChannel.ready = true ↔
    (s.m_state ≠ RemoteComponentBase.State.Down ∧ s.m_state ≠ RemoteComponentBase.State.Error))

/-- The connection mark that goes with a state, once a state has been entered:
`setDisconnected` exactly in `Down`, `setConnected` exactly in `Synced`, `setError`
exactly in `Error`, and `setConnecting` or `setTimeout` in the other states. -/
def RemoteComponentBase.State.markMatches :
    RemoteComponentBase.State → RemoteComponentBase.Virtual → Bool
  | RemoteComponentBase.State.Down, RemoteComponentBase.Virtual.setDisconnected => true
  | RemoteComponentBase.State.Synced, RemoteComponentBase.Virtual.setConnected => true
  | RemoteComponentBase.State.Error, RemoteComponentBase.Virtual.setError => true
  | RemoteComponentBase.State.Trying, RemoteComponentBase.Virtual.setConnecting => true
  | RemoteComponentBase.State.Trying, RemoteComponentBase.Virtual.setTimeout => true
  | RemoteComponentBase.State.Bind, RemoteComponentBase.Virtual.setConnecting => true
  | RemoteComponentBase.State.Bind, RemoteComponentBase.Virtual.setTimeout => true
  | RemoteComponentBase.State.Binding, RemoteComponentBase.Virtual.setConnecting => true
  | RemoteComponentBase.State.Binding, RemoteComponentBase.Virtual.setTimeout => true
  | RemoteComponentBase.State.Syncing, RemoteComponentBase.Virtual.setConnecting => true
  | RemoteComponentBase.State.Syncing, RemoteComponentBase.Virtual.setTimeout => true
  | RemoteComponentBase.State.Sync, RemoteComponentBase.Virtual.setConnecting => true
  | RemoteComponentBase.State.Sync, RemoteComponentBase.Virtual.setTimeout => true
  | _, _ => false

/-- A component in `Binding`: connect, command channel up, bind request sent. -/
def sampleComponentBinding : RemoteComponentBase :=
  RemoteComponentBase.run
    [ RemoteComponentBase.Event.start,
      RemoteComponentBase.Event.halrcmdChannelStateChanged ChannelState.Up,
      RemoteComponentBase.Event.sendHalrcmdMessage ContainerType.MT_HALRCOMP_BIND
        Container.Clear ]
    RemoteComponentBase.new

/-! ## ConfigBase

The generated base class of the configuration client
(`src/machinetalk/application/configbase.h`).  The header defines `componentComplete`,
`setReady` and the other property accessors inline; the constructor, the trigger
functions `start()` and `stop()` and the state machine are defined in a file that is not
among the sources.  The two trigger functions are therefore taken as parameters: the
definitions and the facts about them hold whatever `start()` and `stop()` do. -/

/-- The states of the configuration state machine (`ConfigBase::State`). -/
inductive ConfigBase.State
  | Down | Trying | Listing | Up | Loading
  deriving DecidableEq

/-- An outward action of a configuration client: the signals emitted by the inline
functions of the header, the calls of the channel object, and an entry for a call of a
trigger function, which `ConfigBase.Triggers.logged` writes. -/
inductive ConfigBase.Effect
  | readyChanged (ready : Bool)
  | debugNameChanged (debugName : String)
  | setSocketUri (uri : String)
  | setHeartbeatInterval (interval : Int)
  | startCalled
  | stopCalled
  deriving DecidableEq

/-- The member variables of `ConfigBase` that the inline functions of the header read or
write, and the log of outward actions. -/
structure ConfigBase where
  m_componentCompleted : Bool
  m_ready : Bool
  m_debugName : String
  m_state : ConfigBase.State
  m_previousState : ConfigBase.State
  m_errorString : String
  effects : List ConfigBase.Effect
  deriving DecidableEq

/-- The two protected trigger functions `ConfigBase::start` and `ConfigBase::stop`, whose
bodies are not among the sources. -/
structure ConfigBase.Triggers where
  start : ConfigBase → ConfigBase
  stop : ConfigBase → ConfigBase

namespace ConfigBase

/-- Trigger functions that only record that they were called. -/
def Triggers.logged : Triggers :=
  { start := fun s => { s with effects := s.effects ++ [Effect.startCalled] },
    stop := fun s => { s with effects := s.effects ++ [Effect.stopCalled] } }

/-- The function `ConfigBase::classBegin`: the body is empty. -/
def classBegin (s : ConfigBase) : ConfigBase := s

/-- The function `ConfigBase::componentComplete`. -/
def componentComplete (impl : Triggers) (s : ConfigBase) : ConfigBase :=
  let s := { s with m_componentCompleted := true }
  if s.m_ready = true then impl.start s else s

/-- The function `ConfigBase::setConfigUri`. -/
def setConfigUri (uri : String) (s : ConfigBase) : ConfigBase :=
  { s with effects := s.effects ++ [Effect.setSocketUri uri] }

/-- The function `ConfigBase::setDebugName`. -/
def setDebugName (debugName : String) (s : ConfigBase) : ConfigBase :=
  if s.m_debugName = debugName then s
  else
    let s := { s with m_debugName := debugName }
    { s with effects := s.effects ++ [Effect.debugNameChanged debugName] }

/-- The function `ConfigBase::setConfigHeartbeatInterval`. -/
def setConfigHeartbeatInterval (interval : Int) (s : ConfigBase) : ConfigBase :=
  { s with effects := s.effects ++ [Effect.setHeartbeatInterval interval] }

/-- The function `ConfigBase::setReady`. -/
def setReady (impl : Triggers) (ready : Bool) (s : ConfigBase) : ConfigBase :=
  if s.m_ready = ready then s
  else
    let s := { s with m_ready := ready }
    let s := { s with effects := s.effects ++ [Effect.readyChanged ready] }
    if s.m_componentCompleted = false then s
    else if s.m_ready then impl.start s
    else impl.stop s

/-- The number of calls of `start()` recorded in an effect log. -/
def startCalls (effects : List Effect) : Nat :=
  effects.count Effect.startCalled

/-- The number of calls of `stop()` recorded in an effect log. -/
def stopCalls (effects : List Effect) : Nat :=
  effects.count Effect.stopCalled

end ConfigBase

/-- A configuration client that is neither completed nor ready and has done nothing yet,
in the state `Down`. -/
def sampleConfig : ConfigBase :=
  { m_componentCompleted := false, m_ready := false, m_debugName := "Config Base",
    m_state := ConfigBase.State.Down, m_previousState := ConfigBase.State.Down,
    m_errorString := "", effects := [] }

/-! ## Further sample runs and sequences of calls -/

/-- The state after a sequence of calls of `ApplicationStatus::updateSync`, first call
first. -/
def ApplicationStatus.updateSyncs (channels : List StatusChannel) (s : ApplicationStatus) :
    ApplicationStatus :=
  channels.foldl (fun s channel => ApplicationStatus.updateSync channel s) s

/-- A launcher client that is started and connected by a full update, misses the
acknowledge of a probe, receives one more full update while in `Timeout`, and then misses
the heartbeat of the subscribe channel. -/
def sampleLauncherStaleRun : List ApplicationLauncher.Event :=
  [ ApplicationLauncher.Event.start none none,
    ApplicationLauncher.Event.subscribeMessageReceived "launcher" sampleLauncherFullUpdate,
    ApplicationLauncher.Event.commandHeartbeatTimerTick none,
    ApplicationLauncher.Event.commandHeartbeatTimerTick none,
    ApplicationLauncher.Event.subscribeMessageReceived "launcher" sampleLauncherFullUpdate,
    ApplicationLauncher.Event.subscribeHeartbeatTimerTick ]

/-- The state after `sampleLauncherStaleRun`. -/
def sampleLauncherStale : ApplicationLauncher :=
  ApplicationLauncher.run External.sample sampleLauncherStaleRun ApplicationLauncher.new

/-- A status client whose task object holds the task mode 2 (`TaskModeAuto` of
`External.sample`) and whose interpreter object holds the interpreter state 2 (not
`InterpreterIdle`). -/
def sampleStatusAuto : ApplicationStatus :=
  { ApplicationStatus.new External.sample with
    m_task := [("taskMode", QJsonValue.double 2)],
    m_interp := [("interpState", QJsonValue.double 2)] }

/-! ## Facts about ApplicationStatus -/

namespace ApplicationStatus

open State SocketState ConnectionError ContainerType StatusChannel

/-- The flag of a channel has exactly the channel's bit set. -/
theorem status_flag_testBit (c d : StatusChannel) :
    d.flag.testBit c.bit = decide (c = d) := by
  cases c <;> cases d <;> decide

/-- Or-ing a channel flag into a mask never gives the empty mask. -/
theorem status_lor_flag_ne_zero (n : Nat) (c : StatusChannel) : n ||| c.flag ≠ 0 := by
  intro h
  have h1 := congrArg (fun x => Nat.testBit x c.bit) h
  simp [status_flag_testBit] at h1

/-- Emitting a signal changes only the effect log. -/
@[simp]
theorem status_emit_frame (signal : Signal) (s : ApplicationStatus) :
    (emit signal s).m_statusUri = s.m_statusUri ∧
    (emit signal s).m_statusSocketState = s.m_statusSocketState ∧
    (emit signal s).m_connected = s.m_connected ∧
    (emit signal s).m_connectionState = s.m_connectionState ∧
    (emit signal s).m_error = s.m_error ∧
    (emit signal s).m_errorString = s.m_errorString ∧
    (emit signal s).m_synced = s.m_synced ∧
    (emit signal s).m_syncedChannels = s.m_syncedChannels ∧
    (emit signal s).m_channels = s.m_channels ∧
    (emit signal s).m_context = s.m_context ∧
    (emit signal s).m_statusSocket = s.m_statusSocket ∧
    (emit signal s).m_statusHeartbeatTimer = s.m_statusHeartbeatTimer ∧
    (emit signal s).m_subscriptions = s.m_subscriptions ∧
    (emit signal s).m_rx = s.m_rx ∧
    (emit signal s).fault = s.fault := by
  simp [emit]

/-- The function `updateRunning` changes only `m_running` and the effect log. -/
@[simp]
theorem status_updateRunning_frame (ext : External) (s : ApplicationStatus) :
    (updateRunning ext s).m_statusUri = s.m_statusUri ∧
    (updateRunning ext s).m_statusSocketState = s.m_statusSocketState ∧
    (updateRunning ext s).m_connected = s.m_connected ∧
    (updateRunning ext s).m_connectionState = s.m_connectionState ∧
    (updateRunning ext s).m_error = s.m_error ∧
    (updateRunning ext s).m_errorString = s.m_errorString ∧
    (updateRunning ext s).m_synced = s.m_synced ∧
    (updateRunning ext s).m_syncedChannels = s.m_syncedChannels ∧
    (updateRunning ext s).m_channels = s.m_channels ∧
    (updateRunning ext s).m_context = s.m_context ∧
    (updateRunning ext s).m_statusSocket = s.m_statusSocket ∧
    (updateRunning ext s).m_statusHeartbeatTimer = s.m_statusHeartbeatTimer ∧
    (updateRunning ext s).m_subscriptions = s.m_subscriptions ∧
    (updateRunning ext s).m_rx = s.m_rx ∧
    (updateRunning ext s).fault = s.fault := by
  simp only [updateRunning]
  split_ifs <;> simp

/-- The function `initializeObject` changes only the JSON members, `m_running` and the effect log. -/
@[simp]
theorem status_initializeObject_frame (ext : External) (c : StatusChannel) (s : ApplicationStatus) :
    (initializeObject ext c s).m_statusUri = s.m_statusUri ∧
    (initializeObject ext c s).m_statusSocketState = s.m_statusSocketState ∧
    (initializeObject ext c s).m_connected = s.m_connected ∧
    (initializeObject ext c s).m_connectionState = s.m_connectionState ∧
    (initializeObject ext c s).m_error = s.m_error ∧
    (initializeObject ext c s).m_errorString = s.m_errorString ∧
    (initializeObject ext c s).m_synced = s.m_synced ∧
    (initializeObject ext c s).m_syncedChannels = s.m_syncedChannels ∧
    (initializeObject ext c s).m_channels = s.m_channels ∧
    (initializeObject ext c s).m_context = s.m_context ∧
    (initializeObject ext c s).m_statusSocket = s.m_statusSocket ∧
    (initializeObject ext c s).m_statusHeartbeatTimer = s.m_statusHeartbeatTimer ∧
    (initializeObject ext c s).m_subscriptions = s.m_subscriptions ∧
    (initializeObject ext c s).m_rx = s.m_rx ∧
    (initializeObject ext c s).fault = s.fault := by
  cases c <;> simp [initializeObject]

/-- The function `updateMotion` changes only the JSON members, `m_running` and the effect log. -/
@[simp]
theorem status_updateMotion_frame (ext : External) (m : QJsonObject) (s : ApplicationStatus) :
    (updateMotion ext m s).m_statusUri = s.m_statusUri ∧
    (updateMotion ext m s).m_statusSocketState = s.m_statusSocketState ∧
    (updateMotion ext m s).m_connected = s.m_connected ∧
    (updateMotion ext m s).m_connectionState = s.m_connectionState ∧
    (updateMotion ext m s).m_error = s.m_error ∧
    (updateMotion ext m s).m_errorString = s.m_errorString ∧
    (updateMotion ext m s).m_synced = s.m_synced ∧
    (updateMotion ext m s).m_syncedChannels = s.m_syncedChannels ∧
    (updateMotion ext m s).m_channels = s.m_channels ∧
    (updateMotion ext m s).m_context = s.m_context ∧
    (updateMotion ext m s).m_statusSocket = s.m_statusSocket ∧
    (updateMotion ext m s).m_statusHeartbeatTimer = s.m_statusHeartbeatTimer ∧
    (updateMotion ext m s).m_subscriptions = s.m_subscriptions ∧
    (updateMotion ext m s).m_rx = s.m_rx ∧
    (updateMotion ext m s).fault = s.fault := by
  simp [updateMotion]

/-- The function `updateConfig` changes only the JSON members, `m_running` and the effect log. -/
@[simp]
theorem status_updateConfig_frame (ext : External) (m : QJsonObject) (s : ApplicationStatus) :
    (updateConfig ext m s).m_statusUri = s.m_statusUri ∧
    (updateConfig ext m s).m_statusSocketState = s.m_statusSocketState ∧
    (updateConfig ext m s).m_connected = s.m_connected ∧
    (updateConfig ext m s).m_connectionState = s.m_connectionState ∧
    (updateConfig ext m s).m_error = s.m_error ∧
    (updateConfig ext m s).m_errorString = s.m_errorString ∧
    (updateConfig ext m s).m_synced = s.m_synced ∧
    (updateConfig ext m s).m_syncedChannels = s.m_syncedChannels ∧
    (updateConfig ext m s).m_channels = s.m_channels ∧
    (updateConfig ext m s).m_context = s.m_context ∧
    (updateConfig ext m s).m_statusSocket = s.m_statusSocket ∧
    (updateConfig ext m s).m_statusHeartbeatTimer = s.m_statusHeartbeatTimer ∧
    (updateConfig ext m s).m_subscriptions = s.m_subscriptions ∧
    (updateConfig ext m s).m_rx = s.m_rx ∧
    (updateConfig ext m s).fault = s.fault := by
  simp [updateConfig]

/-- The function `updateIo` changes only the JSON members, `m_running` and the effect log. -/
@[simp]
theorem status_updateIo_frame (ext : External) (m : QJsonObject) (s : ApplicationStatus) :
    (updateIo ext m s).m_statusUri = s.m_statusUri ∧
    (updateIo ext m s).m_statusSocketState = s.m_statusSocketState ∧
    (updateIo ext m s).m_connected = s.m_connected ∧
    (updateIo ext m s).m_connectionState = s.m_connectionState ∧
    (updateIo ext m s).m_error = s.m_error ∧
    (updateIo ext m s).m_errorString = s.m_errorString ∧
    (updateIo ext m s).m_synced = s.m_synced ∧
    (updateIo ext m s).m_syncedChannels = s.m_syncedChannels ∧
    (updateIo ext m s).m_channels = s.m_channels ∧
    (updateIo ext m s).m_context = s.m_context ∧
    (updateIo ext m s).m_statusSocket = s.m_statusSocket ∧
    (updateIo ext m s).m_statusHeartbeatTimer = s.m_statusHeartbeatTimer ∧
    (updateIo ext m s).m_subscriptions = s.m_subscriptions ∧
    (updateIo ext m s).m_rx = s.m_rx ∧
    (updateIo ext m s).fault = s.fault := by
  simp [updateIo]

/-- The function `updateTask` changes only the JSON members, `m_running` and the effect log. -/
@[simp]
theorem status_updateTask_frame (ext : External) (m : QJsonObject) (s : ApplicationStatus) :
    (updateTask ext m s).m_statusUri = s.m_statusUri ∧
    (updateTask ext m s).m_statusSocketState = s.m_statusSocketState ∧
    (updateTask ext m s).m_connected = s.m_connected ∧
    (updateTask ext m s).m_connectionState = s.m_connectionState ∧
    (updateTask ext m s).m_error = s.m_error ∧
    (updateTask ext m s).m_errorString = s.m_errorString ∧
    (updateTask ext m s).m_synced = s.m_synced ∧
    (updateTask ext m s).m_syncedChannels = s.m_syncedChannels ∧
    (updateTask ext m s).m_channels = s.m_channels ∧
    (updateTask ext m s).m_context = s.m_context ∧
    (updateTask ext m s).m_statusSocket = s.m_statusSocket ∧
    (updateTask ext m s).m_statusHeartbeatTimer = s.m_statusHeartbeatTimer ∧
    (updateTask ext m s).m_subscriptions = s.m_subscriptions ∧
    (updateTask ext m s).m_rx = s.m_rx ∧
    (updateTask ext m s).fault = s.fault := by
  simp [updateTask]

/-- The function `updateInterp` changes only the JSON members, `m_running` and the effect log. -/
@[simp]
theorem status_updateInterp_frame (ext : External) (m : QJsonObject) (s : ApplicationStatus) :
    (updateInterp ext m s).m_statusUri = s.m_statusUri ∧
    (updateInterp ext m s).m_statusSocketState = s.m_statusSocketState ∧
    (updateInterp ext m s).m_connected = s.m_connected ∧
    (updateInterp ext m s).m_connectionState = s.m_connectionState ∧
    (updateInterp ext m s).m_error = s.m_error ∧
    (updateInterp ext m s).m_errorString = s.m_errorString ∧
    (updateInterp ext m s).m_synced = s.m_synced ∧
    (updateInterp ext m s).m_syncedChannels = s.m_syncedChannels ∧
    (updateInterp ext m s).m_channels = s.m_channels ∧
    (updateInterp ext m s).m_context = s.m_context ∧
    (updateInterp ext m s).m_statusSocket = s.m_statusSocket ∧
    (updateInterp ext m s).m_statusHeartbeatTimer = s.m_statusHeartbeatTimer ∧
    (updateInterp ext m s).m_subscriptions = s.m_subscriptions ∧
    (updateInterp ext m s).m_rx = s.m_rx ∧
    (updateInterp ext m s).fault = s.fault := by
  simp [updateInterp]
/-- A call through the status socket changes only the effect log and the fault mark. -/
@[simp]
theorem status_statusSocketCall_frame (e : Effect) (s : ApplicationStatus) :
    (statusSocketCall e s).m_statusUri = s.m_statusUri ∧
    (statusSocketCall e s).m_statusSocketState = s.m_statusSocketState ∧
    (statusSocketCall e s).m_connected = s.m_connected ∧
    (statusSocketCall e s).m_connectionState = s.m_connectionState ∧
    (statusSocketCall e s).m_error = s.m_error ∧
    (statusSocketCall e s).m_errorString = s.m_errorString ∧
    (statusSocketCall e s).m_synced = s.m_synced ∧
    (statusSocketCall e s).m_syncedChannels = s.m_syncedChannels ∧
    (statusSocketCall e s).m_channels = s.m_channels ∧
    (statusSocketCall e s).m_context = s.m_context ∧
    (statusSocketCall e s).m_statusSocket = s.m_statusSocket ∧
    (statusSocketCall e s).m_statusHeartbeatTimer = s.m_statusHeartbeatTimer ∧
    (statusSocketCall e s).m_subscriptions = s.m_subscriptions ∧
    (statusSocketCall e s).m_rx = s.m_rx ∧
    (statusSocketCall e s).fault = (s.fault || !s.m_statusSocket) := by
  unfold statusSocketCall
  cases h : s.m_statusSocket <;> simp

/-- What `startStatusHeartbeat` does to each member. -/
@[simp]
theorem status_startStatusHeartbeat_frame (interval : Int) (s : ApplicationStatus) :
    (startStatusHeartbeat interval s).m_statusUri = s.m_statusUri ∧
    (startStatusHeartbeat interval s).m_statusSocketState = s.m_statusSocketState ∧
    (startStatusHeartbeat interval s).m_connected = s.m_connected ∧
    (startStatusHeartbeat interval s).m_connectionState = s.m_connectionState ∧
    (startStatusHeartbeat interval s).m_error = s.m_error ∧
    (startStatusHeartbeat interval s).m_errorString = s.m_errorString ∧
    (startStatusHeartbeat interval s).m_synced = s.m_synced ∧
    (startStatusHeartbeat interval s).m_syncedChannels = s.m_syncedChannels ∧
    (startStatusHeartbeat interval s).m_channels = s.m_channels ∧
    (startStatusHeartbeat interval s).m_context = s.m_context ∧
    (startStatusHeartbeat interval s).m_statusSocket = s.m_statusSocket ∧
    (startStatusHeartbeat interval s).m_statusHeartbeatTimer = (if interval > 0 then { active := true, interval := interval }
      else { active := false, interval := s.m_statusHeartbeatTimer.interval }) ∧
    (startStatusHeartbeat interval s).m_subscriptions = s.m_subscriptions ∧
    (startStatusHeartbeat interval s).m_rx = s.m_rx ∧
    (startStatusHeartbeat interval s).fault = s.fault := by
  simp only [startStatusHeartbeat]
  split_ifs <;> simp [QTimer.stop, QTimer.start, QTimer.setInterval]

/-- What `stopStatusHeartbeat` does to each member. -/
@[simp]
theorem status_stopStatusHeartbeat_frame (s : ApplicationStatus) :
    (stopStatusHeartbeat s).m_statusUri = s.m_statusUri ∧
    (stopStatusHeartbeat s).m_statusSocketState = s.m_statusSocketState ∧
    (stopStatusHeartbeat s).m_connected = s.m_connected ∧
    (stopStatusHeartbeat s).m_connectionState = s.m_connectionState ∧
    (stopStatusHeartbeat s).m_error = s.m_error ∧
    (stopStatusHeartbeat s).m_errorString = s.m_errorString ∧
    (stopStatusHeartbeat s).m_synced = s.m_synced ∧
    (stopStatusHeartbeat s).m_syncedChannels = s.m_syncedChannels ∧
    (stopStatusHeartbeat s).m_channels = s.m_channels ∧
    (stopStatusHeartbeat s).m_context = s.m_context ∧
    (stopStatusHeartbeat s).m_statusSocket = s.m_statusSocket ∧
    (stopStatusHeartbeat s).m_statusHeartbeatTimer = { active := false, interval := s.m_statusHeartbeatTimer.interval } ∧
    (stopStatusHeartbeat s).m_subscriptions = s.m_subscriptions ∧
    (stopStatusHeartbeat s).m_rx = s.m_rx ∧
    (stopStatusHeartbeat s).fault = s.fault := by
  simp [stopStatusHeartbeat, QTimer.stop]

/-- Restarting a running timer leaves every member as it was: `refreshStatusHeartbeat`
is the identity on the state. -/
@[simp]
theorem status_refreshStatusHeartbeat_eq (s : ApplicationStatus) :
    refreshStatusHeartbeat s = s := by
  simp only [refreshStatusHeartbeat, QTimer.stop, QTimer.start]
  split_ifs with h
  · rcases s with ⟨_, _, _, _, _, _, _, _, _, _, _, _, ⟨a, i⟩, _, _, _, _, _, _, _, _, _⟩
    simp only at h
    subst h
    rfl
  · rfl

/-- What `updateSync` does to each member. -/
@[simp]
theorem status_updateSync_frame (c : StatusChannel) (s : ApplicationStatus) :
    (updateSync c s).m_statusUri = s.m_statusUri ∧
    (updateSync c s).m_statusSocketState = s.m_statusSocketState ∧
    (updateSync c s).m_connected = s.m_connected ∧
    (updateSync c s).m_connectionState = s.m_connectionState ∧
    (updateSync c s).m_error = s.m_error ∧
    (updateSync c s).m_errorString = s.m_errorString ∧
    (updateSync c s).m_synced = (if s.m_syncedChannels ||| c.flag = s.m_channels then true else s.m_synced) ∧
    (updateSync c s).m_syncedChannels = s.m_syncedChannels ||| c.flag ∧
    (updateSync c s).m_channels = s.m_channels ∧
    (updateSync c s).m_context = s.m_context ∧
    (updateSync c s).m_statusSocket = s.m_statusSocket ∧
    (updateSync c s).m_statusHeartbeatTimer = s.m_statusHeartbeatTimer ∧
    (updateSync c s).m_subscriptions = s.m_subscriptions ∧
    (updateSync c s).m_rx = s.m_rx ∧
    (updateSync c s).fault = s.fault := by
  simp only [updateSync]
  split_ifs <;> simp

/-- What `clearSync` does to each member. -/
@[simp]
theorem status_clearSync_frame (s : ApplicationStatus) :
    (clearSync s).m_statusUri = s.m_statusUri ∧
    (clearSync s).m_statusSocketState = s.m_statusSocketState ∧
    (clearSync s).m_connected = s.m_connected ∧
    (clearSync s).m_connectionState = s.m_connectionState ∧
    (clearSync s).m_error = s.m_error ∧
    (clearSync s).m_errorString = s.m_errorString ∧
    (clearSync s).m_synced = false ∧
    (clearSync s).m_syncedChannels = 0 ∧
    (clearSync s).m_channels = s.m_channels ∧
    (clearSync s).m_context = s.m_context ∧
    (clearSync s).m_statusSocket = s.m_statusSocket ∧
    (clearSync s).m_statusHeartbeatTimer = s.m_statusHeartbeatTimer ∧
    (clearSync s).m_subscriptions = s.m_subscriptions ∧
    (clearSync s).m_rx = s.m_rx ∧
    (clearSync s).fault = s.fault := by
  simp [clearSync]

/-- What `disconnectSockets` does to each member. -/
@[simp]
theorem status_disconnectSockets_frame (s : ApplicationStatus) :
    (disconnectSockets s).m_statusUri = s.m_statusUri ∧
    (disconnectSockets s).m_statusSocketState = Down ∧
    (disconnectSockets s).m_connected = s.m_connected ∧
    (disconnectSockets s).m_connectionState = s.m_connectionState ∧
    (disconnectSockets s).m_error = s.m_error ∧
    (disconnectSockets s).m_errorString = s.m_errorString ∧
    (disconnectSockets s).m_synced = s.m_synced ∧
    (disconnectSockets s).m_syncedChannels = s.m_syncedChannels ∧
    (disconnectSockets s).m_channels = s.m_channels ∧
    (disconnectSockets s).m_context = false ∧
    (disconnectSockets s).m_statusSocket = false ∧
    (disconnectSockets s).m_statusHeartbeatTimer = s.m_statusHeartbeatTimer ∧
    (disconnectSockets s).m_subscriptions = s.m_subscriptions ∧
    (disconnectSockets s).m_rx = s.m_rx ∧
    (disconnectSockets s).fault = s.fault := by
  rcases s with ⟨_, _, _, _, _, _, _, _, _, _, ctx, sock, _, _, _, _, _, _, _, _, _, _⟩
  cases ctx <;> cases sock <;>
    exact ⟨rfl, rfl, rfl, rfl, rfl, rfl, rfl, rfl, rfl, rfl, rfl, rfl, rfl, rfl, rfl⟩
/-- What `subscribe` does to each member: all five topics are appended, whatever `m_channels` is. -/
@[simp]
theorem status_subscribe_frame (s : ApplicationStatus) :
    (subscribe s).m_statusUri = s.m_statusUri ∧
    (subscribe s).m_statusSocketState = Trying ∧
    (subscribe s).m_connected = s.m_connected ∧
    (subscribe s).m_connectionState = s.m_connectionState ∧
    (subscribe s).m_error = s.m_error ∧
    (subscribe s).m_errorString = s.m_errorString ∧
    (subscribe s).m_synced = s.m_synced ∧
    (subscribe s).m_syncedChannels = s.m_syncedChannels ∧
    (subscribe s).m_channels = s.m_channels ∧
    (subscribe s).m_context = s.m_context ∧
    (subscribe s).m_statusSocket = s.m_statusSocket ∧
    (subscribe s).m_statusHeartbeatTimer = s.m_statusHeartbeatTimer ∧
    (subscribe s).m_subscriptions = s.m_subscriptions ++ ["motion", "config", "task", "io", "interp"] ∧
    (subscribe s).m_rx = s.m_rx ∧
    (subscribe s).fault = (s.fault || !s.m_statusSocket) := by
  simp only [subscribe, status_lor_flag_ne_zero, ne_eq, not_false_eq_true, if_true]
  simp

/-- What one round of the loop of `unsubscribe` does to each member. -/
@[simp]
theorem status_unsubscribeFrom_frame (ext : External) (s : ApplicationStatus) (subscription : String) :
    (unsubscribeFrom ext s subscription).m_statusUri = s.m_statusUri ∧
    (unsubscribeFrom ext s subscription).m_statusSocketState = s.m_statusSocketState ∧
    (unsubscribeFrom ext s subscription).m_connected = s.m_connected ∧
    (unsubscribeFrom ext s subscription).m_connectionState = s.m_connectionState ∧
    (unsubscribeFrom ext s subscription).m_error = s.m_error ∧
    (unsubscribeFrom ext s subscription).m_errorString = s.m_errorString ∧
    (unsubscribeFrom ext s subscription).m_synced = s.m_synced ∧
    (unsubscribeFrom ext s subscription).m_syncedChannels = s.m_syncedChannels ∧
    (unsubscribeFrom ext s subscription).m_channels = s.m_channels ∧
    (unsubscribeFrom ext s subscription).m_context = s.m_context ∧
    (unsubscribeFrom ext s subscription).m_statusSocket = s.m_statusSocket ∧
    (unsubscribeFrom ext s subscription).m_statusHeartbeatTimer = s.m_statusHeartbeatTimer ∧
    (unsubscribeFrom ext s subscription).m_subscriptions = s.m_subscriptions ∧
    (unsubscribeFrom ext s subscription).m_rx = s.m_rx ∧
    (unsubscribeFrom ext s subscription).fault = (s.fault || !s.m_statusSocket) := by
  simp only [unsubscribeFrom]
  split_ifs <;> simp

/-- What the loop of `unsubscribe` does to each member. -/
theorem status_unsubscribe_loop_frame (ext : External) (l : List String) (s : ApplicationStatus) :
    (l.foldl (unsubscribeFrom ext) s).m_statusUri = s.m_statusUri ∧
    (l.foldl (unsubscribeFrom ext) s).m_statusSocketState = s.m_statusSocketState ∧
    (l.foldl (unsubscribeFrom ext) s).m_connected = s.m_connected ∧
    (l.foldl (unsubscribeFrom ext) s).m_connectionState = s.m_connectionState ∧
    (l.foldl (unsubscribeFrom ext) s).m_error = s.m_error ∧
    (l.foldl (unsubscribeFrom ext) s).m_errorString = s.m_errorString ∧
    (l.foldl (unsubscribeFrom ext) s).m_synced = s.m_synced ∧
    (l.foldl (unsubscribeFrom ext) s).m_syncedChannels = s.m_syncedChannels ∧
    (l.foldl (unsubscribeFrom ext) s).m_channels = s.m_channels ∧
    (l.foldl (unsubscribeFrom ext) s).m_context = s.m_context ∧
    (l.foldl (unsubscribeFrom ext) s).m_statusSocket = s.m_statusSocket ∧
    (l.foldl (unsubscribeFrom ext) s).m_statusHeartbeatTimer = s.m_statusHeartbeatTimer ∧
    (l.foldl (unsubscribeFrom ext) s).m_subscriptions = s.m_subscriptions ∧
    (l.foldl (unsubscribeFrom ext) s).m_rx = s.m_rx ∧
    (l.foldl (unsubscribeFrom ext) s).fault = (s.fault || (!s.m_statusSocket && !l.isEmpty)) := by
  induction l generalizing s with
  | nil => simp
  | cons x xs ih =>
    simp only [List.foldl_cons]
    simp [ih]
    cases s.fault <;> cases s.m_statusSocket <;> simp

/-- What `unsubscribe` does to each member. -/
@[simp]
theorem status_unsubscribe_frame (ext : External) (s : ApplicationStatus) :
    (unsubscribe ext s).m_statusUri = s.m_statusUri ∧
    (unsubscribe ext s).m_statusSocketState = Down ∧
    (unsubscribe ext s).m_connected = s.m_connected ∧
    (unsubscribe ext s).m_connectionState = s.m_connectionState ∧
    (unsubscribe ext s).m_error = s.m_error ∧
    (unsubscribe ext s).m_errorString = s.m_errorString ∧
    (unsubscribe ext s).m_synced = s.m_synced ∧
    (unsubscribe ext s).m_syncedChannels = s.m_syncedChannels ∧
    (unsubscribe ext s).m_channels = s.m_channels ∧
    (unsubscribe ext s).m_context = s.m_context ∧
    (unsubscribe ext s).m_statusSocket = s.m_statusSocket ∧
    (unsubscribe ext s).m_statusHeartbeatTimer = s.m_statusHeartbeatTimer ∧
    (unsubscribe ext s).m_subscriptions = [] ∧
    (unsubscribe ext s).m_rx = s.m_rx ∧
    (unsubscribe ext s).fault = (s.fault || (!s.m_statusSocket && !s.m_subscriptions.isEmpty)) := by
  simp [unsubscribe, status_unsubscribe_loop_frame]

/-- What `cleanup` does to each member. -/
@[simp]
theorem status_cleanup_frame (ext : External) (s : ApplicationStatus) :
    (cleanup ext s).m_statusUri = s.m_statusUri ∧
    (cleanup ext s).m_statusSocketState = Down ∧
    (cleanup ext s).m_connected = s.m_connected ∧
    (cleanup ext s).m_connectionState = s.m_connectionState ∧
    (cleanup ext s).m_error = s.m_error ∧
    (cleanup ext s).m_errorString = s.m_errorString ∧
    (cleanup ext s).m_synced = s.m_synced ∧
    (cleanup ext s).m_syncedChannels = s.m_syncedChannels ∧
    (cleanup ext s).m_channels = s.m_channels ∧
    (cleanup ext s).m_context = false ∧
    (cleanup ext s).m_statusSocket = false ∧
    (cleanup ext s).m_statusHeartbeatTimer = s.m_statusHeartbeatTimer ∧
    (cleanup ext s).m_subscriptions = [] ∧
    (cleanup ext s).m_rx = s.m_rx ∧
    (cleanup ext s).fault = (s.fault || (s.m_connected && !s.m_statusSocket && !s.m_subscriptions.isEmpty)) := by
  simp only [cleanup]
  cases h : s.m_connected <;> simp [h]

/-- What `updateError` does to each member. -/
@[simp]
theorem status_updateError_frame (ext : External) (error : ConnectionError) (errorString : String) (s : ApplicationStatus) :
    (updateError ext error errorString s).m_statusUri = s.m_statusUri ∧
    (updateError ext error errorString s).m_statusSocketState = (if s.m_error ≠ error ∧ error ≠ NoError then Down else s.m_statusSocketState) ∧
    (updateError ext error errorString s).m_connected = s.m_connected ∧
    (updateError ext error errorString s).m_connectionState = s.m_connectionState ∧
    (updateError ext error errorString s).m_error = error ∧
    (updateError ext error errorString s).m_errorString = errorString ∧
    (updateError ext error errorString s).m_synced = s.m_synced ∧
    (updateError ext error errorString s).m_syncedChannels = s.m_syncedChannels ∧
    (updateError ext error errorString s).m_channels = s.m_channels ∧
    (updateError ext error errorString s).m_context = (if s.m_error ≠ error ∧ error ≠ NoError then false else s.m_context) ∧
    (updateError ext error errorString s).m_statusSocket = (if s.m_error ≠ error ∧ error ≠ NoError then false else s.m_statusSocket) ∧
    (updateError ext error errorString s).m_statusHeartbeatTimer = s.m_statusHeartbeatTimer ∧
    (updateError ext error errorString s).m_subscriptions = (if s.m_error ≠ error ∧ error ≠ NoError then [] else s.m_subscriptions) ∧
    (updateError ext error errorString s).m_rx = s.m_rx ∧
    (updateError ext error errorString s).fault = (if s.m_error ≠ error ∧ error ≠ NoError then
        (s.fault || (s.m_connected && !s.m_statusSocket && !s.m_subscriptions.isEmpty))
      else s.fault) := by
  simp only [updateError]
  split_ifs <;> simp_all
/-- What `updateState` does to each member. -/
@[simp]
theorem status_updateState_frame (ext : External) (state : State) (error : ConnectionError) (errorString : String) (s : ApplicationStatus) :
    (updateState ext state error errorString s).m_statusUri = s.m_statusUri ∧
    (updateState ext state error errorString s).m_statusSocketState = (if s.m_error ≠ error ∧ error ≠ NoError then Down else s.m_statusSocketState) ∧
    (updateState ext state error errorString s).m_connected = (if state ≠ s.m_connectionState then (if s.m_connected = true then false else decide (state = Connected))
      else s.m_connected) ∧
    (updateState ext state error errorString s).m_connectionState = state ∧
    (updateState ext state error errorString s).m_error = error ∧
    (updateState ext state error errorString s).m_errorString = errorString ∧
    (updateState ext state error errorString s).m_synced = (if state ≠ s.m_connectionState ∧ s.m_connected = true then false else s.m_synced) ∧
    (updateState ext state error errorString s).m_syncedChannels = (if state ≠ s.m_connectionState ∧ s.m_connected = true then 0 else s.m_syncedChannels) ∧
    (updateState ext state error errorString s).m_channels = s.m_channels ∧
    (updateState ext state error errorString s).m_context = (if s.m_error ≠ error ∧ error ≠ NoError then false else s.m_context) ∧
    (updateState ext state error errorString s).m_statusSocket = (if s.m_error ≠ error ∧ error ≠ NoError then false else s.m_statusSocket) ∧
    (updateState ext state error errorString s).m_statusHeartbeatTimer = (if state ≠ s.m_connectionState ∧ s.m_connected = true then
        { active := false, interval := s.m_statusHeartbeatTimer.interval }
      else s.m_statusHeartbeatTimer) ∧
    (updateState ext state error errorString s).m_subscriptions = (if s.m_error ≠ error ∧ error ≠ NoError then [] else s.m_subscriptions) ∧
    (updateState ext state error errorString s).m_rx = s.m_rx ∧
    (updateState ext state error errorString s).fault = (if s.m_error ≠ error ∧ error ≠ NoError then
        (s.fault || ((if state ≠ s.m_connectionState then (if s.m_connected = true then false else decide (state = Connected))
          else s.m_connected) && !s.m_statusSocket && !s.m_subscriptions.isEmpty))
      else s.fault) := by
  simp only [updateState]
  split_ifs <;> simp_all <;> tauto
/-- What one topic block of `statusMessageReceived` does to each member, for an update
function that touches only the JSON members. -/
theorem status_receiveChannel_frame (update : QJsonObject → ApplicationStatus → ApplicationStatus)
    (hupd : ∀ (m : QJsonObject) (s : ApplicationStatus),
      (update m s).m_statusUri = s.m_statusUri ∧
      (update m s).m_statusSocketState = s.m_statusSocketState ∧
      (update m s).m_connected = s.m_connected ∧
      (update m s).m_connectionState = s.m_connectionState ∧
      (update m s).m_error = s.m_error ∧
      (update m s).m_errorString = s.m_errorString ∧
      (update m s).m_synced = s.m_synced ∧
      (update m s).m_syncedChannels = s.m_syncedChannels ∧
      (update m s).m_channels = s.m_channels ∧
      (update m s).m_context = s.m_context ∧
      (update m s).m_statusSocket = s.m_statusSocket ∧
      (update m s).m_statusHeartbeatTimer = s.m_statusHeartbeatTimer ∧
      (update m s).m_subscriptions = s.m_subscriptions ∧
      (update m s).m_rx = s.m_rx ∧
      (update m s).fault = s.fault)
    (c : StatusChannel) (topic : String) (sub : Option QJsonObject) (s : ApplicationStatus) :
    (receiveChannel update c topic sub s).m_statusUri = s.m_statusUri ∧
    (receiveChannel update c topic sub s).m_statusSocketState = s.m_statusSocketState ∧
    (receiveChannel update c topic sub s).m_connected = s.m_connected ∧
    (receiveChannel update c topic sub s).m_connectionState = s.m_connectionState ∧
    (receiveChannel update c topic sub s).m_error = s.m_error ∧
    (receiveChannel update c topic sub s).m_errorString = s.m_errorString ∧
    (receiveChannel update c topic sub s).m_synced = (if sub.isSome = true ∧ topic = c.topic ∧ s.m_rx.type = some MT_EMCSTAT_FULL_UPDATE ∧
        s.m_syncedChannels ||| c.flag = s.m_channels then true else s.m_synced) ∧
    (receiveChannel update c topic sub s).m_syncedChannels = (if sub.isSome = true ∧ topic = c.topic ∧ s.m_rx.type = some MT_EMCSTAT_FULL_UPDATE then
        s.m_syncedChannels ||| c.flag else s.m_syncedChannels) ∧
    (receiveChannel update c topic sub s).m_channels = s.m_channels ∧
    (receiveChannel update c topic sub s).m_context = s.m_context ∧
    (receiveChannel update c topic sub s).m_statusSocket = s.m_statusSocket ∧
    (receiveChannel update c topic sub s).m_statusHeartbeatTimer = s.m_statusHeartbeatTimer ∧
    (receiveChannel update c topic sub s).m_subscriptions = s.m_subscriptions ∧
    (receiveChannel update c topic sub s).m_rx = s.m_rx ∧
    (receiveChannel update c topic sub s).fault = s.fault := by
  unfold receiveChannel
  cases sub with
  | none => simp
  | some m =>
    simp only [hupd]
    split_ifs <;> simp_all
/-- The five topic blocks change, besides the JSON members, only the synced mask and flag. -/
@[simp]
theorem status_receiveChannels_frame (ext : External) (topic : String) (s : ApplicationStatus) :
    (receiveChannels ext topic s).m_statusUri = s.m_statusUri ∧
    (receiveChannels ext topic s).m_statusSocketState = s.m_statusSocketState ∧
    (receiveChannels ext topic s).m_connected = s.m_connected ∧
    (receiveChannels ext topic s).m_connectionState = s.m_connectionState ∧
    (receiveChannels ext topic s).m_error = s.m_error ∧
    (receiveChannels ext topic s).m_errorString = s.m_errorString ∧
    (receiveChannels ext topic s).m_channels = s.m_channels ∧
    (receiveChannels ext topic s).m_context = s.m_context ∧
    (receiveChannels ext topic s).m_statusSocket = s.m_statusSocket ∧
    (receiveChannels ext topic s).m_statusHeartbeatTimer = s.m_statusHeartbeatTimer ∧
    (receiveChannels ext topic s).m_subscriptions = s.m_subscriptions ∧
    (receiveChannels ext topic s).m_rx = s.m_rx ∧
    (receiveChannels ext topic s).fault = s.fault := by
  have hM := status_receiveChannel_frame (updateMotion ext) (status_updateMotion_frame ext)
  have hC := status_receiveChannel_frame (updateConfig ext) (status_updateConfig_frame ext)
  have hI := status_receiveChannel_frame (updateIo ext) (status_updateIo_frame ext)
  have hT := status_receiveChannel_frame (updateTask ext) (status_updateTask_frame ext)
  have hP := status_receiveChannel_frame (updateInterp ext) (status_updateInterp_frame ext)
  simp only [receiveChannels, hM, hC, hI, hT, hP, and_self]

/-- An update that is not a full update leaves the synced mask and flag as they were. -/
theorem status_receiveChannels_incremental (ext : External) (topic : String)
    (s : ApplicationStatus) (h : s.m_rx.type ≠ some MT_EMCSTAT_FULL_UPDATE) :
    (receiveChannels ext topic s).m_syncedChannels = s.m_syncedChannels ∧
    (receiveChannels ext topic s).m_synced = s.m_synced := by
  have hM := status_receiveChannel_frame (updateMotion ext) (status_updateMotion_frame ext)
  have hC := status_receiveChannel_frame (updateConfig ext) (status_updateConfig_frame ext)
  have hI := status_receiveChannel_frame (updateIo ext) (status_updateIo_frame ext)
  have hT := status_receiveChannel_frame (updateTask ext) (status_updateTask_frame ext)
  have hP := status_receiveChannel_frame (updateInterp ext) (status_updateInterp_frame ext)
  simp only [receiveChannels, hM, hC, hI, hT, hP]
  simp [h]

/-- At most one of the five topic blocks fires: either the synced mask and flag are as
before, or the message is a full update for one channel, whose flag is or-ed into the
mask, and the flag is raised when the mask has become `m_channels`. -/
theorem status_receiveChannels_sync (ext : External) (topic : String) (s : ApplicationStatus) :
    ((receiveChannels ext topic s).m_syncedChannels = s.m_syncedChannels ∧
      (receiveChannels ext topic s).m_synced = s.m_synced) ∨
    ∃ c : StatusChannel, s.m_rx.type = some MT_EMCSTAT_FULL_UPDATE ∧ topic = c.topic ∧
      (c.sub s.m_rx).isSome = true ∧
      (receiveChannels ext topic s).m_syncedChannels = s.m_syncedChannels ||| c.flag ∧
      (receiveChannels ext topic s).m_synced =
        (if s.m_syncedChannels ||| c.flag = s.m_channels then true else s.m_synced) := by
  have hM := status_receiveChannel_frame (updateMotion ext) (status_updateMotion_frame ext)
  have hC := status_receiveChannel_frame (updateConfig ext) (status_updateConfig_frame ext)
  have hI := status_receiveChannel_frame (updateIo ext) (status_updateIo_frame ext)
  have hT := status_receiveChannel_frame (updateTask ext) (status_updateTask_frame ext)
  have hP := status_receiveChannel_frame (updateInterp ext) (status_updateInterp_frame ext)
  by_cases hf : s.m_rx.type = some MT_EMCSTAT_FULL_UPDATE
  swap
  · left
    exact status_receiveChannels_incremental ext topic s hf
  by_cases hMotion : topic = "motion"
  · subst hMotion
    cases hsub : s.m_rx.emc_status_motion with
    | none =>
      left
      simp [receiveChannels, hM, hC, hI, hT, hP, StatusChannel.topic, hsub]
    | some m =>
      right
      refine ⟨MotionChannel, hf, rfl, by simp [StatusChannel.sub, hsub], ?_⟩
      simp [receiveChannels, hM, hC, hI, hT, hP, StatusChannel.topic, StatusChannel.flag, hsub, hf]
  by_cases hConfig : topic = "config"
  · subst hConfig
    cases hsub : s.m_rx.emc_status_config with
    | none =>
      left
      simp [receiveChannels, hM, hC, hI, hT, hP, StatusChannel.topic, hsub]
    | some m =>
      right
      refine ⟨ConfigChannel, hf, rfl, by simp [StatusChannel.sub, hsub], ?_⟩
      simp [receiveChannels, hM, hC, hI, hT, hP, StatusChannel.topic, StatusChannel.flag, hsub, hf]
  by_cases hIo : topic = "io"
  · subst hIo
    cases hsub : s.m_rx.emc_status_io with
    | none =>
      left
      simp [receiveChannels, hM, hC, hI, hT, hP, StatusChannel.topic, hsub]
    | some m =>
      right
      refine ⟨IoChannel, hf, rfl, by simp [StatusChannel.sub, hsub], ?_⟩
      simp [receiveChannels, hM, hC, hI, hT, hP, StatusChannel.topic, StatusChannel.flag, hsub, hf]
  by_cases hTask : topic = "task"
  · subst hTask
    cases hsub : s.m_rx.emc_status_task with
    | none =>
      left
      simp [receiveChannels, hM, hC, hI, hT, hP, StatusChannel.topic, hsub]
    | some m =>
      right
      refine ⟨TaskChannel, hf, rfl, by simp [StatusChannel.sub, hsub], ?_⟩
      simp [receiveChannels, hM, hC, hI, hT, hP, StatusChannel.topic, StatusChannel.flag, hsub, hf]
  by_cases hInterp : topic = "interp"
  · subst hInterp
    cases hsub : s.m_rx.emc_status_interp with
    | none =>
      left
      simp [receiveChannels, hM, hC, hI, hT, hP, StatusChannel.topic, hsub]
    | some m =>
      right
      refine ⟨InterpChannel, hf, rfl, by simp [StatusChannel.sub, hsub], ?_⟩
      simp [receiveChannels, hM, hC, hI, hT, hP, StatusChannel.topic, StatusChannel.flag, hsub, hf]
  left
  simp [receiveChannels, hM, hC, hI, hT, hP, StatusChannel.topic, hMotion, hConfig, hIo, hTask,
    hInterp]
/-- What `stop` does to each member. -/
@[simp]
theorem status_stop_frame (ext : External) (s : ApplicationStatus) :
    (stop ext s).m_statusUri = s.m_statusUri ∧
    (stop ext s).m_statusSocketState = Down ∧
    (stop ext s).m_connected = (if Disconnected ≠ s.m_connectionState then false else s.m_connected) ∧
    (stop ext s).m_connectionState = Disconnected ∧
    (stop ext s).m_error = NoError ∧
    (stop ext s).m_errorString = "" ∧
    (stop ext s).m_synced = (if Disconnected ≠ s.m_connectionState ∧ s.m_connected = true then false else s.m_synced) ∧
    (stop ext s).m_syncedChannels = (if Disconnected ≠ s.m_connectionState ∧ s.m_connected = true then 0 else s.m_syncedChannels) ∧
    (stop ext s).m_channels = s.m_channels ∧
    (stop ext s).m_context = false ∧
    (stop ext s).m_statusSocket = false ∧
    (stop ext s).m_statusHeartbeatTimer = (if Disconnected ≠ s.m_connectionState ∧ s.m_connected = true then
        { active := false, interval := s.m_statusHeartbeatTimer.interval }
      else s.m_statusHeartbeatTimer) ∧
    (stop ext s).m_subscriptions = [] ∧
    (stop ext s).m_rx = s.m_rx ∧
    (stop ext s).fault = (s.fault || (s.m_connected && !s.m_statusSocket && !s.m_subscriptions.isEmpty)) := by
  simp only [stop, updateStateTo, status_updateState_frame, status_cleanup_frame]
  split_ifs <;> simp_all

/-- What `statusHeartbeatTimerTick` does to each member. -/
@[simp]
theorem status_statusHeartbeatTimerTick_frame (ext : External) (s : ApplicationStatus) :
    (statusHeartbeatTimerTick ext s).m_statusUri = s.m_statusUri ∧
    (statusHeartbeatTimerTick ext s).m_statusSocketState = Down ∧
    (statusHeartbeatTimerTick ext s).m_connected = (if Timeout ≠ s.m_connectionState then false else s.m_connected) ∧
    (statusHeartbeatTimerTick ext s).m_connectionState = Timeout ∧
    (statusHeartbeatTimerTick ext s).m_error = NoError ∧
    (statusHeartbeatTimerTick ext s).m_errorString = "" ∧
    (statusHeartbeatTimerTick ext s).m_synced = (if Timeout ≠ s.m_connectionState ∧ s.m_connected = true then false else s.m_synced) ∧
    (statusHeartbeatTimerTick ext s).m_syncedChannels = (if Timeout ≠ s.m_connectionState ∧ s.m_connected = true then 0 else s.m_syncedChannels) ∧
    (statusHeartbeatTimerTick ext s).m_channels = s.m_channels ∧
    (statusHeartbeatTimerTick ext s).m_context = s.m_context ∧
    (statusHeartbeatTimerTick ext s).m_statusSocket = s.m_statusSocket ∧
    (statusHeartbeatTimerTick ext s).m_statusHeartbeatTimer = (if Timeout ≠ s.m_connectionState ∧ s.m_connected = true then
        { active := false, interval := s.m_statusHeartbeatTimer.interval }
      else s.m_statusHeartbeatTimer) ∧
    (statusHeartbeatTimerTick ext s).m_subscriptions = s.m_subscriptions ∧
    (statusHeartbeatTimerTick ext s).m_rx = s.m_rx ∧
    (statusHeartbeatTimerTick ext s).fault = s.fault := by
  simp only [statusHeartbeatTimerTick, updateStateTo, status_updateState_frame]
  split_ifs <;> simp_all

/-- What `pollError` does to each member. -/
@[simp]
theorem status_pollError_frame (ext : External) (errorNum : Int) (errorMsg : String) (s : ApplicationStatus) :
    (pollError ext errorNum errorMsg s).m_statusUri = s.m_statusUri ∧
    (pollError ext errorNum errorMsg s).m_statusSocketState = (if s.m_error ≠ SocketError then Down else s.m_statusSocketState) ∧
    (pollError ext errorNum errorMsg s).m_connected = (if Error ≠ s.m_connectionState then false else s.m_connected) ∧
    (pollError ext errorNum errorMsg s).m_connectionState = Error ∧
    (pollError ext errorNum errorMsg s).m_error = SocketError ∧
    (pollError ext errorNum errorMsg s).m_errorString = errorText errorNum errorMsg ∧
    (pollError ext errorNum errorMsg s).m_synced = (if Error ≠ s.m_connectionState ∧ s.m_connected = true then false else s.m_synced) ∧
    (pollError ext errorNum errorMsg s).m_syncedChannels = (if Error ≠ s.m_connectionState ∧ s.m_connected = true then 0 else s.m_syncedChannels) ∧
    (pollError ext errorNum errorMsg s).m_channels = s.m_channels ∧
    (pollError ext errorNum errorMsg s).m_context = (if s.m_error ≠ SocketError then false else s.m_context) ∧
    (pollError ext errorNum errorMsg s).m_statusSocket = (if s.m_error ≠ SocketError then false else s.m_statusSocket) ∧
    (pollError ext errorNum errorMsg s).m_statusHeartbeatTimer = (if Error ≠ s.m_connectionState ∧ s.m_connected = true then
        { active := false, interval := s.m_statusHeartbeatTimer.interval }
      else s.m_statusHeartbeatTimer) ∧
    (pollError ext errorNum errorMsg s).m_subscriptions = (if s.m_error ≠ SocketError then [] else s.m_subscriptions) ∧
    (pollError ext errorNum errorMsg s).m_rx = s.m_rx ∧
    (pollError ext errorNum errorMsg s).fault = (if s.m_error ≠ SocketError then
        (s.fault || ((if Error ≠ s.m_connectionState then false else s.m_connected) &&
          !s.m_statusSocket && !s.m_subscriptions.isEmpty))
      else s.fault) := by
  simp only [pollError, status_updateState_frame]
  split_ifs <;> simp_all

/-- The function `start` when the socket connects: the state is set to `Connecting`, the context and
the socket are created, and the topics are subscribed. -/
theorem status_start_ok_eq (ext : External) (s : ApplicationStatus) :
    start ext none s =
      subscribe
        { updateState ext Connecting NoError "" s with
          m_context := true
          effects := (updateState ext Connecting NoError "" s).effects ++
            [Effect.contextStart, Effect.connectTo Socket.status
              (updateState ext Connecting NoError "" s).m_statusUri]
          m_statusSocket := true } := by
  simp [start, connectSockets, updateStateTo]

/-- The function `start` when connecting throws: the state is set to `Connecting`, the context and the
socket are created, and the error is recorded by `updateState`. -/
theorem status_start_fail_eq (ext : External) (e : ZmqError) (s : ApplicationStatus) :
    start ext (some e) s =
      updateState ext Error SocketError (errorText e.num e.what)
        { updateState ext Connecting NoError "" s with
          m_context := true
          effects := (updateState ext Connecting NoError "" s).effects ++ [Effect.contextStart]
          m_statusSocket := true } := by
  simp [start, connectSockets, updateStateTo]

/-- What `start` does to each member when the socket connects. -/
@[simp]
theorem status_start_ok_frame (ext : External) (s : ApplicationStatus) :
    (start ext none s).m_statusUri = s.m_statusUri ∧
    (start ext none s).m_statusSocketState = Trying ∧
    (start ext none s).m_connected = (if Connecting ≠ s.m_connectionState then false else s.m_connected) ∧
    (start ext none s).m_connectionState = Connecting ∧
    (start ext none s).m_error = NoError ∧
    (start ext none s).m_errorString = "" ∧
    (start ext none s).m_synced = (if Connecting ≠ s.m_connectionState ∧ s.m_connected = true then false else s.m_synced) ∧
    (start ext none s).m_syncedChannels = (if Connecting ≠ s.m_connectionState ∧ s.m_connected = true then 0 else s.m_syncedChannels) ∧
    (start ext none s).m_channels = s.m_channels ∧
    (start ext none s).m_context = true ∧
    (start ext none s).m_statusSocket = true ∧
    (start ext none s).m_statusHeartbeatTimer = (if Connecting ≠ s.m_connectionState ∧ s.m_connected = true then
        { active := false, interval := s.m_statusHeartbeatTimer.interval }
      else s.m_statusHeartbeatTimer) ∧
    (start ext none s).m_subscriptions = s.m_subscriptions ++ ["motion", "config", "task", "io", "interp"] ∧
    (start ext none s).m_rx = s.m_rx ∧
    (start ext none s).fault = s.fault := by
  rw [status_start_ok_eq]
  simp only [status_subscribe_frame, status_updateState_frame]
  split_ifs <;> simp_all

/-- What `start` does to each member when connecting throws. -/
@[simp]
theorem status_start_fail_frame (ext : External) (e : ZmqError) (s : ApplicationStatus) :
    (start ext (some e) s).m_statusUri = s.m_statusUri ∧
    (start ext (some e) s).m_statusSocketState = Down ∧
    (start ext (some e) s).m_connected = false ∧
    (start ext (some e) s).m_connectionState = Error ∧
    (start ext (some e) s).m_error = SocketError ∧
    (start ext (some e) s).m_errorString = errorText e.num e.what ∧
    (start ext (some e) s).m_synced = (if s.m_connected = true then false else s.m_synced) ∧
    (start ext (some e) s).m_syncedChannels = (if s.m_connected = true then 0 else s.m_syncedChannels) ∧
    (start ext (some e) s).m_channels = s.m_channels ∧
    (start ext (some e) s).m_context = false ∧
    (start ext (some e) s).m_statusSocket = false ∧
    (start ext (some e) s).m_statusHeartbeatTimer = (if s.m_connected = true then
        { active := false, interval := s.m_statusHeartbeatTimer.interval }
      else s.m_statusHeartbeatTimer) ∧
    (start ext (some e) s).m_subscriptions = [] ∧
    (start ext (some e) s).m_rx = s.m_rx ∧
    (start ext (some e) s).fault = s.fault := by
  rw [status_start_fail_eq]
  simp only [status_updateState_frame]
  cases hst : s.m_connectionState <;> cases hc : s.m_connected <;> simp
/-- The definition of `statusMessageReceived`, with the five topic blocks taken together. -/
theorem status_statusMessageReceived_eq (ext : External) (topic : String) (rx : Container)
    (s : ApplicationStatus) :
    statusMessageReceived ext topic rx s =
      (let s := { s with m_rx := rx }
       if s.m_rx.type = some MT_EMCSTAT_FULL_UPDATE
           ∨ s.m_rx.type = some MT_EMCSTAT_INCREMENTAL_UPDATE then
         let s := receiveChannels ext topic s
         if s.m_rx.type = some MT_EMCSTAT_FULL_UPDATE then
           let s :=
             if s.m_statusSocketState ≠ Up then
               updateStateTo ext Connected { s with m_statusSocketState := Up }
             else s
           match s.m_rx.pparams with
           | some pparams => startStatusHeartbeat (pparams.keepalive_timer * 2) s
           | none => s
         else refreshStatusHeartbeat s
       else if s.m_rx.type = some MT_PING then
         if s.m_statusSocketState = Up then refreshStatusHeartbeat s
         else subscribe (unsubscribe ext (updateStateTo ext Connecting s))
       else s) := rfl

/-- What an incremental update does to each member: only the received envelope is stored
(and the JSON members updated). -/
theorem status_received_incremental_frame (ext : External) (topic : String) (rx : Container) (s : ApplicationStatus)
    (h : rx.type = some MT_EMCSTAT_INCREMENTAL_UPDATE) :
    (statusMessageReceived ext topic rx s).m_statusUri = s.m_statusUri ∧
    (statusMessageReceived ext topic rx s).m_statusSocketState = s.m_statusSocketState ∧
    (statusMessageReceived ext topic rx s).m_connected = s.m_connected ∧
    (statusMessageReceived ext topic rx s).m_connectionState = s.m_connectionState ∧
    (statusMessageReceived ext topic rx s).m_error = s.m_error ∧
    (statusMessageReceived ext topic rx s).m_errorString = s.m_errorString ∧
    (statusMessageReceived ext topic rx s).m_synced = s.m_synced ∧
    (statusMessageReceived ext topic rx s).m_syncedChannels = s.m_syncedChannels ∧
    (statusMessageReceived ext topic rx s).m_channels = s.m_channels ∧
    (statusMessageReceived ext topic rx s).m_context = s.m_context ∧
    (statusMessageReceived ext topic rx s).m_statusSocket = s.m_statusSocket ∧
    (statusMessageReceived ext topic rx s).m_statusHeartbeatTimer = s.m_statusHeartbeatTimer ∧
    (statusMessageReceived ext topic rx s).m_subscriptions = s.m_subscriptions ∧
    (statusMessageReceived ext topic rx s).m_rx = rx ∧
    (statusMessageReceived ext topic rx s).fault = s.fault := by
  have hinc := status_receiveChannels_incremental ext topic { s with m_rx := rx } (by simp [h])
  rw [status_statusMessageReceived_eq]
  simp [h, hinc]

/-- What a ping does to each member while the socket state is `Up`: only the received
envelope is stored. -/
theorem status_received_ping_up_frame (ext : External) (topic : String) (rx : Container) (s : ApplicationStatus)
    (h : rx.type = some MT_PING) (hup : s.m_statusSocketState = Up) :
    (statusMessageReceived ext topic rx s).m_statusUri = s.m_statusUri ∧
    (statusMessageReceived ext topic rx s).m_statusSocketState = s.m_statusSocketState ∧
    (statusMessageReceived ext topic rx s).m_connected = s.m_connected ∧
    (statusMessageReceived ext topic rx s).m_connectionState = s.m_connectionState ∧
    (statusMessageReceived ext topic rx s).m_error = s.m_error ∧
    (statusMessageReceived ext topic rx s).m_errorString = s.m_errorString ∧
    (statusMessageReceived ext topic rx s).m_synced = s.m_synced ∧
    (statusMessageReceived ext topic rx s).m_syncedChannels = s.m_syncedChannels ∧
    (statusMessageReceived ext topic rx s).m_channels = s.m_channels ∧
    (statusMessageReceived ext topic rx s).m_context = s.m_context ∧
    (statusMessageReceived ext topic rx s).m_statusSocket = s.m_statusSocket ∧
    (statusMessageReceived ext topic rx s).m_statusHeartbeatTimer = s.m_statusHeartbeatTimer ∧
    (statusMessageReceived ext topic rx s).m_subscriptions = s.m_subscriptions ∧
    (statusMessageReceived ext topic rx s).m_rx = rx ∧
    (statusMessageReceived ext topic rx s).fault = s.fault := by
  rw [status_statusMessageReceived_eq]
  simp [h, hup]

/-- What a ping does to each member while the socket state is not `Up`: the state becomes
`Connecting` and the five topics are subscribed afresh. -/
theorem status_received_ping_frame (ext : External) (topic : String) (rx : Container) (s : ApplicationStatus)
    (h : rx.type = some MT_PING) (hup : s.m_statusSocketState ≠ Up) :
    (statusMessageReceived ext topic rx s).m_statusUri = s.m_statusUri ∧
    (statusMessageReceived ext topic rx s).m_statusSocketState = Trying ∧
    (statusMessageReceived ext topic rx s).m_connected = (if Connecting ≠ s.m_connectionState then false else s.m_connected) ∧
    (statusMessageReceived ext topic rx s).m_connectionState = Connecting ∧
    (statusMessageReceived ext topic rx s).m_error = NoError ∧
    (statusMessageReceived ext topic rx s).m_errorString = "" ∧
    (statusMessageReceived ext topic rx s).m_synced = (if Connecting ≠ s.m_connectionState ∧ s.m_connected = true then false else s.m_synced) ∧
    (statusMessageReceived ext topic rx s).m_syncedChannels = (if Connecting ≠ s.m_connectionState ∧ s.m_connected = true then 0 else s.m_syncedChannels) ∧
    (statusMessageReceived ext topic rx s).m_channels = s.m_channels ∧
    (statusMessageReceived ext topic rx s).m_context = s.m_context ∧
    (statusMessageReceived ext topic rx s).m_statusSocket = s.m_statusSocket ∧
    (statusMessageReceived ext topic rx s).m_statusHeartbeatTimer = (if Connecting ≠ s.m_connectionState ∧ s.m_connected = true then
        { active := false, interval := s.m_statusHeartbeatTimer.interval }
      else s.m_statusHeartbeatTimer) ∧
    (statusMessageReceived ext topic rx s).m_subscriptions = ["motion", "config", "task", "io", "interp"] ∧
    (statusMessageReceived ext topic rx s).m_rx = rx ∧
    (statusMessageReceived ext topic rx s).fault = (s.fault || !s.m_statusSocket) := by
  rw [status_statusMessageReceived_eq]
  simp only [h, hup, updateStateTo, status_subscribe_frame, status_unsubscribe_frame,
    status_updateState_frame]
  cases hst : s.m_connectionState <;> cases hc : s.m_connected <;> cases hf : s.fault <;>
    cases hk : s.m_statusSocket <;> simp

/-- A message of any other type only replaces the stored envelope. -/
theorem status_received_other_frame (ext : External) (topic : String) (rx : Container) (s : ApplicationStatus)
    (h1 : rx.type ≠ some MT_EMCSTAT_FULL_UPDATE)
    (h2 : rx.type ≠ some MT_EMCSTAT_INCREMENTAL_UPDATE) (h3 : rx.type ≠ some MT_PING) :
    (statusMessageReceived ext topic rx s).m_statusUri = s.m_statusUri ∧
    (statusMessageReceived ext topic rx s).m_statusSocketState = s.m_statusSocketState ∧
    (statusMessageReceived ext topic rx s).m_connected = s.m_connected ∧
    (statusMessageReceived ext topic rx s).m_connectionState = s.m_connectionState ∧
    (statusMessageReceived ext topic rx s).m_error = s.m_error ∧
    (statusMessageReceived ext topic rx s).m_errorString = s.m_errorString ∧
    (statusMessageReceived ext topic rx s).m_synced = s.m_synced ∧
    (statusMessageReceived ext topic rx s).m_syncedChannels = s.m_syncedChannels ∧
    (statusMessageReceived ext topic rx s).m_channels = s.m_channels ∧
    (statusMessageReceived ext topic rx s).m_context = s.m_context ∧
    (statusMessageReceived ext topic rx s).m_statusSocket = s.m_statusSocket ∧
    (statusMessageReceived ext topic rx s).m_statusHeartbeatTimer = s.m_statusHeartbeatTimer ∧
    (statusMessageReceived ext topic rx s).m_subscriptions = s.m_subscriptions ∧
    (statusMessageReceived ext topic rx s).m_rx = rx ∧
    (statusMessageReceived ext topic rx s).fault = s.fault := by
  rw [status_statusMessageReceived_eq]
  simp [h1, h2, h3]

/-- What a full update does to each member: the socket state becomes `Up`, the state
becomes `Connected` when the socket state was not `Up`, and the heartbeat timer is started
from the protocol parameters. -/
theorem status_received_full_frame (ext : External) (topic : String) (rx : Container) (s : ApplicationStatus)
    (h : rx.type = some MT_EMCSTAT_FULL_UPDATE) :
    (statusMessageReceived ext topic rx s).m_statusUri = s.m_statusUri ∧
    (statusMessageReceived ext topic rx s).m_statusSocketState = Up ∧
    (statusMessageReceived ext topic rx s).m_connected = (if s.m_statusSocketState ≠ Up then
        (if Connected ≠ s.m_connectionState then !s.m_connected else s.m_connected)
      else s.m_connected) ∧
    (statusMessageReceived ext topic rx s).m_connectionState = (if s.m_statusSocketState ≠ Up then Connected else s.m_connectionState) ∧
    (statusMessageReceived ext topic rx s).m_error = (if s.m_statusSocketState ≠ Up then NoError else s.m_error) ∧
    (statusMessageReceived ext topic rx s).m_errorString = (if s.m_statusSocketState ≠ Up then "" else s.m_errorString) ∧
    (statusMessageReceived ext topic rx s).m_synced = (if s.m_statusSocketState ≠ Up ∧ Connected ≠ s.m_connectionState ∧ s.m_connected = true then
        false else (receiveChannels ext topic { s with m_rx := rx }).m_synced) ∧
    (statusMessageReceived ext topic rx s).m_syncedChannels = (if s.m_statusSocketState ≠ Up ∧ Connected ≠ s.m_connectionState ∧ s.m_connected = true then
        0 else (receiveChannels ext topic { s with m_rx := rx }).m_syncedChannels) ∧
    (statusMessageReceived ext topic rx s).m_channels = s.m_channels ∧
    (statusMessageReceived ext topic rx s).m_context = s.m_context ∧
    (statusMessageReceived ext topic rx s).m_statusSocket = s.m_statusSocket ∧
    (statusMessageReceived ext topic rx s).m_statusHeartbeatTimer = (match rx.pparams with
      | some pparams =>
        if pparams.keepalive_timer * 2 > 0 then
          { active := true, interval := pparams.keepalive_timer * 2 }
        else { active := false, interval := (if s.m_statusSocketState ≠ Up ∧ Connected ≠ s.m_connectionState ∧ s.m_connected = true then
          { active := false, interval := s.m_statusHeartbeatTimer.interval }
        else s.m_statusHeartbeatTimer).interval }
      | none =>
        (if s.m_statusSocketState ≠ Up ∧ Connected ≠ s.m_connectionState ∧ s.m_connected = true then
          { active := false, interval := s.m_statusHeartbeatTimer.interval }
        else s.m_statusHeartbeatTimer)) ∧
    (statusMessageReceived ext topic rx s).m_subscriptions = s.m_subscriptions ∧
    (statusMessageReceived ext topic rx s).m_rx = rx ∧
    (statusMessageReceived ext topic rx s).fault = s.fault := by
  rw [status_statusMessageReceived_eq]
  simp only [h, updateStateTo, true_or, if_true, status_receiveChannels_frame]
  by_cases hu : s.m_statusSocketState = Up
  · cases hp : rx.pparams <;> simp [hp, hu]
  · cases hp : rx.pparams <;> cases hst : s.m_connectionState <;> cases hc : s.m_connected <;>
      simp [hp, hu, hst, hc]
/-- Or-ing a channel flag into the full mask gives the full mask. -/
theorem status_allChannels_lor_flag (c : StatusChannel) : allChannels ||| c.flag = allChannels := by
  cases c <;> decide

/-- The invariant is kept by every enabled event. -/
theorem status_invariant_step (ext : External) (s : ApplicationStatus) (e : Event)
    (hinv : Invariant s) (hen : e.enabled s = true) : Invariant (step ext e s) := by
  obtain ⟨h1, h2, h3, h4, h5, h6, h7, h8, h9, h10, h11⟩ := hinv
  cases e with
  | start connectError =>
    cases connectError with
    | none =>
      simp only [step, Invariant, status_start_ok_frame]
      cases hst : s.m_connectionState <;> simp_all
    | some err =>
      simp only [step, Invariant, status_start_fail_frame]
      cases hst : s.m_connectionState <;> simp_all
  | stop =>
    simp only [step, Invariant, status_stop_frame]
    cases hst : s.m_connectionState <;> simp_all
  | statusMessageReceived topic rx =>
    simp only [Event.enabled] at hen
    simp only [step, Invariant]
    by_cases hF : rx.type = some MT_EMCSTAT_FULL_UPDATE
    · have hs := status_receiveChannels_sync ext topic { s with m_rx := rx }
      simp only [status_received_full_frame ext topic rx s hF]
      rcases hs with ⟨hm, hy⟩ | ⟨c, _, _, _, hm, hy⟩
      · simp only [hm, hy]
        cases hp : rx.pparams <;> cases hu : s.m_statusSocketState <;>
          cases hst : s.m_connectionState <;> simp_all
      · simp only [hm, hy]
        have hall := status_allChannels_lor_flag c
        cases hp : rx.pparams <;> cases hu : s.m_statusSocketState <;>
          cases hst : s.m_connectionState <;> simp_all <;>
          (rintro (h | h)
           · exact h
           · rw [h8 h]
             exact hall)
    · by_cases hI : rx.type = some MT_EMCSTAT_INCREMENTAL_UPDATE
      · simp only [status_received_incremental_frame ext topic rx s hI]
        exact ⟨h1, h2, h3, h4, h5, h6, h7, h8, h9, h10, h11⟩
      · by_cases hP : rx.type = some MT_PING
        · by_cases hup : s.m_statusSocketState = Up
          · simp only [status_received_ping_up_frame ext topic rx s hP hup]
            exact ⟨h1, h2, h3, h4, h5, h6, h7, h8, h9, h10, h11⟩
          · simp only [status_received_ping_frame ext topic rx s hP hup]
            cases hst : s.m_connectionState <;> simp_all
        · simp only [status_received_other_frame ext topic rx s hF hI hP]
          exact ⟨h1, h2, h3, h4, h5, h6, h7, h8, h9, h10, h11⟩
  | pollError errorNum errorMsg =>
    simp only [step, Invariant, status_pollError_frame]
    cases hst : s.m_connectionState <;> cases he : s.m_error <;>
      simp_all
  | statusHeartbeatTimerTick =>
    simp only [step, Invariant, status_statusHeartbeatTimerTick_frame]
    cases hst : s.m_connectionState <;> simp_all

/-- The constructed state satisfies the invariant. -/
theorem status_invariant_new (ext : External) : Invariant (new ext) := by
  simp [Invariant, new, allChannels]

/-- Every reachable state satisfies the invariant. -/
theorem status_reachable_invariant (ext : External) (s : ApplicationStatus)
    (h : Reachable ext s) : Invariant s := by
  induction h with
  | init => exact status_invariant_new ext
  | step s e _ hen ih => exact status_invariant_step ext s e ih hen
/-- Every event keeps the coherence of the members, enabled or not. -/
theorem status_coherent_step (ext : External) (s : ApplicationStatus) (e : Event)
    (hinv : Coherent s) : Coherent (step ext e s) := by
  have hinv0 := hinv
  obtain ⟨h1, h2, h3, h4⟩ := hinv
  cases e with
  | start connectError =>
    cases connectError with
    | none =>
      simp only [step, Coherent, status_start_ok_frame]
      cases hst : s.m_connectionState <;> simp_all
    | some err =>
      simp only [step, Coherent, status_start_fail_frame]
      cases hst : s.m_connectionState <;> simp_all
  | stop =>
    simp only [step, Coherent, status_stop_frame]
    cases hst : s.m_connectionState <;> simp_all
  | statusMessageReceived topic rx =>
    simp only [step, Coherent]
    by_cases hF : rx.type = some MT_EMCSTAT_FULL_UPDATE
    · simp only [status_received_full_frame ext topic rx s hF]
      cases hu : s.m_statusSocketState <;> cases hst : s.m_connectionState <;> simp_all
    · by_cases hI : rx.type = some MT_EMCSTAT_INCREMENTAL_UPDATE
      · simp only [status_received_incremental_frame ext topic rx s hI]
        exact hinv0
      · by_cases hP : rx.type = some MT_PING
        · by_cases hup : s.m_statusSocketState = Up
          · simp only [status_received_ping_up_frame ext topic rx s hP hup]
            exact hinv0
          · simp only [status_received_ping_frame ext topic rx s hP hup]
            cases hst : s.m_connectionState <;> simp_all
        · simp only [status_received_other_frame ext topic rx s hF hI hP]
          exact hinv0
  | pollError errorNum errorMsg =>
    simp only [step, Coherent, status_pollError_frame]
    cases hst : s.m_connectionState <;> cases he : s.m_error <;> simp_all
  | statusHeartbeatTimerTick =>
    simp only [step, Coherent, status_statusHeartbeatTimerTick_frame]
    cases hst : s.m_connectionState <;> simp_all

/-- The constructed state is coherent. -/
theorem status_coherent_new (ext : External) : Coherent (new ext) := by
  simp [Coherent, new]

/-- The state after any sequence of events from a coherent state is coherent. -/
theorem status_coherent_run (ext : External) (es : List Event) :
    ∀ s : ApplicationStatus, Coherent s → Coherent (run ext es s) := by
  induction es with
  | nil =>
    intro s hs
    exact hs
  | cons e es ih =>
    intro s hs
    exact ih (step ext e s) (status_coherent_step ext s e hs)

/-- Every reachable state is the state after a sequence of events from construction. -/
theorem status_reachable_is_run (ext : External) (s : ApplicationStatus)
    (h : Reachable ext s) : ∃ es : List Event, s = run ext es (new ext) := by
  induction h with
  | init => exact ⟨[], rfl⟩
  | step s e _ _ ih =>
    obtain ⟨es, hes⟩ := ih
    refine ⟨es ++ [e], ?_⟩
    rw [hes]
    simp [run, List.foldl_append]

/-- What one event does to the synced mask and flag: they are cleared, or kept, or the
event is a full update for a channel whose flag is or-ed into the mask, the flag being
raised when the mask has become `m_channels`.  `m_channels` itself is never changed. -/
theorem status_step_sync (ext : External) (e : Event) (s : ApplicationStatus) :
    (step ext e s).m_channels = s.m_channels ∧
    (((step ext e s).m_syncedChannels = 0 ∧ (step ext e s).m_synced = false) ∨
     ((step ext e s).m_syncedChannels = s.m_syncedChannels ∧
       (step ext e s).m_synced = s.m_synced) ∨
     ∃ c : StatusChannel, e.isFullUpdateFor c ∧
       (step ext e s).m_syncedChannels = s.m_syncedChannels ||| c.flag ∧
       (step ext e s).m_synced =
         (if s.m_syncedChannels ||| c.flag = s.m_channels then true else s.m_synced)) := by
  cases e with
  | start connectError =>
    cases connectError with
    | none =>
      simp only [step, status_start_ok_frame, true_and]
      split_ifs <;> simp
    | some err =>
      simp only [step, status_start_fail_frame, true_and]
      split_ifs <;> simp
  | stop =>
    simp only [step, status_stop_frame, true_and]
    split_ifs <;> simp
  | statusMessageReceived topic rx =>
    simp only [step]
    by_cases hF : rx.type = some MT_EMCSTAT_FULL_UPDATE
    · have hs := status_receiveChannels_sync ext topic { s with m_rx := rx }
      simp only [status_received_full_frame ext topic rx s hF, true_and]
      split_ifs
      · simp
      · rcases hs with ⟨hm, hy⟩ | ⟨c, _, ht, hsub, hm, hy⟩
        · right
          left
          exact ⟨hm, hy⟩
        · right
          right
          exact ⟨c, ⟨hF, ht, hsub⟩, hm, hy⟩
    · by_cases hI : rx.type = some MT_EMCSTAT_INCREMENTAL_UPDATE
      · simp [status_received_incremental_frame ext topic rx s hI]
      · by_cases hP : rx.type = some MT_PING
        · by_cases hup : s.m_statusSocketState = Up
          · simp [status_received_ping_up_frame ext topic rx s hP hup]
          · simp only [status_received_ping_frame ext topic rx s hP hup, true_and]
            split_ifs <;> simp
        · simp [status_received_other_frame ext topic rx s hF hI hP]
  | pollError errorNum errorMsg =>
    simp only [step, status_pollError_frame, true_and]
    split_ifs <;> simp
  | statusHeartbeatTimerTick =>
    simp only [step, status_statusHeartbeatTimerTick_frame, true_and]
    split_ifs <;> simp

/-- Along a run, the aggregate flag is raised only when the mask covers `m_channels`,
and every bit of the mask either was set before the run (`P`) or comes from a full
update for its channel in the run. -/
theorem status_run_sync (ext : External) (es : List Event) :
    ∀ (s : ApplicationStatus) (P : StatusChannel → Prop),
      (s.m_synced = true → ∀ c : StatusChannel, s.m_channels.testBit c.bit = true →
        s.m_syncedChannels.testBit c.bit = true) →
      (∀ c : StatusChannel, s.m_syncedChannels.testBit c.bit = true → P c) →
      (run ext es s).m_channels = s.m_channels ∧
      ((run ext es s).m_synced = true → ∀ c : StatusChannel,
        s.m_channels.testBit c.bit = true → P c ∨ ∃ e ∈ es, e.isFullUpdateFor c) := by
  induction es with
  | nil =>
    intro s P h1 h2
    exact ⟨rfl, fun h c hc => Or.inl (h2 c (h1 h c hc))⟩
  | cons e es ih =>
    intro s P h1 h2
    obtain ⟨hch, hstep⟩ := status_step_sync ext e s
    have key : ((step ext e s).m_synced = true → ∀ c : StatusChannel,
          (step ext e s).m_channels.testBit c.bit = true →
          (step ext e s).m_syncedChannels.testBit c.bit = true) ∧
        (∀ c : StatusChannel, (step ext e s).m_syncedChannels.testBit c.bit = true →
          P c ∨ e.isFullUpdateFor c) := by
      rcases hstep with ⟨hm, hy⟩ | ⟨hm, hy⟩ | ⟨c, hc, hm, hy⟩
      · refine ⟨fun h => ?_, fun d hd => ?_⟩
        · rw [hy] at h
          cases h
        · rw [hm] at hd
          simp at hd
      · refine ⟨fun h d hd => ?_, fun d hd => ?_⟩
        · rw [hm]
          rw [hch] at hd
          exact h1 (hy ▸ h) d hd
        · rw [hm] at hd
          exact Or.inl (h2 d hd)
      · refine ⟨fun h d hd => ?_, fun d hd => ?_⟩
        · rw [hy] at h
          rw [hch] at hd
          rw [hm]
          by_cases hfull : s.m_syncedChannels ||| c.flag = s.m_channels
          · rw [hfull]
            exact hd
          · rw [if_neg hfull] at h
            rw [Nat.testBit_or, h1 h d hd]
            rfl
        · rw [hm, Nat.testBit_or, status_flag_testBit] at hd
          simp only [Bool.or_eq_true, decide_eq_true_eq] at hd
          rcases hd with hd | hd
          · exact Or.inl (h2 d hd)
          · subst hd
            exact Or.inr hc
    obtain ⟨ih1, ih2⟩ := ih (step ext e s) (fun c => P c ∨ e.isFullUpdateFor c) key.1 key.2
    refine ⟨by simpa [run, hch] using ih1, fun h c hc => ?_⟩
    rcases ih2 h c (hch ▸ hc) with (hp | hp) | ⟨e', he', hp⟩
    · exact Or.inl hp
    · exact Or.inr ⟨e, List.mem_cons_self _ _, hp⟩
    · exact Or.inr ⟨e', List.mem_cons_of_mem _ he', hp⟩

/-- A run of events, each enabled where it occurs, leads from a reachable state to a
reachable state. -/
theorem status_reachable_run (ext : External) (es : List Event) :
    ∀ s : ApplicationStatus, Reachable ext s → allEnabled ext es s = true →
      Reachable ext (run ext es s) := by
  induction es with
  | nil =>
    intro s hs _
    exact hs
  | cons e es ih =>
    intro s hs hen
    simp only [allEnabled, Bool.and_eq_true] at hen
    exact ih (step ext e s) (Reachable.step s e hs hen.1) hen.2

end ApplicationStatus

/-! ## Facts about ApplicationLauncher -/

namespace ApplicationLauncher

open State SocketState ConnectionError ContainerType

/-- Emitting a signal changes only the effect log. -/
@[simp]
theorem launcher_emit_frame (signal : Signal) (s : ApplicationLauncher) :
    (emit signal s).m_subscribeUri = s.m_subscribeUri ∧
    (emit signal s).m_commandUri = s.m_commandUri ∧
    (emit signal s).m_commandIdentity = s.m_commandIdentity ∧
    (emit signal s).m_heartbeatPeriod = s.m_heartbeatPeriod ∧
    (emit signal s).m_connected = s.m_connected ∧
    (emit signal s).m_subscribeSocketState = s.m_subscribeSocketState ∧
    (emit signal s).m_commandSocketState = s.m_commandSocketState ∧
    (emit signal s).m_connectionState = s.m_connectionState ∧
    (emit signal s).m_error = s.m_error ∧
    (emit signal s).m_errorString = s.m_errorString ∧
    (emit signal s).m_synced = s.m_synced ∧
    (emit signal s).m_context = s.m_context ∧
    (emit signal s).m_subscribeSocket = s.m_subscribeSocket ∧
    (emit signal s).m_commandSocket = s.m_commandSocket ∧
    (emit signal s).m_commandHeartbeatTimer = s.m_commandHeartbeatTimer ∧
    (emit signal s).m_subscribeHeartbeatTimer = s.m_subscribeHeartbeatTimer ∧
    (emit signal s).m_commandPingOutstanding = s.m_commandPingOutstanding ∧
    (emit signal s).m_rx = s.m_rx ∧
    (emit signal s).m_tx = s.m_tx ∧
    (emit signal s).fault = s.fault := by
  simp [emit]

/-- A call through the subscribe socket changes only the effect log and the fault mark. -/
@[simp]
theorem launcher_subscribeSocketCall_frame (e : Effect) (s : ApplicationLauncher) :
    (subscribeSocketCall e s).m_subscribeUri = s.m_subscribeUri ∧
    (subscribeSocketCall e s).m_commandUri = s.m_commandUri ∧
    (subscribeSocketCall e s).m_commandIdentity = s.m_commandIdentity ∧
    (subscribeSocketCall e s).m_heartbeatPeriod = s.m_heartbeatPeriod ∧
    (subscribeSocketCall e s).m_connected = s.m_connected ∧
    (subscribeSocketCall e s).m_subscribeSocketState = s.m_subscribeSocketState ∧
    (subscribeSocketCall e s).m_commandSocketState = s.m_commandSocketState ∧
    (subscribeSocketCall e s).m_connectionState = s.m_connectionState ∧
    (subscribeSocketCall e s).m_error = s.m_error ∧
    (subscribeSocketCall e s).m_errorString = s.m_errorString ∧
    (subscribeSocketCall e s).m_synced = s.m_synced ∧
    (subscribeSocketCall e s).m_context = s.m_context ∧
    (subscribeSocketCall e s).m_subscribeSocket = s.m_subscribeSocket ∧
    (subscribeSocketCall e s).m_commandSocket = s.m_commandSocket ∧
    (subscribeSocketCall e s).m_commandHeartbeatTimer = s.m_commandHeartbeatTimer ∧
    (subscribeSocketCall e s).m_subscribeHeartbeatTimer = s.m_subscribeHeartbeatTimer ∧
    (subscribeSocketCall e s).m_commandPingOutstanding = s.m_commandPingOutstanding ∧
    (subscribeSocketCall e s).m_rx = s.m_rx ∧
    (subscribeSocketCall e s).m_tx = s.m_tx ∧
    (subscribeSocketCall e s).fault = (s.fault || !s.m_subscribeSocket) := by
  unfold subscribeSocketCall
  cases h : s.m_subscribeSocket <;> simp

/-- The function `initializeObject` changes only `m_launchers` and the effect log. -/
@[simp]
theorem launcher_initializeObject_frame (s : ApplicationLauncher) :
    (initializeObject s).m_subscribeUri = s.m_subscribeUri ∧
    (initializeObject s).m_commandUri = s.m_commandUri ∧
    (initializeObject s).m_commandIdentity = s.m_commandIdentity ∧
    (initializeObject s).m_heartbeatPeriod = s.m_heartbeatPeriod ∧
    (initializeObject s).m_connected = s.m_connected ∧
    (initializeObject s).m_subscribeSocketState = s.m_subscribeSocketState ∧
    (initializeObject s).m_commandSocketState = s.m_commandSocketState ∧
    (initializeObject s).m_connectionState = s.m_connectionState ∧
    (initializeObject s).m_error = s.m_error ∧
    (initializeObject s).m_errorString = s.m_errorString ∧
    (initializeObject s).m_synced = s.m_synced ∧
    (initializeObject s).m_context = s.m_context ∧
    (initializeObject s).m_subscribeSocket = s.m_subscribeSocket ∧
    (initializeObject s).m_commandSocket = s.m_commandSocket ∧
    (initializeObject s).m_commandHeartbeatTimer = s.m_commandHeartbeatTimer ∧
    (initializeObject s).m_subscribeHeartbeatTimer = s.m_subscribeHeartbeatTimer ∧
    (initializeObject s).m_commandPingOutstanding = s.m_commandPingOutstanding ∧
    (initializeObject s).m_rx = s.m_rx ∧
    (initializeObject s).m_tx = s.m_tx ∧
    (initializeObject s).fault = s.fault := by
  simp [initializeObject]

/-- What `setLaunchercmdUri` does to each member. -/
@[simp]
theorem launcher_setLaunchercmdUri_frame (arg : String) (s : ApplicationLauncher) :
    (setLaunchercmdUri arg s).m_subscribeUri = s.m_subscribeUri ∧
    (setLaunchercmdUri arg s).m_commandUri = arg ∧
    (setLaunchercmdUri arg s).m_commandIdentity = s.m_commandIdentity ∧
    (setLaunchercmdUri arg s).m_heartbeatPeriod = s.m_heartbeatPeriod ∧
    (setLaunchercmdUri arg s).m_connected = s.m_connected ∧
    (setLaunchercmdUri arg s).m_subscribeSocketState = s.m_subscribeSocketState ∧
    (setLaunchercmdUri arg s).m_commandSocketState = s.m_commandSocketState ∧
    (setLaunchercmdUri arg s).m_connectionState = s.m_connectionState ∧
    (setLaunchercmdUri arg s).m_error = s.m_error ∧
    (setLaunchercmdUri arg s).m_errorString = s.m_errorString ∧
    (setLaunchercmdUri arg s).m_synced = s.m_synced ∧
    (setLaunchercmdUri arg s).m_context = s.m_context ∧
    (setLaunchercmdUri arg s).m_subscribeSocket = s.m_subscribeSocket ∧
    (setLaunchercmdUri arg s).m_commandSocket = s.m_commandSocket ∧
    (setLaunchercmdUri arg s).m_commandHeartbeatTimer = s.m_commandHeartbeatTimer ∧
    (setLaunchercmdUri arg s).m_subscribeHeartbeatTimer = s.m_subscribeHeartbeatTimer ∧
    (setLaunchercmdUri arg s).m_commandPingOutstanding = s.m_commandPingOutstanding ∧
    (setLaunchercmdUri arg s).m_rx = s.m_rx ∧
    (setLaunchercmdUri arg s).m_tx = s.m_tx ∧
    (setLaunchercmdUri arg s).fault = s.fault := by
  simp only [setLaunchercmdUri]
  split_ifs <;> simp_all

/-- What `setLauncherUri` does to each member. -/
@[simp]
theorem launcher_setLauncherUri_frame (arg : String) (s : ApplicationLauncher) :
    (setLauncherUri arg s).m_subscribeUri = arg ∧
    (setLauncherUri arg s).m_commandUri = s.m_commandUri ∧
    (setLauncherUri arg s).m_commandIdentity = s.m_commandIdentity ∧
    (setLauncherUri arg s).m_heartbeatPeriod = s.m_heartbeatPeriod ∧
    (setLauncherUri arg s).m_connected = s.m_connected ∧
    (setLauncherUri arg s).m_subscribeSocketState = s.m_subscribeSocketState ∧
    (setLauncherUri arg s).m_commandSocketState = s.m_commandSocketState ∧
    (setLauncherUri arg s).m_connectionState = s.m_connectionState ∧
    (setLauncherUri arg s).m_error = s.m_error ∧
    (setLauncherUri arg s).m_errorString = s.m_errorString ∧
    (setLauncherUri arg s).m_synced = s.m_synced ∧
    (setLauncherUri arg s).m_context = s.m_context ∧
    (setLauncherUri arg s).m_subscribeSocket = s.m_subscribeSocket ∧
    (setLauncherUri arg s).m_commandSocket = s.m_commandSocket ∧
    (setLauncherUri arg s).m_commandHeartbeatTimer = s.m_commandHeartbeatTimer ∧
    (setLauncherUri arg s).m_subscribeHeartbeatTimer = s.m_subscribeHeartbeatTimer ∧
    (setLauncherUri arg s).m_commandPingOutstanding = s.m_commandPingOutstanding ∧
    (setLauncherUri arg s).m_rx = s.m_rx ∧
    (setLauncherUri arg s).m_tx = s.m_tx ∧
    (setLauncherUri arg s).fault = s.fault := by
  simp only [setLauncherUri]
  split_ifs <;> simp_all

/-- What the setter `heartbeatPeriod` does to each member. -/
@[simp]
theorem launcher_heartbeatPeriod_frame (arg : Int) (s : ApplicationLauncher) :
    (heartbeatPeriod arg s).m_subscribeUri = s.m_subscribeUri ∧
    (heartbeatPeriod arg s).m_commandUri = s.m_commandUri ∧
    (heartbeatPeriod arg s).m_commandIdentity = s.m_commandIdentity ∧
    (heartbeatPeriod arg s).m_heartbeatPeriod = arg ∧
    (heartbeatPeriod arg s).m_connected = s.m_connected ∧
    (heartbeatPeriod arg s).m_subscribeSocketState = s.m_subscribeSocketState ∧
    (heartbeatPeriod arg s).m_commandSocketState = s.m_commandSocketState ∧
    (heartbeatPeriod arg s).m_connectionState = s.m_connectionState ∧
    (heartbeatPeriod arg s).m_error = s.m_error ∧
    (heartbeatPeriod arg s).m_errorString = s.m_errorString ∧
    (heartbeatPeriod arg s).m_synced = s.m_synced ∧
    (heartbeatPeriod arg s).m_context = s.m_context ∧
    (heartbeatPeriod arg s).m_subscribeSocket = s.m_subscribeSocket ∧
    (heartbeatPeriod arg s).m_commandSocket = s.m_commandSocket ∧
    (heartbeatPeriod arg s).m_commandHeartbeatTimer = s.m_commandHeartbeatTimer ∧
    (heartbeatPeriod arg s).m_subscribeHeartbeatTimer = s.m_subscribeHeartbeatTimer ∧
    (heartbeatPeriod arg s).m_commandPingOutstanding = s.m_commandPingOutstanding ∧
    (heartbeatPeriod arg s).m_rx = s.m_rx ∧
    (heartbeatPeriod arg s).m_tx = s.m_tx ∧
    (heartbeatPeriod arg s).fault = s.fault := by
  simp only [heartbeatPeriod]
  split_ifs <;> simp_all

/-- What `disconnectSockets` does to each member. -/
@[simp]
theorem launcher_disconnectSockets_frame (s : ApplicationLauncher) :
    (disconnectSockets s).m_subscribeUri = s.m_subscribeUri ∧
    (disconnectSockets s).m_commandUri = s.m_commandUri ∧
    (disconnectSockets s).m_commandIdentity = s.m_commandIdentity ∧
    (disconnectSockets s).m_heartbeatPeriod = s.m_heartbeatPeriod ∧
    (disconnectSockets s).m_connected = s.m_connected ∧
    (disconnectSockets s).m_subscribeSocketState = Down ∧
    (disconnectSockets s).m_commandSocketState = Down ∧
    (disconnectSockets s).m_connectionState = s.m_connectionState ∧
    (disconnectSockets s).m_error = s.m_error ∧
    (disconnectSockets s).m_errorString = s.m_errorString ∧
    (disconnectSockets s).m_synced = s.m_synced ∧
    (disconnectSockets s).m_context = false ∧
    (disconnectSockets s).m_subscribeSocket = false ∧
    (disconnectSockets s).m_commandSocket = false ∧
    (disconnectSockets s).m_commandHeartbeatTimer = s.m_commandHeartbeatTimer ∧
    (disconnectSockets s).m_subscribeHeartbeatTimer = s.m_subscribeHeartbeatTimer ∧
    (disconnectSockets s).m_commandPingOutstanding = s.m_commandPingOutstanding ∧
    (disconnectSockets s).m_rx = s.m_rx ∧
    (disconnectSockets s).m_tx = s.m_tx ∧
    (disconnectSockets s).fault = s.fault := by
  rcases s with ⟨_, _, _, _, _, _, _, _, _, _, _, _, ctx, sub, cmd, _, _, _, _, _, _, _⟩
  cases ctx <;> cases sub <;> cases cmd <;>
    exact ⟨rfl, rfl, rfl, rfl, rfl, rfl, rfl, rfl, rfl, rfl, rfl, rfl, rfl, rfl, rfl, rfl, rfl, rfl,
      rfl, rfl⟩

/-- What `subscribe` does to each member. -/
@[simp]
theorem launcher_subscribe_frame (topic : String) (s : ApplicationLauncher) :
    (subscribe topic s).m_subscribeUri = s.m_subscribeUri ∧
    (subscribe topic s).m_commandUri = s.m_commandUri ∧
    (subscribe topic s).m_commandIdentity = s.m_commandIdentity ∧
    (subscribe topic s).m_heartbeatPeriod = s.m_heartbeatPeriod ∧
    (subscribe topic s).m_connected = s.m_connected ∧
    (subscribe topic s).m_subscribeSocketState = Trying ∧
    (subscribe topic s).m_commandSocketState = s.m_commandSocketState ∧
    (subscribe topic s).m_connectionState = s.m_connectionState ∧
    (subscribe topic s).m_error = s.m_error ∧
    (subscribe topic s).m_errorString = s.m_errorString ∧
    (subscribe topic s).m_synced = s.m_synced ∧
    (subscribe topic s).m_context = s.m_context ∧
    (subscribe topic s).m_subscribeSocket = s.m_subscribeSocket ∧
    (subscribe topic s).m_commandSocket = s.m_commandSocket ∧
    (subscribe topic s).m_commandHeartbeatTimer = s.m_commandHeartbeatTimer ∧
    (subscribe topic s).m_subscribeHeartbeatTimer = s.m_subscribeHeartbeatTimer ∧
    (subscribe topic s).m_commandPingOutstanding = s.m_commandPingOutstanding ∧
    (subscribe topic s).m_rx = s.m_rx ∧
    (subscribe topic s).m_tx = s.m_tx ∧
    (subscribe topic s).fault = (s.fault || !s.m_subscribeSocket) := by
  simp [subscribe]

/-- What `unsubscribe` does to each member. -/
@[simp]
theorem launcher_unsubscribe_frame (topic : String) (s : ApplicationLauncher) :
    (unsubscribe topic s).m_subscribeUri = s.m_subscribeUri ∧
    (unsubscribe topic s).m_commandUri = s.m_commandUri ∧
    (unsubscribe topic s).m_commandIdentity = s.m_commandIdentity ∧
    (unsubscribe topic s).m_heartbeatPeriod = s.m_heartbeatPeriod ∧
    (unsubscribe topic s).m_connected = s.m_connected ∧
    (unsubscribe topic s).m_subscribeSocketState = Down ∧
    (unsubscribe topic s).m_commandSocketState = s.m_commandSocketState ∧
    (unsubscribe topic s).m_connectionState = s.m_connectionState ∧
    (unsubscribe topic s).m_error = s.m_error ∧
    (unsubscribe topic s).m_errorString = s.m_errorString ∧
    (unsubscribe topic s).m_synced = s.m_synced ∧
    (unsubscribe topic s).m_context = s.m_context ∧
    (unsubscribe topic s).m_subscribeSocket = s.m_subscribeSocket ∧
    (unsubscribe topic s).m_commandSocket = s.m_commandSocket ∧
    (unsubscribe topic s).m_commandHeartbeatTimer = s.m_commandHeartbeatTimer ∧
    (unsubscribe topic s).m_subscribeHeartbeatTimer = s.m_subscribeHeartbeatTimer ∧
    (unsubscribe topic s).m_commandPingOutstanding = s.m_commandPingOutstanding ∧
    (unsubscribe topic s).m_rx = s.m_rx ∧
    (unsubscribe topic s).m_tx = s.m_tx ∧
    (unsubscribe topic s).fault = (s.fault || !s.m_subscribeSocket) := by
  simp [unsubscribe]

/-- What `startCommandHeartbeat` does to each member. -/
@[simp]
theorem launcher_startCommandHeartbeat_frame (s : ApplicationLauncher) :
    (startCommandHeartbeat s).m_subscribeUri = s.m_subscribeUri ∧
    (startCommandHeartbeat s).m_commandUri = s.m_commandUri ∧
    (startCommandHeartbeat s).m_commandIdentity = s.m_commandIdentity ∧
    (startCommandHeartbeat s).m_heartbeatPeriod = s.m_heartbeatPeriod ∧
    (startCommandHeartbeat s).m_connected = s.m_connected ∧
    (startCommandHeartbeat s).m_subscribeSocketState = s.m_subscribeSocketState ∧
    (startCommandHeartbeat s).m_commandSocketState = s.m_commandSocketState ∧
    (startCommandHeartbeat s).m_connectionState = s.m_connectionState ∧
    (startCommandHeartbeat s).m_error = s.m_error ∧
    (startCommandHeartbeat s).m_errorString = s.m_errorString ∧
    (startCommandHeartbeat s).m_synced = s.m_synced ∧
    (startCommandHeartbeat s).m_context = s.m_context ∧
    (startCommandHeartbeat s).m_subscribeSocket = s.m_subscribeSocket ∧
    (startCommandHeartbeat s).m_commandSocket = s.m_commandSocket ∧
    (startCommandHeartbeat s).m_commandHeartbeatTimer = (if s.m_heartbeatPeriod > 0 then { active := true, interval := s.m_heartbeatPeriod }
      else s.m_commandHeartbeatTimer) ∧
    (startCommandHeartbeat s).m_subscribeHeartbeatTimer = s.m_subscribeHeartbeatTimer ∧
    (startCommandHeartbeat s).m_commandPingOutstanding = false ∧
    (startCommandHeartbeat s).m_rx = s.m_rx ∧
    (startCommandHeartbeat s).m_tx = s.m_tx ∧
    (startCommandHeartbeat s).fault = s.fault := by
  simp only [startCommandHeartbeat]
  split_ifs <;> simp [QTimer.start, QTimer.setInterval]

/-- What `stopCommandHeartbeat` does to each member. -/
@[simp]
theorem launcher_stopCommandHeartbeat_frame (s : ApplicationLauncher) :
    (stopCommandHeartbeat s).m_subscribeUri = s.m_subscribeUri ∧
    (stopCommandHeartbeat s).m_commandUri = s.m_commandUri ∧
    (stopCommandHeartbeat s).m_commandIdentity = s.m_commandIdentity ∧
    (stopCommandHeartbeat s).m_heartbeatPeriod = s.m_heartbeatPeriod ∧
    (stopCommandHeartbeat s).m_connected = s.m_connected ∧
    (stopCommandHeartbeat s).m_subscribeSocketState = s.m_subscribeSocketState ∧
    (stopCommandHeartbeat s).m_commandSocketState = s.m_commandSocketState ∧
    (stopCommandHeartbeat s).m_connectionState = s.m_connectionState ∧
    (stopCommandHeartbeat s).m_error = s.m_error ∧
    (stopCommandHeartbeat s).m_errorString = s.m_errorString ∧
    (stopCommandHeartbeat s).m_synced = s.m_synced ∧
    (stopCommandHeartbeat s).m_context = s.m_context ∧
    (stopCommandHeartbeat s).m_subscribeSocket = s.m_subscribeSocket ∧
    (stopCommandHeartbeat s).m_commandSocket = s.m_commandSocket ∧
    (stopCommandHeartbeat s).m_commandHeartbeatTimer = { active := false, interval := s.m_commandHeartbeatTimer.interval } ∧
    (stopCommandHeartbeat s).m_subscribeHeartbeatTimer = s.m_subscribeHeartbeatTimer ∧
    (stopCommandHeartbeat s).m_commandPingOutstanding = s.m_commandPingOutstanding ∧
    (stopCommandHeartbeat s).m_rx = s.m_rx ∧
    (stopCommandHeartbeat s).m_tx = s.m_tx ∧
    (stopCommandHeartbeat s).fault = s.fault := by
  simp [stopCommandHeartbeat, QTimer.stop]

/-- What `startSubscribeHeartbeat` does to each member. -/
@[simp]
theorem launcher_startSubscribeHeartbeat_frame (interval : Int) (s : ApplicationLauncher) :
    (startSubscribeHeartbeat interval s).m_subscribeUri = s.m_subscribeUri ∧
    (startSubscribeHeartbeat interval s).m_commandUri = s.m_commandUri ∧
    (startSubscribeHeartbeat interval s).m_commandIdentity = s.m_commandIdentity ∧
    (startSubscribeHeartbeat interval s).m_heartbeatPeriod = s.m_heartbeatPeriod ∧
    (startSubscribeHeartbeat interval s).m_connected = s.m_connected ∧
    (startSubscribeHeartbeat interval s).m_subscribeSocketState = s.m_subscribeSocketState ∧
    (startSubscribeHeartbeat interval s).m_commandSocketState = s.m_commandSocketState ∧
    (startSubscribeHeartbeat interval s).m_connectionState = s.m_connectionState ∧
    (startSubscribeHeartbeat interval s).m_error = s.m_error ∧
    (startSubscribeHeartbeat interval s).m_errorString = s.m_errorString ∧
    (startSubscribeHeartbeat interval s).m_synced = s.m_synced ∧
    (startSubscribeHeartbeat interval s).m_context = s.m_context ∧
    (startSubscribeHeartbeat interval s).m_subscribeSocket = s.m_subscribeSocket ∧
    (startSubscribeHeartbeat interval s).m_commandSocket = s.m_commandSocket ∧
    (startSubscribeHeartbeat interval s).m_commandHeartbeatTimer = s.m_commandHeartbeatTimer ∧
    (startSubscribeHeartbeat interval s).m_subscribeHeartbeatTimer = (if interval > 0 then { active := true, interval := interval }
      else { active := false, interval := s.m_subscribeHeartbeatTimer.interval }) ∧
    (startSubscribeHeartbeat interval s).m_commandPingOutstanding = s.m_commandPingOutstanding ∧
    (startSubscribeHeartbeat interval s).m_rx = s.m_rx ∧
    (startSubscribeHeartbeat interval s).m_tx = s.m_tx ∧
    (startSubscribeHeartbeat interval s).fault = s.fault := by
  simp only [startSubscribeHeartbeat]
  split_ifs <;> simp [QTimer.stop, QTimer.start, QTimer.setInterval]

/-- What `stopSubscribeHeartbeat` does to each member. -/
@[simp]
theorem launcher_stopSubscribeHeartbeat_frame (s : ApplicationLauncher) :
    (stopSubscribeHeartbeat s).m_subscribeUri = s.m_subscribeUri ∧
    (stopSubscribeHeartbeat s).m_commandUri = s.m_commandUri ∧
    (stopSubscribeHeartbeat s).m_commandIdentity = s.m_commandIdentity ∧
    (stopSubscribeHeartbeat s).m_heartbeatPeriod = s.m_heartbeatPeriod ∧
    (stopSubscribeHeartbeat s).m_connected = s.m_connected ∧
    (stopSubscribeHeartbeat s).m_subscribeSocketState = s.m_subscribeSocketState ∧
    (stopSubscribeHeartbeat s).m_commandSocketState = s.m_commandSocketState ∧
    (stopSubscribeHeartbeat s).m_connectionState = s.m_connectionState ∧
    (stopSubscribeHeartbeat s).m_error = s.m_error ∧
    (stopSubscribeHeartbeat s).m_errorString = s.m_errorString ∧
    (stopSubscribeHeartbeat s).m_synced = s.m_synced ∧
    (stopSubscribeHeartbeat s).m_context = s.m_context ∧
    (stopSubscribeHeartbeat s).m_subscribeSocket = s.m_subscribeSocket ∧
    (stopSubscribeHeartbeat s).m_commandSocket = s.m_commandSocket ∧
    (stopSubscribeHeartbeat s).m_commandHeartbeatTimer = s.m_commandHeartbeatTimer ∧
    (stopSubscribeHeartbeat s).m_subscribeHeartbeatTimer = { active := false, interval := s.m_subscribeHeartbeatTimer.interval } ∧
    (stopSubscribeHeartbeat s).m_commandPingOutstanding = s.m_commandPingOutstanding ∧
    (stopSubscribeHeartbeat s).m_rx = s.m_rx ∧
    (stopSubscribeHeartbeat s).m_tx = s.m_tx ∧
    (stopSubscribeHeartbeat s).fault = s.fault := by
  simp [stopSubscribeHeartbeat, QTimer.stop]

/-- Restarting a running timer leaves every member as it was: `refreshSubscribeHeartbeat`
is the identity on the state. -/
@[simp]
theorem launcher_refreshSubscribeHeartbeat_eq (s : ApplicationLauncher) :
    refreshSubscribeHeartbeat s = s := by
  simp only [refreshSubscribeHeartbeat, QTimer.stop, QTimer.start]
  split_ifs with h
  · rcases s with ⟨_, _, _, _, _, _, _, _, _, _, _, _, _, _, _, _, ⟨a, i⟩, _, _, _, _, _⟩
    simp only at h
    subst h
    rfl
  · rfl

/-- What `updateSync` does to each member. -/
@[simp]
theorem launcher_updateSync_frame (s : ApplicationLauncher) :
    (updateSync s).m_subscribeUri = s.m_subscribeUri ∧
    (updateSync s).m_commandUri = s.m_commandUri ∧
    (updateSync s).m_commandIdentity = s.m_commandIdentity ∧
    (updateSync s).m_heartbeatPeriod = s.m_heartbeatPeriod ∧
    (updateSync s).m_connected = s.m_connected ∧
    (updateSync s).m_subscribeSocketState = s.m_subscribeSocketState ∧
    (updateSync s).m_commandSocketState = s.m_commandSocketState ∧
    (updateSync s).m_connectionState = s.m_connectionState ∧
    (updateSync s).m_error = s.m_error ∧
    (updateSync s).m_errorString = s.m_errorString ∧
    (updateSync s).m_synced = true ∧
    (updateSync s).m_context = s.m_context ∧
    (updateSync s).m_subscribeSocket = s.m_subscribeSocket ∧
    (updateSync s).m_commandSocket = s.m_commandSocket ∧
    (updateSync s).m_commandHeartbeatTimer = s.m_commandHeartbeatTimer ∧
    (updateSync s).m_subscribeHeartbeatTimer = s.m_subscribeHeartbeatTimer ∧
    (updateSync s).m_commandPingOutstanding = s.m_commandPingOutstanding ∧
    (updateSync s).m_rx = s.m_rx ∧
    (updateSync s).m_tx = s.m_tx ∧
    (updateSync s).fault = s.fault := by
  simp [updateSync]

/-- What `clearSync` does to each member. -/
@[simp]
theorem launcher_clearSync_frame (s : ApplicationLauncher) :
    (clearSync s).m_subscribeUri = s.m_subscribeUri ∧
    (clearSync s).m_commandUri = s.m_commandUri ∧
    (clearSync s).m_commandIdentity = s.m_commandIdentity ∧
    (clearSync s).m_heartbeatPeriod = s.m_heartbeatPeriod ∧
    (clearSync s).m_connected = s.m_connected ∧
    (clearSync s).m_subscribeSocketState = s.m_subscribeSocketState ∧
    (clearSync s).m_commandSocketState = s.m_commandSocketState ∧
    (clearSync s).m_connectionState = s.m_connectionState ∧
    (clearSync s).m_error = s.m_error ∧
    (clearSync s).m_errorString = s.m_errorString ∧
    (clearSync s).m_synced = false ∧
    (clearSync s).m_context = s.m_context ∧
    (clearSync s).m_subscribeSocket = s.m_subscribeSocket ∧
    (clearSync s).m_commandSocket = s.m_commandSocket ∧
    (clearSync s).m_commandHeartbeatTimer = s.m_commandHeartbeatTimer ∧
    (clearSync s).m_subscribeHeartbeatTimer = s.m_subscribeHeartbeatTimer ∧
    (clearSync s).m_commandPingOutstanding = s.m_commandPingOutstanding ∧
    (clearSync s).m_rx = s.m_rx ∧
    (clearSync s).m_tx = s.m_tx ∧
    (clearSync s).fault = s.fault := by
  simp [clearSync]

/-- What `cleanup` does to each member. -/
@[simp]
theorem launcher_cleanup_frame (s : ApplicationLauncher) :
    (cleanup s).m_subscribeUri = s.m_subscribeUri ∧
    (cleanup s).m_commandUri = s.m_commandUri ∧
    (cleanup s).m_commandIdentity = s.m_commandIdentity ∧
    (cleanup s).m_heartbeatPeriod = s.m_heartbeatPeriod ∧
    (cleanup s).m_connected = s.m_connected ∧
    (cleanup s).m_subscribeSocketState = Down ∧
    (cleanup s).m_commandSocketState = Down ∧
    (cleanup s).m_connectionState = s.m_connectionState ∧
    (cleanup s).m_error = s.m_error ∧
    (cleanup s).m_errorString = s.m_errorString ∧
    (cleanup s).m_synced = s.m_synced ∧
    (cleanup s).m_context = false ∧
    (cleanup s).m_subscribeSocket = false ∧
    (cleanup s).m_commandSocket = false ∧
    (cleanup s).m_commandHeartbeatTimer = { active := false, interval := s.m_commandHeartbeatTimer.interval } ∧
    (cleanup s).m_subscribeHeartbeatTimer = s.m_subscribeHeartbeatTimer ∧
    (cleanup s).m_commandPingOutstanding = s.m_commandPingOutstanding ∧
    (cleanup s).m_rx = s.m_rx ∧
    (cleanup s).m_tx = s.m_tx ∧
    (cleanup s).fault = (s.fault || (s.m_connected && !s.m_subscribeSocket)) := by
  simp only [cleanup]
  cases h : s.m_connected <;> simp [h]

/-- What `updateError` does to each member. -/
@[simp]
theorem launcher_updateError_frame (error : ConnectionError) (errorString : String) (s : ApplicationLauncher) :
    (updateError error errorString s).m_subscribeUri = s.m_subscribeUri ∧
    (updateError error errorString s).m_commandUri = s.m_commandUri ∧
    (updateError error errorString s).m_commandIdentity = s.m_commandIdentity ∧
    (updateError error errorString s).m_heartbeatPeriod = s.m_heartbeatPeriod ∧
    (updateError error errorString s).m_connected = s.m_connected ∧
    (updateError error errorString s).m_subscribeSocketState = (if s.m_error ≠ error ∧ error ≠ NoError then Down else s.m_subscribeSocketState) ∧
    (updateError error errorString s).m_commandSocketState = (if s.m_error ≠ error ∧ error ≠ NoError then Down else s.m_commandSocketState) ∧
    (updateError error errorString s).m_connectionState = s.m_connectionState ∧
    (updateError error errorString s).m_error = error ∧
    (updateError error errorString s).m_errorString = errorString ∧
    (updateError error errorString s).m_synced = s.m_synced ∧
    (updateError error errorString s).m_context = (if s.m_error ≠ error ∧ error ≠ NoError then false else s.m_context) ∧
    (updateError error errorString s).m_subscribeSocket = (if s.m_error ≠ error ∧ error ≠ NoError then false else s.m_subscribeSocket) ∧
    (updateError error errorString s).m_commandSocket = (if s.m_error ≠ error ∧ error ≠ NoError then false else s.m_commandSocket) ∧
    (updateError error errorString s).m_commandHeartbeatTimer = (if s.m_error ≠ error ∧ error ≠ NoError then { active := false, interval := s.m_commandHeartbeatTimer.interval } else s.m_commandHeartbeatTimer) ∧
    (updateError error errorString s).m_subscribeHeartbeatTimer = s.m_subscribeHeartbeatTimer ∧
    (updateError error errorString s).m_commandPingOutstanding = s.m_commandPingOutstanding ∧
    (updateError error errorString s).m_rx = s.m_rx ∧
    (updateError error errorString s).m_tx = s.m_tx ∧
    (updateError error errorString s).fault = (if s.m_error ≠ error ∧ error ≠ NoError then
        (s.fault || (s.m_connected && !s.m_subscribeSocket))
      else s.fault) := by
  simp only [updateError]
  split_ifs <;> simp_all

/-- What `updateState` does to each member. -/
@[simp]
theorem launcher_updateState_frame (state : State) (error : ConnectionError) (errorString : String) (s : ApplicationLauncher) :
    (updateState state error errorString s).m_subscribeUri = s.m_subscribeUri ∧
    (updateState state error errorString s).m_commandUri = s.m_commandUri ∧
    (updateState state error errorString s).m_commandIdentity = s.m_commandIdentity ∧
    (updateState state error errorString s).m_heartbeatPeriod = s.m_heartbeatPeriod ∧
    (updateState state error errorString s).m_connected = (if state ≠ s.m_connectionState then (if s.m_connected = true then false else decide (state = Connected))
      else s.m_connected) ∧
    (updateState state error errorString s).m_subscribeSocketState = (if s.m_error ≠ error ∧ error ≠ NoError then Down else s.m_subscribeSocketState) ∧
    (updateState state error errorString s).m_commandSocketState = (if s.m_error ≠ error ∧ error ≠ NoError then Down else s.m_commandSocketState) ∧
    (updateState state error errorString s).m_connectionState = state ∧
    (updateState state error errorString s).m_error = error ∧
    (updateState state error errorString s).m_errorString = errorString ∧
    (updateState state error errorString s).m_synced = (if state ≠ s.m_connectionState ∧ s.m_connected = true then false else s.m_synced) ∧
    (updateState state error errorString s).m_context = (if s.m_error ≠ error ∧ error ≠ NoError then false else s.m_context) ∧
    (updateState state error errorString s).m_subscribeSocket = (if s.m_error ≠ error ∧ error ≠ NoError then false else s.m_subscribeSocket) ∧
    (updateState state error errorString s).m_commandSocket = (if s.m_error ≠ error ∧ error ≠ NoError then false else s.m_commandSocket) ∧
    (updateState state error errorString s).m_commandHeartbeatTimer = (if s.m_error ≠ error ∧ error ≠ NoError then { active := false, interval := s.m_commandHeartbeatTimer.interval } else s.m_commandHeartbeatTimer) ∧
    (updateState state error errorString s).m_subscribeHeartbeatTimer = (if state ≠ s.m_connectionState ∧ s.m_connected = true then
        { active := false, interval := s.m_subscribeHeartbeatTimer.interval }
      else s.m_subscribeHeartbeatTimer) ∧
    (updateState state error errorString s).m_commandPingOutstanding = s.m_commandPingOutstanding ∧
    (updateState state error errorString s).m_rx = s.m_rx ∧
    (updateState state error errorString s).m_tx = s.m_tx ∧
    (updateState state error errorString s).fault = (if s.m_error ≠ error ∧ error ≠ NoError then
        (s.fault || ((if state ≠ s.m_connectionState then (if s.m_connected = true then false else decide (state = Connected))
          else s.m_connected) && !s.m_subscribeSocket))
      else s.fault) := by
  simp only [updateState]
  split_ifs <;> simp_all <;> tauto
/-- The messages sent in a concatenation of two effect logs. -/
theorem sentMessages_append (a b : List Effect) :
    sentMessages (a ++ b) = sentMessages a ++ sentMessages b := by
  induction a with
  | nil => rfl
  | cons x xs ih => cases x <;> simp [sentMessages, ih]

/-- Emitting a signal sends no message. -/
@[simp]
theorem launcher_emit_sent (signal : Signal) (s : ApplicationLauncher) :
    sentMessages (emit signal s).effects = sentMessages s.effects := by
  simp [emit, sentMessages_append, sentMessages]

/-- Subscribing sends no message. -/
@[simp]
theorem launcher_subscribeSocketCall_sent (topic : String) (s : ApplicationLauncher) :
    sentMessages (subscribeSocketCall (Effect.subscribeTo Socket.subscribe topic) s).effects = sentMessages s.effects := by
  unfold subscribeSocketCall
  cases h : s.m_subscribeSocket <;> simp [sentMessages_append, sentMessages]

/-- Unsubscribing sends no message. -/
@[simp]
theorem launcher_unsubscribeSocketCall_sent (topic : String) (s : ApplicationLauncher) :
    sentMessages (subscribeSocketCall (Effect.unsubscribeFrom Socket.subscribe topic) s).effects = sentMessages s.effects := by
  unfold subscribeSocketCall
  cases h : s.m_subscribeSocket <;> simp [sentMessages_append, sentMessages]

/-- The function `initializeObject` sends no message. -/
@[simp]
theorem launcher_initializeObject_sent (s : ApplicationLauncher) :
    sentMessages (initializeObject s).effects = sentMessages s.effects := by
  simp [initializeObject]

/-- The function `disconnectSockets` sends no message. -/
@[simp]
theorem launcher_disconnectSockets_sent (s : ApplicationLauncher) :
    sentMessages (disconnectSockets s).effects = sentMessages s.effects := by
  simp only [disconnectSockets]
  cases h1 : s.m_commandSocket <;> cases h2 : s.m_subscribeSocket <;> cases h3 : s.m_context <;>
    simp [h1, h2, h3, sentMessages_append, sentMessages]

/-- The function `subscribe` sends no message. -/
@[simp]
theorem launcher_subscribe_sent (topic : String) (s : ApplicationLauncher) :
    sentMessages (subscribe topic s).effects = sentMessages s.effects := by
  simp [subscribe]

/-- The function `unsubscribe` sends no message. -/
@[simp]
theorem launcher_unsubscribe_sent (topic : String) (s : ApplicationLauncher) :
    sentMessages (unsubscribe topic s).effects = sentMessages s.effects := by
  simp [unsubscribe]

/-- The function `clearSync` sends no message. -/
@[simp]
theorem launcher_clearSync_sent (s : ApplicationLauncher) :
    sentMessages (clearSync s).effects = sentMessages s.effects := by
  simp [clearSync]

/-- The function `updateSync` sends no message. -/
@[simp]
theorem launcher_updateSync_sent (s : ApplicationLauncher) :
    sentMessages (updateSync s).effects = sentMessages s.effects := by
  simp [updateSync]

/-- The function `cleanup` sends no message. -/
@[simp]
theorem launcher_cleanup_sent (s : ApplicationLauncher) :
    sentMessages (cleanup s).effects = sentMessages s.effects := by
  simp only [cleanup]
  cases h : s.m_connected <;> simp [h, stopCommandHeartbeat]

/-- The function `updateError` sends no message. -/
@[simp]
theorem launcher_updateError_sent (error : ConnectionError) (errorString : String) (s : ApplicationLauncher) :
    sentMessages (updateError error errorString s).effects = sentMessages s.effects := by
  simp only [updateError]
  split_ifs <;> simp

/-- The function `updateState` sends no message. -/
@[simp]
theorem launcher_updateState_sent (state : State) (error : ConnectionError) (errorString : String) (s : ApplicationLauncher) :
    sentMessages (updateState state error errorString s).effects = sentMessages s.effects := by
  simp only [updateState]
  split_ifs <;> simp [stopSubscribeHeartbeat]
/-- What `stop` does to each member. -/
@[simp]
theorem launcher_stop_frame (s : ApplicationLauncher) :
    (stop s).m_subscribeUri = s.m_subscribeUri ∧
    (stop s).m_commandUri = s.m_commandUri ∧
    (stop s).m_commandIdentity = s.m_commandIdentity ∧
    (stop s).m_heartbeatPeriod = s.m_heartbeatPeriod ∧
    (stop s).m_connected = (if Disconnected ≠ s.m_connectionState then false else s.m_connected) ∧
    (stop s).m_subscribeSocketState = Down ∧
    (stop s).m_commandSocketState = Down ∧
    (stop s).m_connectionState = Disconnected ∧
    (stop s).m_error = NoError ∧
    (stop s).m_errorString = "" ∧
    (stop s).m_synced = (if Disconnected ≠ s.m_connectionState ∧ s.m_connected = true then false else s.m_synced) ∧
    (stop s).m_context = false ∧
    (stop s).m_subscribeSocket = false ∧
    (stop s).m_commandSocket = false ∧
    (stop s).m_commandHeartbeatTimer = { active := false, interval := s.m_commandHeartbeatTimer.interval } ∧
    (stop s).m_subscribeHeartbeatTimer = (if Disconnected ≠ s.m_connectionState ∧ s.m_connected = true then
        { active := false, interval := s.m_subscribeHeartbeatTimer.interval }
      else s.m_subscribeHeartbeatTimer) ∧
    (stop s).m_commandPingOutstanding = s.m_commandPingOutstanding ∧
    (stop s).m_rx = s.m_rx ∧
    (stop s).m_tx = s.m_tx ∧
    (stop s).fault = (s.fault || (s.m_connected && !s.m_subscribeSocket)) := by
  simp only [stop, updateStateTo, launcher_updateState_frame, launcher_cleanup_frame]
  cases hst : s.m_connectionState <;> cases hc : s.m_connected <;> simp

/-- What `pollError` does to each member. -/
@[simp]
theorem launcher_pollError_frame (errorNum : Int) (errorMsg : String) (s : ApplicationLauncher) :
    (pollError errorNum errorMsg s).m_subscribeUri = s.m_subscribeUri ∧
    (pollError errorNum errorMsg s).m_commandUri = s.m_commandUri ∧
    (pollError errorNum errorMsg s).m_commandIdentity = s.m_commandIdentity ∧
    (pollError errorNum errorMsg s).m_heartbeatPeriod = s.m_heartbeatPeriod ∧
    (pollError errorNum errorMsg s).m_connected = (if Error ≠ s.m_connectionState then false else s.m_connected) ∧
    (pollError errorNum errorMsg s).m_subscribeSocketState = (if s.m_error ≠ SocketError then Down else s.m_subscribeSocketState) ∧
    (pollError errorNum errorMsg s).m_commandSocketState = (if s.m_error ≠ SocketError then Down else s.m_commandSocketState) ∧
    (pollError errorNum errorMsg s).m_connectionState = Error ∧
    (pollError errorNum errorMsg s).m_error = SocketError ∧
    (pollError errorNum errorMsg s).m_errorString = errorText errorNum errorMsg ∧
    (pollError errorNum errorMsg s).m_synced = (if Error ≠ s.m_connectionState ∧ s.m_connected = true then false else s.m_synced) ∧
    (pollError errorNum errorMsg s).m_context = (if s.m_error ≠ SocketError then false else s.m_context) ∧
    (pollError errorNum errorMsg s).m_subscribeSocket = (if s.m_error ≠ SocketError then false else s.m_subscribeSocket) ∧
    (pollError errorNum errorMsg s).m_commandSocket = (if s.m_error ≠ SocketError then false else s.m_commandSocket) ∧
    (pollError errorNum errorMsg s).m_commandHeartbeatTimer = (if s.m_error ≠ SocketError then { active := false, interval := s.m_commandHeartbeatTimer.interval } else s.m_commandHeartbeatTimer) ∧
    (pollError errorNum errorMsg s).m_subscribeHeartbeatTimer = (if Error ≠ s.m_connectionState ∧ s.m_connected = true then
        { active := false, interval := s.m_subscribeHeartbeatTimer.interval }
      else s.m_subscribeHeartbeatTimer) ∧
    (pollError errorNum errorMsg s).m_commandPingOutstanding = s.m_commandPingOutstanding ∧
    (pollError errorNum errorMsg s).m_rx = s.m_rx ∧
    (pollError errorNum errorMsg s).m_tx = s.m_tx ∧
    (pollError errorNum errorMsg s).fault = (if s.m_error ≠ SocketError then
        (s.fault || ((if Error ≠ s.m_connectionState then false else s.m_connected) &&
          !s.m_subscribeSocket))
      else s.fault) := by
  simp only [pollError, launcher_updateState_frame]
  cases hst : s.m_connectionState <;> cases hc : s.m_connected <;> cases he : s.m_error <;> simp

/-- What `subscribeHeartbeatTimerTick` does to each member. -/
@[simp]
theorem launcher_subscribeHeartbeatTimerTick_frame (s : ApplicationLauncher) :
    (subscribeHeartbeatTimerTick s).m_subscribeUri = s.m_subscribeUri ∧
    (subscribeHeartbeatTimerTick s).m_commandUri = s.m_commandUri ∧
    (subscribeHeartbeatTimerTick s).m_commandIdentity = s.m_commandIdentity ∧
    (subscribeHeartbeatTimerTick s).m_heartbeatPeriod = s.m_heartbeatPeriod ∧
    (subscribeHeartbeatTimerTick s).m_connected = (if Timeout ≠ s.m_connectionState then false else s.m_connected) ∧
    (subscribeHeartbeatTimerTick s).m_subscribeSocketState = Down ∧
    (subscribeHeartbeatTimerTick s).m_commandSocketState = s.m_commandSocketState ∧
    (subscribeHeartbeatTimerTick s).m_connectionState = Timeout ∧
    (subscribeHeartbeatTimerTick s).m_error = NoError ∧
    (subscribeHeartbeatTimerTick s).m_errorString = "" ∧
    (subscribeHeartbeatTimerTick s).m_synced = (if Timeout ≠ s.m_connectionState ∧ s.m_connected = true then false else s.m_synced) ∧
    (subscribeHeartbeatTimerTick s).m_context = s.m_context ∧
    (subscribeHeartbeatTimerTick s).m_subscribeSocket = s.m_subscribeSocket ∧
    (subscribeHeartbeatTimerTick s).m_commandSocket = s.m_commandSocket ∧
    (subscribeHeartbeatTimerTick s).m_commandHeartbeatTimer = s.m_commandHeartbeatTimer ∧
    (subscribeHeartbeatTimerTick s).m_subscribeHeartbeatTimer = (if Timeout ≠ s.m_connectionState ∧ s.m_connected = true then
        { active := false, interval := s.m_subscribeHeartbeatTimer.interval }
      else s.m_subscribeHeartbeatTimer) ∧
    (subscribeHeartbeatTimerTick s).m_commandPingOutstanding = s.m_commandPingOutstanding ∧
    (subscribeHeartbeatTimerTick s).m_rx = s.m_rx ∧
    (subscribeHeartbeatTimerTick s).m_tx = s.m_tx ∧
    (subscribeHeartbeatTimerTick s).fault = s.fault := by
  simp only [subscribeHeartbeatTimerTick, updateStateTo, launcher_updateState_frame]
  cases hst : s.m_connectionState <;> cases hc : s.m_connected <;> simp

/-- With the command socket closed, `sendCommandMessage` does nothing. -/
theorem launcher_sendCommandMessage_closed (type : ContainerType) (sendError : Option ZmqError)
    (s : ApplicationLauncher) (h : s.m_commandSocket = false) :
    sendCommandMessage type sendError s = s := by
  simp [sendCommandMessage, h]

/-- With the command socket open, a send that throws records a socket error. -/
theorem launcher_sendCommandMessage_fail_eq (type : ContainerType) (e : ZmqError)
    (s : ApplicationLauncher) (h : s.m_commandSocket = true) :
    sendCommandMessage type (some e) s =
      updateState Error SocketError (errorText e.num e.what)
        { s with m_tx := { s.m_tx with type := some type } } := by
  simp [sendCommandMessage, h]

/-- What `sendCommandMessage` does to each member when the send does not throw. -/
@[simp]
theorem launcher_sendCommandMessage_ok_frame (type : ContainerType) (s : ApplicationLauncher) :
    (sendCommandMessage type none s).m_subscribeUri = s.m_subscribeUri ∧
    (sendCommandMessage type none s).m_commandUri = s.m_commandUri ∧
    (sendCommandMessage type none s).m_commandIdentity = s.m_commandIdentity ∧
    (sendCommandMessage type none s).m_heartbeatPeriod = s.m_heartbeatPeriod ∧
    (sendCommandMessage type none s).m_connected = s.m_connected ∧
    (sendCommandMessage type none s).m_subscribeSocketState = s.m_subscribeSocketState ∧
    (sendCommandMessage type none s).m_commandSocketState = s.m_commandSocketState ∧
    (sendCommandMessage type none s).m_connectionState = s.m_connectionState ∧
    (sendCommandMessage type none s).m_error = s.m_error ∧
    (sendCommandMessage type none s).m_errorString = s.m_errorString ∧
    (sendCommandMessage type none s).m_synced = s.m_synced ∧
    (sendCommandMessage type none s).m_context = s.m_context ∧
    (sendCommandMessage type none s).m_subscribeSocket = s.m_subscribeSocket ∧
    (sendCommandMessage type none s).m_commandSocket = s.m_commandSocket ∧
    (sendCommandMessage type none s).m_commandHeartbeatTimer = s.m_commandHeartbeatTimer ∧
    (sendCommandMessage type none s).m_subscribeHeartbeatTimer = s.m_subscribeHeartbeatTimer ∧
    (sendCommandMessage type none s).m_commandPingOutstanding = s.m_commandPingOutstanding ∧
    (sendCommandMessage type none s).m_rx = s.m_rx ∧
    (sendCommandMessage type none s).m_tx = (if s.m_commandSocket = true then Container.Clear else s.m_tx) ∧
    (sendCommandMessage type none s).fault = s.fault := by
  simp only [sendCommandMessage]
  cases h : s.m_commandSocket <;> simp [h]

/-- When the send does not throw, `sendCommandMessage` sends exactly the outgoing
envelope with its type set, provided the command socket is open, and nothing otherwise. -/
theorem launcher_sendCommandMessage_ok_sent (type : ContainerType) (s : ApplicationLauncher) :
    sentMessages (sendCommandMessage type none s).effects =
      (if s.m_commandSocket = true then
        sentMessages s.effects ++ [{ s.m_tx with type := some type }]
      else sentMessages s.effects) := by
  simp only [sendCommandMessage]
  cases h : s.m_commandSocket <;> simp [h, sentMessages_append, sentMessages]

/-- When the send throws, `sendCommandMessage` sends nothing. -/
theorem launcher_sendCommandMessage_fail_sent (type : ContainerType) (e : ZmqError)
    (s : ApplicationLauncher) :
    sentMessages (sendCommandMessage type (some e) s).effects = sentMessages s.effects := by
  simp only [sendCommandMessage]
  cases h : s.m_commandSocket <;> simp [h]

/-- What `sendCommandMessage` does to each member when the command socket is open and the
send throws. -/
theorem launcher_sendCommandMessage_fail_frame (type : ContainerType) (e : ZmqError) (s : ApplicationLauncher)
    (h : s.m_commandSocket = true) :
    (sendCommandMessage type (some e) s).m_subscribeUri = s.m_subscribeUri ∧
    (sendCommandMessage type (some e) s).m_commandUri = s.m_commandUri ∧
    (sendCommandMessage type (some e) s).m_commandIdentity = s.m_commandIdentity ∧
    (sendCommandMessage type (some e) s).m_heartbeatPeriod = s.m_heartbeatPeriod ∧
    (sendCommandMessage type (some e) s).m_connected = (if Error ≠ s.m_connectionState then false else s.m_connected) ∧
    (sendCommandMessage type (some e) s).m_subscribeSocketState = (if s.m_error ≠ SocketError then Down else s.m_subscribeSocketState) ∧
    (sendCommandMessage type (some e) s).m_commandSocketState = (if s.m_error ≠ SocketError then Down else s.m_commandSocketState) ∧
    (sendCommandMessage type (some e) s).m_connectionState = Error ∧
    (sendCommandMessage type (some e) s).m_error = SocketError ∧
    (sendCommandMessage type (some e) s).m_errorString = errorText e.num e.what ∧
    (sendCommandMessage type (some e) s).m_synced = (if Error ≠ s.m_connectionState ∧ s.m_connected = true then false else s.m_synced) ∧
    (sendCommandMessage type (some e) s).m_context = (if s.m_error ≠ SocketError then false else s.m_context) ∧
    (sendCommandMessage type (some e) s).m_subscribeSocket = (if s.m_error ≠ SocketError then false else s.m_subscribeSocket) ∧
    (sendCommandMessage type (some e) s).m_commandSocket = (if s.m_error ≠ SocketError then false else s.m_commandSocket) ∧
    (sendCommandMessage type (some e) s).m_commandHeartbeatTimer = (if s.m_error ≠ SocketError then { active := false, interval := s.m_commandHeartbeatTimer.interval } else s.m_commandHeartbeatTimer) ∧
    (sendCommandMessage type (some e) s).m_subscribeHeartbeatTimer = (if Error ≠ s.m_connectionState ∧ s.m_connected = true then
        { active := false, interval := s.m_subscribeHeartbeatTimer.interval }
      else s.m_subscribeHeartbeatTimer) ∧
    (sendCommandMessage type (some e) s).m_commandPingOutstanding = s.m_commandPingOutstanding ∧
    (sendCommandMessage type (some e) s).m_rx = s.m_rx ∧
    (sendCommandMessage type (some e) s).m_tx = { s.m_tx with type := some type } ∧
    (sendCommandMessage type (some e) s).fault = (if s.m_error ≠ SocketError then
        (s.fault || ((if Error ≠ s.m_connectionState then false else s.m_connected) &&
          !s.m_subscribeSocket))
      else s.fault) := by
  rw [launcher_sendCommandMessage_fail_eq type e s h]
  simp only [launcher_updateState_frame]
  cases hst : s.m_connectionState <;> cases hc : s.m_connected <;> cases he : s.m_error <;> simp
/-- The definition of `commandHeartbeatTimerTick` as one expression. -/
theorem launcher_commandHeartbeatTimerTick_eq (sendError : Option ZmqError)
    (s : ApplicationLauncher) :
    commandHeartbeatTimerTick sendError s =
      { sendCommandMessage MT_PING sendError
          (if s.m_commandPingOutstanding = true then
            updateState Timeout NoError "" { s with m_commandSocketState := Trying }
          else s) with m_commandPingOutstanding := true } := rfl

/-- What `commandHeartbeatTimerTick` does to each member when the send does not throw. -/
@[simp]
theorem launcher_commandHeartbeatTimerTick_ok_frame (s : ApplicationLauncher) :
    (commandHeartbeatTimerTick none s).m_subscribeUri = s.m_subscribeUri ∧
    (commandHeartbeatTimerTick none s).m_commandUri = s.m_commandUri ∧
    (commandHeartbeatTimerTick none s).m_commandIdentity = s.m_commandIdentity ∧
    (commandHeartbeatTimerTick none s).m_heartbeatPeriod = s.m_heartbeatPeriod ∧
    (commandHeartbeatTimerTick none s).m_connected = (if s.m_commandPingOutstanding = true ∧ Timeout ≠ s.m_connectionState then false else s.m_connected) ∧
    (commandHeartbeatTimerTick none s).m_subscribeSocketState = s.m_subscribeSocketState ∧
    (commandHeartbeatTimerTick none s).m_commandSocketState = (if s.m_commandPingOutstanding = true then Trying else s.m_commandSocketState) ∧
    (commandHeartbeatTimerTick none s).m_connectionState = (if s.m_commandPingOutstanding = true then Timeout else s.m_connectionState) ∧
    (commandHeartbeatTimerTick none s).m_error = (if s.m_commandPingOutstanding = true then NoError else s.m_error) ∧
    (commandHeartbeatTimerTick none s).m_errorString = (if s.m_commandPingOutstanding = true then "" else s.m_errorString) ∧
    (commandHeartbeatTimerTick none s).m_synced = (if s.m_commandPingOutstanding = true ∧ Timeout ≠ s.m_connectionState ∧ s.m_connected = true then false
      else s.m_synced) ∧
    (commandHeartbeatTimerTick none s).m_context = s.m_context ∧
    (commandHeartbeatTimerTick none s).m_subscribeSocket = s.m_subscribeSocket ∧
    (commandHeartbeatTimerTick none s).m_commandSocket = s.m_commandSocket ∧
    (commandHeartbeatTimerTick none s).m_commandHeartbeatTimer = s.m_commandHeartbeatTimer ∧
    (commandHeartbeatTimerTick none s).m_subscribeHeartbeatTimer = (if s.m_commandPingOutstanding = true ∧ Timeout ≠ s.m_connectionState ∧ s.m_connected = true then
        { active := false, interval := s.m_subscribeHeartbeatTimer.interval }
      else s.m_subscribeHeartbeatTimer) ∧
    (commandHeartbeatTimerTick none s).m_commandPingOutstanding = true ∧
    (commandHeartbeatTimerTick none s).m_rx = s.m_rx ∧
    (commandHeartbeatTimerTick none s).m_tx = (if s.m_commandSocket = true then Container.Clear else s.m_tx) ∧
    (commandHeartbeatTimerTick none s).fault = s.fault := by
  rw [launcher_commandHeartbeatTimerTick_eq]
  cases ho : s.m_commandPingOutstanding <;>
    simp only [launcher_sendCommandMessage_ok_frame, launcher_updateState_frame, if_true, if_false,
      Bool.false_eq_true]
  · simp
  · cases hst : s.m_connectionState <;> cases hc : s.m_connected <;> simp

/-- What `commandHeartbeatTimerTick` does to each member when the command socket is closed. -/
theorem launcher_commandHeartbeatTimerTick_closed_frame (sendError : Option ZmqError) (s : ApplicationLauncher)
    (h : s.m_commandSocket = false) :
    (commandHeartbeatTimerTick sendError s).m_subscribeUri = s.m_subscribeUri ∧
    (commandHeartbeatTimerTick sendError s).m_commandUri = s.m_commandUri ∧
    (commandHeartbeatTimerTick sendError s).m_commandIdentity = s.m_commandIdentity ∧
    (commandHeartbeatTimerTick sendError s).m_heartbeatPeriod = s.m_heartbeatPeriod ∧
    (commandHeartbeatTimerTick sendError s).m_connected = (if s.m_commandPingOutstanding = true ∧ Timeout ≠ s.m_connectionState then false else s.m_connected) ∧
    (commandHeartbeatTimerTick sendError s).m_subscribeSocketState = s.m_subscribeSocketState ∧
    (commandHeartbeatTimerTick sendError s).m_commandSocketState = (if s.m_commandPingOutstanding = true then Trying else s.m_commandSocketState) ∧
    (commandHeartbeatTimerTick sendError s).m_connectionState = (if s.m_commandPingOutstanding = true then Timeout else s.m_connectionState) ∧
    (commandHeartbeatTimerTick sendError s).m_error = (if s.m_commandPingOutstanding = true then NoError else s.m_error) ∧
    (commandHeartbeatTimerTick sendError s).m_errorString = (if s.m_commandPingOutstanding = true then "" else s.m_errorString) ∧
    (commandHeartbeatTimerTick sendError s).m_synced = (if s.m_commandPingOutstanding = true ∧ Timeout ≠ s.m_connectionState ∧ s.m_connected = true then false
      else s.m_synced) ∧
    (commandHeartbeatTimerTick sendError s).m_context = s.m_context ∧
    (commandHeartbeatTimerTick sendError s).m_subscribeSocket = s.m_subscribeSocket ∧
    (commandHeartbeatTimerTick sendError s).m_commandSocket = s.m_commandSocket ∧
    (commandHeartbeatTimerTick sendError s).m_commandHeartbeatTimer = s.m_commandHeartbeatTimer ∧
    (commandHeartbeatTimerTick sendError s).m_subscribeHeartbeatTimer = (if s.m_commandPingOutstanding = true ∧ Timeout ≠ s.m_connectionState ∧ s.m_connected = true then
        { active := false, interval := s.m_subscribeHeartbeatTimer.interval }
      else s.m_subscribeHeartbeatTimer) ∧
    (commandHeartbeatTimerTick sendError s).m_commandPingOutstanding = true ∧
    (commandHeartbeatTimerTick sendError s).m_rx = s.m_rx ∧
    (commandHeartbeatTimerTick sendError s).m_tx = s.m_tx ∧
    (commandHeartbeatTimerTick sendError s).fault = s.fault := by
  have hs : (if s.m_commandPingOutstanding = true then
      updateState Timeout NoError "" { s with m_commandSocketState := Trying }
    else s).m_commandSocket = false := by
    split_ifs <;> simp [h]
  rw [launcher_commandHeartbeatTimerTick_eq, launcher_sendCommandMessage_closed _ _ _ hs]
  cases ho : s.m_commandPingOutstanding <;>
    simp only [launcher_updateState_frame, if_true, if_false, Bool.false_eq_true]
  · simp
  · cases hst : s.m_connectionState <;> cases hc : s.m_connected <;> simp

/-- What `commandHeartbeatTimerTick` does to each member when the command socket is open
and the send throws. -/
theorem launcher_commandHeartbeatTimerTick_fail_frame (e : ZmqError) (s : ApplicationLauncher)
    (h : s.m_commandSocket = true) :
    (commandHeartbeatTimerTick (some e) s).m_subscribeUri = s.m_subscribeUri ∧
    (commandHeartbeatTimerTick (some e) s).m_commandUri = s.m_commandUri ∧
    (commandHeartbeatTimerTick (some e) s).m_commandIdentity = s.m_commandIdentity ∧
    (commandHeartbeatTimerTick (some e) s).m_heartbeatPeriod = s.m_heartbeatPeriod ∧
    (commandHeartbeatTimerTick (some e) s).m_connected = (if s.m_commandPingOutstanding = false ∧ Error = s.m_connectionState then s.m_connected
      else false) ∧
    (commandHeartbeatTimerTick (some e) s).m_subscribeSocketState = (if s.m_commandPingOutstanding = true ∨ s.m_error ≠ SocketError then Down
      else s.m_subscribeSocketState) ∧
    (commandHeartbeatTimerTick (some e) s).m_commandSocketState = (if s.m_commandPingOutstanding = true ∨ s.m_error ≠ SocketError then Down
      else s.m_commandSocketState) ∧
    (commandHeartbeatTimerTick (some e) s).m_connectionState = Error ∧
    (commandHeartbeatTimerTick (some e) s).m_error = SocketError ∧
    (commandHeartbeatTimerTick (some e) s).m_errorString = errorText e.num e.what ∧
    (commandHeartbeatTimerTick (some e) s).m_synced = (if s.m_connected = true ∧ (s.m_commandPingOutstanding = true ∨ Error ≠ s.m_connectionState)
      then false else s.m_synced) ∧
    (commandHeartbeatTimerTick (some e) s).m_context = (if s.m_commandPingOutstanding = true ∨ s.m_error ≠ SocketError then false
      else s.m_context) ∧
    (commandHeartbeatTimerTick (some e) s).m_subscribeSocket = (if s.m_commandPingOutstanding = true ∨ s.m_error ≠ SocketError then false
      else s.m_subscribeSocket) ∧
    (commandHeartbeatTimerTick (some e) s).m_commandSocket = (if s.m_commandPingOutstanding = true ∨ s.m_error ≠ SocketError then false
      else s.m_commandSocket) ∧
    (commandHeartbeatTimerTick (some e) s).m_commandHeartbeatTimer = (if s.m_commandPingOutstanding = true ∨ s.m_error ≠ SocketError then { active := false, interval := s.m_commandHeartbeatTimer.interval }
      else s.m_commandHeartbeatTimer) ∧
    (commandHeartbeatTimerTick (some e) s).m_subscribeHeartbeatTimer = (if s.m_connected = true ∧ (s.m_commandPingOutstanding = true ∨ Error ≠ s.m_connectionState)
      then { active := false, interval := s.m_subscribeHeartbeatTimer.interval }
      else s.m_subscribeHeartbeatTimer) ∧
    (commandHeartbeatTimerTick (some e) s).m_commandPingOutstanding = true ∧
    (commandHeartbeatTimerTick (some e) s).m_rx = s.m_rx ∧
    (commandHeartbeatTimerTick (some e) s).m_tx = { s.m_tx with type := some MT_PING } ∧
    (commandHeartbeatTimerTick (some e) s).fault = (if s.m_commandPingOutstanding = true ∨ s.m_error ≠ SocketError then
        (s.fault || ((if s.m_commandPingOutstanding = false ∧ Error = s.m_connectionState then
          s.m_connected else false) && !s.m_subscribeSocket))
      else s.fault) := by
  have hs : (if s.m_commandPingOutstanding = true then
      updateState Timeout NoError "" { s with m_commandSocketState := Trying }
    else s).m_commandSocket = true := by
    split_ifs <;> simp [h]
  rw [launcher_commandHeartbeatTimerTick_eq, launcher_sendCommandMessage_fail_eq _ _ _ hs]
  cases ho : s.m_commandPingOutstanding <;>
    simp only [launcher_updateState_frame, if_true, if_false, Bool.false_eq_true]
  · cases hst : s.m_connectionState <;> cases hc : s.m_connected <;> cases he : s.m_error <;> simp
  · cases hst : s.m_connectionState <;> cases hc : s.m_connected <;> cases he : s.m_error <;> simp
/-- What a ping acknowledge does to each member: the outstanding mark is cleared, the
command socket state becomes `Up`, and the state becomes `Connected` when the socket
state was not `Up`. -/
theorem launcher_command_ack_frame (rx : Container) (s : ApplicationLauncher)
    (h : rx.type = some MT_PING_ACKNOWLEDGE) :
    (commandMessageReceived rx s).m_subscribeUri = s.m_subscribeUri ∧
    (commandMessageReceived rx s).m_commandUri = s.m_commandUri ∧
    (commandMessageReceived rx s).m_commandIdentity = s.m_commandIdentity ∧
    (commandMessageReceived rx s).m_heartbeatPeriod = s.m_heartbeatPeriod ∧
    (commandMessageReceived rx s).m_connected = (if s.m_commandSocketState ≠ Up then
        (if Connected ≠ s.m_connectionState then !s.m_connected else s.m_connected)
      else s.m_connected) ∧
    (commandMessageReceived rx s).m_subscribeSocketState = s.m_subscribeSocketState ∧
    (commandMessageReceived rx s).m_commandSocketState = Up ∧
    (commandMessageReceived rx s).m_connectionState = (if s.m_commandSocketState ≠ Up then Connected else s.m_connectionState) ∧
    (commandMessageReceived rx s).m_error = (if s.m_commandSocketState ≠ Up then NoError else s.m_error) ∧
    (commandMessageReceived rx s).m_errorString = (if s.m_commandSocketState ≠ Up then "" else s.m_errorString) ∧
    (commandMessageReceived rx s).m_synced = (if s.m_commandSocketState ≠ Up ∧ Connected ≠ s.m_connectionState ∧ s.m_connected = true then
        false else s.m_synced) ∧
    (commandMessageReceived rx s).m_context = s.m_context ∧
    (commandMessageReceived rx s).m_subscribeSocket = s.m_subscribeSocket ∧
    (commandMessageReceived rx s).m_commandSocket = s.m_commandSocket ∧
    (commandMessageReceived rx s).m_commandHeartbeatTimer = s.m_commandHeartbeatTimer ∧
    (commandMessageReceived rx s).m_subscribeHeartbeatTimer = (if s.m_commandSocketState ≠ Up ∧ Connected ≠ s.m_connectionState ∧ s.m_connected = true then
        { active := false, interval := s.m_subscribeHeartbeatTimer.interval }
      else s.m_subscribeHeartbeatTimer) ∧
    (commandMessageReceived rx s).m_commandPingOutstanding = false ∧
    (commandMessageReceived rx s).m_rx = rx ∧
    (commandMessageReceived rx s).m_tx = s.m_tx ∧
    (commandMessageReceived rx s).fault = s.fault := by
  simp only [commandMessageReceived, h, updateStateTo, if_true]
  cases hu : s.m_commandSocketState <;> cases hst : s.m_connectionState <;>
    cases hc : s.m_connected <;> simp

/-- An `MT_ERROR` frame on the command socket: the socket state is set to `Down` and the
error is recorded with the text built from the note lines. -/
theorem launcher_command_error_eq (rx : Container) (s : ApplicationLauncher)
    (h : rx.type = some MT_ERROR) :
    commandMessageReceived rx s =
      updateState Error ServiceError (appendNotes "" rx.note)
        { s with m_rx := rx, m_commandSocketState := Down } := by
  simp [commandMessageReceived, h]

/-- What an `MT_ERROR` frame does to each member. -/
theorem launcher_command_error_frame (rx : Container) (s : ApplicationLauncher)
    (h : rx.type = some MT_ERROR) :
    (commandMessageReceived rx s).m_subscribeUri = s.m_subscribeUri ∧
    (commandMessageReceived rx s).m_commandUri = s.m_commandUri ∧
    (commandMessageReceived rx s).m_commandIdentity = s.m_commandIdentity ∧
    (commandMessageReceived rx s).m_heartbeatPeriod = s.m_heartbeatPeriod ∧
    (commandMessageReceived rx s).m_connected = (if Error ≠ s.m_connectionState then false else s.m_connected) ∧
    (commandMessageReceived rx s).m_subscribeSocketState = (if s.m_error ≠ ServiceError then Down else s.m_subscribeSocketState) ∧
    (commandMessageReceived rx s).m_commandSocketState = Down ∧
    (commandMessageReceived rx s).m_connectionState = Error ∧
    (commandMessageReceived rx s).m_error = ServiceError ∧
    (commandMessageReceived rx s).m_errorString = appendNotes "" rx.note ∧
    (commandMessageReceived rx s).m_synced = (if Error ≠ s.m_connectionState ∧ s.m_connected = true then false else s.m_synced) ∧
    (commandMessageReceived rx s).m_context = (if s.m_error ≠ ServiceError then false else s.m_context) ∧
    (commandMessageReceived rx s).m_subscribeSocket = (if s.m_error ≠ ServiceError then false else s.m_subscribeSocket) ∧
    (commandMessageReceived rx s).m_commandSocket = (if s.m_error ≠ ServiceError then false else s.m_commandSocket) ∧
    (commandMessageReceived rx s).m_commandHeartbeatTimer = (if s.m_error ≠ ServiceError then { active := false, interval := s.m_commandHeartbeatTimer.interval } else s.m_commandHeartbeatTimer) ∧
    (commandMessageReceived rx s).m_subscribeHeartbeatTimer = (if Error ≠ s.m_connectionState ∧ s.m_connected = true then
        { active := false, interval := s.m_subscribeHeartbeatTimer.interval }
      else s.m_subscribeHeartbeatTimer) ∧
    (commandMessageReceived rx s).m_commandPingOutstanding = s.m_commandPingOutstanding ∧
    (commandMessageReceived rx s).m_rx = rx ∧
    (commandMessageReceived rx s).m_tx = s.m_tx ∧
    (commandMessageReceived rx s).fault = (if s.m_error ≠ ServiceError then
        (s.fault || ((if Error ≠ s.m_connectionState then false else s.m_connected) &&
          !s.m_subscribeSocket))
      else s.fault) := by
  rw [launcher_command_error_eq rx s h]
  simp only [launcher_updateState_frame]
  cases hst : s.m_connectionState <;> cases hc : s.m_connected <;> cases he : s.m_error <;> simp

/-- A command message of any other type only replaces the stored envelope. -/
theorem launcher_command_other_frame (rx : Container) (s : ApplicationLauncher)
    (h1 : rx.type ≠ some MT_PING_ACKNOWLEDGE) (h2 : rx.type ≠ some MT_ERROR) :
    (commandMessageReceived rx s).m_subscribeUri = s.m_subscribeUri ∧
    (commandMessageReceived rx s).m_commandUri = s.m_commandUri ∧
    (commandMessageReceived rx s).m_commandIdentity = s.m_commandIdentity ∧
    (commandMessageReceived rx s).m_heartbeatPeriod = s.m_heartbeatPeriod ∧
    (commandMessageReceived rx s).m_connected = s.m_connected ∧
    (commandMessageReceived rx s).m_subscribeSocketState = s.m_subscribeSocketState ∧
    (commandMessageReceived rx s).m_commandSocketState = s.m_commandSocketState ∧
    (commandMessageReceived rx s).m_connectionState = s.m_connectionState ∧
    (commandMessageReceived rx s).m_error = s.m_error ∧
    (commandMessageReceived rx s).m_errorString = s.m_errorString ∧
    (commandMessageReceived rx s).m_synced = s.m_synced ∧
    (commandMessageReceived rx s).m_context = s.m_context ∧
    (commandMessageReceived rx s).m_subscribeSocket = s.m_subscribeSocket ∧
    (commandMessageReceived rx s).m_commandSocket = s.m_commandSocket ∧
    (commandMessageReceived rx s).m_commandHeartbeatTimer = s.m_commandHeartbeatTimer ∧
    (commandMessageReceived rx s).m_subscribeHeartbeatTimer = s.m_subscribeHeartbeatTimer ∧
    (commandMessageReceived rx s).m_commandPingOutstanding = s.m_commandPingOutstanding ∧
    (commandMessageReceived rx s).m_rx = rx ∧
    (commandMessageReceived rx s).m_tx = s.m_tx ∧
    (commandMessageReceived rx s).fault = s.fault := by
  simp [commandMessageReceived, h1, h2]

/-- What a full update does to each member: the subscribe socket state becomes `Up`, the
state becomes `Connected` when the socket state was not `Up`, `m_synced` is raised, and
the subscribe heartbeat timer is started from the protocol parameters. -/
theorem launcher_subscribe_full_frame (ext : External) (topic : String) (rx : Container) (s : ApplicationLauncher)
    (h : rx.type = some MT_LAUNCHER_FULL_UPDATE) :
    (subscribeMessageReceived ext topic rx s).m_subscribeUri = s.m_subscribeUri ∧
    (subscribeMessageReceived ext topic rx s).m_commandUri = s.m_commandUri ∧
    (subscribeMessageReceived ext topic rx s).m_commandIdentity = s.m_commandIdentity ∧
    (subscribeMessageReceived ext topic rx s).m_heartbeatPeriod = s.m_heartbeatPeriod ∧
    (subscribeMessageReceived ext topic rx s).m_connected = (if s.m_subscribeSocketState ≠ Up then
        (if Connected ≠ s.m_connectionState then !s.m_connected else s.m_connected)
      else s.m_connected) ∧
    (subscribeMessageReceived ext topic rx s).m_subscribeSocketState = Up ∧
    (subscribeMessageReceived ext topic rx s).m_commandSocketState = s.m_commandSocketState ∧
    (subscribeMessageReceived ext topic rx s).m_connectionState = (if s.m_subscribeSocketState ≠ Up then Connected else s.m_connectionState) ∧
    (subscribeMessageReceived ext topic rx s).m_error = (if s.m_subscribeSocketState ≠ Up then NoError else s.m_error) ∧
    (subscribeMessageReceived ext topic rx s).m_errorString = (if s.m_subscribeSocketState ≠ Up then "" else s.m_errorString) ∧
    (subscribeMessageReceived ext topic rx s).m_synced = true ∧
    (subscribeMessageReceived ext topic rx s).m_context = s.m_context ∧
    (subscribeMessageReceived ext topic rx s).m_subscribeSocket = s.m_subscribeSocket ∧
    (subscribeMessageReceived ext topic rx s).m_commandSocket = s.m_commandSocket ∧
    (subscribeMessageReceived ext topic rx s).m_commandHeartbeatTimer = s.m_commandHeartbeatTimer ∧
    (subscribeMessageReceived ext topic rx s).m_subscribeHeartbeatTimer = (match rx.pparams with
      | some pparams =>
        if pparams.keepalive_timer * 2 > 0 then
          { active := true, interval := pparams.keepalive_timer * 2 }
        else { active := false, interval := (if s.m_subscribeSocketState ≠ Up ∧ Connected ≠ s.m_connectionState ∧ s.m_connected = true then
          { active := false, interval := s.m_subscribeHeartbeatTimer.interval }
        else s.m_subscribeHeartbeatTimer).interval }
      | none =>
        (if s.m_subscribeSocketState ≠ Up ∧ Connected ≠ s.m_connectionState ∧ s.m_connected = true then
          { active := false, interval := s.m_subscribeHeartbeatTimer.interval }
        else s.m_subscribeHeartbeatTimer)) ∧
    (subscribeMessageReceived ext topic rx s).m_commandPingOutstanding = s.m_commandPingOutstanding ∧
    (subscribeMessageReceived ext topic rx s).m_rx = rx ∧
    (subscribeMessageReceived ext topic rx s).m_tx = s.m_tx ∧
    (subscribeMessageReceived ext topic rx s).fault = s.fault := by
  simp only [subscribeMessageReceived, h, updateStateTo, if_true]
  by_cases hu : s.m_subscribeSocketState = Up
  · cases hp : rx.pparams <;> simp [hp, hu]
  · cases hp : rx.pparams <;> cases hst : s.m_connectionState <;> cases hc : s.m_connected <;>
      simp [hp, hu]

/-- An incremental update only replaces the stored envelope (and updates `m_launchers`). -/
theorem launcher_subscribe_incremental_frame (ext : External) (topic : String) (rx : Container) (s : ApplicationLauncher)
    (h : rx.type = some MT_LAUNCHER_INCREMENTAL_UPDATE) :
    (subscribeMessageReceived ext topic rx s).m_subscribeUri = s.m_subscribeUri ∧
    (subscribeMessageReceived ext topic rx s).m_commandUri = s.m_commandUri ∧
    (subscribeMessageReceived ext topic rx s).m_commandIdentity = s.m_commandIdentity ∧
    (subscribeMessageReceived ext topic rx s).m_heartbeatPeriod = s.m_heartbeatPeriod ∧
    (subscribeMessageReceived ext topic rx s).m_connected = s.m_connected ∧
    (subscribeMessageReceived ext topic rx s).m_subscribeSocketState = s.m_subscribeSocketState ∧
    (subscribeMessageReceived ext topic rx s).m_commandSocketState = s.m_commandSocketState ∧
    (subscribeMessageReceived ext topic rx s).m_connectionState = s.m_connectionState ∧
    (subscribeMessageReceived ext topic rx s).m_error = s.m_error ∧
    (subscribeMessageReceived ext topic rx s).m_errorString = s.m_errorString ∧
    (subscribeMessageReceived ext topic rx s).m_synced = s.m_synced ∧
    (subscribeMessageReceived ext topic rx s).m_context = s.m_context ∧
    (subscribeMessageReceived ext topic rx s).m_subscribeSocket = s.m_subscribeSocket ∧
    (subscribeMessageReceived ext topic rx s).m_commandSocket = s.m_commandSocket ∧
    (subscribeMessageReceived ext topic rx s).m_commandHeartbeatTimer = s.m_commandHeartbeatTimer ∧
    (subscribeMessageReceived ext topic rx s).m_subscribeHeartbeatTimer = s.m_subscribeHeartbeatTimer ∧
    (subscribeMessageReceived ext topic rx s).m_commandPingOutstanding = s.m_commandPingOutstanding ∧
    (subscribeMessageReceived ext topic rx s).m_rx = rx ∧
    (subscribeMessageReceived ext topic rx s).m_tx = s.m_tx ∧
    (subscribeMessageReceived ext topic rx s).fault = s.fault := by
  simp [subscribeMessageReceived, h]

/-- A ping while the subscribe socket state is `Up` only replaces the stored envelope. -/
theorem launcher_subscribe_ping_up_frame (ext : External) (topic : String) (rx : Container) (s : ApplicationLauncher)
    (h : rx.type = some MT_PING) (hup : s.m_subscribeSocketState = Up) :
    (subscribeMessageReceived ext topic rx s).m_subscribeUri = s.m_subscribeUri ∧
    (subscribeMessageReceived ext topic rx s).m_commandUri = s.m_commandUri ∧
    (subscribeMessageReceived ext topic rx s).m_commandIdentity = s.m_commandIdentity ∧
    (subscribeMessageReceived ext topic rx s).m_heartbeatPeriod = s.m_heartbeatPeriod ∧
    (subscribeMessageReceived ext topic rx s).m_connected = s.m_connected ∧
    (subscribeMessageReceived ext topic rx s).m_subscribeSocketState = s.m_subscribeSocketState ∧
    (subscribeMessageReceived ext topic rx s).m_commandSocketState = s.m_commandSocketState ∧
    (subscribeMessageReceived ext topic rx s).m_connectionState = s.m_connectionState ∧
    (subscribeMessageReceived ext topic rx s).m_error = s.m_error ∧
    (subscribeMessageReceived ext topic rx s).m_errorString = s.m_errorString ∧
    (subscribeMessageReceived ext topic rx s).m_synced = s.m_synced ∧
    (subscribeMessageReceived ext topic rx s).m_context = s.m_context ∧
    (subscribeMessageReceived ext topic rx s).m_subscribeSocket = s.m_subscribeSocket ∧
    (subscribeMessageReceived ext topic rx s).m_commandSocket = s.m_commandSocket ∧
    (subscribeMessageReceived ext topic rx s).m_commandHeartbeatTimer = s.m_commandHeartbeatTimer ∧
    (subscribeMessageReceived ext topic rx s).m_subscribeHeartbeatTimer = s.m_subscribeHeartbeatTimer ∧
    (subscribeMessageReceived ext topic rx s).m_commandPingOutstanding = s.m_commandPingOutstanding ∧
    (subscribeMessageReceived ext topic rx s).m_rx = rx ∧
    (subscribeMessageReceived ext topic rx s).m_tx = s.m_tx ∧
    (subscribeMessageReceived ext topic rx s).fault = s.fault := by
  simp [subscribeMessageReceived, h, hup]

/-- A ping on the subscribe socket while its state is not `Up`: the state is set to
`Connecting` and the topic is unsubscribed and subscribed again. -/
theorem launcher_subscribe_ping_eq (ext : External) (topic : String) (rx : Container)
    (s : ApplicationLauncher) (h : rx.type = some MT_PING)
    (hup : s.m_subscribeSocketState ≠ Up) :
    subscribeMessageReceived ext topic rx s =
      subscribe "launcher"
        (unsubscribe "launcher" (updateState Connecting NoError "" { s with m_rx := rx })) := by
  simp [subscribeMessageReceived, h, hup, updateStateTo]

/-- An `MT_LAUNCHER_ERROR` frame on the subscribe socket: the socket state is set to
`Down` and the error is recorded with the text built from the note lines. -/
theorem launcher_subscribe_error_eq (ext : External) (topic : String) (rx : Container)
    (s : ApplicationLauncher) (h : rx.type = some MT_LAUNCHER_ERROR) :
    subscribeMessageReceived ext topic rx s =
      updateState Error CommandError (appendNotes "" rx.note)
        { s with m_rx := rx, m_subscribeSocketState := Down } := by
  simp [subscribeMessageReceived, h]

/-- What a ping does to each member while the subscribe socket state is not `Up`: the
state becomes `Connecting` and the topic is subscribed afresh. -/
theorem launcher_subscribe_ping_frame (ext : External) (topic : String) (rx : Container) (s : ApplicationLauncher)
    (h : rx.type = some MT_PING) (hup : s.m_subscribeSocketState ≠ Up) :
    (subscribeMessageReceived ext topic rx s).m_subscribeUri = s.m_subscribeUri ∧
    (subscribeMessageReceived ext topic rx s).m_commandUri = s.m_commandUri ∧
    (subscribeMessageReceived ext topic rx s).m_commandIdentity = s.m_commandIdentity ∧
    (subscribeMessageReceived ext topic rx s).m_heartbeatPeriod = s.m_heartbeatPeriod ∧
    (subscribeMessageReceived ext topic rx s).m_connected = (if Connecting ≠ s.m_connectionState then false else s.m_connected) ∧
    (subscribeMessageReceived ext topic rx s).m_subscribeSocketState = Trying ∧
    (subscribeMessageReceived ext topic rx s).m_commandSocketState = s.m_commandSocketState ∧
    (subscribeMessageReceived ext topic rx s).m_connectionState = Connecting ∧
    (subscribeMessageReceived ext topic rx s).m_error = NoError ∧
    (subscribeMessageReceived ext topic rx s).m_errorString = "" ∧
    (subscribeMessageReceived ext topic rx s).m_synced = (if Connecting ≠ s.m_connectionState ∧ s.m_connected = true then false else s.m_synced) ∧
    (subscribeMessageReceived ext topic rx s).m_context = s.m_context ∧
    (subscribeMessageReceived ext topic rx s).m_subscribeSocket = s.m_subscribeSocket ∧
    (subscribeMessageReceived ext topic rx s).m_commandSocket = s.m_commandSocket ∧
    (subscribeMessageReceived ext topic rx s).m_commandHeartbeatTimer = s.m_commandHeartbeatTimer ∧
    (subscribeMessageReceived ext topic rx s).m_subscribeHeartbeatTimer = (if Connecting ≠ s.m_connectionState ∧ s.m_connected = true then
        { active := false, interval := s.m_subscribeHeartbeatTimer.interval }
      else s.m_subscribeHeartbeatTimer) ∧
    (subscribeMessageReceived ext topic rx s).m_commandPingOutstanding = s.m_commandPingOutstanding ∧
    (subscribeMessageReceived ext topic rx s).m_rx = rx ∧
    (subscribeMessageReceived ext topic rx s).m_tx = s.m_tx ∧
    (subscribeMessageReceived ext topic rx s).fault = (s.fault || !s.m_subscribeSocket) := by
  rw [launcher_subscribe_ping_eq ext topic rx s h hup]
  simp only [launcher_subscribe_frame, launcher_unsubscribe_frame, launcher_updateState_frame]
  cases hst : s.m_connectionState <;> cases hc : s.m_connected <;> cases hf : s.fault <;>
    cases hk : s.m_subscribeSocket <;> simp

/-- What an `MT_LAUNCHER_ERROR` frame does to each member. -/
theorem launcher_subscribe_error_frame (ext : External) (topic : String) (rx : Container) (s : ApplicationLauncher)
    (h : rx.type = some MT_LAUNCHER_ERROR) :
    (subscribeMessageReceived ext topic rx s).m_subscribeUri = s.m_subscribeUri ∧
    (subscribeMessageReceived ext topic rx s).m_commandUri = s.m_commandUri ∧
    (subscribeMessageReceived ext topic rx s).m_commandIdentity = s.m_commandIdentity ∧
    (subscribeMessageReceived ext topic rx s).m_heartbeatPeriod = s.m_heartbeatPeriod ∧
    (subscribeMessageReceived ext topic rx s).m_connected = (if Error ≠ s.m_connectionState then false else s.m_connected) ∧
    (subscribeMessageReceived ext topic rx s).m_subscribeSocketState = Down ∧
    (subscribeMessageReceived ext topic rx s).m_commandSocketState = (if s.m_error ≠ CommandError then Down else s.m_commandSocketState) ∧
    (subscribeMessageReceived ext topic rx s).m_connectionState = Error ∧
    (subscribeMessageReceived ext topic rx s).m_error = CommandError ∧
    (subscribeMessageReceived ext topic rx s).m_errorString = appendNotes "" rx.note ∧
    (subscribeMessageReceived ext topic rx s).m_synced = (if Error ≠ s.m_connectionState ∧ s.m_connected = true then false else s.m_synced) ∧
    (subscribeMessageReceived ext topic rx s).m_context = (if s.m_error ≠ CommandError then false else s.m_context) ∧
    (subscribeMessageReceived ext topic rx s).m_subscribeSocket = (if s.m_error ≠ CommandError then false else s.m_subscribeSocket) ∧
    (subscribeMessageReceived ext topic rx s).m_commandSocket = (if s.m_error ≠ CommandError then false else s.m_commandSocket) ∧
    (subscribeMessageReceived ext topic rx s).m_commandHeartbeatTimer = (if s.m_error ≠ CommandError then { active := false, interval := s.m_commandHeartbeatTimer.interval } else s.m_commandHeartbeatTimer) ∧
    (subscribeMessageReceived ext topic rx s).m_subscribeHeartbeatTimer = (if Error ≠ s.m_connectionState ∧ s.m_connected = true then
        { active := false, interval := s.m_subscribeHeartbeatTimer.interval }
      else s.m_subscribeHeartbeatTimer) ∧
    (subscribeMessageReceived ext topic rx s).m_commandPingOutstanding = s.m_commandPingOutstanding ∧
    (subscribeMessageReceived ext topic rx s).m_rx = rx ∧
    (subscribeMessageReceived ext topic rx s).m_tx = s.m_tx ∧
    (subscribeMessageReceived ext topic rx s).fault = (if s.m_error ≠ CommandError then
        (s.fault || ((if Error ≠ s.m_connectionState then false else s.m_connected) &&
          !s.m_subscribeSocket))
      else s.fault) := by
  rw [launcher_subscribe_error_eq ext topic rx s h]
  simp only [launcher_updateState_frame]
  cases hst : s.m_connectionState <;> cases hc : s.m_connected <;> cases he : s.m_error <;> simp

/-- A subscribe message of any other type only replaces the stored envelope. -/
theorem launcher_subscribe_other_frame (ext : External) (topic : String) (rx : Container) (s : ApplicationLauncher)
    (h1 : rx.type ≠ some MT_LAUNCHER_FULL_UPDATE)
    (h2 : rx.type ≠ some MT_LAUNCHER_INCREMENTAL_UPDATE) (h3 : rx.type ≠ some MT_PING)
    (h4 : rx.type ≠ some MT_LAUNCHER_ERROR) :
    (subscribeMessageReceived ext topic rx s).m_subscribeUri = s.m_subscribeUri ∧
    (subscribeMessageReceived ext topic rx s).m_commandUri = s.m_commandUri ∧
    (subscribeMessageReceived ext topic rx s).m_commandIdentity = s.m_commandIdentity ∧
    (subscribeMessageReceived ext topic rx s).m_heartbeatPeriod = s.m_heartbeatPeriod ∧
    (subscribeMessageReceived ext topic rx s).m_connected = s.m_connected ∧
    (subscribeMessageReceived ext topic rx s).m_subscribeSocketState = s.m_subscribeSocketState ∧
    (subscribeMessageReceived ext topic rx s).m_commandSocketState = s.m_commandSocketState ∧
    (subscribeMessageReceived ext topic rx s).m_connectionState = s.m_connectionState ∧
    (subscribeMessageReceived ext topic rx s).m_error = s.m_error ∧
    (subscribeMessageReceived ext topic rx s).m_errorString = s.m_errorString ∧
    (subscribeMessageReceived ext topic rx s).m_synced = s.m_synced ∧
    (subscribeMessageReceived ext topic rx s).m_context = s.m_context ∧
    (subscribeMessageReceived ext topic rx s).m_subscribeSocket = s.m_subscribeSocket ∧
    (subscribeMessageReceived ext topic rx s).m_commandSocket = s.m_commandSocket ∧
    (subscribeMessageReceived ext topic rx s).m_commandHeartbeatTimer = s.m_commandHeartbeatTimer ∧
    (subscribeMessageReceived ext topic rx s).m_subscribeHeartbeatTimer = s.m_subscribeHeartbeatTimer ∧
    (subscribeMessageReceived ext topic rx s).m_commandPingOutstanding = s.m_commandPingOutstanding ∧
    (subscribeMessageReceived ext topic rx s).m_rx = rx ∧
    (subscribeMessageReceived ext topic rx s).m_tx = s.m_tx ∧
    (subscribeMessageReceived ext topic rx s).fault = s.fault := by
  simp [subscribeMessageReceived, h1, h2, h3, h4]
/-- The function `start()` when the sockets connect: the state is set to `Connecting`, the context and
the sockets are created, the topic is subscribed, the command heartbeat is started, and a
first probe is sent. -/
theorem launcher_start_ok_eq (sendError : Option ZmqError) (s : ApplicationLauncher) :
    start none sendError s =
      sendCommandMessage MT_PING sendError
        (startCommandHeartbeat
          (subscribe "launcher"
            { updateState Connecting NoError "" { s with m_commandSocketState := Trying } with
              m_context := true
              effects :=
                (updateState Connecting NoError "" { s with m_commandSocketState := Trying }).effects
                  ++ [Effect.contextStart] ++
                  [Effect.connectTo Socket.command
                     (updateState Connecting NoError ""
                       { s with m_commandSocketState := Trying }).m_commandUri,
                   Effect.connectTo Socket.subscribe
                     (updateState Connecting NoError ""
                       { s with m_commandSocketState := Trying }).m_subscribeUri]
              m_commandSocket := true
              m_subscribeSocket := true })) := by
  simp [start, connectSockets, updateStateTo]

/-- The function `start()` when connecting throws: the state is set to `Connecting`, the context and
the sockets are created, and the error is recorded by `updateState`. -/
theorem launcher_start_fail_eq (e : ZmqError) (sendError : Option ZmqError)
    (s : ApplicationLauncher) :
    start (some e) sendError s =
      updateState Error SocketError (errorText e.num e.what)
        { updateState Connecting NoError "" { s with m_commandSocketState := Trying } with
          m_context := true
          effects :=
            (updateState Connecting NoError "" { s with m_commandSocketState := Trying }).effects
              ++ [Effect.contextStart]
          m_commandSocket := true
          m_subscribeSocket := true } := by
  simp [start, connectSockets, updateStateTo]

/-- What `start()` does to each member when connecting throws. -/
@[simp]
theorem launcher_start_fail_frame (e : ZmqError) (sendError : Option ZmqError) (s : ApplicationLauncher) :
    (start (some e) sendError s).m_subscribeUri = s.m_subscribeUri ∧
    (start (some e) sendError s).m_commandUri = s.m_commandUri ∧
    (start (some e) sendError s).m_commandIdentity = s.m_commandIdentity ∧
    (start (some e) sendError s).m_heartbeatPeriod = s.m_heartbeatPeriod ∧
    (start (some e) sendError s).m_connected = false ∧
    (start (some e) sendError s).m_subscribeSocketState = Down ∧
    (start (some e) sendError s).m_commandSocketState = Down ∧
    (start (some e) sendError s).m_connectionState = Error ∧
    (start (some e) sendError s).m_error = SocketError ∧
    (start (some e) sendError s).m_errorString = errorText e.num e.what ∧
    (start (some e) sendError s).m_synced = (if s.m_connected = true then false else s.m_synced) ∧
    (start (some e) sendError s).m_context = false ∧
    (start (some e) sendError s).m_subscribeSocket = false ∧
    (start (some e) sendError s).m_commandSocket = false ∧
    (start (some e) sendError s).m_commandHeartbeatTimer = { active := false, interval := s.m_commandHeartbeatTimer.interval } ∧
    (start (some e) sendError s).m_subscribeHeartbeatTimer = (if s.m_connected = true then
        { active := false, interval := s.m_subscribeHeartbeatTimer.interval }
      else s.m_subscribeHeartbeatTimer) ∧
    (start (some e) sendError s).m_commandPingOutstanding = s.m_commandPingOutstanding ∧
    (start (some e) sendError s).m_rx = s.m_rx ∧
    (start (some e) sendError s).m_tx = s.m_tx ∧
    (start (some e) sendError s).fault = s.fault := by
  rw [launcher_start_fail_eq]
  simp only [launcher_updateState_frame]
  cases hst : s.m_connectionState <;> cases hc : s.m_connected <;> simp

/-- What `start()` does to each member when the sockets connect and the first probe is sent. -/
@[simp]
theorem launcher_start_ok_frame (s : ApplicationLauncher) :
    (start none none s).m_subscribeUri = s.m_subscribeUri ∧
    (start none none s).m_commandUri = s.m_commandUri ∧
    (start none none s).m_commandIdentity = s.m_commandIdentity ∧
    (start none none s).m_heartbeatPeriod = s.m_heartbeatPeriod ∧
    (start none none s).m_connected = (if Connecting ≠ s.m_connectionState then false else s.m_connected) ∧
    (start none none s).m_subscribeSocketState = Trying ∧
    (start none none s).m_commandSocketState = Trying ∧
    (start none none s).m_connectionState = Connecting ∧
    (start none none s).m_error = NoError ∧
    (start none none s).m_errorString = "" ∧
    (start none none s).m_synced = (if Connecting ≠ s.m_connectionState ∧ s.m_connected = true then false else s.m_synced) ∧
    (start none none s).m_context = true ∧
    (start none none s).m_subscribeSocket = true ∧
    (start none none s).m_commandSocket = true ∧
    (start none none s).m_commandHeartbeatTimer = (if s.m_heartbeatPeriod > 0 then { active := true, interval := s.m_heartbeatPeriod }
      else s.m_commandHeartbeatTimer) ∧
    (start none none s).m_subscribeHeartbeatTimer = (if Connecting ≠ s.m_connectionState ∧ s.m_connected = true then
        { active := false, interval := s.m_subscribeHeartbeatTimer.interval }
      else s.m_subscribeHeartbeatTimer) ∧
    (start none none s).m_commandPingOutstanding = false ∧
    (start none none s).m_rx = s.m_rx ∧
    (start none none s).m_tx = Container.Clear ∧
    (start none none s).fault = s.fault := by
  rw [launcher_start_ok_eq]
  simp only [launcher_sendCommandMessage_ok_frame, launcher_startCommandHeartbeat_frame,
    launcher_subscribe_frame, launcher_updateState_frame]
  cases hst : s.m_connectionState <;> cases hc : s.m_connected <;> simp

/-- What `start()` does to each member when the sockets connect and sending the first probe
throws. -/
@[simp]
theorem launcher_start_sendfail_frame (e : ZmqError) (s : ApplicationLauncher) :
    (start none (some e) s).m_subscribeUri = s.m_subscribeUri ∧
    (start none (some e) s).m_commandUri = s.m_commandUri ∧
    (start none (some e) s).m_commandIdentity = s.m_commandIdentity ∧
    (start none (some e) s).m_heartbeatPeriod = s.m_heartbeatPeriod ∧
    (start none (some e) s).m_connected = false ∧
    (start none (some e) s).m_subscribeSocketState = Down ∧
    (start none (some e) s).m_commandSocketState = Down ∧
    (start none (some e) s).m_connectionState = Error ∧
    (start none (some e) s).m_error = SocketError ∧
    (start none (some e) s).m_errorString = errorText e.num e.what ∧
    (start none (some e) s).m_synced = (if s.m_connected = true then false else s.m_synced) ∧
    (start none (some e) s).m_context = false ∧
    (start none (some e) s).m_subscribeSocket = false ∧
    (start none (some e) s).m_commandSocket = false ∧
    (start none (some e) s).m_commandHeartbeatTimer = { active := false, interval := (if s.m_heartbeatPeriod > 0 then s.m_heartbeatPeriod else s.m_commandHeartbeatTimer.interval) } ∧
    (start none (some e) s).m_subscribeHeartbeatTimer = (if s.m_connected = true then
        { active := false, interval := s.m_subscribeHeartbeatTimer.interval }
      else s.m_subscribeHeartbeatTimer) ∧
    (start none (some e) s).m_commandPingOutstanding = false ∧
    (start none (some e) s).m_rx = s.m_rx ∧
    (start none (some e) s).m_tx = { s.m_tx with type := some MT_PING } ∧
    (start none (some e) s).fault = s.fault := by
  rw [launcher_start_ok_eq, launcher_sendCommandMessage_fail_eq _ _ _ (by simp)]
  simp only [launcher_updateState_frame, launcher_startCommandHeartbeat_frame,
    launcher_subscribe_frame]
  cases hst : s.m_connectionState <;> cases hc : s.m_connected <;>
    by_cases hp : s.m_heartbeatPeriod > 0 <;> simp [hp]
/-- Sending a command message keeps the invariant. -/
theorem launcher_invariant_send (type : ContainerType) (sendError : Option ZmqError)
    (s : ApplicationLauncher) (hinv : Invariant s) :
    Invariant (sendCommandMessage type sendError s) := by
  cases sendError with
  | none =>
    simp only [Invariant, launcher_sendCommandMessage_ok_frame]
    exact hinv
  | some e =>
    cases hsock : s.m_commandSocket with
    | false =>
      rw [launcher_sendCommandMessage_closed _ _ _ hsock]
      exact hinv
    | true =>
      obtain ⟨h1, h2, h3, h4, h5, h6, h7, h8⟩ := hinv
      simp only [Invariant, launcher_sendCommandMessage_fail_frame type e s hsock]
      cases hst : s.m_connectionState <;> cases he : s.m_error <;>
        simp_all

/-- The invariant is kept by every enabled event. -/
theorem launcher_invariant_step (ext : External) (s : ApplicationLauncher) (e : Event)
    (hinv : Invariant s) (hen : e.enabled s = true) : Invariant (step ext e s) := by
  have hinv0 := hinv
  obtain ⟨h1, h2, h3, h4, h5, h6, h7, h8⟩ := hinv
  cases e with
  | start connectError sendError =>
    cases connectError with
    | some err =>
      simp only [step, Invariant, launcher_start_fail_frame]
      cases hst : s.m_connectionState <;> simp_all
    | none =>
      cases sendError with
      | none =>
        simp only [step, Invariant, launcher_start_ok_frame]
        cases hst : s.m_connectionState <;> simp_all
      | some err =>
        simp only [step, Invariant, launcher_start_sendfail_frame]
        cases hst : s.m_connectionState <;> simp_all
  | stop =>
    simp only [step, Invariant, launcher_stop_frame]
    cases hst : s.m_connectionState <;> simp_all
  | setLaunchercmdUri arg =>
    simp only [step, Invariant, launcher_setLaunchercmdUri_frame]
    exact hinv0
  | setLauncherUri arg =>
    simp only [step, Invariant, launcher_setLauncherUri_frame]
    exact hinv0
  | heartbeatPeriod arg =>
    simp only [step, Invariant, launcher_heartbeatPeriod_frame]
    exact hinv0
  | startIndex index sendError =>
    simp only [step, startIndex]
    split_ifs
    · exact hinv0
    · exact launcher_invariant_send _ _ _ hinv0
  | kill index sendError =>
    simp only [step, kill]
    split_ifs
    · exact hinv0
    · exact launcher_invariant_send _ _ _ hinv0
  | terminate index sendError =>
    simp only [step, terminate]
    split_ifs
    · exact hinv0
    · exact launcher_invariant_send _ _ _ hinv0
  | writeToStdin index data sendError =>
    simp only [step, writeToStdin]
    split_ifs
    · exact hinv0
    · exact launcher_invariant_send _ _ _ hinv0
  | call command sendError =>
    simp only [step, call]
    split_ifs
    · exact hinv0
    · exact launcher_invariant_send _ _ _ hinv0
  | shutdown sendError =>
    simp only [step, shutdown]
    split_ifs
    · exact hinv0
    · exact launcher_invariant_send _ _ _ hinv0
  | subscribeMessageReceived topic rx =>
    simp only [Event.enabled] at hen
    simp only [step, Invariant]
    by_cases hF : rx.type = some MT_LAUNCHER_FULL_UPDATE
    · simp only [launcher_subscribe_full_frame ext topic rx s hF]
      cases hu : s.m_subscribeSocketState <;> cases hst : s.m_connectionState <;> simp_all
    · by_cases hI : rx.type = some MT_LAUNCHER_INCREMENTAL_UPDATE
      · simp only [launcher_subscribe_incremental_frame ext topic rx s hI]
        exact hinv0
      · by_cases hP : rx.type = some MT_PING
        · by_cases hup : s.m_subscribeSocketState = Up
          · simp only [launcher_subscribe_ping_up_frame ext topic rx s hP hup]
            exact hinv0
          · simp only [launcher_subscribe_ping_frame ext topic rx s hP hup]
            cases hst : s.m_connectionState <;> simp_all
        · by_cases hE : rx.type = some MT_LAUNCHER_ERROR
          · simp only [launcher_subscribe_error_frame ext topic rx s hE]
            cases hst : s.m_connectionState <;>
              cases he : s.m_error <;> simp_all
          · simp only [launcher_subscribe_other_frame ext topic rx s hF hI hP hE]
            exact hinv0
  | commandMessageReceived rx =>
    simp only [Event.enabled] at hen
    simp only [step, Invariant]
    by_cases hA : rx.type = some MT_PING_ACKNOWLEDGE
    · simp only [launcher_command_ack_frame rx s hA]
      cases hu : s.m_commandSocketState <;> cases hst : s.m_connectionState <;> simp_all
    · by_cases hE : rx.type = some MT_ERROR
      · simp only [launcher_command_error_frame rx s hE]
        cases hst : s.m_connectionState <;>
          cases he : s.m_error <;> simp_all
      · simp only [launcher_command_other_frame rx s hA hE]
        exact hinv0
  | pollError errorNum errorMsg =>
    simp only [step, Invariant, launcher_pollError_frame]
    cases hst : s.m_connectionState <;> cases he : s.m_error <;>
      simp_all
  | commandHeartbeatTimerTick sendError =>
    simp only [Event.enabled] at hen
    simp only [step, Invariant]
    cases sendError with
    | none =>
      simp only [launcher_commandHeartbeatTimerTick_ok_frame]
      cases ho : s.m_commandPingOutstanding <;> cases hst : s.m_connectionState <;> simp_all
    | some err =>
      have hsock : s.m_commandSocket = true := by rw [h4]; exact h7 hen
      simp only [launcher_commandHeartbeatTimerTick_fail_frame err s hsock]
      cases ho : s.m_commandPingOutstanding <;> cases hst : s.m_connectionState <;> cases he : s.m_error <;> simp_all
  | subscribeHeartbeatTimerTick =>
    simp only [step, Invariant, launcher_subscribeHeartbeatTimerTick_frame]
    cases hst : s.m_connectionState <;> simp_all

/-- The constructed state satisfies the invariant. -/
theorem launcher_invariant_new : Invariant new := by
  simp [Invariant, new]

/-- Every reachable state satisfies the invariant. -/
theorem launcher_reachable_invariant (ext : External) (s : ApplicationLauncher)
    (h : Reachable ext s) : Invariant s := by
  induction h with
  | init => exact launcher_invariant_new
  | step s e _ hen ih => exact launcher_invariant_step ext s e ih hen
/-- Sending a command message keeps the coherence of the members. -/
theorem launcher_coherent_send (type : ContainerType) (sendError : Option ZmqError)
    (s : ApplicationLauncher) (hinv : Coherent s) :
    Coherent (sendCommandMessage type sendError s) := by
  cases sendError with
  | none =>
    simp only [Coherent, launcher_sendCommandMessage_ok_frame]
    exact hinv
  | some e =>
    cases hsock : s.m_commandSocket with
    | false =>
      rw [launcher_sendCommandMessage_closed _ _ _ hsock]
      exact hinv
    | true =>
      obtain ⟨h1, h2⟩ := hinv
      simp only [Coherent, launcher_sendCommandMessage_fail_frame type e s hsock]
      cases hst : s.m_connectionState <;> simp_all

/-- Every event keeps the coherence of the members, enabled or not. -/
theorem launcher_coherent_step (ext : External) (s : ApplicationLauncher) (e : Event)
    (hinv : Coherent s) : Coherent (step ext e s) := by
  have hinv0 := hinv
  obtain ⟨h1, h2⟩ := hinv
  cases e with
  | start connectError sendError =>
    cases connectError with
    | some err =>
      simp only [step, Coherent, launcher_start_fail_frame]
      simp
    | none =>
      cases sendError with
      | none =>
        simp only [step, Coherent, launcher_start_ok_frame]
        cases hst : s.m_connectionState <;> simp_all
      | some err =>
        simp only [step, Coherent, launcher_start_sendfail_frame]
        simp
  | stop =>
    simp only [step, Coherent, launcher_stop_frame]
    cases hst : s.m_connectionState <;> simp_all
  | setLaunchercmdUri arg =>
    simp only [step, Coherent, launcher_setLaunchercmdUri_frame]
    exact hinv0
  | setLauncherUri arg =>
    simp only [step, Coherent, launcher_setLauncherUri_frame]
    exact hinv0
  | heartbeatPeriod arg =>
    simp only [step, Coherent, launcher_heartbeatPeriod_frame]
    exact hinv0
  | startIndex index sendError =>
    simp only [step, startIndex]
    split_ifs
    · exact hinv0
    · exact launcher_coherent_send _ _ _ hinv0
  | kill index sendError =>
    simp only [step, kill]
    split_ifs
    · exact hinv0
    · exact launcher_coherent_send _ _ _ hinv0
  | terminate index sendError =>
    simp only [step, terminate]
    split_ifs
    · exact hinv0
    · exact launcher_coherent_send _ _ _ hinv0
  | writeToStdin index data sendError =>
    simp only [step, writeToStdin]
    split_ifs
    · exact hinv0
    · exact launcher_coherent_send _ _ _ hinv0
  | call command sendError =>
    simp only [step, call]
    split_ifs
    · exact hinv0
    · exact launcher_coherent_send _ _ _ hinv0
  | shutdown sendError =>
    simp only [step, shutdown]
    split_ifs
    · exact hinv0
    · exact launcher_coherent_send _ _ _ hinv0
  | subscribeMessageReceived topic rx =>
    simp only [step, Coherent]
    by_cases hF : rx.type = some MT_LAUNCHER_FULL_UPDATE
    · simp only [launcher_subscribe_full_frame ext topic rx s hF]
      cases hu : s.m_subscribeSocketState <;> cases hst : s.m_connectionState <;> simp_all
    · by_cases hI : rx.type = some MT_LAUNCHER_INCREMENTAL_UPDATE
      · simp only [launcher_subscribe_incremental_frame ext topic rx s hI]
        exact hinv0
      · by_cases hP : rx.type = some MT_PING
        · by_cases hup : s.m_subscribeSocketState = Up
          · simp only [launcher_subscribe_ping_up_frame ext topic rx s hP hup]
            exact hinv0
          · simp only [launcher_subscribe_ping_frame ext topic rx s hP hup]
            cases hst : s.m_connectionState <;> simp_all
        · by_cases hE : rx.type = some MT_LAUNCHER_ERROR
          · simp only [launcher_subscribe_error_frame ext topic rx s hE]
            cases hst : s.m_connectionState <;> simp_all
          · simp only [launcher_subscribe_other_frame ext topic rx s hF hI hP hE]
            exact hinv0
  | commandMessageReceived rx =>
    simp only [step, Coherent]
    by_cases hA : rx.type = some MT_PING_ACKNOWLEDGE
    · simp only [launcher_command_ack_frame rx s hA]
      cases hu : s.m_commandSocketState <;> cases hst : s.m_connectionState <;> simp_all
    · by_cases hE : rx.type = some MT_ERROR
      · simp only [launcher_command_error_frame rx s hE]
        cases hst : s.m_connectionState <;> simp_all
      · simp only [launcher_command_other_frame rx s hA hE]
        exact hinv0
  | pollError errorNum errorMsg =>
    simp only [step, Coherent, launcher_pollError_frame]
    cases hst : s.m_connectionState <;> simp_all
  | commandHeartbeatTimerTick sendError =>
    simp only [step, Coherent]
    cases hsock : s.m_commandSocket with
    | false =>
      simp only [launcher_commandHeartbeatTimerTick_closed_frame sendError s hsock]
      cases ho : s.m_commandPingOutstanding <;> cases hst : s.m_connectionState <;> simp_all
    | true =>
      cases sendError with
      | none =>
        simp only [launcher_commandHeartbeatTimerTick_ok_frame]
        cases ho : s.m_commandPingOutstanding <;> cases hst : s.m_connectionState <;> simp_all
      | some err =>
        simp only [launcher_commandHeartbeatTimerTick_fail_frame err s hsock]
        cases ho : s.m_commandPingOutstanding <;> cases hst : s.m_connectionState <;> simp_all
  | subscribeHeartbeatTimerTick =>
    simp only [step, Coherent, launcher_subscribeHeartbeatTimerTick_frame]
    cases hst : s.m_connectionState <;> simp_all

/-- The constructed state is coherent. -/
theorem launcher_coherent_new : Coherent new := by
  simp [Coherent, new]

/-- The state after any sequence of events from a coherent state is coherent. -/
theorem launcher_coherent_run (ext : External) (es : List Event) :
    ∀ s : ApplicationLauncher, Coherent s → Coherent (run ext es s) := by
  induction es with
  | nil =>
    intro s hs
    exact hs
  | cons e es ih =>
    intro s hs
    exact ih (step ext e s) (launcher_coherent_step ext s e hs)

/-- Every reachable state is the state after a sequence of events from construction. -/
theorem launcher_reachable_is_run (ext : External) (s : ApplicationLauncher)
    (h : Reachable ext s) : ∃ es : List Event, s = run ext es new := by
  induction h with
  | init => exact ⟨[], rfl⟩
  | step s e _ _ ih =>
    obtain ⟨es, hes⟩ := ih
    refine ⟨es ++ [e], ?_⟩
    rw [hes]
    simp [run, List.foldl_append]

/-- A run of events, each enabled where it occurs, leads from a reachable state to a
reachable state. -/
theorem launcher_reachable_run (ext : External) (es : List Event) :
    ∀ s : ApplicationLauncher, Reachable ext s → allEnabled ext es s = true →
      Reachable ext (run ext es s) := by
  induction es with
  | nil =>
    intro s hs _
    exact hs
  | cons e es ih =>
    intro s hs hen
    simp only [allEnabled, Bool.and_eq_true] at hen
    exact ih (step ext e s) (Reachable.step s e hs hen.1) hen.2

end ApplicationLauncher

/-! ## Transport calls of ApplicationStatus -/

namespace ApplicationStatus

open State SocketState ConnectionError ContainerType StatusChannel

/-- The transport calls in a concatenation of two effect logs. -/
theorem transportCalls_append (a b : List Effect) :
    transportCalls (a ++ b) = transportCalls a ++ transportCalls b := by
  induction a with
  | nil => rfl
  | cons x xs ih => cases x <;> simp [transportCalls, ih]

/-- Emitting a signal is no transport call. -/
@[simp]
theorem status_emit_calls (signal : Signal) (s : ApplicationStatus) :
    transportCalls (emit signal s).effects = transportCalls s.effects := by
  simp [emit, transportCalls_append, transportCalls]

/-- The function `updateRunning` makes no transport call. -/
@[simp]
theorem status_updateRunning_calls (ext : External) (s : ApplicationStatus) :
    transportCalls (updateRunning ext s).effects = transportCalls s.effects := by
  simp only [updateRunning]
  split_ifs <;> simp

/-- The function `initializeObject` makes no transport call. -/
@[simp]
theorem status_initializeObject_calls (ext : External) (c : StatusChannel)
    (s : ApplicationStatus) :
    transportCalls (initializeObject ext c s).effects = transportCalls s.effects := by
  cases c <;> simp [initializeObject]

/-- The function `clearSync` makes no transport call. -/
@[simp]
theorem status_clearSync_calls (s : ApplicationStatus) :
    transportCalls (clearSync s).effects = transportCalls s.effects := by
  simp [clearSync]

/-- The function `updateError` without an error makes no transport call. -/
theorem status_updateError_noerror_calls (ext : External) (errorString : String)
    (s : ApplicationStatus) :
    transportCalls (updateError ext NoError errorString s).effects = transportCalls s.effects := by
  simp only [updateError, ne_eq, not_true_eq_false, if_false]
  split_ifs <;> simp

/-- The function `updateState` without an error makes no transport call. -/
@[simp]
theorem status_updateStateTo_calls (ext : External) (state : State) (s : ApplicationStatus) :
    transportCalls (updateStateTo ext state s).effects = transportCalls s.effects := by
  simp only [updateStateTo, updateState]
  rw [status_updateError_noerror_calls]
  split_ifs <;> simp [stopStatusHeartbeat]

/-- One round of the loop of `unsubscribe`, with the socket open, is one call of
`unsubscribeFrom`. -/
theorem status_unsubscribeFrom_calls (ext : External) (s : ApplicationStatus)
    (subscription : String) (hsock : s.m_statusSocket = true) :
    transportCalls (unsubscribeFrom ext s subscription).effects =
      transportCalls s.effects ++ ["unsubscribeFrom " ++ subscription] := by
  simp only [unsubscribeFrom, statusSocketCall, hsock, if_true]
  split_ifs <;> simp [transportCalls_append, transportCalls]

/-- The loop of `unsubscribe`, with the socket open, calls `unsubscribeFrom` once for each
recorded subscription, in order. -/
theorem status_unsubscribe_loop_calls (ext : External) (l : List String) :
    ∀ s : ApplicationStatus, s.m_statusSocket = true →
      transportCalls (l.foldl (unsubscribeFrom ext) s).effects =
        transportCalls s.effects ++ l.map (fun t => "unsubscribeFrom " ++ t) := by
  induction l with
  | nil =>
    intro s _
    simp
  | cons x xs ih =>
    intro s hsock
    have hx : (unsubscribeFrom ext s x).m_statusSocket = true := by
      simp only [status_unsubscribeFrom_frame, hsock]
    simp only [List.foldl_cons, ih _ hx, status_unsubscribeFrom_calls ext s x hsock,
      List.map_cons, List.append_assoc, List.singleton_append]

/-- With the socket open, `unsubscribe` calls `unsubscribeFrom` once for each recorded
subscription, in order. -/
theorem status_unsubscribe_calls (ext : External) (s : ApplicationStatus)
    (hsock : s.m_statusSocket = true) :
    transportCalls (unsubscribe ext s).effects =
      transportCalls s.effects ++ s.m_subscriptions.map (fun t => "unsubscribeFrom " ++ t) := by
  show transportCalls (List.foldl (unsubscribeFrom ext)
    { s with m_statusSocketState := Down } s.m_subscriptions).effects = _
  exact status_unsubscribe_loop_calls ext s.m_subscriptions
    { s with m_statusSocketState := Down } hsock

/-- With the socket open, `subscribe` subscribes to the five topics. -/
theorem status_subscribe_calls (s : ApplicationStatus) (hsock : s.m_statusSocket = true) :
    transportCalls (subscribe s).effects =
      transportCalls s.effects ++ ["subscribeTo motion", "subscribeTo config",
        "subscribeTo task", "subscribeTo io", "subscribeTo interp"] := by
  simp only [subscribe, status_lor_flag_ne_zero, ne_eq, not_false_eq_true, if_true,
    statusSocketCall, hsock]
  simp only [transportCalls_append, transportCalls, List.append_assoc, List.singleton_append,
    List.nil_append, List.cons_append]
  rfl

/-- A ping while the socket state is not `Up` is a change of state to `Connecting`
followed by `unsubscribe` and `subscribe`. -/
theorem status_received_ping_eq (ext : External) (topic : String) (rx : Container)
    (s : ApplicationStatus) (h : rx.type = some MT_PING) (hup : s.m_statusSocketState ≠ Up) :
    statusMessageReceived ext topic rx s =
      subscribe (unsubscribe ext (updateStateTo ext Connecting { s with m_rx := rx })) := by
  rw [status_statusMessageReceived_eq]
  simp [h, hup]

/-- With the socket open and the socket state not `Up`, a ping unsubscribes from every
recorded subscription and subscribes to the five topics. -/
theorem status_received_ping_calls (ext : External) (topic : String) (rx : Container)
    (s : ApplicationStatus) (h : rx.type = some MT_PING) (hup : s.m_statusSocketState ≠ Up)
    (hsock : s.m_statusSocket = true) :
    transportCalls (statusMessageReceived ext topic rx s).effects =
      transportCalls s.effects ++ s.m_subscriptions.map (fun t => "unsubscribeFrom " ++ t) ++
        ["subscribeTo motion", "subscribeTo config", "subscribeTo task", "subscribeTo io",
         "subscribeTo interp"] := by
  have h1 : (updateStateTo ext Connecting { s with m_rx := rx }).m_statusSocket = true := by
    simp only [updateStateTo, status_updateState_frame]
    simp [hsock]
  have h2 : (unsubscribe ext (updateStateTo ext Connecting { s with m_rx := rx })).m_statusSocket
      = true := by
    simp only [status_unsubscribe_frame, h1]
  have h3 : (updateStateTo ext Connecting { s with m_rx := rx }).m_subscriptions
      = s.m_subscriptions := by
    simp only [updateStateTo, status_updateState_frame]
    simp
  rw [status_received_ping_eq ext topic rx s h hup, status_subscribe_calls _ h2,
    status_unsubscribe_calls ext _ h1, status_updateStateTo_calls, h3]

end ApplicationStatus

/-! ## Transitions announced by ApplicationStatus -/

namespace ApplicationStatus

open State SocketState ConnectionError ContainerType StatusChannel

/-- Emitting a signal announces a transition exactly when the signal is
`connectionStateChanged`. -/
theorem status_emit_changes (signal : Signal) (s : ApplicationStatus) :
    stateChanges (emit signal s).effects =
      stateChanges s.effects ++ (stateChange (Effect.emit signal)).toList := by
  cases h : stateChange (Effect.emit signal) <;>
    simp [emit, stateChanges, List.filterMap_append, List.filterMap_cons, h]

/-- The function `updateRunning` announces no transition. -/
@[simp]
theorem status_updateRunning_changes (ext : External) (s : ApplicationStatus) :
    stateChanges (updateRunning ext s).effects = stateChanges s.effects := by
  simp only [updateRunning]
  split_ifs <;> simp [status_emit_changes, stateChange]

/-- The function `initializeObject` announces no transition. -/
@[simp]
theorem status_initializeObject_changes (ext : External) (c : StatusChannel)
    (s : ApplicationStatus) :
    stateChanges (initializeObject ext c s).effects = stateChanges s.effects := by
  cases c <;> simp [initializeObject, status_emit_changes, stateChange]

/-- The function `clearSync` announces no transition. -/
@[simp]
theorem status_clearSync_changes (s : ApplicationStatus) :
    stateChanges (clearSync s).effects = stateChanges s.effects := by
  simp [clearSync, status_emit_changes, stateChange]

/-- The function `updateError` without an error announces no transition. -/
theorem status_updateError_noerror_changes (ext : External) (errorString : String)
    (s : ApplicationStatus) :
    stateChanges (updateError ext NoError errorString s).effects = stateChanges s.effects := by
  simp only [updateError, ne_eq, not_true_eq_false, if_false]
  split_ifs <;> simp [status_emit_changes, stateChange]

/-- The function `updateState` without an error announces the new state exactly when it differs from
the current one. -/
theorem status_updateStateTo_changes (ext : External) (state : State) (s : ApplicationStatus) :
    stateChanges (updateStateTo ext state s).effects =
      stateChanges s.effects ++ (if state ≠ s.m_connectionState then [state] else []) := by
  simp only [updateStateTo, updateState]
  rw [status_updateError_noerror_changes]
  split_ifs <;> simp [stopStatusHeartbeat, status_emit_changes, stateChange]

/-- A ping while the socket state is `Up` leaves the effect log as it is. -/
theorem status_received_ping_up_effects (ext : External) (topic : String) (rx : Container)
    (s : ApplicationStatus) (h : rx.type = some MT_PING) (hup : s.m_statusSocketState = Up) :
    (statusMessageReceived ext topic rx s).effects = s.effects := by
  rw [status_statusMessageReceived_eq]
  simp only [h, hup, refreshStatusHeartbeat]
  simp only [reduceCtorEq, or_self, if_false, if_true, Option.some.injEq]
  split_ifs <;> rfl

end ApplicationStatus

/-! ## Transitions announced by ApplicationLauncher -/

namespace ApplicationLauncher

open State SocketState ConnectionError ContainerType

/-- The transitions in a concatenation of two effect logs. -/
theorem stateChanges_append (a b : List Effect) :
    stateChanges (a ++ b) = stateChanges a ++ stateChanges b := by
  simp [stateChanges, List.filterMap_append]

/-- Emitting a signal announces a transition exactly when the signal is
`connectionStateChanged`. -/
theorem launcher_emit_changes (signal : Signal) (s : ApplicationLauncher) :
    stateChanges (emit signal s).effects =
      stateChanges s.effects ++ (stateChange (Effect.emit signal)).toList := by
  cases h : stateChange (Effect.emit signal) <;>
    simp [emit, stateChanges, List.filterMap_append, List.filterMap_cons, h]

/-- A call into the subscribe socket announces no transition. -/
@[simp]
theorem launcher_subscribeSocketCall_changes (e : Effect) (s : ApplicationLauncher)
    (he : stateChange e = none) :
    stateChanges (subscribeSocketCall e s).effects = stateChanges s.effects := by
  unfold subscribeSocketCall
  cases h : s.m_subscribeSocket <;> simp [stateChanges, List.filterMap_append, he]

/-- The function `initializeObject` announces no transition. -/
@[simp]
theorem launcher_initializeObject_changes (s : ApplicationLauncher) :
    stateChanges (initializeObject s).effects = stateChanges s.effects := by
  simp [initializeObject, launcher_emit_changes, stateChange]

/-- The function `disconnectSockets` announces no transition. -/
@[simp]
theorem launcher_disconnectSockets_changes (s : ApplicationLauncher) :
    stateChanges (disconnectSockets s).effects = stateChanges s.effects := by
  simp only [disconnectSockets]
  cases h1 : s.m_commandSocket <;> cases h2 : s.m_subscribeSocket <;> cases h3 : s.m_context <;>
    simp [h1, h2, h3, stateChanges, List.filterMap_append, stateChange]

/-- The function `unsubscribe` announces no transition. -/
@[simp]
theorem launcher_unsubscribe_changes (topic : String) (s : ApplicationLauncher) :
    stateChanges (unsubscribe topic s).effects = stateChanges s.effects := by
  simp [unsubscribe, stateChange]

/-- The function `clearSync` announces no transition. -/
@[simp]
theorem launcher_clearSync_changes (s : ApplicationLauncher) :
    stateChanges (clearSync s).effects = stateChanges s.effects := by
  simp [clearSync, launcher_emit_changes, stateChange]

/-- The function `cleanup` announces no transition. -/
@[simp]
theorem launcher_cleanup_changes (s : ApplicationLauncher) :
    stateChanges (cleanup s).effects = stateChanges s.effects := by
  simp only [cleanup]
  cases h : s.m_connected <;> simp [h, stopCommandHeartbeat]

/-- The function `updateError` announces no transition. -/
@[simp]
theorem launcher_updateError_changes (error : ConnectionError) (errorString : String)
    (s : ApplicationLauncher) :
    stateChanges (updateError error errorString s).effects = stateChanges s.effects := by
  simp only [updateError]
  split_ifs <;> simp [launcher_emit_changes, stateChange]

/-- The function `updateState` announces the new state exactly when it differs from the current one. -/
theorem launcher_updateState_changes (state : State) (error : ConnectionError)
    (errorString : String) (s : ApplicationLauncher) :
    stateChanges (updateState state error errorString s).effects =
      stateChanges s.effects ++ (if state ≠ s.m_connectionState then [state] else []) := by
  simp only [updateState]
  split_ifs <;> simp [launcher_emit_changes, stateChange, stopSubscribeHeartbeat]

/-- The function `sendCommandMessage` announces a transition, to `Error`, exactly when the command
socket is open, the send throws and the state is not `Error` already. -/
theorem launcher_sendCommandMessage_changes (type : ContainerType)
    (sendError : Option ZmqError) (s : ApplicationLauncher) :
    stateChanges (sendCommandMessage type sendError s).effects =
      stateChanges s.effects ++
        (if s.m_commandSocket = true ∧ sendError.isSome = true ∧ s.m_connectionState ≠ Error
          then [Error] else []) := by
  cases h : s.m_commandSocket with
  | false => simp [launcher_sendCommandMessage_closed _ _ _ h]
  | true =>
    cases sendError with
    | none => simp [sendCommandMessage, h, stateChanges, List.filterMap_append, stateChange]
    | some e =>
      rw [launcher_sendCommandMessage_fail_eq _ _ _ h, launcher_updateState_changes]
      simp [eq_comm]

/-- The transitions announced by `commandHeartbeatTimerTick`: one to `Timeout` when the
probe is outstanding and the state is not `Timeout` already, followed by one to `Error`
when the send of the new probe throws. -/
theorem launcher_commandHeartbeatTimerTick_changes (sendError : Option ZmqError)
    (s : ApplicationLauncher) :
    timeoutTransitions (commandHeartbeatTimerTick sendError s).effects =
      timeoutTransitions s.effects +
        (if s.m_commandPingOutstanding = true ∧ s.m_connectionState ≠ Timeout then 1 else 0) := by
  rw [launcher_commandHeartbeatTimerTick_eq]
  simp only [timeoutTransitions, launcher_sendCommandMessage_changes]
  cases ho : s.m_commandPingOutstanding
  · simp [List.count_append]
    split_ifs <;> simp
  · simp only [if_true, launcher_updateState_changes, List.count_append]
    cases hst : s.m_connectionState <;> simp <;> split_ifs <;> simp

end ApplicationLauncher

namespace ApplicationLauncher

open State SocketState ConnectionError ContainerType

/-- Sending a command message leaves the outstanding flag as it is. -/
theorem launcher_sendCommandMessage_outstanding (type : ContainerType)
    (sendError : Option ZmqError) (s : ApplicationLauncher) :
    (sendCommandMessage type sendError s).m_commandPingOutstanding
      = s.m_commandPingOutstanding := by
  cases hsock : s.m_commandSocket with
  | false => rw [launcher_sendCommandMessage_closed _ _ _ hsock]
  | true =>
    cases sendError with
    | none => simp only [launcher_sendCommandMessage_ok_frame]
    | some e => simp only [launcher_sendCommandMessage_fail_frame type e s hsock]

/-- An event other than an acknowledge and `start()` leaves a set outstanding flag set. -/
theorem launcher_step_keeps_probe (ext : External) (e : Event) (s : ApplicationLauncher)
    (hk : e.keepsProbeOutstanding = true) (ho : s.m_commandPingOutstanding = true) :
    (step ext e s).m_commandPingOutstanding = true := by
  cases e with
  | start connectError sendError => simp [Event.keepsProbeOutstanding] at hk
  | stop => simp only [step, launcher_stop_frame, ho]
  | setLaunchercmdUri arg => simp only [step, launcher_setLaunchercmdUri_frame, ho]
  | setLauncherUri arg => simp only [step, launcher_setLauncherUri_frame, ho]
  | heartbeatPeriod arg => simp only [step, launcher_heartbeatPeriod_frame, ho]
  | startIndex index sendError =>
    simp only [step, startIndex]
    split_ifs
    · exact ho
    · rw [launcher_sendCommandMessage_outstanding]; exact ho
  | kill index sendError =>
    simp only [step, kill]
    split_ifs
    · exact ho
    · rw [launcher_sendCommandMessage_outstanding]; exact ho
  | terminate index sendError =>
    simp only [step, terminate]
    split_ifs
    · exact ho
    · rw [launcher_sendCommandMessage_outstanding]; exact ho
  | writeToStdin index data sendError =>
    simp only [step, writeToStdin]
    split_ifs
    · exact ho
    · rw [launcher_sendCommandMessage_outstanding]; exact ho
  | call command sendError =>
    simp only [step, call]
    split_ifs
    · exact ho
    · rw [launcher_sendCommandMessage_outstanding]; exact ho
  | shutdown sendError =>
    simp only [step, shutdown]
    split_ifs
    · exact ho
    · rw [launcher_sendCommandMessage_outstanding]; exact ho
  | subscribeMessageReceived topic rx =>
    simp only [step]
    by_cases hF : rx.type = some MT_LAUNCHER_FULL_UPDATE
    · simp only [launcher_subscribe_full_frame ext topic rx s hF, ho]
    · by_cases hI : rx.type = some MT_LAUNCHER_INCREMENTAL_UPDATE
      · simp only [launcher_subscribe_incremental_frame ext topic rx s hI, ho]
      · by_cases hP : rx.type = some MT_PING
        · by_cases hup : s.m_subscribeSocketState = Up
          · simp only [launcher_subscribe_ping_up_frame ext topic rx s hP hup, ho]
          · simp only [launcher_subscribe_ping_frame ext topic rx s hP hup, ho]
        · by_cases hE : rx.type = some MT_LAUNCHER_ERROR
          · simp only [launcher_subscribe_error_frame ext topic rx s hE, ho]
          · simp only [launcher_subscribe_other_frame ext topic rx s hF hI hP hE, ho]
  | commandMessageReceived rx =>
    have hA : rx.type ≠ some MT_PING_ACKNOWLEDGE := by
      simpa [Event.keepsProbeOutstanding] using hk
    simp only [step]
    by_cases hE : rx.type = some MT_ERROR
    · simp only [launcher_command_error_frame rx s hE, ho]
    · simp only [launcher_command_other_frame rx s hA hE, ho]
  | pollError errorNum errorMsg => simp only [step, launcher_pollError_frame, ho]
  | commandHeartbeatTimerTick sendError =>
    simp only [step, launcher_commandHeartbeatTimerTick_eq]
  | subscribeHeartbeatTimerTick =>
    simp only [step, launcher_subscribeHeartbeatTimerTick_frame, ho]

/-- A sequence of events without an acknowledge and without `start()` leaves a set
outstanding flag set. -/
theorem launcher_run_keeps_probe (ext : External) (es : List Event) :
    ∀ s : ApplicationLauncher, (∀ e ∈ es, e.keepsProbeOutstanding = true) →
      s.m_commandPingOutstanding = true → (run ext es s).m_commandPingOutstanding = true := by
  induction es with
  | nil =>
    intro s _ ho
    exact ho
  | cons e es ih =>
    intro s hk ho
    exact ih (step ext e s) (fun x hx => hk x (List.mem_cons_of_mem e hx))
      (launcher_step_keeps_probe ext e s (hk e (List.mem_cons_self e es)) ho)

/-- After a command heartbeat tick the connected flag is false whenever the probe was
outstanding, in a state in which the flag goes with `Connected`. -/
theorem launcher_commandHeartbeatTimerTick_connected (sendError : Option ZmqError)
    (s : ApplicationLauncher) (hc : Coherent s) (ho : s.m_commandPingOutstanding = true) :
    (commandHeartbeatTimerTick sendError s).m_connected = false := by
  obtain ⟨h1, h2⟩ := hc
  cases hsock : s.m_commandSocket with
  | false =>
    simp only [launcher_commandHeartbeatTimerTick_closed_frame sendError s hsock]
    cases hst : s.m_connectionState <;> cases hcn : s.m_connected <;> simp_all
  | true =>
    cases sendError with
    | none =>
      simp only [launcher_commandHeartbeatTimerTick_ok_frame]
      cases hst : s.m_connectionState <;> cases hcn : s.m_connected <;> simp_all
    | some err =>
      simp only [launcher_commandHeartbeatTimerTick_fail_frame err s hsock]
      cases hst : s.m_connectionState <;> cases hcn : s.m_connected <;> simp_all

/-- After `start()` with a successful connect the outstanding flag is false. -/
theorem launcher_start_outstanding (sendError : Option ZmqError) (s : ApplicationLauncher) :
    (start none sendError s).m_commandPingOutstanding = false := by
  cases sendError with
  | none => simp only [launcher_start_ok_frame]
  | some e => simp only [launcher_start_sendfail_frame]

end ApplicationLauncher

/-! ## Facts about RemoteComponentBase -/

namespace RemoteComponentBase

open State

/-- The actions in a concatenation of two effect logs. -/
theorem fsmActions_append (a b : List Effect) :
    fsmActions (a ++ b) = fsmActions a ++ fsmActions b := by
  induction a with
  | nil => rfl
  | cons x xs ih => cases x <;> simp [fsmActions, ih]

/-- The channel calls in a concatenation of two effect logs. -/
theorem channelCalls_append (a b : List Effect) :
    channelCalls (a ++ b) = channelCalls a ++ channelCalls b := by
  induction a with
  | nil => rfl
  | cons x xs ih => cases x <;> simp [channelCalls, ih]

/-- The state after an event is the state that the table of section 4.4 gives. -/
theorem component_step_state (e : Event) (s : RemoteComponentBase) :
    (step e s).m_state = tableStep s.m_state e.tableEvent := by
  rcases s with ⟨_, _, _, _, _, st, _, _, _⟩
  cases e with
  | start => cases st <;> rfl
  | stop => cases st <;> rfl
  | noBind => cases st <;> rfl
  | pinsSynced => cases st <;> rfl
  | halrcmdChannelStateChanged state => cases state <;> cases st <;> rfl
  | halrcompChannelStateChanged state => cases state <;> cases st <;> rfl
  | processHalrcmdChannelMessage rx =>
    rcases rx with ⟨ty, _, _, _, _, _, _, _, _, _, _⟩
    cases ty with
    | none => cases st <;> rfl
    | some t => cases t <;> cases st <;> rfl
  | processHalrcompChannelMessage topic rx =>
    rcases rx with ⟨ty, _, _, _, _, _, _, _, _, _, _⟩
    cases ty with
    | none => cases st <;> rfl
    | some t => cases t <;> cases st <;> rfl
  | sendHalrcmdMessage type tx => cases type <;> cases st <;> rfl
  | addHalrcompTopic name => rfl
  | removeHalrcompTopic name => rfl
  | clearHalrcompTopics => rfl

end RemoteComponentBase

namespace RemoteComponentBase

open State

/-- A bind confirm on the command channel raises the bind-confirmed event in `Binding`. -/
theorem component_halrcmd_confirm_eq (rx : Container) (s : RemoteComponentBase)
    (h : rx.type = some ContainerType.MT_HALRCOMP_BIND_CONFIRM) :
    processHalrcmdChannelMessage rx s =
      emit (Signal.halrcmdMessageReceived rx)
        (if s.m_state = Binding then
          fsmBindingBindConfirmedEvent (emit Signal.fsmBindingBindConfirmed s)
        else s) := by
  simp [processHalrcmdChannelMessage, h]

/-- A bind reject on the command channel stores the notes as the error string, whatever
the state, and raises the bind-rejected event in `Binding`. -/
theorem component_halrcmd_bind_reject_eq (rx : Container) (s : RemoteComponentBase)
    (h : rx.type = some ContainerType.MT_HALRCOMP_BIND_REJECT) :
    processHalrcmdChannelMessage rx s =
      emit (Signal.halrcmdMessageReceived rx)
        (if s.m_state = Binding then
          fsmBindingBindRejectedEvent (emit Signal.fsmBindingBindRejected
            (emit (Signal.errorStringChanged (appendNotes "" rx.note))
              { s with m_errorString := appendNotes "" rx.note }))
        else
          emit (Signal.errorStringChanged (appendNotes "" rx.note))
            { s with m_errorString := appendNotes "" rx.note }) := by
  simp [processHalrcmdChannelMessage, h, emit]

/-- A set reject on the command channel stores the notes as the error string, whatever the
state, and raises the set-rejected event in `Synced`. -/
theorem component_halrcmd_set_reject_eq (rx : Container) (s : RemoteComponentBase)
    (h : rx.type = some ContainerType.MT_HALRCOMP_SET_REJECT) :
    processHalrcmdChannelMessage rx s =
      emit (Signal.halrcmdMessageReceived rx)
        (if s.m_state = Synced then
          fsmSyncedSetRejectedEvent (emit Signal.fsmSyncedSetRejected
            (emit (Signal.errorStringChanged (appendNotes "" rx.note))
              { s with m_errorString := appendNotes "" rx.note }))
        else
          emit (Signal.errorStringChanged (appendNotes "" rx.note))
            { s with m_errorString := appendNotes "" rx.note }) := by
  simp [processHalrcmdChannelMessage, h, emit]

/-- A message of any other type on the command channel is only passed on. -/
theorem component_halrcmd_other_eq (rx : Container) (s : RemoteComponentBase)
    (h1 : rx.type ≠ some ContainerType.MT_HALRCOMP_BIND_CONFIRM)
    (h2 : rx.type ≠ some ContainerType.MT_HALRCOMP_BIND_REJECT)
    (h3 : rx.type ≠ some ContainerType.MT_HALRCOMP_SET_REJECT) :
    processHalrcmdChannelMessage rx s = emit (Signal.halrcmdMessageReceived rx) s := by
  simp [processHalrcmdChannelMessage, h1, h2, h3]

/-- An error message on the data channel stores the notes as the error string, whatever
the state, raises the sync-failed event in `Syncing`, and is passed to the handler. -/
theorem component_halrcomp_error_eq (topic : String) (rx : Container) (s : RemoteComponentBase)
    (h : rx.type = some ContainerType.MT_HALRCOMP_ERROR) :
    processHalrcompChannelMessage topic rx s =
      emit (Signal.halrcompMessageReceived topic rx)
        { (if s.m_state = Syncing then
            fsmSyncingSyncFailedEvent (emit Signal.fsmSyncingSyncFailed
              (emit (Signal.errorStringChanged (appendNotes "" rx.note))
                { s with m_errorString := appendNotes "" rx.note }))
          else
            emit (Signal.errorStringChanged (appendNotes "" rx.note))
              { s with m_errorString := appendNotes "" rx.note }) with
          effects := (if s.m_state = Syncing then
            fsmSyncingSyncFailedEvent (emit Signal.fsmSyncingSyncFailed
              (emit (Signal.errorStringChanged (appendNotes "" rx.note))
                { s with m_errorString := appendNotes "" rx.note }))
          else
            emit (Signal.errorStringChanged (appendNotes "" rx.note))
              { s with m_errorString := appendNotes "" rx.note }).effects
            ++ [Effect.halrcompErrorReceived topic rx] } := by
  simp [processHalrcompChannelMessage, h, emit]

/-- A message of any other type on the data channel leads to no action of the state
machine and leaves the state and the error string as they are. -/
theorem component_halrcomp_other (topic : String) (rx : Container) (s : RemoteComponentBase)
    (h : rx.type ≠ some ContainerType.MT_HALRCOMP_ERROR) :
    fsmActions (processHalrcompChannelMessage topic rx s).effects = fsmActions s.effects := by
  simp only [processHalrcompChannelMessage, h, if_false]
  split_ifs <;> simp [emit, fsmActions_append, fsmActions]

/-- An event that the table of section 4.4 does not list for the current state leads to no
action of the state machine. -/
theorem component_step_actions (e : Event) (s : RemoteComponentBase)
    (h : e.tableEvent.bind (specTable s.m_state) = none) :
    fsmActions (step e s).effects = fsmActions s.effects := by
  cases e with
  | start =>
    rcases s with ⟨_, _, _, _, _, st, _, _, log⟩
    change (some TableEvent.connect).bind (specTable st) = none at h
    cases st <;> first | exact absurd h (by decide) | rfl
  | stop =>
    rcases s with ⟨_, _, _, _, _, st, _, _, log⟩
    change (some TableEvent.disconnect).bind (specTable st) = none at h
    cases st <;> first | exact absurd h (by decide) | rfl
  | noBind =>
    rcases s with ⟨_, _, _, _, _, st, _, _, log⟩
    change (some TableEvent.noBindNeeded).bind (specTable st) = none at h
    cases st <;> first | exact absurd h (by decide) | rfl
  | pinsSynced =>
    rcases s with ⟨_, _, _, _, _, st, _, _, log⟩
    change (some TableEvent.localItemsSynced).bind (specTable st) = none at h
    cases st <;> first | exact absurd h (by decide) | rfl
  | halrcmdChannelStateChanged state =>
    rcases s with ⟨_, _, _, _, _, st, _, _, log⟩
    change (Event.halrcmdChannelStateChanged state).tableEvent.bind (specTable st) = none at h
    cases state <;> cases st <;> first | exact absurd h (by decide) | rfl
  | halrcompChannelStateChanged state =>
    rcases s with ⟨_, _, _, _, _, st, _, _, log⟩
    change (Event.halrcompChannelStateChanged state).tableEvent.bind (specTable st) = none at h
    cases state <;> cases st <;> first | exact absurd h (by decide) | rfl
  | processHalrcmdChannelMessage rx =>
    simp only [step]
    by_cases h1 : rx.type = some ContainerType.MT_HALRCOMP_BIND_CONFIRM
    · have hb : s.m_state ≠ Binding := by
        intro hb
        simp [Event.tableEvent, h1, hb, specTable] at h
      simp [component_halrcmd_confirm_eq rx s h1, hb, emit, fsmActions_append, fsmActions]
    · by_cases h2 : rx.type = some ContainerType.MT_HALRCOMP_BIND_REJECT
      · have hb : s.m_state ≠ Binding := by
          intro hb
          simp [Event.tableEvent, h2, hb, specTable] at h
        simp [component_halrcmd_bind_reject_eq rx s h2, hb, emit, fsmActions_append, fsmActions]
      · by_cases h3 : rx.type = some ContainerType.MT_HALRCOMP_SET_REJECT
        · have hb : s.m_state ≠ Synced := by
            intro hb
            simp [Event.tableEvent, h3, hb, specTable] at h
          simp [component_halrcmd_set_reject_eq rx s h3, hb, emit, fsmActions_append,
            fsmActions]
        · simp [component_halrcmd_other_eq rx s h1 h2 h3, emit, fsmActions_append, fsmActions]
  | processHalrcompChannelMessage topic rx =>
    simp only [step]
    by_cases h1 : rx.type = some ContainerType.MT_HALRCOMP_ERROR
    · have hb : s.m_state ≠ Syncing := by
        intro hb
        simp [Event.tableEvent, h1, hb, specTable] at h
      simp [component_halrcomp_error_eq topic rx s h1, hb, emit, fsmActions_append, fsmActions]
    · exact component_halrcomp_other topic rx s h1
  | sendHalrcmdMessage type tx =>
    simp only [step, sendHalrcmdMessage]
    by_cases h1 : type = ContainerType.MT_HALRCOMP_BIND
    · have hb : s.m_state ≠ State.Bind := by
        intro hb
        simp [Event.tableEvent, h1, hb, specTable] at h
      simp [h1, hb, fsmActions_append, fsmActions]
    · simp only [h1, if_false]
      split_ifs <;>
        simp [fsmSyncedHalrcompSetMsgSentEvent, emit, fsmActions_append, fsmActions]
  | addHalrcompTopic name => simp [step, addHalrcompTopic, fsmActions_append, fsmActions]
  | removeHalrcompTopic name => simp [step, removeHalrcompTopic, fsmActions_append, fsmActions]
  | clearHalrcompTopics => simp [step, clearHalrcompTopics, fsmActions_append, fsmActions]

end RemoteComponentBase

namespace RemoteComponentBase

open State

/-- The state after a sequence of events is the state that the table of section 4.4 gives
for the events of the table delivered by the sequence. -/
theorem component_run_state (es : List Event) :
    ∀ s : RemoteComponentBase,
      (run es s).m_state = tableRun s.m_state (es.map Event.tableEvent) := by
  induction es with
  | nil =>
    intro s
    rfl
  | cons e es ih =>
    intro s
    simp only [run, List.foldl_cons, List.map_cons, tableRun] at ih ⊢
    rw [ih (step e s), component_step_state]

/-- An event of the table brings the state at most one step nearer to `Synced`. -/
theorem tableStep_distance (state : State) (event : Option TableEvent) :
    state.distance ≤ (tableStep state event).distance + 1 := by
  cases event with
  | none => exact Nat.le_succ _
  | some te => cases state <;> cases te <;> decide

/-- The event of the table that brings a state one step nearer to `Synced` is determined
by the state, and so is the state it leads to. -/
theorem tableStep_nearer (state : State) (event : Option TableEvent)
    (h : state.distance = (tableStep state event).distance + 1) :
    (state = Down ∧ event = some TableEvent.connect ∧ tableStep state event = Trying) ∨
    (state = Trying ∧ event = some TableEvent.commandChannelUp
      ∧ tableStep state event = State.Bind) ∨
    (state = State.Bind ∧ event = some TableEvent.noBindNeeded
      ∧ tableStep state event = Syncing) ∨
    (state = Binding ∧ event = some TableEvent.bindConfirmed
      ∧ tableStep state event = Syncing) ∨
    (state = Syncing ∧ event = some TableEvent.dataChannelUp ∧ tableStep state event = Sync) ∨
    (state = Sync ∧ event = some TableEvent.localItemsSynced
      ∧ tableStep state event = Synced) ∨
    (state = Error ∧ event = some TableEvent.disconnect ∧ tableStep state event = Down) := by
  cases event with
  | none =>
    simp only [tableStep] at h
    omega
  | some te => cases state <;> cases te <;> first | exact absurd h (by decide) | decide

/-- The only sequence of five events of the table that leads from `Down` to `Synced` is
connect, command channel up, no bind needed, data channel up, local items synced. -/
theorem tableRun_five (events : List (Option TableEvent)) (hlen : events.length = 5)
    (hend : tableRun Down events = Synced) :
    events = [some TableEvent.connect, some TableEvent.commandChannelUp,
      some TableEvent.noBindNeeded, some TableEvent.dataChannelUp,
      some TableEvent.localItemsSynced] := by
  match events, hlen with
  | [e1, e2, e3, e4, e5], _ =>
    simp only [tableRun, List.foldl_cons, List.foldl_nil] at hend
    have d1 := tableStep_distance Down e1
    have d2 := tableStep_distance (tableStep Down e1) e2
    have d3 := tableStep_distance (tableStep (tableStep Down e1) e2) e3
    have d4 := tableStep_distance (tableStep (tableStep (tableStep Down e1) e2) e3) e4
    have d5 := tableStep_distance
      (tableStep (tableStep (tableStep (tableStep Down e1) e2) e3) e4) e5
    have d0 : Down.distance = 5 := rfl
    have c1 : Trying.distance = 4 := rfl
    have c2 : State.Bind.distance = 3 := rfl
    have c3 : Syncing.distance = 2 := rfl
    have c4 : Sync.distance = 1 := rfl
    have d6 : (tableStep (tableStep (tableStep (tableStep (tableStep Down e1) e2) e3) e4)
        e5).distance = 0 := by rw [hend]; rfl
    have n1 := tableStep_nearer Down e1 (by omega)
    simp only [reduceCtorEq, false_and, or_false, false_or, true_and] at n1
    obtain ⟨h1, s1⟩ := n1
    rw [s1] at d1 d2 d3 d4 d5 d6 hend
    have n2 := tableStep_nearer Trying e2 (by omega)
    simp only [reduceCtorEq, false_and, or_false, false_or, true_and] at n2
    obtain ⟨h2, s2⟩ := n2
    rw [s2] at d2 d3 d4 d5 d6 hend
    have n3 := tableStep_nearer State.Bind e3 (by omega)
    simp only [reduceCtorEq, false_and, or_false, false_or, true_and] at n3
    obtain ⟨h3, s3⟩ := n3
    rw [s3] at d3 d4 d5 d6 hend
    have n4 := tableStep_nearer Syncing e4 (by omega)
    simp only [reduceCtorEq, false_and, or_false, false_or, true_and] at n4
    obtain ⟨h4, s4⟩ := n4
    rw [s4] at d4 d5 d6 hend
    have n5 := tableStep_nearer Sync e5 (by omega)
    simp only [reduceCtorEq, false_and, or_false, false_or, true_and] at n5
    obtain ⟨h5, _⟩ := n5
    rw [h1, h2, h3, h4, h5]

end RemoteComponentBase

/-! ## Facts about the note lines of an error frame -/

/-- The loop that appends the note lines adds, to what is there already, each line in
order with a newline after it. -/
theorem appendNotes_eq_foldl (notes : List String) :
    ∀ acc : String, appendNotes acc notes
      = (notes.map (fun n => n ++ "\n")).foldl (fun r s => r ++ s) acc := by
  induction notes with
  | nil =>
    intro acc
    rfl
  | cons n rest ih =>
    intro acc
    simp only [appendNotes, List.map_cons, List.foldl_cons, ih]

/-- Started from the empty string, the loop builds the note lines each followed by a
newline. -/
theorem appendNotes_eq_noteLines (notes : List String) : appendNotes "" notes = noteLines notes := by
  rw [appendNotes_eq_foldl]
  rfl

/-- The loop started from a text that ends in a newline builds the newline-separated
lines followed by one more newline. -/
theorem appendNotes_eq_intercalate_go (notes : List String) :
    ∀ acc : String, appendNotes (acc ++ "\n") notes
      = String.intercalate.go acc "\n" notes ++ "\n" := by
  induction notes with
  | nil =>
    intro acc
    rfl
  | cons n rest ih =>
    intro acc
    have h : acc ++ "\n" ++ (n ++ "\n") = (acc ++ "\n" ++ n) ++ "\n" := by
      simp only [String.append_assoc]
    simp only [appendNotes, String.intercalate.go, h, ih]

/-- With at least one note, the note lines each followed by a newline are the
newline-separated lines followed by one more newline. -/
theorem noteLines_eq_intercalate (notes : List String) (h : notes ≠ []) :
    noteLines notes = String.intercalate "\n" notes ++ "\n" := by
  rw [← appendNotes_eq_noteLines]
  cases notes with
  | nil => exact absurd rfl h
  | cons n rest =>
    have h0 : appendNotes "" (n :: rest) = appendNotes (n ++ "\n") rest := by
      simp only [appendNotes, String.empty_append]
    rw [h0, appendNotes_eq_intercalate_go]
    rfl

/-! ## The states entered by RemoteComponentBase -/

namespace RemoteComponentBase

open State

/-- The states entered in a concatenation of two effect logs. -/
theorem stateTrace_append (a b : List Effect) :
    stateTrace (a ++ b) = stateTrace a ++ stateTrace b := by
  simp [stateTrace, List.filterMap_append]

/-- The types sent in a concatenation of two effect logs. -/
theorem sentTypes_append (a b : List Effect) :
    sentTypes (a ++ b) = sentTypes a ++ sentTypes b := by
  induction a with
  | nil => rfl
  | cons x xs ih => cases x <;> simp [sentTypes, ih]

/-- A trigger function or a change of a channel state enters the target state that the
table of section 4.4 lists, and no state when the table lists none. -/
theorem component_trigger_trace (e : Event) (s : RemoteComponentBase)
    (he : e = Event.start ∨ e = Event.stop ∨ e = Event.noBind ∨ e = Event.pinsSynced ∨
      (∃ state, e = Event.halrcmdChannelStateChanged state) ∨
      (∃ state, e = Event.halrcompChannelStateChanged state)) :
    stateTrace (step e s).effects = stateTrace s.effects ++
      (match e.tableEvent.bind (specTable s.m_state) with
        | some target => [target]
        | none => []) := by
  rcases s with ⟨_, _, _, _, _, st, _, _, log⟩
  rcases he with h | h | h | h | ⟨state, h⟩ | ⟨state, h⟩
  · subst h
    cases st <;>
      simp [step, start, fsmDownConnectEvent, fsmDownExit, fsmTrying, emit, call,
        startHalrcmdChannel, stateTrace, List.filterMap_append, stateChange, Event.tableEvent,
        specTable]
  · subst h
    cases st <;>
      simp [step, stop, fsmTryingDisconnectEvent, fsmBindingDisconnectEvent,
        fsmSyncingDisconnectEvent, fsmSyncedDisconnectEvent, fsmErrorDisconnectEvent, fsmDown,
        fsmDownEntry, emit, call, stopHalrcmdChannel, stopHalrcompChannel, stateTrace,
        List.filterMap_append, stateChange, Event.tableEvent, specTable]
  · subst h
    cases st <;>
      simp [step, noBind, fsmBindNoBindEvent, fsmSyncing, emit, startHalrcompChannel,
        stateTrace, List.filterMap_append, stateChange, Event.tableEvent, specTable]
  · subst h
    cases st <;>
      simp [step, pinsSynced, fsmSyncPinsSyncedEvent, fsmSynced, fsmSyncedEntry, emit, call,
        stateTrace, List.filterMap_append, stateChange, Event.tableEvent, specTable]
  · subst h
    cases state <;> cases st <;>
      simp [step, halrcmdChannelStateChanged, fsmSyncingHalrcmdTryingEvent,
        fsmSyncedHalrcmdTryingEvent, fsmBindingHalrcmdTryingEvent, fsmTryingHalrcmdUpEvent,
        fsmTrying, fsmBind, emit, call, stopHalrcompChannel, stateTrace,
        List.filterMap_append, stateChange, Event.tableEvent, specTable]
  · subst h
    cases state <;> cases st <;>
      simp [step, halrcompChannelStateChanged, fsmSyncedHalrcompTryingEvent,
        fsmSyncingHalrcompUpEvent, fsmSyncing, fsmSync, emit, call, stateTrace,
        List.filterMap_append, stateChange, Event.tableEvent, specTable]

/-- A message, a send or a change of the topic list enters the target state that the table
of section 4.4 lists, and no state when the table lists none. -/
theorem component_message_trace (e : Event) (s : RemoteComponentBase)
    (he : (∃ rx, e = Event.processHalrcmdChannelMessage rx) ∨
      (∃ topic rx, e = Event.processHalrcompChannelMessage topic rx) ∨
      (∃ type tx, e = Event.sendHalrcmdMessage type tx) ∨
      (∃ name, e = Event.addHalrcompTopic name) ∨
      (∃ name, e = Event.removeHalrcompTopic name) ∨ e = Event.clearHalrcompTopics) :
    stateTrace (step e s).effects = stateTrace s.effects ++
      (match e.tableEvent.bind (specTable s.m_state) with
        | some target => [target]
        | none => []) := by
  rcases he with ⟨rx, h⟩ | ⟨topic, rx, h⟩ | ⟨type, tx, h⟩ | ⟨name, h⟩ | ⟨name, h⟩ | h
  · subst h
    simp only [step]
    by_cases h1 : rx.type = some ContainerType.MT_HALRCOMP_BIND_CONFIRM
    · rw [component_halrcmd_confirm_eq rx s h1]
      cases hst : s.m_state <;>
        simp [hst, h1, fsmBindingBindConfirmedEvent, fsmSyncing, emit, startHalrcompChannel,
          stateTrace, List.filterMap_append, stateChange, Event.tableEvent, specTable]
    · by_cases h2 : rx.type = some ContainerType.MT_HALRCOMP_BIND_REJECT
      · rw [component_halrcmd_bind_reject_eq rx s h2]
        cases hst : s.m_state <;>
          simp [hst, h2, fsmBindingBindRejectedEvent, fsmError, fsmErrorEntry, emit, call,
            stopHalrcmdChannel, stateTrace, List.filterMap_append, stateChange,
            Event.tableEvent, specTable]
      · by_cases h3 : rx.type = some ContainerType.MT_HALRCOMP_SET_REJECT
        · rw [component_halrcmd_set_reject_eq rx s h3]
          cases hst : s.m_state <;>
            simp [hst, h3, fsmSyncedSetRejectedEvent, fsmError, fsmErrorEntry, emit, call,
              stopHalrcmdChannel, stopHalrcompChannel, stateTrace, List.filterMap_append,
              stateChange, Event.tableEvent, specTable]
        · rw [component_halrcmd_other_eq rx s h1 h2 h3]
          simp [h1, h2, h3, emit, stateTrace, List.filterMap_append, stateChange,
            Event.tableEvent]
  · subst h
    simp only [step]
    by_cases h1 : rx.type = some ContainerType.MT_HALRCOMP_ERROR
    · rw [component_halrcomp_error_eq topic rx s h1]
      cases hst : s.m_state <;>
        simp [hst, h1, fsmSyncingSyncFailedEvent, fsmError, fsmErrorEntry, emit, call,
          stopHalrcmdChannel, stopHalrcompChannel, stateTrace, List.filterMap_append,
          stateChange, Event.tableEvent, specTable]
    · simp only [processHalrcompChannelMessage, h1, if_false, Event.tableEvent]
      split_ifs <;> simp [emit, stateTrace, List.filterMap_append, stateChange]
  · subst h
    simp only [step, sendHalrcmdMessage]
    by_cases h1 : type = ContainerType.MT_HALRCOMP_BIND
    · subst h1
      cases hst : s.m_state <;>
        simp [hst, fsmBindHalrcompBindMsgSentEvent, fsmBinding, emit, stateTrace,
          List.filterMap_append, stateChange, Event.tableEvent, specTable]
    · simp only [h1, if_false, Event.tableEvent]
      split_ifs <;>
        simp [fsmSyncedHalrcompSetMsgSentEvent, emit, stateTrace, List.filterMap_append,
          stateChange]
  · subst h
    simp [step, addHalrcompTopic, stateTrace, List.filterMap_append, stateChange,
      Event.tableEvent]
  · subst h
    simp [step, removeHalrcompTopic, stateTrace, List.filterMap_append, stateChange,
      Event.tableEvent]
  · subst h
    simp [step, clearHalrcompTopics, stateTrace, List.filterMap_append, stateChange,
      Event.tableEvent]

/-- An event enters the target state that the table of section 4.4 lists for it, and no
state when the table lists none. -/
theorem component_step_trace (e : Event) (s : RemoteComponentBase) :
    stateTrace (step e s).effects = stateTrace s.effects ++
      (match e.tableEvent.bind (specTable s.m_state) with
        | some target => [target]
        | none => []) := by
  cases e with
  | start => exact component_trigger_trace _ s (Or.inl rfl)
  | stop => exact component_trigger_trace _ s (Or.inr (Or.inl rfl))
  | noBind => exact component_trigger_trace _ s (Or.inr (Or.inr (Or.inl rfl)))
  | pinsSynced => exact component_trigger_trace _ s (Or.inr (Or.inr (Or.inr (Or.inl rfl))))
  | halrcmdChannelStateChanged state =>
    exact component_trigger_trace _ s
      (Or.inr (Or.inr (Or.inr (Or.inr (Or.inl ⟨state, rfl⟩)))))
  | halrcompChannelStateChanged state =>
    exact component_trigger_trace _ s
      (Or.inr (Or.inr (Or.inr (Or.inr (Or.inr ⟨state, rfl⟩)))))
  | processHalrcmdChannelMessage rx =>
    exact component_message_trace _ s (Or.inl ⟨rx, rfl⟩)
  | processHalrcompChannelMessage topic rx =>
    exact component_message_trace _ s (Or.inr (Or.inl ⟨topic, rx, rfl⟩))
  | sendHalrcmdMessage type tx =>
    exact component_message_trace _ s (Or.inr (Or.inr (Or.inl ⟨type, tx, rfl⟩)))
  | addHalrcompTopic name =>
    exact component_message_trace _ s (Or.inr (Or.inr (Or.inr (Or.inl ⟨name, rfl⟩))))
  | removeHalrcompTopic name =>
    exact component_message_trace _ s
      (Or.inr (Or.inr (Or.inr (Or.inr (Or.inl ⟨name, rfl⟩)))))
  | clearHalrcompTopics =>
    exact component_message_trace _ s (Or.inr (Or.inr (Or.inr (Or.inr (Or.inr rfl)))))

/-- The state that the table gives after an event is the listed target, when there is one,
and the state before otherwise. -/
theorem tableStep_eq (state : State) (event : Option TableEvent) :
    tableStep state event = (event.bind (specTable state)).getD state := by
  cases event <;> rfl

/-- The states entered during a sequence of events are the states that the table of
section 4.4 enters for the events of the table delivered by the sequence. -/
theorem component_run_trace (es : List Event) :
    ∀ s : RemoteComponentBase,
      stateTrace (run es s).effects
        = stateTrace s.effects ++ tableTrace s.m_state (es.map Event.tableEvent) := by
  induction es with
  | nil =>
    intro s
    simp [run, tableTrace]
  | cons e es ih =>
    intro s
    have h1 := component_step_trace e s
    have h2 := component_step_state e s
    rw [tableStep_eq] at h2
    simp only [run, List.foldl_cons, List.map_cons, tableTrace] at ih ⊢
    rw [ih (step e s), h1, h2]
    cases e.tableEvent.bind (specTable s.m_state) <;> simp

/-- The states ahead of a state are among the target of a listed event followed by the
states ahead of the target. -/
theorem specTable_ahead (state : State) (te : TableEvent) (target : State) :
    specTable state te = some target → List.Sublist state.ahead (target :: target.ahead) := by
  cases state <;> cases te <;> cases target <;> decide

/-- Every state that the table enters on the way to `Synced` has the states ahead of it
entered in order afterwards. -/
theorem tableTrace_ahead (events : List (Option TableEvent)) :
    ∀ state : State, tableRun state events = Synced →
      List.Sublist state.ahead (tableTrace state events) := by
  induction events with
  | nil =>
    intro state h
    have hs : state = Synced := h
    rw [hs]
    exact List.Sublist.slnil
  | cons event rest ih =>
    intro state h
    simp only [tableRun, List.foldl_cons, tableStep_eq] at h
    simp only [tableTrace]
    cases hb : event.bind (specTable state) with
    | none =>
      rw [hb] at h
      exact ih state h
    | some target =>
      rw [hb] at h
      have h1 : List.Sublist state.ahead (target :: target.ahead) := by
        cases event with
        | none => cases hb
        | some te => exact specTable_ahead state te target hb
      exact h1.trans ((ih target h).cons₂ target)

/-- A state is entered from another state only along the table of section 4.4: `Synced`
only from `Sync`, `Sync` only from `Syncing`, `Syncing` only from `Bind`, `Binding` or
`Synced`, and `Bind` only from `Trying`. -/
theorem tableStep_entered (state : State) (event : Option TableEvent) :
    (tableStep state event = Synced → state = Synced ∨ state = Sync) ∧
    (tableStep state event = Sync → state = Sync ∨ state = Syncing) ∧
    (tableStep state event = Syncing →
      state = Syncing ∨ state = State.Bind ∨ state = Binding ∨ state = Synced) ∧
    (tableStep state event = State.Bind → state = State.Bind ∨ state = Trying) := by
  cases event with
  | none => cases state <;> decide
  | some te => cases state <;> cases te <;> decide

end RemoteComponentBase

/-! ## Facts about the command senders -/

namespace ApplicationLauncher

open State SocketState ConnectionError ContainerType

/-- While the client is not connected a command sender does nothing. -/
theorem launcher_command_disconnected (c : Command) (sendError : Option ZmqError)
    (s : ApplicationLauncher) (hc : s.m_connected = false) : c.send sendError s = s := by
  cases c <;> simp [Command.send, startIndex, kill, terminate, writeToStdin, call, shutdown, hc]

/-- While the client is connected a command sender is `sendCommandMessage` on the outgoing
envelope with the arguments of the command filled in. -/
theorem launcher_command_connected_eq (c : Command) (sendError : Option ZmqError)
    (s : ApplicationLauncher) (hc : s.m_connected = true) :
    c.send sendError s =
      sendCommandMessage c.type sendError { s with m_tx := c.arguments s.m_tx } := by
  rcases s with ⟨_, _, _, _, conn, _, _, _, _, _, _, _, _, _, _, _, _, _, _, _, _, _⟩
  change conn = true at hc
  subst hc
  cases c <;> rfl

/-- While the client is connected and the command socket is open, a command whose send
does not throw sends exactly its message and clears the outgoing envelope. -/
theorem launcher_command_sent (c : Command) (s : ApplicationLauncher)
    (hc : s.m_connected = true) (hs : s.m_commandSocket = true) :
    sentMessages (c.send none s).effects = sentMessages s.effects ++ [c.message s.m_tx] ∧
    (c.send none s).m_tx = Container.Clear := by
  rw [launcher_command_connected_eq c none s hc]
  constructor
  · rw [launcher_sendCommandMessage_ok_sent]
    simp [hs, Command.message]
  · simp only [launcher_sendCommandMessage_ok_frame]
    simp [hs]

/-- While the client is connected and the command socket is open, a command whose send
throws sends nothing, keeps the filled envelope and ends in `Error`. -/
theorem launcher_command_failed (c : Command) (e : ZmqError) (s : ApplicationLauncher)
    (hc : s.m_connected = true) (hs : s.m_commandSocket = true) :
    sentMessages (c.send (some e) s).effects = sentMessages s.effects ∧
    (c.send (some e) s).m_tx = c.message s.m_tx ∧
    (c.send (some e) s).m_connectionState = Error ∧
    (c.send (some e) s).m_error = SocketError := by
  rw [launcher_command_connected_eq c (some e) s hc]
  refine ⟨?_, ?_, ?_, ?_⟩
  · rw [launcher_sendCommandMessage_fail_sent]
  · rw [launcher_sendCommandMessage_fail_eq _ _ _ (by simpa using hs)]
    simp only [launcher_updateState_frame]
    rfl
  · rw [launcher_sendCommandMessage_fail_eq _ _ _ (by simpa using hs)]
    simp only [launcher_updateState_frame]
  · rw [launcher_sendCommandMessage_fail_eq _ _ _ (by simpa using hs)]
    simp only [launcher_updateState_frame]

end ApplicationLauncher

/-! ## Actions, channels and connection mark of RemoteComponentBase -/

namespace RemoteComponentBase

open State

/-- The value of `ready` after a concatenation of two lists of effects. -/
theorem readyAfter_append (channel : ChannelId) (a b : List Effect) :
    ∀ ready : Bool, readyAfter channel ready (a ++ b)
      = readyAfter channel (readyAfter channel ready a) b := by
  induction a with
  | nil =>
    intro ready
    rfl
  | cons x xs ih =>
    intro ready
    cases x <;> simp [readyAfter, ih]

/-- The mark after a concatenation of two lists of effects. -/
theorem markFrom_append (a b : List Effect) :
    ∀ mark : Option Virtual, markFrom mark (a ++ b) = markFrom (markFrom mark a) b := by
  induction a with
  | nil =>
    intro mark
    rfl
  | cons x xs ih =>
    intro mark
    cases x <;> simp [markFrom, ih]

/-- The mark depends only on the actions of the state machine in the log. -/
theorem markFrom_fsmActions (effects : List Effect) :
    ∀ mark : Option Virtual, markFrom mark (fsmActions effects) = markFrom mark effects := by
  induction effects with
  | nil =>
    intro mark
    rfl
  | cons x xs ih =>
    intro mark
    cases x <;> simp [markFrom, fsmActions, ih]

/-- A trigger function or a change of a channel state performs the actions of the
transition that the table of section 4.4 lists, and none when the table lists none; the
property `ready` of each channel is that of the last `setReady` among them. -/
theorem component_trigger_delta (e : Event) (s : RemoteComponentBase)
    (he : e = Event.start ∨ e = Event.stop ∨ e = Event.noBind ∨ e = Event.pinsSynced ∨
      (∃ state, e = Event.halrcmdChannelStateChanged state) ∨
      (∃ state, e = Event.halrcompChannelStateChanged state)) :
    fsmActions (step e s).effects
        = fsmActions s.effects ++ stepActions s.m_state e.tableEvent ∧
      (step e s).m_halrcmdChannel.ready
        = readyAfter ChannelId.halrcmd s.m_halrcmdChannel.ready
            (stepActions s.m_state e.tableEvent) ∧
      (step e s).m_halrcompChannel.ready
        = readyAfter ChannelId.halrcomp s.m_halrcompChannel.ready
            (stepActions s.m_state e.tableEvent) := by
  rcases s with ⟨_, _, _, _, _, st, _, _, log⟩
  rcases he with h | h | h | h | ⟨state, h⟩ | ⟨state, h⟩
  · subst h
    cases st <;>
      simp [step, start, fsmDownConnectEvent, fsmDownExit, fsmTrying, emit, call,
        startHalrcmdChannel, fsmActions_append, fsmActions, stepActions, transitionActions, readyAfter, Event.tableEvent,
        specTable]
  · subst h
    cases st <;>
      simp [step, stop, fsmTryingDisconnectEvent, fsmBindingDisconnectEvent,
        fsmSyncingDisconnectEvent, fsmSyncedDisconnectEvent, fsmErrorDisconnectEvent, fsmDown,
        fsmDownEntry, emit, call, stopHalrcmdChannel, stopHalrcompChannel, fsmActions_append, fsmActions, stepActions, transitionActions, readyAfter, Event.tableEvent, specTable]
  · subst h
    cases st <;>
      simp [step, noBind, fsmBindNoBindEvent, fsmSyncing, emit, startHalrcompChannel,
        fsmActions_append, fsmActions, stepActions, transitionActions, readyAfter, Event.tableEvent, specTable]
  · subst h
    cases st <;>
      simp [step, pinsSynced, fsmSyncPinsSyncedEvent, fsmSynced, fsmSyncedEntry, emit, call,
        fsmActions_append, fsmActions, stepActions, transitionActions, readyAfter, Event.tableEvent, specTable]
  · subst h
    cases state <;> cases st <;>
      simp [step, halrcmdChannelStateChanged, fsmSyncingHalrcmdTryingEvent,
        fsmSyncedHalrcmdTryingEvent, fsmBindingHalrcmdTryingEvent, fsmTryingHalrcmdUpEvent,
        fsmTrying, fsmBind, emit, call, stopHalrcompChannel, fsmActions_append, fsmActions, stepActions, transitionActions, readyAfter, Event.tableEvent, specTable]
  · subst h
    cases state <;> cases st <;>
      simp [step, halrcompChannelStateChanged, fsmSyncedHalrcompTryingEvent,
        fsmSyncingHalrcompUpEvent, fsmSyncing, fsmSync, emit, call, fsmActions_append, fsmActions, stepActions, transitionActions, readyAfter, Event.tableEvent, specTable]

/-- A message, a send or a change of the topic list performs the actions of the transition
that the table of section 4.4 lists, and none when the table lists none; the property
`ready` of each channel is that of the last `setReady` among them. -/
theorem component_message_delta (e : Event) (s : RemoteComponentBase)
    (he : (∃ rx, e = Event.processHalrcmdChannelMessage rx) ∨
      (∃ topic rx, e = Event.processHalrcompChannelMessage topic rx) ∨
      (∃ type tx, e = Event.sendHalrcmdMessage type tx) ∨
      (∃ name, e = Event.addHalrcompTopic name) ∨
      (∃ name, e = Event.removeHalrcompTopic name) ∨ e = Event.clearHalrcompTopics) :
    fsmActions (step e s).effects
        = fsmActions s.effects ++ stepActions s.m_state e.tableEvent ∧
      (step e s).m_halrcmdChannel.ready
        = readyAfter ChannelId.halrcmd s.m_halrcmdChannel.ready
            (stepActions s.m_state e.tableEvent) ∧
      (step e s).m_halrcompChannel.ready
        = readyAfter ChannelId.halrcomp s.m_halrcompChannel.ready
            (stepActions s.m_state e.tableEvent) := by
  rcases he with ⟨rx, h⟩ | ⟨topic, rx, h⟩ | ⟨type, tx, h⟩ | ⟨name, h⟩ | ⟨name, h⟩ | h
  · subst h
    simp only [step]
    by_cases h1 : rx.type = some ContainerType.MT_HALRCOMP_BIND_CONFIRM
    · rw [component_halrcmd_confirm_eq rx s h1]
      cases hst : s.m_state <;>
        simp [hst, h1, fsmBindingBindConfirmedEvent, fsmSyncing, emit, startHalrcompChannel,
          fsmActions_append, fsmActions, stepActions, transitionActions, readyAfter, Event.tableEvent, specTable]
    · by_cases h2 : rx.type = some ContainerType.MT_HALRCOMP_BIND_REJECT
      · rw [component_halrcmd_bind_reject_eq rx s h2]
        cases hst : s.m_state <;>
          simp [hst, h2, fsmBindingBindRejectedEvent, fsmError, fsmErrorEntry, emit, call,
            stopHalrcmdChannel, fsmActions_append, fsmActions, stepActions, transitionActions, readyAfter,
            Event.tableEvent, specTable]
      · by_cases h3 : rx.type = some ContainerType.MT_HALRCOMP_SET_REJECT
        · rw [component_halrcmd_set_reject_eq rx s h3]
          cases hst : s.m_state <;>
            simp [hst, h3, fsmSyncedSetRejectedEvent, fsmError, fsmErrorEntry, emit, call,
              stopHalrcmdChannel, stopHalrcompChannel, fsmActions_append, fsmActions, stepActions, transitionActions, readyAfter, Event.tableEvent, specTable]
        · rw [component_halrcmd_other_eq rx s h1 h2 h3]
          simp [h1, h2, h3, emit, fsmActions_append, fsmActions, stepActions, transitionActions, readyAfter,
            Event.tableEvent]
  · subst h
    simp only [step]
    by_cases h1 : rx.type = some ContainerType.MT_HALRCOMP_ERROR
    · rw [component_halrcomp_error_eq topic rx s h1]
      cases hst : s.m_state <;>
        simp [hst, h1, fsmSyncingSyncFailedEvent, fsmError, fsmErrorEntry, emit, call,
          stopHalrcmdChannel, stopHalrcompChannel, fsmActions_append, fsmActions, stepActions, transitionActions, readyAfter, Event.tableEvent, specTable]
    · simp only [processHalrcompChannelMessage, h1, if_false, Event.tableEvent]
      split_ifs <;> simp [emit, fsmActions_append, fsmActions, stepActions, transitionActions, readyAfter]
  · subst h
    simp only [step, sendHalrcmdMessage]
    by_cases h1 : type = ContainerType.MT_HALRCOMP_BIND
    · subst h1
      cases hst : s.m_state <;>
        simp [hst, fsmBindHalrcompBindMsgSentEvent, fsmBinding, emit, fsmActions_append, fsmActions, stepActions, transitionActions, readyAfter, Event.tableEvent, specTable]
    · simp only [h1, if_false, Event.tableEvent]
      split_ifs <;>
        simp [fsmSyncedHalrcompSetMsgSentEvent, emit, fsmActions_append, fsmActions, stepActions, transitionActions, readyAfter]
  · subst h
    simp [step, addHalrcompTopic, fsmActions_append, fsmActions, stepActions, transitionActions, readyAfter,
      Event.tableEvent]
  · subst h
    simp [step, removeHalrcompTopic, fsmActions_append, fsmActions, stepActions, transitionActions, readyAfter,
      Event.tableEvent]
  · subst h
    simp [step, clearHalrcompTopics, fsmActions_append, fsmActions, stepActions, transitionActions, readyAfter,
      Event.tableEvent]

/-- An event performs the actions of the transition that the table of section 4.4 lists
for it, in the order of `transitionActions`, and none when the table lists none; the
property `ready` of each channel is that of the last `setReady` among them. -/
theorem component_step_delta (e : Event) (s : RemoteComponentBase) :
    fsmActions (step e s).effects
        = fsmActions s.effects ++ stepActions s.m_state e.tableEvent ∧
      (step e s).m_halrcmdChannel.ready
        = readyAfter ChannelId.halrcmd s.m_halrcmdChannel.ready
            (stepActions s.m_state e.tableEvent) ∧
      (step e s).m_halrcompChannel.ready
        = readyAfter ChannelId.halrcomp s.m_halrcompChannel.ready
            (stepActions s.m_state e.tableEvent) := by
  cases e with
  | start => exact component_trigger_delta _ s (Or.inl rfl)
  | stop => exact component_trigger_delta _ s (Or.inr (Or.inl rfl))
  | noBind => exact component_trigger_delta _ s (Or.inr (Or.inr (Or.inl rfl)))
  | pinsSynced => exact component_trigger_delta _ s (Or.inr (Or.inr (Or.inr (Or.inl rfl))))
  | halrcmdChannelStateChanged state =>
    exact component_trigger_delta _ s
      (Or.inr (Or.inr (Or.inr (Or.inr (Or.inl ⟨state, rfl⟩)))))
  | halrcompChannelStateChanged state =>
    exact component_trigger_delta _ s
      (Or.inr (Or.inr (Or.inr (Or.inr (Or.inr ⟨state, rfl⟩)))))
  | processHalrcmdChannelMessage rx =>
    exact component_message_delta _ s (Or.inl ⟨rx, rfl⟩)
  | processHalrcompChannelMessage topic rx =>
    exact component_message_delta _ s (Or.inr (Or.inl ⟨topic, rx, rfl⟩))
  | sendHalrcmdMessage type tx =>
    exact component_message_delta _ s (Or.inr (Or.inr (Or.inl ⟨type, tx, rfl⟩)))
  | addHalrcompTopic name =>
    exact component_message_delta _ s (Or.inr (Or.inr (Or.inr (Or.inl ⟨name, rfl⟩))))
  | removeHalrcompTopic name =>
    exact component_message_delta _ s
      (Or.inr (Or.inr (Or.inr (Or.inr (Or.inl ⟨name, rfl⟩)))))
  | clearHalrcompTopics =>
    exact component_message_delta _ s (Or.inr (Or.inr (Or.inr (Or.inr (Or.inr rfl)))))

/-- The connection mark after an event: the last marking function among the actions of
the transition, and the mark before when there is none. -/
theorem component_step_mark (e : Event) (s : RemoteComponentBase) :
    connectionMark (step e s).effects
      = markFrom (connectionMark s.effects) (stepActions s.m_state e.tableEvent) := by
  unfold connectionMark
  rw [← markFrom_fsmActions (step e s).effects, (component_step_delta e s).1, markFrom_append,
    markFrom_fsmActions]

/-- Every event keeps the readiness of the two channels in step with the state. -/
theorem component_step_channels (e : Event) (s : RemoteComponentBase)
    (h : ChannelsReady s) : ChannelsReady (step e s) := by
  obtain ⟨_, h2, h3⟩ := component_step_delta e s
  unfold ChannelsReady at h ⊢
  rw [h2, h3, component_step_state]
  obtain ⟨hc, hr⟩ := h
  generalize e.tableEvent = te
  revert hc hr
  generalize s.m_halrcompChannel.ready = rc
  generalize s.m_halrcmdChannel.ready = rr
  generalize s.m_state = st
  intro hc hr
  cases te with
  | none => exact ⟨hc, hr⟩
  | some te =>
    cases st <;> cases rc <;> cases rr <;>
      first
      | (exfalso; revert hc hr; decide)
      | (cases te <;> decide)

/-- The readiness of the two channels is in step with the state after every sequence of
events from a state in which it is. -/
theorem component_run_channels (es : List Event) :
    ∀ s : RemoteComponentBase, ChannelsReady s → ChannelsReady (run es s) := by
  induction es with
  | nil =>
    intro s h
    exact h
  | cons e es ih =>
    intro s h
    exact ih (step e s) (component_step_channels e s h)

/-- A step of the table keeps the mark in step with the state: from a state whose mark
matches, the last marking function of the transition, or the old mark when the transition
has none, matches the new state. -/
theorem tableStep_mark (state : State) (mark : Virtual) (event : Option TableEvent)
    (h : state.markMatches mark = true) :
    ∃ next, markFrom (some mark) (stepActions state event) = some next ∧
      (tableStep state event).markMatches next = true := by
  cases event with
  | none => exact ⟨mark, rfl, h⟩
  | some te =>
    cases state <;> cases mark <;>
      first
      | (exfalso; revert h; decide)
      | (cases te <;> exact ⟨_, rfl, by decide⟩)

/-- The first step of the table from `Down` without a mark: either nothing happens, or
the state `Trying` is entered with the mark `setConnecting`. -/
theorem tableStep_first_mark (event : Option TableEvent) :
    (markFrom none (stepActions Down event) = none ∧ tableStep Down event = Down ∧
      event.bind (specTable Down) = none) ∨
    (markFrom none (stepActions Down event) = some Virtual.setConnecting ∧
      tableStep Down event = Trying) := by
  cases event with
  | none => exact Or.inl ⟨rfl, rfl, rfl⟩
  | some te => cases te <;> first | exact Or.inl ⟨rfl, rfl, rfl⟩ | exact Or.inr ⟨rfl, rfl⟩

/-- After every sequence of events from construction, either no state has been entered
and no marking function called, and the state is `Down`; or the connection mark matches
the state. -/
theorem component_run_mark (es : List Event) :
    ∀ s : RemoteComponentBase,
      ((connectionMark s.effects = none ∧ s.m_state = Down ∧ stateTrace s.effects = []) ∨
        ∃ mark, connectionMark s.effects = some mark ∧ s.m_state.markMatches mark = true) →
      ((connectionMark (run es s).effects = none ∧ (run es s).m_state = Down ∧
          stateTrace (run es s).effects = []) ∨
        ∃ mark, connectionMark (run es s).effects = some mark ∧
          (run es s).m_state.markMatches mark = true) := by
  induction es with
  | nil =>
    intro s h
    exact h
  | cons e es ih =>
    intro s h
    apply ih (step e s)
    rw [component_step_mark, component_step_state, component_step_trace]
    rcases h with ⟨hm, hs, ht⟩ | ⟨mark, hm, hs⟩
    · rw [hm, hs, ht]
      rcases tableStep_first_mark e.tableEvent with ⟨h1, h2, h3⟩ | ⟨h1, h2⟩
      · left
        rw [h3]
        exact ⟨h1, h2, rfl⟩
      · right
        exact ⟨_, h1, by rw [h2]; rfl⟩
    · right
      rw [hm]
      exact tableStep_mark s.m_state mark e.tableEvent hs

end RemoteComponentBase

/-! ## Sequences of `updateSync` calls -/

namespace ApplicationStatus

open State SocketState ConnectionError ContainerType StatusChannel

/-- A call of `updateSync` whose resulting mask differs from `m_channels` only ors the
flag into the mask. -/
theorem status_updateSync_off (d : StatusChannel) (t : ApplicationStatus)
    (hne : t.m_syncedChannels ||| d.flag ≠ t.m_channels) :
    updateSync d t = { t with m_syncedChannels := t.m_syncedChannels ||| d.flag } := by
  simp [updateSync, hne]

/-- Once the mask holds a bit that `m_channels` does not hold, no sequence of `updateSync`
calls changes `m_synced` or emits a signal, and the mask keeps the bit. -/
theorem status_updateSyncs_off (bit : Nat) (cs : List StatusChannel) :
    ∀ t : ApplicationStatus, t.m_syncedChannels.testBit bit = true →
      t.m_channels.testBit bit = false →
      (updateSyncs cs t).m_synced = t.m_synced ∧
      (updateSyncs cs t).effects = t.effects ∧
      (updateSyncs cs t).m_channels = t.m_channels ∧
      (updateSyncs cs t).m_syncedChannels.testBit bit = true := by
  induction cs with
  | nil =>
    intro t h1 _
    exact ⟨rfl, rfl, rfl, h1⟩
  | cons d rest ih =>
    intro t h1 h2
    have hbit : (t.m_syncedChannels ||| d.flag).testBit bit = true := by
      rw [Nat.testBit_or, h1]
      rfl
    have hne : t.m_syncedChannels ||| d.flag ≠ t.m_channels := by
      intro heq
      rw [heq, h2] at hbit
      cases hbit
    have hstep := status_updateSync_off d t hne
    have hrun : updateSyncs (d :: rest) t = updateSyncs rest (updateSync d t) := rfl
    rw [hrun, hstep]
    exact ih _ hbit h2

end ApplicationStatus

/-! ## A ping on the subscribe channel of ApplicationLauncher -/

namespace ApplicationLauncher

open State SocketState ConnectionError ContainerType

/-- A ping on the subscribe socket of a launcher whose connected flag goes with the state
`Connected`: while the subscribe socket state is not `Up` the state becomes `Connecting`,
the connected flag false and the subscribe socket state `Trying`, and `m_synced` is
cleared when the state was `Connected` and kept otherwise; while the subscribe socket
state is `Up` the state, the connected flag, `m_synced` and the effect log's transport
calls stay as they are. -/
theorem launcher_subscribe_ping_coherent (ext : External) (topic : String) (rx : Container)
    (s : ApplicationLauncher) (h : rx.type = some MT_PING) (hc : Coherent s) :
    (s.m_subscribeSocketState ≠ Up →
      (subscribeMessageReceived ext topic rx s).m_connectionState = Connecting ∧
      (subscribeMessageReceived ext topic rx s).m_connected = false ∧
      (subscribeMessageReceived ext topic rx s).m_subscribeSocketState = Trying ∧
      (subscribeMessageReceived ext topic rx s).m_synced
        = (if s.m_connectionState = Connected then false else s.m_synced)) ∧
    (s.m_subscribeSocketState = Up →
      (subscribeMessageReceived ext topic rx s).m_connectionState = s.m_connectionState ∧
      (subscribeMessageReceived ext topic rx s).m_connected = s.m_connected ∧
      (subscribeMessageReceived ext topic rx s).m_subscribeSocketState = Up ∧
      (subscribeMessageReceived ext topic rx s).m_synced = s.m_synced) := by
  obtain ⟨h1, _⟩ := hc
  refine ⟨fun hup => ?_, fun hup => ?_⟩
  · simp only [launcher_subscribe_ping_frame ext topic rx s h hup]
    cases hst : s.m_connectionState <;> cases hcn : s.m_connected <;> simp_all
  · simp only [launcher_subscribe_ping_up_frame ext topic rx s h hup]
    simp [hup]

end ApplicationLauncher

/-! ## The shape of the note lines -/

/-- The loop that appends the note lines puts them after what is there already. -/
theorem appendNotes_acc (notes : List String) :
    ∀ acc : String, appendNotes acc notes = acc ++ appendNotes "" notes := by
  induction notes with
  | nil =>
    intro acc
    simp [appendNotes]
  | cons n rest ih =>
    intro acc
    simp only [appendNotes, String.empty_append]
    rw [ih (acc ++ (n ++ "\n")), ih (n ++ "\n"), String.append_assoc]

/-- The note lines of a list with a first note: the note, a newline, and the note lines
of the rest. -/
theorem noteLines_cons (n : String) (rest : List String) :
    noteLines (n :: rest) = n ++ "\n" ++ noteLines rest := by
  rw [← appendNotes_eq_noteLines, ← appendNotes_eq_noteLines]
  simp only [appendNotes, String.empty_append]
  exact appendNotes_acc rest (n ++ "\n")

/-- The note lines of a list that ends with a note end with that note and a newline. -/
theorem noteLines_concat (front : List String) (n : String) :
    noteLines (front ++ [n]) = noteLines front ++ n ++ "\n" := by
  induction front with
  | nil =>
    have h0 : noteLines [] = "" := rfl
    simp only [List.nil_append, noteLines_cons, h0, String.append_empty, String.empty_append]
  | cons m rest ih =>
    simp only [List.cons_append, noteLines_cons, ih, String.append_assoc]

/-! ## Properties checked against the specification -/

open State SocketState ConnectionError ContainerType StatusChannel

/-- C1. Processing an `MT_EMCSTAT_INCREMENTAL_UPDATE` message with
`statusMessageReceived` leaves `m_syncedChannels` and `m_synced` unchanged, for every
state and every topic. -/
theorem c1_incremental_update_never_syncs (ext : External) (topic : String) (rx : Container)
    (s : ApplicationStatus) (h : rx.type = some MT_EMCSTAT_INCREMENTAL_UPDATE) :
    (ApplicationStatus.statusMessageReceived ext topic rx s).m_syncedChannels = s.m_syncedChannels ∧
    (ApplicationStatus.statusMessageReceived ext topic rx s).m_synced = s.m_synced := by
  have hinc := ApplicationStatus.status_receiveChannels_incremental ext topic { s with m_rx := rx }
    (by simp [h])
  rw [ApplicationStatus.status_statusMessageReceived_eq]
  simpa [h] using hinc

/-- C2. After `clearSync()` the synced mask is 0 and `m_synced` is false, and after every
sequence of events processed afterwards `m_synced` is true only if, for each of the five
channels, the sequence contains an `MT_EMCSTAT_FULL_UPDATE` whose topic is the channel's
name and which carries the channel's status sub-message (`m_channels` being the mask of
all five channels, as the constructor sets it). -/
theorem c2_synced_needs_full_update_per_channel (ext : External) (s : ApplicationStatus)
    (hch : s.m_channels = ApplicationStatus.allChannels) (es : List ApplicationStatus.Event) :
    (ApplicationStatus.clearSync s).m_syncedChannels = 0 ∧ (ApplicationStatus.clearSync s).m_synced = false ∧
    ((ApplicationStatus.run ext es (ApplicationStatus.clearSync s)).m_synced = true →
      ∀ c : StatusChannel, ∃ e ∈ es, e.isFullUpdateFor c) := by
  refine ⟨by simp, by simp, fun h c => ?_⟩
  have hbit : (ApplicationStatus.clearSync s).m_channels.testBit c.bit = true := by
    simp only [ApplicationStatus.status_clearSync_frame, hch]
    cases c <;> decide
  rcases (ApplicationStatus.status_run_sync ext es (ApplicationStatus.clearSync s) (fun _ => False) (by simp) (by simp)).2 h c hbit
    with hf | hex
  · exact hf.elim
  · exact hex

/-- C3. `updateSync(channel)` ors the channel's flag into `m_syncedChannels`; it sets
`m_synced` to true when the resulting mask equals `m_channels` and leaves `m_synced`
unchanged otherwise; calling it twice in a row yields the same `m_syncedChannels` and
`m_synced` as calling it once, and indeed the same value of every member (only the log of
emitted signals differs). -/
theorem c3_updateSync_or_and_idempotent (c : StatusChannel) (s : ApplicationStatus) :
    (ApplicationStatus.updateSync c s).m_syncedChannels = s.m_syncedChannels ||| c.flag ∧
    ((ApplicationStatus.updateSync c s).m_syncedChannels
        = (ApplicationStatus.updateSync c s).m_channels →
      (ApplicationStatus.updateSync c s).m_synced = true) ∧
    ((ApplicationStatus.updateSync c s).m_syncedChannels
        ≠ (ApplicationStatus.updateSync c s).m_channels →
      (ApplicationStatus.updateSync c s).m_synced = s.m_synced) ∧
    (ApplicationStatus.updateSync c (ApplicationStatus.updateSync c s)).m_syncedChannels
      = (ApplicationStatus.updateSync c s).m_syncedChannels ∧
    (ApplicationStatus.updateSync c (ApplicationStatus.updateSync c s)).m_synced
      = (ApplicationStatus.updateSync c s).m_synced ∧
    ApplicationStatus.updateSync c (ApplicationStatus.updateSync c s) =
      { ApplicationStatus.updateSync c s with
        effects :=
          (ApplicationStatus.updateSync c (ApplicationStatus.updateSync c s)).effects } := by
  have hor : s.m_syncedChannels ||| c.flag ||| c.flag = s.m_syncedChannels ||| c.flag := by
    rw [Nat.or_assoc, Nat.or_self]
  refine ⟨?_, ?_, ?_, ?_, ?_, ?_⟩
  · simp only [ApplicationStatus.status_updateSync_frame]
  · simp only [ApplicationStatus.status_updateSync_frame]
    intro h
    simp [h]
  · simp only [ApplicationStatus.status_updateSync_frame]
    intro h
    simp [h]
  · simp only [ApplicationStatus.status_updateSync_frame, hor]
  · simp only [ApplicationStatus.status_updateSync_frame, hor]
    split_ifs <;> rfl
  · simp only [ApplicationStatus.updateSync, ApplicationStatus.emit]
    by_cases h : s.m_syncedChannels ||| c.flag = s.m_channels
    · have hc : s.m_channels ||| c.flag = s.m_channels := by
        rw [← h]
        exact hor
      simp [h, hc]
    · simp [h, hor]

/-- C4. After every sequence of events from construction (`start()`, `stop()`, received
messages, poll errors and heartbeat ticks, and for the launcher also the setters and the
command senders), the connected flag of `ApplicationStatus` and of `ApplicationLauncher`
is true if and only if the connection state is `Connected`. -/
theorem c4_connected_iff_state_connected (ext : External)
    (es : List ApplicationStatus.Event) (el : List ApplicationLauncher.Event) :
    ((ApplicationStatus.run ext es (ApplicationStatus.new ext)).m_connected = true ↔
      (ApplicationStatus.run ext es (ApplicationStatus.new ext)).m_connectionState
        = Connected) ∧
    ((ApplicationLauncher.run ext el ApplicationLauncher.new).m_connected = true ↔
      (ApplicationLauncher.run ext el ApplicationLauncher.new).m_connectionState
        = Connected) :=
  ⟨(ApplicationStatus.status_coherent_run ext es _ (ApplicationStatus.status_coherent_new ext)).1,
   (ApplicationLauncher.launcher_coherent_run ext el _
      ApplicationLauncher.launcher_coherent_new).1⟩

/-- The sample status run is a run of enabled events, so its end state is reachable. -/
theorem sampleStatusConnected_reachable :
    ApplicationStatus.Reachable External.sample sampleStatusConnected :=
  ApplicationStatus.status_reachable_run External.sample sampleStatusConnectedRun _
    ApplicationStatus.Reachable.init (by decide)

/-- The sample launcher run is a run of enabled events, so its end state is reachable. -/
theorem sampleLauncherTimeout_reachable :
    ApplicationLauncher.Reachable External.sample sampleLauncherTimeout :=
  ApplicationLauncher.launcher_reachable_run External.sample sampleLauncherTimeoutRun _
    ApplicationLauncher.Reachable.init (by decide)

/-- C5. After every sequence of events from construction (which starts with an empty
synced mask), `m_synced == true` implies that the connection state of `ApplicationStatus`
is `Connected`; more strongly, whenever the state is not `Connected` the synced mask is
0. -/
theorem c5_status_synced_only_when_connected (ext : External)
    (es : List ApplicationStatus.Event) :
    ((ApplicationStatus.run ext es (ApplicationStatus.new ext)).m_synced = true →
      (ApplicationStatus.run ext es (ApplicationStatus.new ext)).m_connectionState
        = Connected) ∧
    ((ApplicationStatus.run ext es (ApplicationStatus.new ext)).m_connectionState ≠ Connected →
      (ApplicationStatus.run ext es (ApplicationStatus.new ext)).m_syncedChannels = 0) := by
  have h3 := (ApplicationStatus.status_coherent_run ext es _
    (ApplicationStatus.status_coherent_new ext)).2.2.1
  refine ⟨fun hy => ?_, fun hne => (h3 hne).1⟩
  by_contra hne
  rw [(h3 hne).2] at hy
  cases hy

/-- C7. After every sequence of events from construction, `stop()` leaves
`ApplicationStatus` and `ApplicationLauncher` with the connection state `Disconnected`,
`m_error` `NoError`, an empty `m_errorString`, the connected flag false, every socket and
the context closed, and every socket state `Down`. -/
theorem c7_stop_resets (ext : External) (es : List ApplicationStatus.Event)
    (el : List ApplicationLauncher.Event) :
    ((ApplicationStatus.stop ext
        (ApplicationStatus.run ext es (ApplicationStatus.new ext))).m_connectionState
        = Disconnected ∧
      (ApplicationStatus.stop ext
        (ApplicationStatus.run ext es (ApplicationStatus.new ext))).m_error = NoError ∧
      (ApplicationStatus.stop ext
        (ApplicationStatus.run ext es (ApplicationStatus.new ext))).m_errorString = "" ∧
      (ApplicationStatus.stop ext
        (ApplicationStatus.run ext es (ApplicationStatus.new ext))).m_connected = false ∧
      (ApplicationStatus.stop ext
        (ApplicationStatus.run ext es (ApplicationStatus.new ext))).m_statusSocket = false ∧
      (ApplicationStatus.stop ext
        (ApplicationStatus.run ext es (ApplicationStatus.new ext))).m_context = false ∧
      (ApplicationStatus.stop ext
        (ApplicationStatus.run ext es (ApplicationStatus.new ext))).m_statusSocketState
        = Down) ∧
    ((ApplicationLauncher.stop
        (ApplicationLauncher.run ext el ApplicationLauncher.new)).m_connectionState
        = Disconnected ∧
      (ApplicationLauncher.stop
        (ApplicationLauncher.run ext el ApplicationLauncher.new)).m_error = NoError ∧
      (ApplicationLauncher.stop
        (ApplicationLauncher.run ext el ApplicationLauncher.new)).m_errorString = "" ∧
      (ApplicationLauncher.stop
        (ApplicationLauncher.run ext el ApplicationLauncher.new)).m_connected = false ∧
      (ApplicationLauncher.stop
        (ApplicationLauncher.run ext el ApplicationLauncher.new)).m_commandSocket = false ∧
      (ApplicationLauncher.stop
        (ApplicationLauncher.run ext el ApplicationLauncher.new)).m_subscribeSocket = false ∧
      (ApplicationLauncher.stop
        (ApplicationLauncher.run ext el ApplicationLauncher.new)).m_context = false ∧
      (ApplicationLauncher.stop
        (ApplicationLauncher.run ext el ApplicationLauncher.new)).m_commandSocketState
        = Down ∧
      (ApplicationLauncher.stop
        (ApplicationLauncher.run ext el ApplicationLauncher.new)).m_subscribeSocketState
        = Down) := by
  have h1 := (ApplicationStatus.status_coherent_run ext es _
    (ApplicationStatus.status_coherent_new ext)).1
  have h2 := (ApplicationLauncher.launcher_coherent_run ext el _
    ApplicationLauncher.launcher_coherent_new).1
  generalize ApplicationStatus.run ext es (ApplicationStatus.new ext) = s at h1 ⊢
  generalize ApplicationLauncher.run ext el ApplicationLauncher.new = l at h2 ⊢
  simp only [ApplicationStatus.status_stop_frame, ApplicationLauncher.launcher_stop_frame,
    true_and, and_true]
  constructor
  · split_ifs with h
    · rfl
    · cases hc : s.m_connected with
      | false => rfl
      | true =>
        have hconn := h1.1 hc
        rw [not_not] at h
        rw [← h] at hconn
        cases hconn
  · split_ifs with h
    · rfl
    · cases hc : l.m_connected with
      | false => rfl
      | true =>
        have hconn := h2.1 hc
        rw [not_not] at h
        rw [← h] at hconn
        cases hconn

/-- C1 at a sample state: an incremental update for the motion channel, received by the
connected status client, leaves the mask (the motion bit) and the flag as they were. -/
theorem c1_incremental_update_never_syncs_witness :
    sampleMotionIncrementalUpdate.type = some MT_EMCSTAT_INCREMENTAL_UPDATE ∧
    ((ApplicationStatus.statusMessageReceived External.sample "motion"
        sampleMotionIncrementalUpdate sampleStatusConnected).m_syncedChannels
        = sampleStatusConnected.m_syncedChannels ∧
      (ApplicationStatus.statusMessageReceived External.sample "motion"
        sampleMotionIncrementalUpdate sampleStatusConnected).m_synced
        = sampleStatusConnected.m_synced) :=
  ⟨rfl, c1_incremental_update_never_syncs External.sample "motion"
    sampleMotionIncrementalUpdate sampleStatusConnected rfl⟩

/-- C2 at a sample run: after a start and a full update for each of the five channels the
aggregate flag is raised, and the run contains a full update for every channel. -/
theorem c2_synced_needs_full_update_per_channel_witness :
    (ApplicationStatus.new External.sample).m_channels = ApplicationStatus.allChannels ∧
    (ApplicationStatus.run External.sample sampleStatusSyncedRun
      (ApplicationStatus.clearSync (ApplicationStatus.new External.sample))).m_synced = true ∧
    ((ApplicationStatus.clearSync (ApplicationStatus.new External.sample)).m_syncedChannels = 0 ∧
      (ApplicationStatus.clearSync (ApplicationStatus.new External.sample)).m_synced = false ∧
      ((ApplicationStatus.run External.sample sampleStatusSyncedRun
          (ApplicationStatus.clearSync (ApplicationStatus.new External.sample))).m_synced = true →
        ∀ c : StatusChannel, ∃ e ∈ sampleStatusSyncedRun, e.isFullUpdateFor c)) :=
  ⟨by decide, by decide,
    c2_synced_needs_full_update_per_channel External.sample
      (ApplicationStatus.new External.sample) (by decide) sampleStatusSyncedRun⟩

/-- The launcher after a missed acknowledge and a further full update is reachable. -/
theorem sampleLauncherResynced_reachable :
    ApplicationLauncher.Reachable External.sample sampleLauncherResynced :=
  ApplicationLauncher.Reachable.step sampleLauncherTimeout _ sampleLauncherTimeout_reachable
    (by decide)

/-- C6 at the failing run.  The launcher is started, acknowledged and synced; the second
command heartbeat tick finds the probe outstanding and moves the state to `Timeout`,
clearing `m_synced`, while the subscribe socket state stays `Up`.  A full update on the
subscribe socket then raises `m_synced` again although the state is still `Timeout` and
the connected flag is false. -/
theorem c6_launcher_synced_while_timeout :
    ApplicationLauncher.Reachable External.sample sampleLauncherResynced ∧
    sampleLauncherTimeout.m_connectionState = Timeout ∧
    sampleLauncherTimeout.m_synced = false ∧
    sampleLauncherTimeout.m_subscribeSocketState = Up ∧
    sampleLauncherResynced.m_synced = true ∧
    sampleLauncherResynced.m_connected = false ∧
    sampleLauncherResynced.m_connectionState = Timeout :=
  ⟨sampleLauncherResynced_reachable, by decide, by decide, by decide, by decide, by decide,
    by decide⟩

/-- C8 at the failing run.  From the reachable launcher state that is `Timeout` with
`m_synced` set again, `stop()` moves the state to `Disconnected` and a poll error moves it
to `Error`, and in both cases `m_synced` stays true. -/
theorem c8_launcher_synced_survives_reset :
    sampleLauncherResynced.m_connectionState = Timeout ∧
    sampleLauncherResynced.m_synced = true ∧
    (ApplicationLauncher.stop sampleLauncherResynced).m_connectionState = Disconnected ∧
    (ApplicationLauncher.stop sampleLauncherResynced).m_synced = true ∧
    sampleLauncherResynced.m_context = true ∧
    (ApplicationLauncher.pollError 5 "poll" sampleLauncherResynced).m_connectionState = Error ∧
    (ApplicationLauncher.pollError 5 "poll" sampleLauncherResynced).m_synced = true := by
  decide

/-- C9 at the failing input.  The status client is `Connected` and subscribed to the five
topics.  A poll error moves it to `Error`, empties `m_subscriptions` and closes the socket
and the context without one call of `unsubscribeFrom`; `stop()` from the same state
unsubscribes the five topics and then closes the socket and the context. -/
theorem c9_status_error_skips_unsubscribe :
    ApplicationStatus.Reachable External.sample sampleStatusConnected ∧
    sampleStatusConnected.m_connectionState = Connected ∧
    sampleStatusConnected.m_context = true ∧
    sampleStatusConnected.m_subscriptions = ["motion", "config", "task", "io", "interp"] ∧
    (ApplicationStatus.pollError External.sample 5 "poll" sampleStatusConnected).m_connectionState
      = Error ∧
    (ApplicationStatus.pollError External.sample 5 "poll" sampleStatusConnected).m_error
      = SocketError ∧
    (ApplicationStatus.pollError External.sample 5 "poll" sampleStatusConnected).m_subscriptions
      = [] ∧
    transportCalls
      ((ApplicationStatus.pollError External.sample 5 "poll" sampleStatusConnected).effects.drop
        sampleStatusConnected.effects.length) = ["close", "contextStop"] ∧
    transportCalls
      ((ApplicationStatus.stop External.sample sampleStatusConnected).effects.drop
        sampleStatusConnected.effects.length)
      = ["unsubscribeFrom motion", "unsubscribeFrom config", "unsubscribeFrom task",
         "unsubscribeFrom io", "unsubscribeFrom interp", "close", "contextStop"] :=
  ⟨sampleStatusConnected_reachable, by decide⟩

/-- What `commandHeartbeatTimerTick` sends when the send does not throw: one envelope of
type `MT_PING` when the command socket is open, nothing when it is closed. -/
theorem launcher_commandHeartbeatTimerTick_ok_sent (s : ApplicationLauncher) :
    sentTypes (ApplicationLauncher.commandHeartbeatTimerTick none s).effects =
      sentTypes s.effects ++ (if s.m_commandSocket = true then [some MT_PING] else []) := by
  rw [ApplicationLauncher.launcher_commandHeartbeatTimerTick_eq]
  simp only [sentTypes, ApplicationLauncher.launcher_sendCommandMessage_ok_sent]
  cases ho : s.m_commandPingOutstanding <;> cases hk : s.m_commandSocket <;> simp [hk]

/-- What `commandHeartbeatTimerTick` sends when the send throws, or when the command
socket is closed: nothing. -/
theorem launcher_commandHeartbeatTimerTick_none_sent (sendError : Option ZmqError)
    (s : ApplicationLauncher) (h : sendError ≠ none ∨ s.m_commandSocket = false) :
    sentTypes (ApplicationLauncher.commandHeartbeatTimerTick sendError s).effects =
      sentTypes s.effects := by
  cases sendError with
  | none =>
    have hk : s.m_commandSocket = false := by
      rcases h with h | h
      · exact absurd rfl h
      · exact h
    rw [launcher_commandHeartbeatTimerTick_ok_sent, hk]
    simp
  | some e =>
    rw [ApplicationLauncher.launcher_commandHeartbeatTimerTick_eq]
    simp only [sentTypes, ApplicationLauncher.launcher_sendCommandMessage_fail_sent]
    cases ho : s.m_commandPingOutstanding <;> simp

/-- C10, as amended.  For every state, `commandHeartbeatTimerTick` leaves
`m_commandPingOutstanding == true`, and a subsequent `MT_PING_ACKNOWLEDGE` resets the flag
to false.  When the send of the probe does not throw (or the command socket is closed),
the tick moves the connection state to `Timeout` if `m_commandPingOutstanding` was true on
entry and leaves it unchanged if it was false, and it sends exactly one `MT_PING` when the
command socket is open and nothing when it is closed.  When the command socket is open
and the send throws, nothing is sent and the tick ends in `Error` with `SocketError`,
whatever the flag was. -/
theorem c10_command_tick_timeout_and_probe (sendError : Option ZmqError)
    (s : ApplicationLauncher) (rx : Container) (hack : rx.type = some MT_PING_ACKNOWLEDGE) :
    (ApplicationLauncher.commandHeartbeatTimerTick sendError s).m_commandPingOutstanding = true ∧
    (ApplicationLauncher.commandMessageReceived rx
      (ApplicationLauncher.commandHeartbeatTimerTick sendError s)).m_commandPingOutstanding
        = false ∧
    ((sendError = none ∨ s.m_commandSocket = false) →
      (s.m_commandPingOutstanding = true →
        (ApplicationLauncher.commandHeartbeatTimerTick sendError s).m_connectionState
          = Timeout) ∧
      (s.m_commandPingOutstanding = false →
        (ApplicationLauncher.commandHeartbeatTimerTick sendError s).m_connectionState
          = s.m_connectionState) ∧
      sentTypes (ApplicationLauncher.commandHeartbeatTimerTick sendError s).effects =
        sentTypes s.effects ++ (if s.m_commandSocket = true then [some MT_PING] else [])) ∧
    (sendError ≠ none → s.m_commandSocket = true →
      (ApplicationLauncher.commandHeartbeatTimerTick sendError s).m_connectionState = Error ∧
      (ApplicationLauncher.commandHeartbeatTimerTick sendError s).m_error = SocketError ∧
      sentTypes (ApplicationLauncher.commandHeartbeatTimerTick sendError s).effects =
        sentTypes s.effects) := by
  refine ⟨?_, ?_, ?_, ?_⟩
  · rw [ApplicationLauncher.launcher_commandHeartbeatTimerTick_eq]
  · simp only [ApplicationLauncher.launcher_command_ack_frame rx _ hack]
  · intro h
    cases sendError with
    | none =>
      simp only [ApplicationLauncher.launcher_commandHeartbeatTimerTick_ok_frame,
        launcher_commandHeartbeatTimerTick_ok_sent, and_true]
      constructor
      · intro ho
        simp [ho]
      · intro ho
        simp [ho]
    | some e =>
      have hk : s.m_commandSocket = false := by
        rcases h with h | h
        · cases h
        · exact h
      simp only [ApplicationLauncher.launcher_commandHeartbeatTimerTick_closed_frame _ s hk,
        launcher_commandHeartbeatTimerTick_none_sent _ s (Or.inr hk), hk]
      refine ⟨fun ho => by simp [ho], fun ho => by simp [ho], by simp⟩
  · intro hne hk
    cases sendError with
    | none => exact absurd rfl hne
    | some e =>
      simp only [ApplicationLauncher.launcher_commandHeartbeatTimerTick_fail_frame e s hk,
        launcher_commandHeartbeatTimerTick_none_sent _ s (Or.inl hne), and_self]

/-- The launcher with one unacknowledged probe is reachable. -/
theorem sampleLauncherProbing_reachable :
    ApplicationLauncher.Reachable External.sample sampleLauncherProbing :=
  ApplicationLauncher.launcher_reachable_run External.sample _ _
    ApplicationLauncher.Reachable.init (by decide)

/-- C10 at a sample state: the launcher with one unacknowledged probe; the next tick,
with a send that does not throw, moves `Connected` to `Timeout` and sends one more
`MT_PING`. -/
theorem c10_command_tick_timeout_and_probe_witness :
    (Container.ofType MT_PING_ACKNOWLEDGE).type = some MT_PING_ACKNOWLEDGE ∧
    sampleLauncherProbing.m_commandPingOutstanding = true ∧
    sampleLauncherProbing.m_connectionState = Connected ∧
    ((ApplicationLauncher.commandHeartbeatTimerTick none
        sampleLauncherProbing).m_commandPingOutstanding = true ∧
      (ApplicationLauncher.commandMessageReceived (Container.ofType MT_PING_ACKNOWLEDGE)
        (ApplicationLauncher.commandHeartbeatTimerTick none
          sampleLauncherProbing)).m_commandPingOutstanding = false ∧
      (((none : Option ZmqError) = none ∨ sampleLauncherProbing.m_commandSocket = false) →
        (sampleLauncherProbing.m_commandPingOutstanding = true →
          (ApplicationLauncher.commandHeartbeatTimerTick none
            sampleLauncherProbing).m_connectionState = Timeout) ∧
        (sampleLauncherProbing.m_commandPingOutstanding = false →
          (ApplicationLauncher.commandHeartbeatTimerTick none
            sampleLauncherProbing).m_connectionState = sampleLauncherProbing.m_connectionState) ∧
        sentTypes (ApplicationLauncher.commandHeartbeatTimerTick none
            sampleLauncherProbing).effects =
          sentTypes sampleLauncherProbing.effects ++
            (if sampleLauncherProbing.m_commandSocket = true then [some MT_PING] else [])) ∧
      ((none : Option ZmqError) ≠ none → sampleLauncherProbing.m_commandSocket = true →
        (ApplicationLauncher.commandHeartbeatTimerTick none
          sampleLauncherProbing).m_connectionState = Error ∧
        (ApplicationLauncher.commandHeartbeatTimerTick none
          sampleLauncherProbing).m_error = SocketError ∧
        sentTypes (ApplicationLauncher.commandHeartbeatTimerTick none
            sampleLauncherProbing).effects = sentTypes sampleLauncherProbing.effects)) :=
  ⟨rfl, by decide, by decide,
    c10_command_tick_timeout_and_probe none sampleLauncherProbing
      (Container.ofType MT_PING_ACKNOWLEDGE) rfl⟩

/-- C10 fails as stated.  The launcher with one unacknowledged probe is reachable, its
flag `m_commandPingOutstanding` is true and its command socket is open; when the send of
the next probe throws, the tick ends in `Error`, not in `Timeout`, and no `MT_PING` is
sent. -/
theorem c10_counterexample_send_throws :
    ApplicationLauncher.Reachable External.sample sampleLauncherProbing ∧
    sampleLauncherProbing.m_commandPingOutstanding = true ∧
    sampleLauncherProbing.m_commandSocket = true ∧
    sampleLauncherProbing.m_commandHeartbeatTimer.active = true ∧
    (ApplicationLauncher.commandHeartbeatTimerTick (some { num := 11, what := "send" })
      sampleLauncherProbing).m_connectionState = Error ∧
    (ApplicationLauncher.commandHeartbeatTimerTick (some { num := 11, what := "send" })
      sampleLauncherProbing).m_connectionState ≠ Timeout ∧
    sentTypes (ApplicationLauncher.commandHeartbeatTimerTick (some { num := 11, what := "send" })
      sampleLauncherProbing).effects = sentTypes sampleLauncherProbing.effects :=
  ⟨sampleLauncherProbing_reachable, by decide, by decide, by decide, by decide, by decide,
    by decide⟩

/-- C11, amended.  A probe sent by a command heartbeat tick is marked outstanding, and
the mark stays while no acknowledge arrives and `start()` is not called again.  The next
tick then leaves the connected flag false and announces exactly one transition to
`Timeout` when the state is not `Timeout` already, and none when it is.  The initial
probe sent by `start()` is not marked outstanding: a tick that follows `start()` directly
announces no transition to `Timeout`. -/
theorem c11_unacknowledged_tick_probe_raises_timeout (ext : External)
    (es between : List ApplicationLauncher.Event) (sendError sendError2 : Option ZmqError)
    (hkeep : ∀ e ∈ between, e.keepsProbeOutstanding = true) :
    (ApplicationLauncher.afterProbe ext es sendError between).m_commandPingOutstanding = true ∧
    (ApplicationLauncher.commandHeartbeatTimerTick sendError2
      (ApplicationLauncher.afterProbe ext es sendError between)).m_connected = false ∧
    timeoutTransitions (ApplicationLauncher.commandHeartbeatTimerTick sendError2
      (ApplicationLauncher.afterProbe ext es sendError between)).effects =
      timeoutTransitions (ApplicationLauncher.afterProbe ext es sendError between).effects +
        (if (ApplicationLauncher.afterProbe ext es sendError between).m_connectionState = Timeout
          then 0 else 1) ∧
    (∀ s : ApplicationLauncher,
      (ApplicationLauncher.start none sendError s).m_commandPingOutstanding = false ∧
      timeoutTransitions (ApplicationLauncher.commandHeartbeatTimerTick sendError2
        (ApplicationLauncher.start none sendError s)).effects =
        timeoutTransitions (ApplicationLauncher.start none sendError s).effects) := by
  have hco : ApplicationLauncher.Coherent
      (ApplicationLauncher.afterProbe ext es sendError between) := by
    unfold ApplicationLauncher.afterProbe
    apply ApplicationLauncher.launcher_coherent_run
    exact ApplicationLauncher.launcher_coherent_step ext _
      (ApplicationLauncher.Event.commandHeartbeatTimerTick sendError)
      (ApplicationLauncher.launcher_coherent_run ext es _
        ApplicationLauncher.launcher_coherent_new)
  have hout : (ApplicationLauncher.afterProbe ext es sendError between).m_commandPingOutstanding
      = true :=
    ApplicationLauncher.launcher_run_keeps_probe ext between _ hkeep
      (by simp only [ApplicationLauncher.launcher_commandHeartbeatTimerTick_eq])
  refine ⟨hout, ApplicationLauncher.launcher_commandHeartbeatTimerTick_connected _ _ hco hout,
    ?_, fun s => ⟨ApplicationLauncher.launcher_start_outstanding sendError s, ?_⟩⟩
  · rw [ApplicationLauncher.launcher_commandHeartbeatTimerTick_changes]
    simp only [hout, true_and]
    split_ifs <;> simp_all
  · rw [ApplicationLauncher.launcher_commandHeartbeatTimerTick_changes,
      ApplicationLauncher.launcher_start_outstanding]
    simp

/-- C11 at a sample run: the launcher is started and acknowledged, a tick sends a probe, a
full update arrives on the subscribe socket but no acknowledge; the next tick leaves the
connected flag false and announces one transition to `Timeout`. -/
theorem c11_unacknowledged_tick_probe_raises_timeout_witness :
    (∀ e ∈ [ApplicationLauncher.Event.subscribeMessageReceived "launcher"
        (Container.ofType MT_LAUNCHER_FULL_UPDATE)], e.keepsProbeOutstanding = true) ∧
    (ApplicationLauncher.afterProbe External.sample
        [ApplicationLauncher.Event.start none none,
          ApplicationLauncher.Event.commandMessageReceived (Container.ofType MT_PING_ACKNOWLEDGE)]
        none
        [ApplicationLauncher.Event.subscribeMessageReceived "launcher"
          (Container.ofType MT_LAUNCHER_FULL_UPDATE)]).m_connectionState = Connected ∧
    (ApplicationLauncher.commandHeartbeatTimerTick none
      (ApplicationLauncher.afterProbe External.sample
        [ApplicationLauncher.Event.start none none,
          ApplicationLauncher.Event.commandMessageReceived (Container.ofType MT_PING_ACKNOWLEDGE)]
        none
        [ApplicationLauncher.Event.subscribeMessageReceived "launcher"
          (Container.ofType MT_LAUNCHER_FULL_UPDATE)])).m_connected = false ∧
    timeoutTransitions (ApplicationLauncher.commandHeartbeatTimerTick none
      (ApplicationLauncher.afterProbe External.sample
        [ApplicationLauncher.Event.start none none,
          ApplicationLauncher.Event.commandMessageReceived (Container.ofType MT_PING_ACKNOWLEDGE)]
        none
        [ApplicationLauncher.Event.subscribeMessageReceived "launcher"
          (Container.ofType MT_LAUNCHER_FULL_UPDATE)])).effects = 1 :=
  ⟨by decide, by decide,
    (c11_unacknowledged_tick_probe_raises_timeout External.sample
      [ApplicationLauncher.Event.start none none,
        ApplicationLauncher.Event.commandMessageReceived (Container.ofType MT_PING_ACKNOWLEDGE)]
      [ApplicationLauncher.Event.subscribeMessageReceived "launcher"
        (Container.ofType MT_LAUNCHER_FULL_UPDATE)]
      none none (by decide)).2.1,
    by decide⟩

/-- C11 as stated fails in two ways.  After `start()` the initial probe has been sent and
nothing has been received, yet the first tick announces no transition to `Timeout` and
leaves the state `Connecting`.  And in the state `Timeout`, where the last tick has sent
a probe that is still outstanding, the next tick announces no transition either. -/
theorem c11_counterexample_initial_probe_and_repeated_timeout :
    (ApplicationLauncher.Reachable External.sample sampleLauncherStarted ∧
      sentTypes sampleLauncherStarted.effects = [some MT_PING] ∧
      sampleLauncherStarted.m_commandHeartbeatTimer.active = true ∧
      timeoutTransitions
        (ApplicationLauncher.commandHeartbeatTimerTick none sampleLauncherStarted).effects = 0 ∧
      (ApplicationLauncher.commandHeartbeatTimerTick none sampleLauncherStarted).m_connectionState
        = Connecting) ∧
    (ApplicationLauncher.Reachable External.sample sampleLauncherTimeout ∧
      sampleLauncherTimeout.m_connectionState = Timeout ∧
      sampleLauncherTimeout.m_commandPingOutstanding = true ∧
      sampleLauncherTimeout.m_commandHeartbeatTimer.active = true ∧
      timeoutTransitions
        (ApplicationLauncher.commandHeartbeatTimerTick none sampleLauncherTimeout).effects
        = timeoutTransitions sampleLauncherTimeout.effects) :=
  ⟨⟨ApplicationLauncher.Reachable.step _ (ApplicationLauncher.Event.start none none)
      ApplicationLauncher.Reachable.init (by decide), by decide⟩,
    ⟨sampleLauncherTimeout_reachable, by decide⟩⟩

/-- The sample status run with a keep-alive period is a run of enabled events, so its end
state is reachable. -/
theorem sampleStatusHeartbeat_reachable :
    ApplicationStatus.Reachable External.sample sampleStatusHeartbeat :=
  ApplicationStatus.status_reachable_run External.sample sampleStatusHeartbeatRun _
    ApplicationStatus.Reachable.init (by decide)

/-- The status client that has missed a heartbeat is reachable. -/
theorem sampleStatusTimeout_reachable :
    ApplicationStatus.Reachable External.sample sampleStatusTimeout :=
  ApplicationStatus.Reachable.step sampleStatusHeartbeat
    ApplicationStatus.Event.statusHeartbeatTimerTick sampleStatusHeartbeat_reachable (by decide)

/-- C12, amended.  In every reachable state in which a message can arrive (the status
socket is open), an `MT_PING` on the status channel has one of two effects.  When the
connection state is `Connected` the socket state is `Up`, the state stays `Connected`
and nothing is sent to the transport (only the heartbeat timer is refreshed).  When the
connection state is not `Connected` (as in `Connecting` and in `Timeout`) the socket state
is not `Up`, the state becomes `Connecting` and the client resubscribes: one
`unsubscribeFrom` for each current topic, then `subscribeTo` for the five topics. -/
theorem c12_status_ping_resubscribes_unless_connected (ext : External) (topic : String)
    (rx : Container) (s : ApplicationStatus) (hr : ApplicationStatus.Reachable ext s)
    (hsock : s.m_statusSocket = true) (h : rx.type = some MT_PING) :
    (s.m_connectionState = Connected →
      s.m_statusSocketState = Up ∧
      (ApplicationStatus.statusMessageReceived ext topic rx s).m_connectionState = Connected ∧
      (ApplicationStatus.statusMessageReceived ext topic rx s).effects = s.effects) ∧
    (s.m_connectionState ≠ Connected →
      s.m_statusSocketState ≠ Up ∧
      (ApplicationStatus.statusMessageReceived ext topic rx s).m_connectionState = Connecting ∧
      transportCalls (ApplicationStatus.statusMessageReceived ext topic rx s).effects =
        transportCalls s.effects ++ s.m_subscriptions.map (fun t => "unsubscribeFrom " ++ t) ++
          ["subscribeTo motion", "subscribeTo config", "subscribeTo task", "subscribeTo io",
           "subscribeTo interp"]) := by
  obtain ⟨_, h2, _, _, _, h6, h7, _, _, h10, _⟩ :=
    ApplicationStatus.status_reachable_invariant ext s hr
  constructor
  · intro hc
    have hup : s.m_statusSocketState = Up := h2.2 hc
    refine ⟨hup, ?_, ApplicationStatus.status_received_ping_up_effects ext topic rx s h hup⟩
    simp only [ApplicationStatus.status_received_ping_up_frame ext topic rx s h hup, hc]
  · intro hc
    have hup : s.m_statusSocketState ≠ Up := fun hu => hc (h2.1 hu)
    refine ⟨hup, ?_, ApplicationStatus.status_received_ping_calls ext topic rx s h hup hsock⟩
    simp only [ApplicationStatus.status_received_ping_frame ext topic rx s h hup]

/-- C12 at a sample state: the status client in `Timeout`, with its socket open and five
topics subscribed, receives a ping; it moves to `Connecting`, unsubscribes from the five
topics and subscribes to them again. -/
theorem c12_status_ping_resubscribes_unless_connected_witness :
    sampleStatusTimeout.m_statusSocket = true ∧
    sampleStatusTimeout.m_connectionState = Timeout ∧
    (ApplicationStatus.statusMessageReceived External.sample "" (Container.ofType MT_PING)
      sampleStatusTimeout).m_connectionState = Connecting ∧
    transportCalls (ApplicationStatus.statusMessageReceived External.sample ""
      (Container.ofType MT_PING) sampleStatusTimeout).effects =
      transportCalls sampleStatusTimeout.effects ++
        sampleStatusTimeout.m_subscriptions.map (fun t => "unsubscribeFrom " ++ t) ++
        ["subscribeTo motion", "subscribeTo config", "subscribeTo task", "subscribeTo io",
         "subscribeTo interp"] :=
  ⟨by decide, by decide,
    ((c12_status_ping_resubscribes_unless_connected External.sample ""
      (Container.ofType MT_PING) sampleStatusTimeout sampleStatusTimeout_reachable
      (by decide) rfl).2 (by decide)).2⟩

/-- C12 as stated fails at the status client that is `Connected` after one full update,
with `m_synced` false: a ping leaves the state `Connected` and reaches the transport with
no call, so there is neither a move to `Connecting` nor a resubscribe. -/
theorem c12_counterexample_ping_while_connected :
    ApplicationStatus.Reachable External.sample sampleStatusConnected ∧
    sampleStatusConnected.m_connectionState = Connected ∧
    sampleStatusConnected.m_synced = false ∧
    sampleStatusConnected.m_statusSocket = true ∧
    (ApplicationStatus.statusMessageReceived External.sample "" (Container.ofType MT_PING)
      sampleStatusConnected).m_connectionState = Connected ∧
    transportCalls (ApplicationStatus.statusMessageReceived External.sample ""
      (Container.ofType MT_PING) sampleStatusConnected).effects
      = transportCalls sampleStatusConnected.effects :=
  ⟨sampleStatusConnected_reachable, by decide⟩

/-- The launcher that is stopped after a missed acknowledge and a further full update is
reachable. -/
theorem sampleLauncherStopped_reachable :
    ApplicationLauncher.Reachable External.sample sampleLauncherStopped :=
  ApplicationLauncher.launcher_reachable_run External.sample sampleLauncherStoppedRun _
    ApplicationLauncher.Reachable.init (by decide)

/-- The launcher that meets a poll error after a missed acknowledge and a further full
update is reachable. -/
theorem sampleLauncherFailed_reachable :
    ApplicationLauncher.Reachable External.sample sampleLauncherFailed :=
  ApplicationLauncher.launcher_reachable_run External.sample sampleLauncherFailedRun _
    ApplicationLauncher.Reachable.init (by decide)

/-- C13 at the failing runs.  The launcher is started and connected by a full update; the
second command heartbeat tick raises `Timeout` and leaves the subscribe socket state `Up`;
a further full update then starts the subscribe heartbeat timer although the client is
not connected.  After `stop()` the state is `Disconnected` and after a poll error it is
`Error`, in both cases with the subscribe heartbeat timer still running, and the tick of
that timer moves the state to `Timeout`. -/
theorem c13_launcher_timeout_from_disconnected_and_error :
    (ApplicationLauncher.Reachable External.sample sampleLauncherStopped ∧
      sampleLauncherStopped.m_connectionState = Disconnected ∧
      sampleLauncherStopped.m_subscribeHeartbeatTimer.active = true ∧
      (ApplicationLauncher.subscribeHeartbeatTimerTick sampleLauncherStopped).m_connectionState
        = Timeout ∧
      stateChanges (ApplicationLauncher.subscribeHeartbeatTimerTick sampleLauncherStopped).effects
        = stateChanges sampleLauncherStopped.effects ++ [Timeout]) ∧
    (ApplicationLauncher.Reachable External.sample sampleLauncherFailed ∧
      sampleLauncherFailed.m_connectionState = Error ∧
      sampleLauncherFailed.m_subscribeHeartbeatTimer.active = true ∧
      (ApplicationLauncher.subscribeHeartbeatTimerTick sampleLauncherFailed).m_connectionState
        = Timeout ∧
      stateChanges (ApplicationLauncher.subscribeHeartbeatTimerTick sampleLauncherFailed).effects
        = stateChanges sampleLauncherFailed.effects ++ [Timeout]) :=
  ⟨⟨sampleLauncherStopped_reachable, by decide⟩, ⟨sampleLauncherFailed_reachable, by decide⟩⟩

/-- C14. In every reachable state of `ApplicationStatus` the status heartbeat timer runs
only while the connection state is `Connected`, so in `Disconnected`, `Connecting`,
`Timeout` and `Error` no tick can occur; and a tick in a state in which the timer runs
moves the state to `Timeout`, sets the connected flag to false, leaves the timer stopped
and announces exactly one transition, to `Timeout`. -/
theorem c14_status_heartbeat_only_while_connected (ext : External) (s : ApplicationStatus)
    (hr : ApplicationStatus.Reachable ext s) :
    (s.m_statusHeartbeatTimer.active = true → s.m_connectionState = Connected) ∧
    (s.m_connectionState ≠ Connected →
      ApplicationStatus.Event.statusHeartbeatTimerTick.enabled s = false) ∧
    (s.m_statusHeartbeatTimer.active = true →
      (ApplicationStatus.statusHeartbeatTimerTick ext s).m_connectionState = Timeout ∧
      (ApplicationStatus.statusHeartbeatTimerTick ext s).m_connected = false ∧
      (ApplicationStatus.statusHeartbeatTimerTick ext s).m_statusHeartbeatTimer.active = false ∧
      stateChanges (ApplicationStatus.statusHeartbeatTimerTick ext s).effects
        = stateChanges s.effects ++ [Timeout]) := by
  obtain ⟨h1, _, _, h4, _⟩ := ApplicationStatus.status_reachable_invariant ext s hr
  refine ⟨h4, fun hne => ?_, fun ha => ?_⟩
  · cases hact : s.m_statusHeartbeatTimer.active with
    | false => simp [ApplicationStatus.Event.enabled, hact]
    | true => exact absurd (h4 hact) hne
  · have hc : s.m_connectionState = Connected := h4 ha
    have hcn : s.m_connected = true := h1.2 hc
    refine ⟨?_, ?_, ?_, ?_⟩
    · simp only [ApplicationStatus.status_statusHeartbeatTimerTick_frame]
    · simp only [ApplicationStatus.status_statusHeartbeatTimerTick_frame, hc]
      simp
    · simp only [ApplicationStatus.status_statusHeartbeatTimerTick_frame, hc, hcn]
      simp
    · simp only [ApplicationStatus.statusHeartbeatTimerTick,
        ApplicationStatus.status_updateStateTo_changes, hc]
      simp

/-- C14 at a sample state: the status client `Connected` with its heartbeat timer running;
the tick moves it to `Timeout` with the timer stopped. -/
theorem c14_status_heartbeat_only_while_connected_witness :
    sampleStatusHeartbeat.m_statusHeartbeatTimer.active = true ∧
    sampleStatusHeartbeat.m_connectionState = Connected ∧
    (ApplicationStatus.statusHeartbeatTimerTick External.sample
      sampleStatusHeartbeat).m_connectionState = Timeout ∧
    (ApplicationStatus.statusHeartbeatTimerTick External.sample
      sampleStatusHeartbeat).m_connected = false ∧
    (ApplicationStatus.statusHeartbeatTimerTick External.sample
      sampleStatusHeartbeat).m_statusHeartbeatTimer.active = false ∧
    stateChanges (ApplicationStatus.statusHeartbeatTimerTick External.sample
      sampleStatusHeartbeat).effects = stateChanges sampleStatusHeartbeat.effects ++ [Timeout] :=
  ⟨by decide,
    (c14_status_heartbeat_only_while_connected External.sample sampleStatusHeartbeat
      sampleStatusHeartbeat_reachable).1 (by decide),
    (c14_status_heartbeat_only_while_connected External.sample sampleStatusHeartbeat
      sampleStatusHeartbeat_reachable).2.2 (by decide)⟩

/-- C15. For every component in the state `Synced`, an `MT_HALRCOMP_SET_REJECT` message
processed by `processHalrcmdChannelMessage` moves the state machine to `Error`; the
actions of the transition are the entry action of `Error` (`setError`) followed by
`setReady(false)` on the data channel and on the command channel, after which both
channels are not ready. -/
theorem c15_set_reject_in_synced_closes_channels (rx : Container) (s : RemoteComponentBase)
    (hs : s.m_state = RemoteComponentBase.State.Synced)
    (h : rx.type = some MT_HALRCOMP_SET_REJECT) :
    (RemoteComponentBase.processHalrcmdChannelMessage rx s).m_state
      = RemoteComponentBase.State.Error ∧
    RemoteComponentBase.fsmActions
      (RemoteComponentBase.processHalrcmdChannelMessage rx s).effects =
      RemoteComponentBase.fsmActions s.effects ++
        [RemoteComponentBase.Effect.call RemoteComponentBase.Virtual.setError,
         RemoteComponentBase.Effect.setReady RemoteComponentBase.ChannelId.halrcomp false,
         RemoteComponentBase.Effect.setReady RemoteComponentBase.ChannelId.halrcmd false] ∧
    (RemoteComponentBase.processHalrcmdChannelMessage rx s).m_halrcompChannel.ready = false ∧
    (RemoteComponentBase.processHalrcmdChannelMessage rx s).m_halrcmdChannel.ready = false := by
  rw [RemoteComponentBase.component_halrcmd_set_reject_eq rx s h]
  simp [hs, RemoteComponentBase.fsmSyncedSetRejectedEvent, RemoteComponentBase.emit,
    RemoteComponentBase.fsmError, RemoteComponentBase.fsmErrorEntry, RemoteComponentBase.call,
    RemoteComponentBase.stopHalrcompChannel, RemoteComponentBase.stopHalrcmdChannel,
    RemoteComponentBase.fsmActions_append, RemoteComponentBase.fsmActions]

/-- C15 at a sample state: the component that has reached `Synced` through the bind
handshake receives a set reject; it ends in `Error` with both channels not ready. -/
theorem c15_set_reject_in_synced_closes_channels_witness :
    sampleComponentSynced.m_state = RemoteComponentBase.State.Synced ∧
    sampleComponentSynced.m_halrcompChannel.ready = true ∧
    sampleComponentSynced.m_halrcmdChannel.ready = true ∧
    (RemoteComponentBase.processHalrcmdChannelMessage (sampleRejection MT_HALRCOMP_SET_REJECT)
      sampleComponentSynced).m_state = RemoteComponentBase.State.Error ∧
    (RemoteComponentBase.processHalrcmdChannelMessage (sampleRejection MT_HALRCOMP_SET_REJECT)
      sampleComponentSynced).m_halrcompChannel.ready = false ∧
    (RemoteComponentBase.processHalrcmdChannelMessage (sampleRejection MT_HALRCOMP_SET_REJECT)
      sampleComponentSynced).m_halrcmdChannel.ready = false :=
  ⟨by decide, by decide, by decide,
    (c15_set_reject_in_synced_closes_channels (sampleRejection MT_HALRCOMP_SET_REJECT)
      sampleComponentSynced (by decide) rfl).1,
    (c15_set_reject_in_synced_closes_channels (sampleRejection MT_HALRCOMP_SET_REJECT)
      sampleComponentSynced (by decide) rfl).2.2⟩

/-- C16, amended.  For every peer error or rejection frame, whatever the state in which
it arrives, the resulting error string is the note lines in order, each followed by a
newline: with at least one note it is the newline-separated lines followed by one more
newline, and with no note it is empty.  This holds for `MT_LAUNCHER_ERROR` and `MT_ERROR`
in `ApplicationLauncher` and for `MT_HALRCOMP_BIND_REJECT`, `MT_HALRCOMP_SET_REJECT` and
`MT_HALRCOMP_ERROR` in `RemoteComponentBase`. -/
theorem c16_error_string_is_note_lines_with_newlines (ext : External) (topic : String)
    (rx : Container) (l : ApplicationLauncher) (c : RemoteComponentBase) :
    (rx.type = some MT_LAUNCHER_ERROR →
      (ApplicationLauncher.subscribeMessageReceived ext topic rx l).m_errorString
        = noteLines rx.note) ∧
    (rx.type = some MT_ERROR →
      (ApplicationLauncher.commandMessageReceived rx l).m_errorString = noteLines rx.note) ∧
    (rx.type = some MT_HALRCOMP_BIND_REJECT →
      (RemoteComponentBase.processHalrcmdChannelMessage rx c).m_errorString
        = noteLines rx.note) ∧
    (rx.type = some MT_HALRCOMP_SET_REJECT →
      (RemoteComponentBase.processHalrcmdChannelMessage rx c).m_errorString
        = noteLines rx.note) ∧
    (rx.type = some MT_HALRCOMP_ERROR →
      (RemoteComponentBase.processHalrcompChannelMessage topic rx c).m_errorString
        = noteLines rx.note) ∧
    (rx.note ≠ [] → noteLines rx.note = String.intercalate "\n" rx.note ++ "\n") ∧
    (rx.note = [] → noteLines rx.note = "") := by
  refine ⟨fun h => ?_, fun h => ?_, fun h => ?_, fun h => ?_, fun h => ?_,
    noteLines_eq_intercalate rx.note, fun h => by rw [h]; rfl⟩
  · simp only [ApplicationLauncher.launcher_subscribe_error_frame ext topic rx l h,
      appendNotes_eq_noteLines]
  · simp only [ApplicationLauncher.launcher_command_error_frame rx l h,
      appendNotes_eq_noteLines]
  · rw [RemoteComponentBase.component_halrcmd_bind_reject_eq rx c h,
      ← appendNotes_eq_noteLines]
    by_cases hb : c.m_state = RemoteComponentBase.State.Binding <;>
      simp [hb, RemoteComponentBase.fsmBindingBindRejectedEvent, RemoteComponentBase.emit,
        RemoteComponentBase.fsmError, RemoteComponentBase.fsmErrorEntry,
        RemoteComponentBase.call, RemoteComponentBase.stopHalrcmdChannel]
  · rw [RemoteComponentBase.component_halrcmd_set_reject_eq rx c h,
      ← appendNotes_eq_noteLines]
    by_cases hb : c.m_state = RemoteComponentBase.State.Synced <;>
      simp [hb, RemoteComponentBase.fsmSyncedSetRejectedEvent, RemoteComponentBase.emit,
        RemoteComponentBase.fsmError, RemoteComponentBase.fsmErrorEntry,
        RemoteComponentBase.call, RemoteComponentBase.stopHalrcmdChannel,
        RemoteComponentBase.stopHalrcompChannel]
  · rw [RemoteComponentBase.component_halrcomp_error_eq topic rx c h,
      ← appendNotes_eq_noteLines]
    by_cases hb : c.m_state = RemoteComponentBase.State.Syncing <;>
      simp [hb, RemoteComponentBase.fsmSyncingSyncFailedEvent, RemoteComponentBase.emit,
        RemoteComponentBase.fsmError, RemoteComponentBase.fsmErrorEntry,
        RemoteComponentBase.call, RemoteComponentBase.stopHalrcmdChannel,
        RemoteComponentBase.stopHalrcompChannel]

/-- C16 at sample frames with the two note lines `first` and `second`: the error string
of the launcher after an `MT_LAUNCHER_ERROR` and of the component after an
`MT_HALRCOMP_SET_REJECT` is the two lines, each followed by a newline. -/
theorem c16_error_string_is_note_lines_with_newlines_witness :
    (sampleRejection MT_LAUNCHER_ERROR).type = some MT_LAUNCHER_ERROR ∧
    (sampleRejection MT_HALRCOMP_SET_REJECT).type = some MT_HALRCOMP_SET_REJECT ∧
    (sampleRejection MT_LAUNCHER_ERROR).note ≠ [] ∧
    (ApplicationLauncher.subscribeMessageReceived External.sample "launcher"
      (sampleRejection MT_LAUNCHER_ERROR) sampleLauncherStarted).m_errorString
      = noteLines (sampleRejection MT_LAUNCHER_ERROR).note ∧
    (RemoteComponentBase.processHalrcmdChannelMessage (sampleRejection MT_HALRCOMP_SET_REJECT)
      sampleComponentSynced).m_errorString
      = noteLines (sampleRejection MT_HALRCOMP_SET_REJECT).note ∧
    noteLines (sampleRejection MT_LAUNCHER_ERROR).note
      = String.intercalate "\n" (sampleRejection MT_LAUNCHER_ERROR).note ++ "\n" ∧
    noteLines ["first", "second"] = "first\nsecond\n" :=
  ⟨rfl, rfl, by decide,
    (c16_error_string_is_note_lines_with_newlines External.sample "launcher"
      (sampleRejection MT_LAUNCHER_ERROR) sampleLauncherStarted sampleComponentSynced).1 rfl,
    (c16_error_string_is_note_lines_with_newlines External.sample "launcher"
      (sampleRejection MT_HALRCOMP_SET_REJECT) sampleLauncherStarted
      sampleComponentSynced).2.2.2.1 rfl,
    (c16_error_string_is_note_lines_with_newlines External.sample "launcher"
      (sampleRejection MT_LAUNCHER_ERROR) sampleLauncherStarted
      sampleComponentSynced).2.2.2.2.2.1 (by decide),
    by decide⟩

/-- C16 as stated fails at a frame with the two note lines `first` and `second`: the
error string of the launcher after an `MT_LAUNCHER_ERROR`, and of the component after an
`MT_HALRCOMP_BIND_REJECT`, ends in a newline, so it is not the newline-separated
concatenation `first`, newline, `second`. -/
theorem c16_counterexample_trailing_newline :
    String.intercalate "\n" (sampleRejection MT_LAUNCHER_ERROR).note = "first\nsecond" ∧
    (ApplicationLauncher.subscribeMessageReceived External.sample "launcher"
      (sampleRejection MT_LAUNCHER_ERROR) sampleLauncherStarted).m_errorString
      = "first\nsecond\n" ∧
    (ApplicationLauncher.subscribeMessageReceived External.sample "launcher"
      (sampleRejection MT_LAUNCHER_ERROR) sampleLauncherStarted).m_errorString
      ≠ String.intercalate "\n" (sampleRejection MT_LAUNCHER_ERROR).note ∧
    (RemoteComponentBase.processHalrcmdChannelMessage (sampleRejection MT_HALRCOMP_BIND_REJECT)
      RemoteComponentBase.new).m_errorString = "first\nsecond\n" ∧
    (RemoteComponentBase.processHalrcmdChannelMessage (sampleRejection MT_HALRCOMP_BIND_REJECT)
      RemoteComponentBase.new).m_errorString
      ≠ String.intercalate "\n" (sampleRejection MT_HALRCOMP_BIND_REJECT).note := by
  decide

/-- C17. In every state other than `Binding`, the bind-rejected event leaves `m_state`
unchanged and starts or stops no channel, whether it arrives as an
`MT_HALRCOMP_BIND_REJECT` message through `processHalrcmdChannelMessage` or as a direct
call of `fsmBindingBindRejectedEvent`, which then changes nothing at all. -/
theorem c17_bind_reject_outside_binding_keeps_state (rx : Container) (s : RemoteComponentBase)
    (hs : s.m_state ≠ RemoteComponentBase.State.Binding)
    (h : rx.type = some MT_HALRCOMP_BIND_REJECT) :
    (RemoteComponentBase.processHalrcmdChannelMessage rx s).m_state = s.m_state ∧
    RemoteComponentBase.channelCalls
      (RemoteComponentBase.processHalrcmdChannelMessage rx s).effects
      = RemoteComponentBase.channelCalls s.effects ∧
    (RemoteComponentBase.processHalrcmdChannelMessage rx s).m_halrcmdChannel
      = s.m_halrcmdChannel ∧
    (RemoteComponentBase.processHalrcmdChannelMessage rx s).m_halrcompChannel
      = s.m_halrcompChannel ∧
    RemoteComponentBase.fsmBindingBindRejectedEvent s = s := by
  rw [RemoteComponentBase.component_halrcmd_bind_reject_eq rx s h]
  simp [hs, RemoteComponentBase.fsmBindingBindRejectedEvent, RemoteComponentBase.emit,
    RemoteComponentBase.channelCalls_append, RemoteComponentBase.channelCalls]

/-- C17 at a sample state: the component in `Synced` receives a bind reject and stays in
`Synced` with both channels ready. -/
theorem c17_bind_reject_outside_binding_keeps_state_witness :
    sampleComponentSynced.m_state ≠ RemoteComponentBase.State.Binding ∧
    (RemoteComponentBase.processHalrcmdChannelMessage (sampleRejection MT_HALRCOMP_BIND_REJECT)
      sampleComponentSynced).m_state = sampleComponentSynced.m_state ∧
    RemoteComponentBase.channelCalls
      (RemoteComponentBase.processHalrcmdChannelMessage (sampleRejection MT_HALRCOMP_BIND_REJECT)
        sampleComponentSynced).effects
      = RemoteComponentBase.channelCalls sampleComponentSynced.effects :=
  ⟨by decide,
    (c17_bind_reject_outside_binding_keeps_state (sampleRejection MT_HALRCOMP_BIND_REJECT)
      sampleComponentSynced (by decide) rfl).1,
    (c17_bind_reject_outside_binding_keeps_state (sampleRejection MT_HALRCOMP_BIND_REJECT)
      sampleComponentSynced (by decide) rfl).2.1⟩

/-- C18, amended.  An `MT_HALRCOMP_BIND_REJECT` message processed outside `Binding`, and
an `MT_HALRCOMP_SET_REJECT` message processed outside `Synced`, leaves `m_state`
unchanged and leads to no action of the state machine, but it replaces `m_errorString` by
the note lines of the message and announces the new string: the only effects are the
signals `errorStringChanged` and `halrcmdMessageReceived`. -/
theorem c18_reject_outside_its_state_replaces_error_string (rx : Container)
    (s : RemoteComponentBase) :
    (rx.type = some MT_HALRCOMP_BIND_REJECT → s.m_state ≠ RemoteComponentBase.State.Binding →
      (RemoteComponentBase.processHalrcmdChannelMessage rx s).m_state = s.m_state ∧
      RemoteComponentBase.fsmActions
        (RemoteComponentBase.processHalrcmdChannelMessage rx s).effects
        = RemoteComponentBase.fsmActions s.effects ∧
      (RemoteComponentBase.processHalrcmdChannelMessage rx s).m_errorString
        = noteLines rx.note ∧
      (RemoteComponentBase.processHalrcmdChannelMessage rx s).effects = s.effects ++
        [RemoteComponentBase.Effect.emit
          (RemoteComponentBase.Signal.errorStringChanged (noteLines rx.note)),
         RemoteComponentBase.Effect.emit
          (RemoteComponentBase.Signal.halrcmdMessageReceived rx)]) ∧
    (rx.type = some MT_HALRCOMP_SET_REJECT → s.m_state ≠ RemoteComponentBase.State.Synced →
      (RemoteComponentBase.processHalrcmdChannelMessage rx s).m_state = s.m_state ∧
      RemoteComponentBase.fsmActions
        (RemoteComponentBase.processHalrcmdChannelMessage rx s).effects
        = RemoteComponentBase.fsmActions s.effects ∧
      (RemoteComponentBase.processHalrcmdChannelMessage rx s).m_errorString
        = noteLines rx.note ∧
      (RemoteComponentBase.processHalrcmdChannelMessage rx s).effects = s.effects ++
        [RemoteComponentBase.Effect.emit
          (RemoteComponentBase.Signal.errorStringChanged (noteLines rx.note)),
         RemoteComponentBase.Effect.emit
          (RemoteComponentBase.Signal.halrcmdMessageReceived rx)]) := by
  constructor
  · intro h hs
    rw [RemoteComponentBase.component_halrcmd_bind_reject_eq rx s h,
      ← appendNotes_eq_noteLines]
    simp [hs, RemoteComponentBase.emit, RemoteComponentBase.fsmActions_append,
      RemoteComponentBase.fsmActions]
  · intro h hs
    rw [RemoteComponentBase.component_halrcmd_set_reject_eq rx s h,
      ← appendNotes_eq_noteLines]
    simp [hs, RemoteComponentBase.emit, RemoteComponentBase.fsmActions_append,
      RemoteComponentBase.fsmActions]

/-- C18 at a sample state: the component in `Synced` receives a bind reject with two note
lines; it stays in `Synced` and its error string becomes the two lines. -/
theorem c18_reject_outside_its_state_replaces_error_string_witness :
    (sampleRejection MT_HALRCOMP_BIND_REJECT).type = some MT_HALRCOMP_BIND_REJECT ∧
    sampleComponentSynced.m_state ≠ RemoteComponentBase.State.Binding ∧
    (RemoteComponentBase.processHalrcmdChannelMessage (sampleRejection MT_HALRCOMP_BIND_REJECT)
      sampleComponentSynced).m_state = sampleComponentSynced.m_state ∧
    (RemoteComponentBase.processHalrcmdChannelMessage (sampleRejection MT_HALRCOMP_BIND_REJECT)
      sampleComponentSynced).m_errorString
      = noteLines (sampleRejection MT_HALRCOMP_BIND_REJECT).note :=
  ⟨rfl, by decide,
    ((c18_reject_outside_its_state_replaces_error_string
      (sampleRejection MT_HALRCOMP_BIND_REJECT) sampleComponentSynced).1 rfl (by decide)).1,
    ((c18_reject_outside_its_state_replaces_error_string
      (sampleRejection MT_HALRCOMP_BIND_REJECT) sampleComponentSynced).1 rfl (by decide)).2.2.1⟩

/-- C18 as stated fails at the newly constructed component, which is in `Down` with an
empty error string: a bind reject with two note lines, and likewise a set reject, leaves
the state `Down` and changes the error string to the two lines. -/
theorem c18_counterexample_error_string_changes :
    RemoteComponentBase.new.m_state = RemoteComponentBase.State.Down ∧
    RemoteComponentBase.new.m_errorString = "" ∧
    (RemoteComponentBase.processHalrcmdChannelMessage (sampleRejection MT_HALRCOMP_BIND_REJECT)
      RemoteComponentBase.new).m_state = RemoteComponentBase.State.Down ∧
    (RemoteComponentBase.processHalrcmdChannelMessage (sampleRejection MT_HALRCOMP_BIND_REJECT)
      RemoteComponentBase.new).m_errorString = "first\nsecond\n" ∧
    (RemoteComponentBase.processHalrcmdChannelMessage (sampleRejection MT_HALRCOMP_SET_REJECT)
      RemoteComponentBase.new).m_state = RemoteComponentBase.State.Down ∧
    (RemoteComponentBase.processHalrcmdChannelMessage (sampleRejection MT_HALRCOMP_SET_REJECT)
      RemoteComponentBase.new).m_errorString = "first\nsecond\n" := by
  decide

/-- C19, amended.  Starting in `Down`, the sequence connect, command channel up, bind
request sent, bind confirmed, data channel up, local items synced (six events) ends in
`Synced`.  A sequence of five events from `Down` ends in `Synced` only if it is, read as
events of the table of section 4.4, connect, command channel up, no bind needed, data
channel up, local items synced. -/
theorem c19_paths_from_down_to_synced (es : List RemoteComponentBase.Event)
    (hlen : es.length = 5)
    (hend : (RemoteComponentBase.run es RemoteComponentBase.new).m_state
      = RemoteComponentBase.State.Synced) :
    (RemoteComponentBase.run sampleBindSentSequence RemoteComponentBase.new).m_state
      = RemoteComponentBase.State.Synced ∧
    es.map RemoteComponentBase.Event.tableEvent =
      [some TableEvent.connect, some TableEvent.commandChannelUp, some TableEvent.noBindNeeded,
       some TableEvent.dataChannelUp, some TableEvent.localItemsSynced] := by
  refine ⟨by decide, ?_⟩
  rw [RemoteComponentBase.component_run_state] at hend
  exact RemoteComponentBase.tableRun_five _ (by simpa using hlen) hend

/-- C19 at the sequence without a bind: it has five events and ends in `Synced`. -/
theorem c19_paths_from_down_to_synced_witness :
    sampleNoBindSequence.length = 5 ∧
    (RemoteComponentBase.run sampleNoBindSequence RemoteComponentBase.new).m_state
      = RemoteComponentBase.State.Synced ∧
    sampleNoBindSequence.map RemoteComponentBase.Event.tableEvent =
      [some TableEvent.connect, some TableEvent.commandChannelUp, some TableEvent.noBindNeeded,
       some TableEvent.dataChannelUp, some TableEvent.localItemsSynced] :=
  ⟨rfl, by decide, (c19_paths_from_down_to_synced sampleNoBindSequence rfl (by decide)).2⟩

/-- C19 as stated fails twice over.  The five-event sequence connect, command channel up,
bind confirmed, data channel up, local items synced ends in `Bind`: the bind-confirmed
message is handled only in `Binding`, which is entered when the bind request has been
sent.  And another sequence of five events, the one without a bind, ends in `Synced`. -/
theorem c19_counterexample_bind_sequence_stops_in_bind :
    (RemoteComponentBase.run sampleBindSequence RemoteComponentBase.new).m_state
      = RemoteComponentBase.State.Bind ∧
    sampleNoBindSequence.length = 5 ∧
    sampleNoBindSequence.map RemoteComponentBase.Event.tableEvent
      ≠ sampleBindSequence.map RemoteComponentBase.Event.tableEvent ∧
    (RemoteComponentBase.run sampleNoBindSequence RemoteComponentBase.new).m_state
      = RemoteComponentBase.State.Synced := by
  decide

/-- C20. For every state of the state machine and every event, the state after the event
is the target state that the table of section 4.4 lists for the pair, and it is the state
before, with no action of the state machine, for every pair the table does not list.
Every event of the table is delivered by some call into the component. -/
theorem c20_state_machine_conforms_to_table (e : RemoteComponentBase.Event)
    (s : RemoteComponentBase) :
    (RemoteComponentBase.step e s).m_state = tableStep s.m_state e.tableEvent ∧
    (∀ te : TableEvent, ∀ target : RemoteComponentBase.State,
      e.tableEvent = some te → specTable s.m_state te = some target →
        (RemoteComponentBase.step e s).m_state = target) ∧
    (e.tableEvent.bind (specTable s.m_state) = none →
      (RemoteComponentBase.step e s).m_state = s.m_state ∧
      RemoteComponentBase.fsmActions (RemoteComponentBase.step e s).effects
        = RemoteComponentBase.fsmActions s.effects) ∧
    (∀ te : TableEvent, te.deliver.tableEvent = some te) := by
  refine ⟨RemoteComponentBase.component_step_state e s, ?_, ?_, ?_⟩
  · intro te target h1 h2
    rw [RemoteComponentBase.component_step_state, h1]
    simp [tableStep, h2]
  · intro h
    refine ⟨?_, RemoteComponentBase.component_step_actions e s h⟩
    rw [RemoteComponentBase.component_step_state]
    cases hte : e.tableEvent with
    | none => rfl
    | some te =>
      rw [hte] at h
      simp only [Option.bind] at h
      simp [tableStep, h]
  · intro te
    cases te <;> rfl

/-- C20 at sample pairs: in `Synced` a set reject leads to `Error`, the target the table
lists; in `Synced` a bind reject, which the table does not list there, changes neither
the state nor the actions. -/
theorem c20_state_machine_conforms_to_table_witness :
    (RemoteComponentBase.Event.processHalrcmdChannelMessage
      (sampleRejection MT_HALRCOMP_SET_REJECT)).tableEvent = some TableEvent.setRejected ∧
    specTable sampleComponentSynced.m_state TableEvent.setRejected
      = some RemoteComponentBase.State.Error ∧
    (RemoteComponentBase.step
      (RemoteComponentBase.Event.processHalrcmdChannelMessage
        (sampleRejection MT_HALRCOMP_SET_REJECT)) sampleComponentSynced).m_state
      = RemoteComponentBase.State.Error ∧
    (RemoteComponentBase.Event.processHalrcmdChannelMessage
      (sampleRejection MT_HALRCOMP_BIND_REJECT)).tableEvent.bind
        (specTable sampleComponentSynced.m_state) = none ∧
    (RemoteComponentBase.step
      (RemoteComponentBase.Event.processHalrcmdChannelMessage
        (sampleRejection MT_HALRCOMP_BIND_REJECT)) sampleComponentSynced).m_state
      = sampleComponentSynced.m_state :=
  ⟨rfl, by decide,
    (c20_state_machine_conforms_to_table
      (RemoteComponentBase.Event.processHalrcmdChannelMessage
        (sampleRejection MT_HALRCOMP_SET_REJECT)) sampleComponentSynced).2.1
      TableEvent.setRejected RemoteComponentBase.State.Error rfl (by decide),
    by decide,
    ((c20_state_machine_conforms_to_table
      (RemoteComponentBase.Event.processHalrcmdChannelMessage
        (sampleRejection MT_HALRCOMP_BIND_REJECT)) sampleComponentSynced).2.2.1
      (by decide)).1⟩

/-- C21, amended.  In every state of the state machine, `sendHalrcompSet(tx)`, which is
`sendHalrcmdMessage(MT_HALRCOMP_SET, tx)`, hands the message to `sendSocketMessage` of the
command channel; the state decides only whether the signal `fsmSyncedHalrcompSetMsgSent`
follows, which it does in `Synced` alone.  The call leaves `m_state` as it is and leads
to no action of the state machine. -/
theorem c21_set_message_is_sent_in_every_state (tx : Container) (s : RemoteComponentBase) :
    RemoteComponentBase.sendHalrcompSet tx s
      = RemoteComponentBase.sendHalrcmdMessage MT_HALRCOMP_SET tx s ∧
    RemoteComponentBase.sentTypes (RemoteComponentBase.sendHalrcompSet tx s).effects
      = RemoteComponentBase.sentTypes s.effects ++ [MT_HALRCOMP_SET] ∧
    (RemoteComponentBase.sendHalrcompSet tx s).effects = s.effects ++
      (RemoteComponentBase.Effect.sendSocketMessage MT_HALRCOMP_SET tx ::
        (if s.m_state = RemoteComponentBase.State.Synced then
          [RemoteComponentBase.Effect.emit
            RemoteComponentBase.Signal.fsmSyncedHalrcompSetMsgSent]
        else [])) ∧
    (RemoteComponentBase.sendHalrcompSet tx s).m_state = s.m_state ∧
    RemoteComponentBase.fsmActions (RemoteComponentBase.sendHalrcompSet tx s).effects
      = RemoteComponentBase.fsmActions s.effects := by
  refine ⟨rfl, ?_, ?_, ?_, ?_⟩ <;>
    simp only [RemoteComponentBase.sendHalrcompSet, RemoteComponentBase.sendHalrcmdMessage,
      reduceCtorEq, if_false, if_true] <;>
    split_ifs <;>
    simp_all [RemoteComponentBase.fsmSyncedHalrcompSetMsgSentEvent, RemoteComponentBase.emit,
      RemoteComponentBase.sentTypes_append, RemoteComponentBase.sentTypes,
      RemoteComponentBase.fsmActions_append, RemoteComponentBase.fsmActions]

/-- C21 as stated fails at the newly constructed component, which is in `Down`, and at the
component in `Bind`: `sendHalrcompSet` hands one `MT_HALRCOMP_SET` message to the command
channel. -/
theorem c21_counterexample_set_sent_before_synced :
    RemoteComponentBase.new.m_state = RemoteComponentBase.State.Down ∧
    RemoteComponentBase.sentTypes RemoteComponentBase.new.effects = [] ∧
    RemoteComponentBase.sentTypes
      (RemoteComponentBase.sendHalrcompSet Container.Clear RemoteComponentBase.new).effects
      = [MT_HALRCOMP_SET] ∧
    sampleComponentBind.m_state = RemoteComponentBase.State.Bind ∧
    RemoteComponentBase.sentTypes sampleComponentBind.effects = [] ∧
    RemoteComponentBase.sentTypes
      (RemoteComponentBase.sendHalrcmdMessage MT_HALRCOMP_SET Container.Clear
        sampleComponentBind).effects = [MT_HALRCOMP_SET] := by
  decide

/-- C23, amended.  A report that the command channel is `Trying` moves the state machine
to `Trying` from `Binding`, `Syncing` and `Synced`, and is ignored in `Bind` and `Sync`;
a report that the data channel is `Trying` moves it to `Syncing` from `Synced` and is
ignored in `Sync`.  No report of a channel state moves a state other than `Down` to
`Down`. -/
theorem c23_channel_regression_unwinds (s : RemoteComponentBase) :
    (s.m_state = RemoteComponentBase.State.Binding ∨
      s.m_state = RemoteComponentBase.State.Syncing ∨
      s.m_state = RemoteComponentBase.State.Synced →
      (RemoteComponentBase.halrcmdChannelStateChanged ChannelState.Trying s).m_state
        = RemoteComponentBase.State.Trying) ∧
    (s.m_state = RemoteComponentBase.State.Bind ∨ s.m_state = RemoteComponentBase.State.Sync →
      (RemoteComponentBase.halrcmdChannelStateChanged ChannelState.Trying s).m_state
        = s.m_state) ∧
    (s.m_state = RemoteComponentBase.State.Synced →
      (RemoteComponentBase.halrcompChannelStateChanged ChannelState.Trying s).m_state
        = RemoteComponentBase.State.Syncing) ∧
    (s.m_state = RemoteComponentBase.State.Sync →
      (RemoteComponentBase.halrcompChannelStateChanged ChannelState.Trying s).m_state
        = s.m_state) ∧
    (∀ state : ChannelState, s.m_state ≠ RemoteComponentBase.State.Down →
      (RemoteComponentBase.halrcmdChannelStateChanged state s).m_state
        ≠ RemoteComponentBase.State.Down ∧
      (RemoteComponentBase.halrcompChannelStateChanged state s).m_state
        ≠ RemoteComponentBase.State.Down) := by
  rcases s with ⟨_, _, _, _, _, st, _, _, _⟩
  refine ⟨?_, ?_, ?_, ?_, ?_⟩
  · cases st <;> simp <;> rfl
  · cases st <;> simp <;> rfl
  · cases st <;> simp
    rfl
  · cases st <;> simp
    rfl
  · intro state
    cases state <;> cases st <;> simp <;> constructor <;> intro h <;> cases h

/-- C23 at a sample state: the component in `Synced` hears that the command channel is
`Trying` and moves to `Trying`; hearing instead that the data channel is `Trying` it
moves to `Syncing`. -/
theorem c23_channel_regression_unwinds_witness :
    sampleComponentSynced.m_state = RemoteComponentBase.State.Synced ∧
    (RemoteComponentBase.halrcmdChannelStateChanged ChannelState.Trying
      sampleComponentSynced).m_state = RemoteComponentBase.State.Trying ∧
    (RemoteComponentBase.halrcompChannelStateChanged ChannelState.Trying
      sampleComponentSynced).m_state = RemoteComponentBase.State.Syncing :=
  ⟨by decide,
    (c23_channel_regression_unwinds sampleComponentSynced).1 (Or.inr (Or.inr (by decide))),
    (c23_channel_regression_unwinds sampleComponentSynced).2.2.1 (by decide)⟩

/-- C23 as stated fails in `Bind` and in `Sync`: the component in `Bind` that hears that
the command channel is `Trying` stays in `Bind`, and the component in `Sync` stays in
`Sync` whether it hears that the command channel or the data channel is `Trying`. -/
theorem c23_counterexample_bind_and_sync_ignore_trying :
    sampleComponentBind.m_state = RemoteComponentBase.State.Bind ∧
    (RemoteComponentBase.halrcmdChannelStateChanged ChannelState.Trying
      sampleComponentBind).m_state = RemoteComponentBase.State.Bind ∧
    sampleComponentSync.m_state = RemoteComponentBase.State.Sync ∧
    (RemoteComponentBase.halrcmdChannelStateChanged ChannelState.Trying
      sampleComponentSync).m_state = RemoteComponentBase.State.Sync ∧
    (RemoteComponentBase.halrcompChannelStateChanged ChannelState.Trying
      sampleComponentSync).m_state = RemoteComponentBase.State.Sync := by
  decide

/-- C24. In every sequence of events that takes the state machine from `Down`, where it
is constructed, to `Synced`, the states entered contain `Trying`, `Bind`, `Syncing`,
`Sync` and `Synced` in this order.  An event enters `Synced` only from `Sync`, `Sync`
only from `Syncing`, `Syncing` only from `Bind`, `Binding` or `Synced`, and `Bind` only
from `Trying`. -/
theorem c24_handshake_is_linear (es : List RemoteComponentBase.Event)
    (hend : (RemoteComponentBase.run es RemoteComponentBase.new).m_state
      = RemoteComponentBase.State.Synced) :
    List.Sublist
      [RemoteComponentBase.State.Trying, RemoteComponentBase.State.Bind,
       RemoteComponentBase.State.Syncing, RemoteComponentBase.State.Sync,
       RemoteComponentBase.State.Synced]
      (RemoteComponentBase.stateTrace
        (RemoteComponentBase.run es RemoteComponentBase.new).effects) ∧
    (∀ (e : RemoteComponentBase.Event) (s : RemoteComponentBase),
      ((RemoteComponentBase.step e s).m_state = RemoteComponentBase.State.Synced →
        s.m_state = RemoteComponentBase.State.Synced ∨
        s.m_state = RemoteComponentBase.State.Sync) ∧
      ((RemoteComponentBase.step e s).m_state = RemoteComponentBase.State.Sync →
        s.m_state = RemoteComponentBase.State.Sync ∨
        s.m_state = RemoteComponentBase.State.Syncing) ∧
      ((RemoteComponentBase.step e s).m_state = RemoteComponentBase.State.Syncing →
        s.m_state = RemoteComponentBase.State.Syncing ∨
        s.m_state = RemoteComponentBase.State.Bind ∨
        s.m_state = RemoteComponentBase.State.Binding ∨
        s.m_state = RemoteComponentBase.State.Synced) ∧
      ((RemoteComponentBase.step e s).m_state = RemoteComponentBase.State.Bind →
        s.m_state = RemoteComponentBase.State.Bind ∨
        s.m_state = RemoteComponentBase.State.Trying)) := by
  constructor
  · rw [RemoteComponentBase.component_run_state] at hend
    rw [RemoteComponentBase.component_run_trace]
    exact RemoteComponentBase.tableTrace_ahead _ _ hend
  · intro e s
    rw [RemoteComponentBase.component_step_state]
    exact RemoteComponentBase.tableStep_entered s.m_state e.tableEvent

/-- C24 at the sample run through the bind handshake: the states entered are `Trying`,
`Bind`, `Binding`, `Syncing`, `Sync`, `Synced`, which contain the five states of the claim
in order. -/
theorem c24_handshake_is_linear_witness :
    (RemoteComponentBase.run sampleBindSentSequence RemoteComponentBase.new).m_state
      = RemoteComponentBase.State.Synced ∧
    RemoteComponentBase.stateTrace
      (RemoteComponentBase.run sampleBindSentSequence RemoteComponentBase.new).effects
      = [RemoteComponentBase.State.Trying, RemoteComponentBase.State.Bind,
         RemoteComponentBase.State.Binding, RemoteComponentBase.State.Syncing,
         RemoteComponentBase.State.Sync, RemoteComponentBase.State.Synced] ∧
    List.Sublist
      [RemoteComponentBase.State.Trying, RemoteComponentBase.State.Bind,
       RemoteComponentBase.State.Syncing, RemoteComponentBase.State.Sync,
       RemoteComponentBase.State.Synced]
      (RemoteComponentBase.stateTrace
        (RemoteComponentBase.run sampleBindSentSequence RemoteComponentBase.new).effects) :=
  ⟨by decide, by decide, (c24_handshake_is_linear sampleBindSentSequence (by decide)).1⟩

/-- C29. In every state, `start()` called twice in a row gives the same component, effect
log included, as `start()` called once, and so does `stop()`: `start()` acts only in
`Down` and leaves `Trying`, and `stop()` leaves `Down`, `Bind` or `Sync`, where it does
nothing. -/
theorem c29_start_and_stop_are_idempotent (s : RemoteComponentBase) :
    RemoteComponentBase.start (RemoteComponentBase.start s) = RemoteComponentBase.start s ∧
    RemoteComponentBase.stop (RemoteComponentBase.stop s) = RemoteComponentBase.stop s ∧
    (s.m_state ≠ RemoteComponentBase.State.Down → RemoteComponentBase.start s = s) ∧
    ((RemoteComponentBase.stop s).m_state = RemoteComponentBase.State.Down ∨
      (RemoteComponentBase.stop s).m_state = RemoteComponentBase.State.Bind ∨
      (RemoteComponentBase.stop s).m_state = RemoteComponentBase.State.Sync) := by
  have hstart : ∀ t : RemoteComponentBase, t.m_state ≠ RemoteComponentBase.State.Down →
      RemoteComponentBase.start t = t := by
    intro t ht
    simp [RemoteComponentBase.start, ht]
  have hstop : ∀ t : RemoteComponentBase,
      (t.m_state = RemoteComponentBase.State.Down ∨ t.m_state = RemoteComponentBase.State.Bind ∨
        t.m_state = RemoteComponentBase.State.Sync) → RemoteComponentBase.stop t = t := by
    intro t ht
    rcases ht with ht | ht | ht <;> simp [RemoteComponentBase.stop, ht]
  have h1 : (RemoteComponentBase.start s).m_state ≠ RemoteComponentBase.State.Down := by
    have h := RemoteComponentBase.component_step_state RemoteComponentBase.Event.start s
    change (RemoteComponentBase.start s).m_state = tableStep s.m_state (some TableEvent.connect)
      at h
    rw [h]
    cases s.m_state <;> decide
  have h2 : (RemoteComponentBase.stop s).m_state = RemoteComponentBase.State.Down ∨
      (RemoteComponentBase.stop s).m_state = RemoteComponentBase.State.Bind ∨
      (RemoteComponentBase.stop s).m_state = RemoteComponentBase.State.Sync := by
    have h := RemoteComponentBase.component_step_state RemoteComponentBase.Event.stop s
    change (RemoteComponentBase.stop s).m_state
      = tableStep s.m_state (some TableEvent.disconnect) at h
    rw [h]
    cases s.m_state <;> decide
  exact ⟨hstart _ h1, hstop _ h2, hstart s, h2⟩

/-- C29 at a sample state: the synced component is not in `Down`, so `start()` leaves it
as it is. -/
theorem c29_start_and_stop_are_idempotent_witness :
    sampleComponentSynced.m_state ≠ RemoteComponentBase.State.Down ∧
    RemoteComponentBase.start sampleComponentSynced = sampleComponentSynced :=
  ⟨by decide, (c29_start_and_stop_are_idempotent sampleComponentSynced).2.2.1 (by decide)⟩

/-- C22, amended.  For each command sender `start(index)`, `kill(index)`,
`terminate(index)`, `writeToStdin(index, data)`, `call(command)` and `shutdown()`: while
connected is false the call changes nothing at all; while connected is true and the
command socket is open, a call whose send does not throw sends exactly one message, of
the type of the command and with its arguments, and clears `m_tx` afterwards; a call
whose send throws sends nothing, leaves the filled `m_tx` and ends in `Error` with
`SocketError`. -/
theorem c22_command_senders (c : ApplicationLauncher.Command) (s : ApplicationLauncher) :
    (s.m_connected = false → ∀ sendError : Option ZmqError, c.send sendError s = s) ∧
    (s.m_connected = true → s.m_commandSocket = true →
      sentMessages (c.send none s).effects = sentMessages s.effects ++ [c.message s.m_tx] ∧
      (c.message s.m_tx).type = some c.type ∧
      (c.send none s).m_tx = Container.Clear) ∧
    (s.m_connected = true → s.m_commandSocket = true → ∀ e : ZmqError,
      sentMessages (c.send (some e) s).effects = sentMessages s.effects ∧
      (c.send (some e) s).m_tx = c.message s.m_tx ∧
      (c.send (some e) s).m_connectionState = Error ∧
      (c.send (some e) s).m_error = SocketError) := by
  refine ⟨fun hc sendError => ApplicationLauncher.launcher_command_disconnected c sendError s hc,
    fun hc hs => ?_, fun hc hs e => ApplicationLauncher.launcher_command_failed c e s hc hs⟩
  exact ⟨(ApplicationLauncher.launcher_command_sent c s hc hs).1, rfl,
    (ApplicationLauncher.launcher_command_sent c s hc hs).2⟩

/-- C22 at a sample state: the connected launcher is asked to start the launcher with
index 0; one `MT_LAUNCHER_START` message is sent and `m_tx` is cleared. -/
theorem c22_command_senders_witness :
    sampleLauncherConnected.m_connected = true ∧
    sampleLauncherConnected.m_commandSocket = true ∧
    sentTypes ((ApplicationLauncher.Command.start 0).send none sampleLauncherConnected).effects
      = sentTypes sampleLauncherConnected.effects ++ [some MT_LAUNCHER_START] ∧
    ((ApplicationLauncher.Command.start 0).send none sampleLauncherConnected).m_tx
      = Container.Clear :=
  ⟨by decide, by decide, by decide,
    ((c22_command_senders (ApplicationLauncher.Command.start 0) sampleLauncherConnected).2.1
      (by decide) (by decide)).2.2⟩

/-- C22 as stated fails at the connected launcher with its command socket open when the
send throws: `start(0)` sends no message, leaves the index in `m_tx` and ends in
`Error`. -/
theorem c22_counterexample_send_throws :
    sampleLauncherConnected.m_connected = true ∧
    sampleLauncherConnected.m_commandSocket = true ∧
    sentTypes (ApplicationLauncher.startIndex 0 (some { num := 11, what := "again" })
      sampleLauncherConnected).effects = sentTypes sampleLauncherConnected.effects ∧
    (ApplicationLauncher.startIndex 0 (some { num := 11, what := "again" })
      sampleLauncherConnected).m_tx.index = some 0 ∧
    (ApplicationLauncher.startIndex 0 (some { num := 11, what := "again" })
      sampleLauncherConnected).m_connectionState = Error := by
  decide

/-- The sample launcher after `start()` is reachable. -/
theorem sampleLauncherStarted_reachable :
    ApplicationLauncher.Reachable External.sample sampleLauncherStarted :=
  ApplicationLauncher.Reachable.step _ (ApplicationLauncher.Event.start none none)
    ApplicationLauncher.Reachable.init (by decide)

/-- The sample launcher with a silent subscribe socket is reachable. -/
theorem sampleLauncherSilent_reachable :
    ApplicationLauncher.Reachable External.sample sampleLauncherSilent :=
  ApplicationLauncher.launcher_reachable_run External.sample sampleLauncherSilentRun _
    ApplicationLauncher.Reachable.init (by decide)

/-- C25, amended.  In every reachable state whose connection state is `Connecting` or
`Timeout`, an `MT_PING_ACKNOWLEDGE` on the command channel moves the connection state to
`Connected` and sets connected to true when the command socket state is not `Up`, as
after `start()` and after a timeout of the command heartbeat; when the command socket
state is `Up`, as after a timeout of the subscribe heartbeat, it leaves the connection
state as it is and connected false. -/
theorem c25_acknowledge_connects_unless_command_up (ext : External) (rx : Container)
    (s : ApplicationLauncher) (hr : ApplicationLauncher.Reachable ext s)
    (h : rx.type = some MT_PING_ACKNOWLEDGE)
    (hst : s.m_connectionState = Connecting ∨ s.m_connectionState = Timeout) :
    (s.m_commandSocketState ≠ Up →
      (ApplicationLauncher.commandMessageReceived rx s).m_connectionState = Connected ∧
      (ApplicationLauncher.commandMessageReceived rx s).m_connected = true) ∧
    (s.m_commandSocketState = Up →
      (ApplicationLauncher.commandMessageReceived rx s).m_connectionState
        = s.m_connectionState ∧
      (ApplicationLauncher.commandMessageReceived rx s).m_connected = false) := by
  obtain ⟨h1, _⟩ := ApplicationLauncher.launcher_reachable_invariant ext s hr
  have hc : s.m_connected = false := by
    cases hcn : s.m_connected with
    | false => rfl
    | true =>
      have := h1.1 hcn
      rcases hst with hst | hst <;> rw [hst] at this <;> cases this
  simp only [ApplicationLauncher.launcher_command_ack_frame rx s h, hc]
  rcases hst with hst | hst <;> simp [hst]

/-- C25 at a sample state: the launcher right after `start()` is `Connecting` with the
command socket state `Trying`; the acknowledge moves it to `Connected`. -/
theorem c25_acknowledge_connects_unless_command_up_witness :
    sampleLauncherStarted.m_connectionState = Connecting ∧
    sampleLauncherStarted.m_commandSocketState ≠ Up ∧
    (ApplicationLauncher.commandMessageReceived (Container.ofType MT_PING_ACKNOWLEDGE)
      sampleLauncherStarted).m_connectionState = Connected ∧
    (ApplicationLauncher.commandMessageReceived (Container.ofType MT_PING_ACKNOWLEDGE)
      sampleLauncherStarted).m_connected = true :=
  ⟨by decide, by decide,
    (c25_acknowledge_connects_unless_command_up External.sample
      (Container.ofType MT_PING_ACKNOWLEDGE) sampleLauncherStarted
      sampleLauncherStarted_reachable rfl (Or.inl (by decide))).1 (by decide)⟩

/-- C25 as stated fails at the launcher whose `Timeout` was caused by the tick of the
subscribe heartbeat timer: the command socket state is still `Up`, and an acknowledge on
the command channel leaves the state `Timeout` and connected false. -/
theorem c25_counterexample_timeout_of_subscribe_heartbeat :
    ApplicationLauncher.Reachable External.sample sampleLauncherSilent ∧
    sampleLauncherSilent.m_connectionState = Timeout ∧
    sampleLauncherSilent.m_commandSocket = true ∧
    sampleLauncherSilent.m_commandSocketState = Up ∧
    (ApplicationLauncher.commandMessageReceived (Container.ofType MT_PING_ACKNOWLEDGE)
      sampleLauncherSilent).m_connectionState = Timeout ∧
    (ApplicationLauncher.commandMessageReceived (Container.ofType MT_PING_ACKNOWLEDGE)
      sampleLauncherSilent).m_connected = false :=
  ⟨sampleLauncherSilent_reachable, by decide⟩

/-- C26. From every reachable state in which the heartbeat timer runs (the state is then
`Connected`), the tick leads to `Timeout`; an `MT_PING` received there moves the state to
`Connecting` with the socket state `Trying`, unsubscribes from every topic subscribed
before and subscribes to the five topics; and an `MT_EMCSTAT_FULL_UPDATE` received next
moves the state to `Connected` with connected true.  `m_error` is `NoError` after each of
the three events, and neither `stop()` nor `start()` is among them. -/
theorem c26_timeout_heals_by_resubscribe (ext : External) (s : ApplicationStatus)
    (topic1 topic2 : String) (ping full : Container)
    (hr : ApplicationStatus.Reachable ext s)
    (ha : s.m_statusHeartbeatTimer.active = true)
    (hp : ping.type = some MT_PING) (hf : full.type = some MT_EMCSTAT_FULL_UPDATE) :
    ((ApplicationStatus.statusHeartbeatTimerTick ext s).m_connectionState = Timeout ∧
      (ApplicationStatus.statusHeartbeatTimerTick ext s).m_error = NoError) ∧
    ((ApplicationStatus.statusMessageReceived ext topic1 ping
        (ApplicationStatus.statusHeartbeatTimerTick ext s)).m_connectionState = Connecting ∧
      (ApplicationStatus.statusMessageReceived ext topic1 ping
        (ApplicationStatus.statusHeartbeatTimerTick ext s)).m_statusSocketState = Trying ∧
      (ApplicationStatus.statusMessageReceived ext topic1 ping
        (ApplicationStatus.statusHeartbeatTimerTick ext s)).m_error = NoError ∧
      (ApplicationStatus.statusMessageReceived ext topic1 ping
        (ApplicationStatus.statusHeartbeatTimerTick ext s)).m_subscriptions
        = ["motion", "config", "task", "io", "interp"] ∧
      transportCalls (ApplicationStatus.statusMessageReceived ext topic1 ping
        (ApplicationStatus.statusHeartbeatTimerTick ext s)).effects =
        transportCalls (ApplicationStatus.statusHeartbeatTimerTick ext s).effects ++
          s.m_subscriptions.map (fun t => "unsubscribeFrom " ++ t) ++
          ["subscribeTo motion", "subscribeTo config", "subscribeTo task", "subscribeTo io",
           "subscribeTo interp"]) ∧
    ((ApplicationStatus.statusMessageReceived ext topic2 full
        (ApplicationStatus.statusMessageReceived ext topic1 ping
          (ApplicationStatus.statusHeartbeatTimerTick ext s))).m_connectionState = Connected ∧
      (ApplicationStatus.statusMessageReceived ext topic2 full
        (ApplicationStatus.statusMessageReceived ext topic1 ping
          (ApplicationStatus.statusHeartbeatTimerTick ext s))).m_connected = true ∧
      (ApplicationStatus.statusMessageReceived ext topic2 full
        (ApplicationStatus.statusMessageReceived ext topic1 ping
          (ApplicationStatus.statusHeartbeatTimerTick ext s))).m_error = NoError) := by
  obtain ⟨_, _, _, h4, h5, _⟩ := ApplicationStatus.status_reachable_invariant ext s hr
  have hc : s.m_connectionState = Connected := h4 ha
  have hsock : s.m_statusSocket = true := (h5 hc).1
  have t1 : (ApplicationStatus.statusHeartbeatTimerTick ext s).m_statusSocketState ≠ Up := by
    simp only [ApplicationStatus.status_statusHeartbeatTimerTick_frame]
    simp
  have t2 : (ApplicationStatus.statusHeartbeatTimerTick ext s).m_statusSocket = true := by
    simp only [ApplicationStatus.status_statusHeartbeatTimerTick_frame, hsock]
  have t3 : (ApplicationStatus.statusHeartbeatTimerTick ext s).m_subscriptions
      = s.m_subscriptions := by
    simp only [ApplicationStatus.status_statusHeartbeatTimerTick_frame]
  have p1 : (ApplicationStatus.statusMessageReceived ext topic1 ping
      (ApplicationStatus.statusHeartbeatTimerTick ext s)).m_statusSocketState ≠ Up := by
    simp only [ApplicationStatus.status_received_ping_frame ext topic1 ping _ hp t1]
    simp
  have p2 : (ApplicationStatus.statusMessageReceived ext topic1 ping
      (ApplicationStatus.statusHeartbeatTimerTick ext s)).m_connected = false := by
    simp only [ApplicationStatus.status_received_ping_frame ext topic1 ping _ hp t1,
      ApplicationStatus.status_statusHeartbeatTimerTick_frame]
    simp
  have p3 : (ApplicationStatus.statusMessageReceived ext topic1 ping
      (ApplicationStatus.statusHeartbeatTimerTick ext s)).m_connectionState = Connecting := by
    simp only [ApplicationStatus.status_received_ping_frame ext topic1 ping _ hp t1]
  refine ⟨⟨?_, ?_⟩, ⟨p3, ?_, ?_, ?_, ?_⟩, ⟨?_, ?_, ?_⟩⟩
  · simp only [ApplicationStatus.status_statusHeartbeatTimerTick_frame]
  · simp only [ApplicationStatus.status_statusHeartbeatTimerTick_frame]
  · simp only [ApplicationStatus.status_received_ping_frame ext topic1 ping _ hp t1]
  · simp only [ApplicationStatus.status_received_ping_frame ext topic1 ping _ hp t1]
  · simp only [ApplicationStatus.status_received_ping_frame ext topic1 ping _ hp t1]
  · rw [ApplicationStatus.status_received_ping_calls ext topic1 ping _ hp t1 t2, t3]
  · simp only [ApplicationStatus.status_received_full_frame ext topic2 full _ hf]
    simp [p1]
  · simp only [ApplicationStatus.status_received_full_frame ext topic2 full _ hf]
    simp [p1, p2, p3]
  · simp only [ApplicationStatus.status_received_full_frame ext topic2 full _ hf]
    simp [p1]

/-- C26 at a sample run: the status client that is `Connected` with its heartbeat timer
running misses a heartbeat, receives a ping and then a full update; it is `Timeout`, then
`Connecting`, then `Connected` again. -/
theorem c26_timeout_heals_by_resubscribe_witness :
    sampleStatusHeartbeat.m_statusHeartbeatTimer.active = true ∧
    sampleStatusTimeout.m_connectionState = Timeout ∧
    (ApplicationStatus.statusMessageReceived External.sample "" (Container.ofType MT_PING)
      sampleStatusTimeout).m_connectionState = Connecting ∧
    (ApplicationStatus.statusMessageReceived External.sample "motion" sampleMotionFullUpdate
      (ApplicationStatus.statusMessageReceived External.sample "" (Container.ofType MT_PING)
        sampleStatusTimeout)).m_connectionState = Connected :=
  ⟨by decide,
    (c26_timeout_heals_by_resubscribe External.sample sampleStatusHeartbeat "" "motion"
      (Container.ofType MT_PING) sampleMotionFullUpdate sampleStatusHeartbeat_reachable
      (by decide) rfl rfl).1.1,
    (c26_timeout_heals_by_resubscribe External.sample sampleStatusHeartbeat "" "motion"
      (Container.ofType MT_PING) sampleMotionFullUpdate sampleStatusHeartbeat_reachable
      (by decide) rfl rfl).2.1.1,
    (c26_timeout_heals_by_resubscribe External.sample sampleStatusHeartbeat "" "motion"
      (Container.ofType MT_PING) sampleMotionFullUpdate sampleStatusHeartbeat_reachable
      (by decide) rfl rfl).2.2.1⟩

/-- C27. Whatever `m_channels` is, `subscribe()` sets the socket state to `Trying` and
appends exactly the names motion, config, task, io, interp, in this order, to
`m_subscriptions`; with the status socket open it calls `subscribeTo` for these five
topics in the same order; and after `unsubscribe()` followed by `subscribe()`,
`m_subscriptions` is exactly these five names. -/
theorem c27_subscribe_takes_all_five_topics (ext : External) (channels : Nat)
    (s : ApplicationStatus) :
    (ApplicationStatus.subscribe { s with m_channels := channels }).m_statusSocketState
      = Trying ∧
    (ApplicationStatus.subscribe { s with m_channels := channels }).m_subscriptions
      = s.m_subscriptions ++ ["motion", "config", "task", "io", "interp"] ∧
    (s.m_statusSocket = true →
      transportCalls (ApplicationStatus.subscribe { s with m_channels := channels }).effects
        = transportCalls s.effects ++ ["subscribeTo motion", "subscribeTo config",
            "subscribeTo task", "subscribeTo io", "subscribeTo interp"]) ∧
    (ApplicationStatus.subscribe
        (ApplicationStatus.unsubscribe ext { s with m_channels := channels })).m_subscriptions
      = ["motion", "config", "task", "io", "interp"] := by
  refine ⟨?_, ?_, fun hsock => ?_, ?_⟩
  · simp only [ApplicationStatus.status_subscribe_frame]
  · simp only [ApplicationStatus.status_subscribe_frame]
  · exact ApplicationStatus.status_subscribe_calls { s with m_channels := channels } hsock
  · simp only [ApplicationStatus.status_subscribe_frame,
      ApplicationStatus.status_unsubscribe_frame, List.nil_append]

/-- C27 at a sample state: the connected status client with `m_channels` set to 0
subscribes to the five topics. -/
theorem c27_subscribe_takes_all_five_topics_witness :
    sampleStatusConnected.m_statusSocket = true ∧
    transportCalls
      (ApplicationStatus.subscribe { sampleStatusConnected with m_channels := 0 }).effects
      = transportCalls sampleStatusConnected.effects ++ ["subscribeTo motion",
          "subscribeTo config", "subscribeTo task", "subscribeTo io", "subscribeTo interp"] :=
  ⟨by decide,
    (c27_subscribe_takes_all_five_topics External.sample 0 sampleStatusConnected).2.2.1
      (by decide)⟩

/-- The status client that has met a poll error is reachable. -/
theorem sampleStatusFailed_reachable :
    ApplicationStatus.Reachable External.sample sampleStatusFailed :=
  ApplicationStatus.status_reachable_run External.sample sampleStatusFailedRun _
    ApplicationStatus.Reachable.init (by decide)

/-- C28. In every reachable state with `m_error` different from `NoError` the state is
`Error`, the status socket and the context are closed and the heartbeat timer is stopped,
so that neither a message nor a tick nor a poll error can occur; a poll error would in
any case record `SocketError`; and every event other than `start()` and `stop()` that can
occur leaves `m_error` different from `NoError`.  `stop()` clears the error, and so does
a `start()` that connects. -/
theorem c28_error_cleared_only_by_stop_or_start (ext : External) (s : ApplicationStatus)
    (hr : ApplicationStatus.Reachable ext s) (he : s.m_error ≠ NoError) :
    (s.m_connectionState = Error ∧ s.m_statusSocket = false ∧ s.m_context = false ∧
      s.m_statusHeartbeatTimer.active = false) ∧
    (∀ (errorNum : Int) (errorMsg : String),
      (ApplicationStatus.pollError ext errorNum errorMsg s).m_error ≠ NoError) ∧
    (∀ e : ApplicationStatus.Event, e.enabled s = true →
      (∀ connectError, e ≠ ApplicationStatus.Event.start connectError) →
      e ≠ ApplicationStatus.Event.stop →
      (ApplicationStatus.step ext e s).m_error ≠ NoError) ∧
    (ApplicationStatus.stop ext s).m_error = NoError ∧
    (ApplicationStatus.start ext none s).m_error = NoError := by
  obtain ⟨_, _, _, h4, _, h6, h7, _⟩ := ApplicationStatus.status_reachable_invariant ext s hr
  have hst : s.m_connectionState = Error := h6.1 he
  have hact : s.m_statusHeartbeatTimer.active = false := by
    cases ha : s.m_statusHeartbeatTimer.active with
    | false => rfl
    | true =>
      have := h4 ha
      rw [hst] at this
      cases this
  have hpoll : ∀ (errorNum : Int) (errorMsg : String),
      (ApplicationStatus.pollError ext errorNum errorMsg s).m_error ≠ NoError := by
    intro errorNum errorMsg
    simp only [ApplicationStatus.status_pollError_frame]
    simp
  refine ⟨⟨hst, (h7 hst).1, (h7 hst).2, hact⟩, hpoll, ?_, ?_, ?_⟩
  · intro e hen hs1 hs2
    cases e with
    | start connectError => exact absurd rfl (hs1 connectError)
    | stop => exact absurd rfl hs2
    | statusMessageReceived topic rx =>
      simp [ApplicationStatus.Event.enabled, (h7 hst).1] at hen
    | pollError errorNum errorMsg => exact hpoll errorNum errorMsg
    | statusHeartbeatTimerTick =>
      simp [ApplicationStatus.Event.enabled, hact] at hen
  · simp only [ApplicationStatus.status_stop_frame]
  · simp only [ApplicationStatus.status_start_ok_frame]

/-- C28 at a sample state: the status client in `Error` after a poll error; a further
poll error keeps an error recorded, and `stop()` clears it. -/
theorem c28_error_cleared_only_by_stop_or_start_witness :
    sampleStatusFailed.m_error ≠ NoError ∧
    sampleStatusFailed.m_connectionState = Error ∧
    (ApplicationStatus.pollError External.sample 7 "again" sampleStatusFailed).m_error
      ≠ NoError ∧
    (ApplicationStatus.stop External.sample sampleStatusFailed).m_error = NoError :=
  ⟨by decide,
    (c28_error_cleared_only_by_stop_or_start External.sample sampleStatusFailed
      sampleStatusFailed_reachable (by decide)).1.1,
    (c28_error_cleared_only_by_stop_or_start External.sample sampleStatusFailed
      sampleStatusFailed_reachable (by decide)).2.1 7 "again",
    (c28_error_cleared_only_by_stop_or_start External.sample sampleStatusFailed
      sampleStatusFailed_reachable (by decide)).2.2.2.1⟩

/-- C30, amended.  After any sequence of events from construction, a full update that
carries protocol parameters with keep-alive period k, where 2*k is within the range of
`int`, leaves the status heartbeat timer of `ApplicationStatus`, and the subscribe
heartbeat timer of `ApplicationLauncher`, running exactly when 2*k > 0; the interval is
2*k when 2*k > 0 and keeps its previous value otherwise.  A full update without protocol
parameters leaves the timer as it was. -/
theorem c30_receive_timeout_sizing (ext : External) (es : List ApplicationStatus.Event)
    (el : List ApplicationLauncher.Event) (topic : String) (rx lx : Container)
    (hrx : rx.type = some MT_EMCSTAT_FULL_UPDATE)
    (hlx : lx.type = some MT_LAUNCHER_FULL_UPDATE) :
    (∀ p : ProtocolParameters, rx.pparams = some p →
      -2147483648 ≤ p.keepalive_timer * 2 → p.keepalive_timer * 2 ≤ 2147483647 →
      ((ApplicationStatus.statusMessageReceived ext topic rx
          (ApplicationStatus.run ext es (ApplicationStatus.new ext))).m_statusHeartbeatTimer.active
          = true ↔ p.keepalive_timer * 2 > 0) ∧
      (p.keepalive_timer * 2 > 0 →
        (ApplicationStatus.statusMessageReceived ext topic rx
          (ApplicationStatus.run ext es
            (ApplicationStatus.new ext))).m_statusHeartbeatTimer.interval
          = p.keepalive_timer * 2) ∧
      (p.keepalive_timer * 2 ≤ 0 →
        (ApplicationStatus.statusMessageReceived ext topic rx
          (ApplicationStatus.run ext es
            (ApplicationStatus.new ext))).m_statusHeartbeatTimer.interval
          = (ApplicationStatus.run ext es
              (ApplicationStatus.new ext)).m_statusHeartbeatTimer.interval)) ∧
    (rx.pparams = none →
      (ApplicationStatus.statusMessageReceived ext topic rx
        (ApplicationStatus.run ext es (ApplicationStatus.new ext))).m_statusHeartbeatTimer
        = (ApplicationStatus.run ext es (ApplicationStatus.new ext)).m_statusHeartbeatTimer) ∧
    (∀ p : ProtocolParameters, lx.pparams = some p →
      -2147483648 ≤ p.keepalive_timer * 2 → p.keepalive_timer * 2 ≤ 2147483647 →
      ((ApplicationLauncher.subscribeMessageReceived ext topic lx
          (ApplicationLauncher.run ext el ApplicationLauncher.new)).m_subscribeHeartbeatTimer.active
          = true ↔ p.keepalive_timer * 2 > 0) ∧
      (p.keepalive_timer * 2 > 0 →
        (ApplicationLauncher.subscribeMessageReceived ext topic lx
          (ApplicationLauncher.run ext el
            ApplicationLauncher.new)).m_subscribeHeartbeatTimer.interval
          = p.keepalive_timer * 2) ∧
      (p.keepalive_timer * 2 ≤ 0 →
        (ApplicationLauncher.subscribeMessageReceived ext topic lx
          (ApplicationLauncher.run ext el
            ApplicationLauncher.new)).m_subscribeHeartbeatTimer.interval
          = (ApplicationLauncher.run ext el
              ApplicationLauncher.new).m_subscribeHeartbeatTimer.interval)) ∧
    (lx.pparams = none →
      (ApplicationLauncher.subscribeMessageReceived ext topic lx
        (ApplicationLauncher.run ext el ApplicationLauncher.new)).m_subscribeHeartbeatTimer
        = (ApplicationLauncher.run ext el ApplicationLauncher.new).m_subscribeHeartbeatTimer) := by
  have hs := ApplicationStatus.status_coherent_run ext es _
    (ApplicationStatus.status_coherent_new ext)
  have hl := ApplicationLauncher.launcher_coherent_run ext el _
    ApplicationLauncher.launcher_coherent_new
  generalize ApplicationStatus.run ext es (ApplicationStatus.new ext) = s at hs ⊢
  generalize ApplicationLauncher.run ext el ApplicationLauncher.new = l at hl ⊢
  have hsc : ¬ (s.m_statusSocketState ≠ Up ∧ Connected ≠ s.m_connectionState ∧
      s.m_connected = true) := by
    rintro ⟨_, h2, h3⟩
    exact h2 (hs.1.1 h3).symm
  have hlc : ¬ (l.m_subscribeSocketState ≠ Up ∧ Connected ≠ l.m_connectionState ∧
      l.m_connected = true) := by
    rintro ⟨_, h2, h3⟩
    exact h2 (hl.1.1 h3).symm
  have fs := (ApplicationStatus.status_received_full_frame ext topic rx s hrx).2.2.2.2.2.2.2.2.2.2.2.1
  have fl := (ApplicationLauncher.launcher_subscribe_full_frame ext topic lx l hlx).2.2.2.2.2.2.2.2.2.2.2.2.2.2.2.1
  rw [if_neg hsc] at fs
  rw [if_neg hlc] at fl
  refine ⟨?_, ?_, ?_, ?_⟩
  · intro p hp _ _
    rw [fs, hp]
    by_cases hk : p.keepalive_timer * 2 > 0
    · simp [hk]
    · simp only [hk, if_false]
      refine ⟨?_, ?_, ?_⟩
      · simp
      · intro h
        exact h.elim
      · intro _
        trivial
  · intro hp
    rw [fs, hp]
  · intro p hp _ _
    rw [fl, hp]
    by_cases hk : p.keepalive_timer * 2 > 0
    · simp [hk]
    · simp only [hk, if_false]
      refine ⟨?_, ?_, ?_⟩
      · simp
      · intro h
        exact h.elim
      · intro _
        trivial
  · intro hp
    rw [fl, hp]

/-- C30 at sample inputs: the started status client and the started launcher client
receive a full update declaring a keep-alive period of 1000; both timers then run with
interval 2000. -/
theorem c30_receive_timeout_sizing_witness :
    sampleMotionFullUpdateKeepalive.type = some MT_EMCSTAT_FULL_UPDATE ∧
    sampleLauncherFullUpdate.type = some MT_LAUNCHER_FULL_UPDATE ∧
    (ApplicationStatus.statusMessageReceived External.sample "motion"
      sampleMotionFullUpdateKeepalive
      (ApplicationStatus.run External.sample [ApplicationStatus.Event.start none]
        (ApplicationStatus.new External.sample))).m_statusHeartbeatTimer.interval = 1000 * 2 ∧
    (ApplicationLauncher.subscribeMessageReceived External.sample "launcher"
      sampleLauncherFullUpdate
      (ApplicationLauncher.run External.sample [ApplicationLauncher.Event.start none none]
        ApplicationLauncher.new)).m_subscribeHeartbeatTimer.interval = 1000 * 2 :=
  ⟨rfl, rfl,
    ((c30_receive_timeout_sizing External.sample [ApplicationStatus.Event.start none]
      [ApplicationLauncher.Event.start none none] "motion" sampleMotionFullUpdateKeepalive
      sampleLauncherFullUpdate rfl rfl).1 { keepalive_timer := 1000 } rfl (by decide)
      (by decide)).2.1 (by decide),
    ((c30_receive_timeout_sizing External.sample [ApplicationStatus.Event.start none]
      [ApplicationLauncher.Event.start none none] "launcher" sampleMotionFullUpdateKeepalive
      sampleLauncherFullUpdate rfl rfl).2.2.1 { keepalive_timer := 1000 } rfl (by decide)
      (by decide)).2.1 (by decide)⟩

/-- C30 as stated fails for a keep-alive period of 0: the status client and the launcher
client whose timers run with interval 2000 receive a full update declaring the period 0;
the timers are stopped, and their interval is still 2000, not 2*0. -/
theorem c30_counterexample_interval_kept_when_not_positive :
    sampleMotionFullUpdateNoKeepalive.type = some MT_EMCSTAT_FULL_UPDATE ∧
    sampleMotionFullUpdateNoKeepalive.pparams.map (fun p => p.keepalive_timer) = some 0 ∧
    sampleStatusHeartbeat.m_statusHeartbeatTimer.active = true ∧
    sampleStatusHeartbeat.m_statusHeartbeatTimer.interval = 2000 ∧
    (ApplicationStatus.statusMessageReceived External.sample "motion"
      sampleMotionFullUpdateNoKeepalive sampleStatusHeartbeat).m_statusHeartbeatTimer.active
      = false ∧
    (ApplicationStatus.statusMessageReceived External.sample "motion"
      sampleMotionFullUpdateNoKeepalive sampleStatusHeartbeat).m_statusHeartbeatTimer.interval
      = 2000 ∧
    sampleLauncherFullUpdateNoKeepalive.type = some MT_LAUNCHER_FULL_UPDATE ∧
    sampleLauncherFullUpdateNoKeepalive.pparams.map (fun p => p.keepalive_timer) = some 0 ∧
    sampleLauncherHeartbeat.m_subscribeHeartbeatTimer.active = true ∧
    sampleLauncherHeartbeat.m_subscribeHeartbeatTimer.interval = 2000 ∧
    (ApplicationLauncher.subscribeMessageReceived External.sample "launcher"
      sampleLauncherFullUpdateNoKeepalive sampleLauncherHeartbeat).m_subscribeHeartbeatTimer.active
      = false ∧
    (ApplicationLauncher.subscribeMessageReceived External.sample "launcher"
      sampleLauncherFullUpdateNoKeepalive
      sampleLauncherHeartbeat).m_subscribeHeartbeatTimer.interval = 2000 := by
  decide

/-- C31, amended.  Every transition keeps the order of its event function: the exit
signal of the old state, the assignment of the new state, the entered signal of the new
state with its entry action, and then the transition actions.  For every event that the
table of section 4.4 leads into `Down`, the actions are `setDisconnected` (the entry
action of `Down`) followed by `setReady(false)` on the command channel, `setReady(false)`
on the data channel and `removePins`; for every event that leads into `Error` they are
`setError` (the entry action of `Error`) followed by the calls that stop the channels; and
on leaving `Down` the exit action `setConnecting` comes before `addPins` and the start of
the command channel. -/
theorem c31_entry_action_precedes_transition_actions (e : RemoteComponentBase.Event)
    (s : RemoteComponentBase) :
    (e.tableEvent.bind (specTable s.m_state) = some RemoteComponentBase.State.Down →
      RemoteComponentBase.fsmActions (RemoteComponentBase.step e s).effects =
        RemoteComponentBase.fsmActions s.effects ++
          [RemoteComponentBase.Effect.call RemoteComponentBase.Virtual.setDisconnected,
           RemoteComponentBase.Effect.setReady RemoteComponentBase.ChannelId.halrcmd false,
           RemoteComponentBase.Effect.setReady RemoteComponentBase.ChannelId.halrcomp false,
           RemoteComponentBase.Effect.call RemoteComponentBase.Virtual.removePins]) ∧
    (e.tableEvent.bind (specTable s.m_state) = some RemoteComponentBase.State.Error →
      RemoteComponentBase.fsmActions (RemoteComponentBase.step e s).effects =
        RemoteComponentBase.fsmActions s.effects ++
          (RemoteComponentBase.Effect.call RemoteComponentBase.Virtual.setError ::
            (if s.m_state = RemoteComponentBase.State.Binding then
              [RemoteComponentBase.Effect.setReady RemoteComponentBase.ChannelId.halrcmd false]
            else
              [RemoteComponentBase.Effect.setReady RemoteComponentBase.ChannelId.halrcomp false,
               RemoteComponentBase.Effect.setReady RemoteComponentBase.ChannelId.halrcmd
                 false]))) ∧
    (s.m_state = RemoteComponentBase.State.Down →
      e.tableEvent.bind (specTable s.m_state) = some RemoteComponentBase.State.Trying →
      RemoteComponentBase.fsmActions (RemoteComponentBase.step e s).effects =
        RemoteComponentBase.fsmActions s.effects ++
          [RemoteComponentBase.Effect.call RemoteComponentBase.Virtual.setConnecting,
           RemoteComponentBase.Effect.call RemoteComponentBase.Virtual.addPins,
           RemoteComponentBase.Effect.setReady RemoteComponentBase.ChannelId.halrcmd true]) := by
  have hd := (RemoteComponentBase.component_step_delta e s).1
  refine ⟨fun h => ?_, fun h => ?_, fun hs h => ?_⟩
  · rw [hd]
    simp only [stepActions, h]
    cases hst : s.m_state <;> rw [hst] at h <;>
      first
      | rfl
      | (exfalso
         generalize e.tableEvent = te at h
         cases te with
         | none => exact absurd h (by decide)
         | some te => cases te <;> exact absurd h (by decide))
  · rw [hd]
    simp only [stepActions, h]
    cases hst : s.m_state <;> rw [hst] at h <;>
      first
      | rfl
      | (exfalso
         generalize e.tableEvent = te at h
         cases te with
         | none => exact absurd h (by decide)
         | some te => cases te <;> exact absurd h (by decide))
  · rw [hd]
    simp only [stepActions, h]
    rw [hs]
    rfl

/-- C31 at a sample state: `stop()` in `Synced` leads into `Down`; the entry action
`setDisconnected` comes first, then the channels are stopped and the pins removed. -/
theorem c31_entry_action_precedes_transition_actions_witness :
    RemoteComponentBase.Event.stop.tableEvent.bind (specTable sampleComponentSynced.m_state)
      = some RemoteComponentBase.State.Down ∧
    RemoteComponentBase.fsmActions
        (RemoteComponentBase.step RemoteComponentBase.Event.stop sampleComponentSynced).effects =
      RemoteComponentBase.fsmActions sampleComponentSynced.effects ++
        [RemoteComponentBase.Effect.call RemoteComponentBase.Virtual.setDisconnected,
         RemoteComponentBase.Effect.setReady RemoteComponentBase.ChannelId.halrcmd false,
         RemoteComponentBase.Effect.setReady RemoteComponentBase.ChannelId.halrcomp false,
         RemoteComponentBase.Effect.call RemoteComponentBase.Virtual.removePins] :=
  ⟨by decide,
    (c31_entry_action_precedes_transition_actions RemoteComponentBase.Event.stop
      sampleComponentSynced).1 (by decide)⟩

/-- C31 as stated fails at the component in `Synced` that receives a set reject: the whole
of what the message adds to the effect log shows `setError`, the entry action of `Error`,
before the two calls that stop the channels, which are the transition actions. -/
theorem c31_counterexample_set_error_before_channels_stop :
    sampleComponentSynced.m_state = RemoteComponentBase.State.Synced ∧
    (RemoteComponentBase.processHalrcmdChannelMessage (sampleRejection MT_HALRCOMP_SET_REJECT)
      sampleComponentSynced).m_state = RemoteComponentBase.State.Error ∧
    (RemoteComponentBase.processHalrcmdChannelMessage (sampleRejection MT_HALRCOMP_SET_REJECT)
      sampleComponentSynced).effects =
      sampleComponentSynced.effects ++
        [RemoteComponentBase.Effect.emit
           (RemoteComponentBase.Signal.errorStringChanged "first\nsecond\n"),
         RemoteComponentBase.Effect.emit RemoteComponentBase.Signal.fsmSyncedSetRejected,
         RemoteComponentBase.Effect.emit RemoteComponentBase.Signal.fsmSyncedExited,
         RemoteComponentBase.Effect.emit
           (RemoteComponentBase.Signal.stateChanged RemoteComponentBase.State.Error),
         RemoteComponentBase.Effect.emit RemoteComponentBase.Signal.fsmErrorEntered,
         RemoteComponentBase.Effect.call RemoteComponentBase.Virtual.setError,
         RemoteComponentBase.Effect.setReady RemoteComponentBase.ChannelId.halrcomp false,
         RemoteComponentBase.Effect.setReady RemoteComponentBase.ChannelId.halrcmd false,
         RemoteComponentBase.Effect.emit
           (RemoteComponentBase.Signal.halrcmdMessageReceived
             (sampleRejection MT_HALRCOMP_SET_REJECT))] ∧
    RemoteComponentBase.fsmActions
        (RemoteComponentBase.processHalrcmdChannelMessage
          (sampleRejection MT_HALRCOMP_SET_REJECT) sampleComponentSynced).effects =
      RemoteComponentBase.fsmActions sampleComponentSynced.effects ++
        [RemoteComponentBase.Effect.call RemoteComponentBase.Virtual.setError,
         RemoteComponentBase.Effect.setReady RemoteComponentBase.ChannelId.halrcomp false,
         RemoteComponentBase.Effect.setReady RemoteComponentBase.ChannelId.halrcmd false] :=
  ⟨by decide, by decide, rfl, rfl⟩

/-- C35. After every sequence of events from construction, the data channel is ready
exactly when the state is `Syncing`, `Sync` or `Synced`, and the command channel is ready
exactly when the state is neither `Down` nor `Error`; so in `Error` both channels are not
ready.  A bind reject in `Binding` leads to `Error` and stops the command channel only;
the data channel was not ready before. -/
theorem c35_channels_ready_match_state (es : List RemoteComponentBase.Event) :
    ((RemoteComponentBase.run es RemoteComponentBase.new).m_halrcompChannel.ready = true ↔
      ((RemoteComponentBase.run es RemoteComponentBase.new).m_state
          = RemoteComponentBase.State.Syncing ∨
        (RemoteComponentBase.run es RemoteComponentBase.new).m_state
          = RemoteComponentBase.State.Sync ∨
        (RemoteComponentBase.run es RemoteComponentBase.new).m_state
          = RemoteComponentBase.State.Synced)) ∧
    ((RemoteComponentBase.run es RemoteComponentBase.new).m_halrcmdChannel.ready = true ↔
      ((RemoteComponentBase.run es RemoteComponentBase.new).m_state
          ≠ RemoteComponentBase.State.Down ∧
        (RemoteComponentBase.run es RemoteComponentBase.new).m_state
          ≠ RemoteComponentBase.State.Error)) ∧
    ((RemoteComponentBase.run es RemoteComponentBase.new).m_state
        = RemoteComponentBase.State.Error →
      (RemoteComponentBase.run es RemoteComponentBase.new).m_halrcompChannel.ready = false ∧
      (RemoteComponentBase.run es RemoteComponentBase.new).m_halrcmdChannel.ready = false) ∧
    (∀ rx : Container, rx.type = some MT_HALRCOMP_BIND_REJECT →
      (RemoteComponentBase.run es RemoteComponentBase.new).m_state
        = RemoteComponentBase.State.Binding →
      (RemoteComponentBase.processHalrcmdChannelMessage rx
        (RemoteComponentBase.run es RemoteComponentBase.new)).m_state
        = RemoteComponentBase.State.Error ∧
      RemoteComponentBase.channelCalls
        (RemoteComponentBase.processHalrcmdChannelMessage rx
          (RemoteComponentBase.run es RemoteComponentBase.new)).effects
        = RemoteComponentBase.channelCalls
            (RemoteComponentBase.run es RemoteComponentBase.new).effects
          ++ [(RemoteComponentBase.ChannelId.halrcmd, false)] ∧
      (RemoteComponentBase.run es RemoteComponentBase.new).m_halrcompChannel.ready = false ∧
      (RemoteComponentBase.processHalrcmdChannelMessage rx
        (RemoteComponentBase.run es RemoteComponentBase.new)).m_halrcompChannel.ready = false ∧
      (RemoteComponentBase.processHalrcmdChannelMessage rx
        (RemoteComponentBase.run es RemoteComponentBase.new)).m_halrcmdChannel.ready
        = false) := by
  have hnew : RemoteComponentBase.ChannelsReady RemoteComponentBase.new := by
    unfold RemoteComponentBase.ChannelsReady
    decide
  have h := RemoteComponentBase.component_run_channels es RemoteComponentBase.new hnew
  generalize RemoteComponentBase.run es RemoteComponentBase.new = s at h ⊢
  obtain ⟨hc, hr⟩ := h
  have hcf : ∀ t : RemoteComponentBase,
      (t.m_halrcompChannel.ready = true ↔
        (t.m_state = RemoteComponentBase.State.Syncing ∨
          t.m_state = RemoteComponentBase.State.Sync ∨
          t.m_state = RemoteComponentBase.State.Synced)) →
      t.m_state ≠ RemoteComponentBase.State.Syncing →
      t.m_state ≠ RemoteComponentBase.State.Sync →
      t.m_state ≠ RemoteComponentBase.State.Synced →
      t.m_halrcompChannel.ready = false := by
    intro t ht h1 h2 h3
    cases hb : t.m_halrcompChannel.ready with
    | false => rfl
    | true =>
      rcases ht.1 hb with h | h | h
      · exact absurd h h1
      · exact absurd h h2
      · exact absurd h h3
  refine ⟨hc, hr, fun he => ⟨?_, ?_⟩, fun rx hrx hb => ?_⟩
  · exact hcf s hc (by rw [he]; decide) (by rw [he]; decide) (by rw [he]; decide)
  · cases hb : s.m_halrcmdChannel.ready with
    | false => rfl
    | true => exact absurd he (hr.1 hb).2
  · have hcomp : s.m_halrcompChannel.ready = false :=
      hcf s hc (by rw [hb]; decide) (by rw [hb]; decide) (by rw [hb]; decide)
    rw [RemoteComponentBase.component_halrcmd_bind_reject_eq rx s hrx]
    simp [hb, hcomp, RemoteComponentBase.fsmBindingBindRejectedEvent, RemoteComponentBase.emit,
      RemoteComponentBase.fsmError, RemoteComponentBase.fsmErrorEntry,
      RemoteComponentBase.call, RemoteComponentBase.stopHalrcmdChannel,
      RemoteComponentBase.channelCalls_append, RemoteComponentBase.channelCalls]

/-- C35 at a sample run: the component in `Binding` has the command channel ready and the
data channel not ready; a bind reject leads to `Error` with both channels not ready, and
the only channel call it adds stops the command channel. -/
theorem c35_channels_ready_match_state_witness :
    sampleComponentBinding.m_state = RemoteComponentBase.State.Binding ∧
    sampleComponentBinding.m_halrcmdChannel.ready = true ∧
    sampleComponentBinding.m_halrcompChannel.ready = false ∧
    (RemoteComponentBase.processHalrcmdChannelMessage (sampleRejection MT_HALRCOMP_BIND_REJECT)
      sampleComponentBinding).m_state = RemoteComponentBase.State.Error ∧
    RemoteComponentBase.channelCalls
      (RemoteComponentBase.processHalrcmdChannelMessage
        (sampleRejection MT_HALRCOMP_BIND_REJECT) sampleComponentBinding).effects
      = RemoteComponentBase.channelCalls sampleComponentBinding.effects
        ++ [(RemoteComponentBase.ChannelId.halrcmd, false)] :=
  ⟨by decide, by decide, by decide,
    ((c35_channels_ready_match_state
      [ RemoteComponentBase.Event.start,
        RemoteComponentBase.Event.halrcmdChannelStateChanged ChannelState.Up,
        RemoteComponentBase.Event.sendHalrcmdMessage MT_HALRCOMP_BIND Container.Clear ]).2.2.2
      (sampleRejection MT_HALRCOMP_BIND_REJECT) rfl (by decide)).1,
    ((c35_channels_ready_match_state
      [ RemoteComponentBase.Event.start,
        RemoteComponentBase.Event.halrcmdChannelStateChanged ChannelState.Up,
        RemoteComponentBase.Event.sendHalrcmdMessage MT_HALRCOMP_BIND Container.Clear ]).2.2.2
      (sampleRejection MT_HALRCOMP_BIND_REJECT) rfl (by decide)).2.1⟩

/-- C36. Called in `Trying`, `Binding`, `Syncing`, `Synced` or `Error`, `stop()` leads to
`Down`, leaves both channels not ready, and its actions are `setDisconnected`,
`setReady(false)` on the command channel, `setReady(false)` on the data channel and
`removePins`.  Called in `Down`, `Bind` or `Sync` it returns the component as it is, the
effect log included; so the state after `stop()` is `Down` exactly when the state before
is neither `Bind` nor `Sync`. -/
theorem c36_stop_reaches_down_except_from_bind_and_sync (s : RemoteComponentBase) :
    ((s.m_state = RemoteComponentBase.State.Trying ∨
        s.m_state = RemoteComponentBase.State.Binding ∨
        s.m_state = RemoteComponentBase.State.Syncing ∨
        s.m_state = RemoteComponentBase.State.Synced ∨
        s.m_state = RemoteComponentBase.State.Error) →
      (RemoteComponentBase.stop s).m_state = RemoteComponentBase.State.Down ∧
      (RemoteComponentBase.stop s).m_halrcmdChannel.ready = false ∧
      (RemoteComponentBase.stop s).m_halrcompChannel.ready = false ∧
      RemoteComponentBase.fsmActions (RemoteComponentBase.stop s).effects =
        RemoteComponentBase.fsmActions s.effects ++
          [RemoteComponentBase.Effect.call RemoteComponentBase.Virtual.setDisconnected,
           RemoteComponentBase.Effect.setReady RemoteComponentBase.ChannelId.halrcmd false,
           RemoteComponentBase.Effect.setReady RemoteComponentBase.ChannelId.halrcomp false,
           RemoteComponentBase.Effect.call RemoteComponentBase.Virtual.removePins]) ∧
    ((s.m_state = RemoteComponentBase.State.Down ∨ s.m_state = RemoteComponentBase.State.Bind ∨
        s.m_state = RemoteComponentBase.State.Sync) →
      RemoteComponentBase.stop s = s) ∧
    ((RemoteComponentBase.stop s).m_state = RemoteComponentBase.State.Down ↔
      (s.m_state ≠ RemoteComponentBase.State.Bind ∧
        s.m_state ≠ RemoteComponentBase.State.Sync)) := by
  have hs : (RemoteComponentBase.stop s).m_state
      = tableStep s.m_state (some TableEvent.disconnect) :=
    RemoteComponentBase.component_step_state RemoteComponentBase.Event.stop s
  have hd : RemoteComponentBase.fsmActions (RemoteComponentBase.stop s).effects
        = RemoteComponentBase.fsmActions s.effects ++
          stepActions s.m_state (some TableEvent.disconnect) ∧
      (RemoteComponentBase.stop s).m_halrcmdChannel.ready
        = RemoteComponentBase.readyAfter RemoteComponentBase.ChannelId.halrcmd
            s.m_halrcmdChannel.ready (stepActions s.m_state (some TableEvent.disconnect)) ∧
      (RemoteComponentBase.stop s).m_halrcompChannel.ready
        = RemoteComponentBase.readyAfter RemoteComponentBase.ChannelId.halrcomp
            s.m_halrcompChannel.ready (stepActions s.m_state (some TableEvent.disconnect)) :=
    RemoteComponentBase.component_step_delta RemoteComponentBase.Event.stop s
  obtain ⟨h1, h2, h3⟩ := hd
  refine ⟨fun h => ?_, fun h => ?_, ?_⟩
  · rcases h with h | h | h | h | h <;> rw [h] at hs h1 h2 h3 <;> exact ⟨hs, h2, h3, h1⟩
  · rcases h with h | h | h <;> simp [RemoteComponentBase.stop, h]
  · rw [hs]
    cases s.m_state <;> decide

/-- C36 at sample states: `stop()` takes the component in `Synced` to `Down`, and returns
the component in `Bind` as it is. -/
theorem c36_stop_reaches_down_except_from_bind_and_sync_witness :
    sampleComponentSynced.m_state = RemoteComponentBase.State.Synced ∧
    (RemoteComponentBase.stop sampleComponentSynced).m_state = RemoteComponentBase.State.Down ∧
    sampleComponentBind.m_state = RemoteComponentBase.State.Bind ∧
    RemoteComponentBase.stop sampleComponentBind = sampleComponentBind :=
  ⟨by decide,
    ((c36_stop_reaches_down_except_from_bind_and_sync sampleComponentSynced).1
      (Or.inr (Or.inr (Or.inr (Or.inl (by decide)))))).1,
    by decide,
    (c36_stop_reaches_down_except_from_bind_and_sync sampleComponentBind).2.1
      (Or.inr (Or.inl (by decide)))⟩

/-- C37. After every sequence of events from construction during which at least one state
was entered, the connection mark (the last of `setDisconnected`, `setConnecting`,
`setConnected`, `setTimeout`, `setError` called by the state machine) is `setConnected`
exactly when the state is `Synced`, `setError` exactly when the state is `Error`, and
`setDisconnected` exactly when the state is `Down`. -/
theorem c37_connection_mark_matches_state (es : List RemoteComponentBase.Event)
    (h : RemoteComponentBase.stateTrace
      (RemoteComponentBase.run es RemoteComponentBase.new).effects ≠ []) :
    (RemoteComponentBase.connectionMark
        (RemoteComponentBase.run es RemoteComponentBase.new).effects
        = some RemoteComponentBase.Virtual.setConnected ↔
      (RemoteComponentBase.run es RemoteComponentBase.new).m_state
        = RemoteComponentBase.State.Synced) ∧
    (RemoteComponentBase.connectionMark
        (RemoteComponentBase.run es RemoteComponentBase.new).effects
        = some RemoteComponentBase.Virtual.setError ↔
      (RemoteComponentBase.run es RemoteComponentBase.new).m_state
        = RemoteComponentBase.State.Error) ∧
    (RemoteComponentBase.connectionMark
        (RemoteComponentBase.run es RemoteComponentBase.new).effects
        = some RemoteComponentBase.Virtual.setDisconnected ↔
      (RemoteComponentBase.run es RemoteComponentBase.new).m_state
        = RemoteComponentBase.State.Down) := by
  rcases RemoteComponentBase.component_run_mark es RemoteComponentBase.new
    (Or.inl ⟨rfl, rfl, rfl⟩) with ⟨_, _, ht⟩ | ⟨mark, hm, hs⟩
  · exact absurd ht h
  · rw [hm]
    revert hs
    generalize (RemoteComponentBase.run es RemoteComponentBase.new).m_state = st
    cases st <;> cases mark <;> decide

/-- C37 at sample runs: after the bind handshake the state is `Synced` and the mark is
`setConnected`; after a further `stop()` the state is `Down` and the mark is
`setDisconnected`. -/
theorem c37_connection_mark_matches_state_witness :
    RemoteComponentBase.stateTrace
      (RemoteComponentBase.run sampleBindSentSequence RemoteComponentBase.new).effects ≠ [] ∧
    (RemoteComponentBase.run sampleBindSentSequence RemoteComponentBase.new).m_state
      = RemoteComponentBase.State.Synced ∧
    RemoteComponentBase.connectionMark
      (RemoteComponentBase.run sampleBindSentSequence RemoteComponentBase.new).effects
      = some RemoteComponentBase.Virtual.setConnected :=
  ⟨by decide, by decide,
    (c37_connection_mark_matches_state sampleBindSentSequence (by decide)).1.2 (by decide)⟩

/-- C38. For every value of `m_channels` and every channel whose bit is not set in it:
once `updateSync` has been called for that channel, no sequence of further `updateSync`
calls changes `m_synced` or emits `syncedChanged`, because the accumulated mask holds the
bit and so differs from `m_channels`; `clearSync()` then resets the mask to 0. -/
theorem c38_sync_is_exact_match (c : StatusChannel) (cs : List StatusChannel)
    (s : ApplicationStatus) (h : s.m_channels.testBit c.bit = false) :
    (ApplicationStatus.updateSyncs cs (ApplicationStatus.updateSync c s)).m_synced
      = s.m_synced ∧
    (ApplicationStatus.updateSyncs cs (ApplicationStatus.updateSync c s)).effects
      = s.effects ∧
    (ApplicationStatus.updateSyncs cs (ApplicationStatus.updateSync c s)).m_syncedChannels
      ≠ (ApplicationStatus.updateSyncs cs (ApplicationStatus.updateSync c s)).m_channels ∧
    (ApplicationStatus.updateSyncs cs (ApplicationStatus.updateSync c s)).m_channels
      = s.m_channels ∧
    (ApplicationStatus.clearSync
      (ApplicationStatus.updateSyncs cs (ApplicationStatus.updateSync c s))).m_syncedChannels
      = 0 ∧
    (ApplicationStatus.clearSync
      (ApplicationStatus.updateSyncs cs (ApplicationStatus.updateSync c s))).m_synced
      = false := by
  have hbit : (s.m_syncedChannels ||| c.flag).testBit c.bit = true := by
    rw [Nat.testBit_or, ApplicationStatus.status_flag_testBit]
    simp
  have hne : s.m_syncedChannels ||| c.flag ≠ s.m_channels := by
    intro heq
    rw [heq, h] at hbit
    cases hbit
  have hstep := ApplicationStatus.status_updateSync_off c s hne
  obtain ⟨h1, h2, h3, h4⟩ := ApplicationStatus.status_updateSyncs_off c.bit cs
    { s with m_syncedChannels := s.m_syncedChannels ||| c.flag } hbit h
  rw [hstep]
  refine ⟨h1, h2, ?_, h3, ?_, ?_⟩
  · intro heq
    rw [heq, h3] at h4
    change s.m_channels.testBit c.bit = true at h4
    rw [h] at h4
    cases h4
  · simp only [ApplicationStatus.status_clearSync_frame]
  · simp only [ApplicationStatus.status_clearSync_frame]

/-- C38 at a sample state: with only the motion channel configured, `updateSync` for the
config channel followed by `updateSync` for the motion channel leaves `m_synced` false,
while `updateSync` for the motion channel alone sets it. -/
theorem c38_sync_is_exact_match_witness :
    ({ ApplicationStatus.new External.sample with m_channels := 1 }).m_channels.testBit
      ConfigChannel.bit = false ∧
    (ApplicationStatus.updateSyncs [MotionChannel]
      (ApplicationStatus.updateSync ConfigChannel
        { ApplicationStatus.new External.sample with m_channels := 1 })).m_synced = false ∧
    (ApplicationStatus.updateSync MotionChannel
      { ApplicationStatus.new External.sample with m_channels := 1 }).m_synced = true :=
  ⟨by decide,
    (c38_sync_is_exact_match ConfigChannel [MotionChannel]
      { ApplicationStatus.new External.sample with m_channels := 1 } (by decide)).1,
    by decide⟩

/-- C40. After `updateRunning`, `m_running` is true exactly when the member `taskMode` of
the task object and the member `interpState` of the interpreter object are both numbers,
the task mode converted to `int` is `TaskModeAuto` or `TaskModeMdi`, and the interpreter
state converted to `int` is not `InterpreterIdle`.  When this value differs from the
previous `m_running` the call emits `runningChanged` with the new value, once; when it
does not, the call changes nothing and emits nothing. -/
theorem c40_running_flag (ext : External) (s : ApplicationStatus) :
    ((ApplicationStatus.updateRunning ext s).m_running = true ↔
      ((s.m_task.value "taskMode").isDouble = true ∧
        (s.m_interp.value "interpState").isDouble = true ∧
        (truncToInt (s.m_task.value "taskMode").toDouble = ext.TaskModeAuto ∨
          truncToInt (s.m_task.value "taskMode").toDouble = ext.TaskModeMdi) ∧
        truncToInt (s.m_interp.value "interpState").toDouble ≠ ext.InterpreterIdle)) ∧
    ((ApplicationStatus.updateRunning ext s).m_running ≠ s.m_running →
      (ApplicationStatus.updateRunning ext s).effects = s.effects ++
        [Effect.emit (Signal.runningChanged (ApplicationStatus.updateRunning ext s).m_running)]) ∧
    ((ApplicationStatus.updateRunning ext s).m_running = s.m_running →
      ApplicationStatus.updateRunning ext s = s) ∧
    (ApplicationStatus.updateRunning ext s).m_task = s.m_task ∧
    (ApplicationStatus.updateRunning ext s).m_interp = s.m_interp := by
  have hr : ((s.m_task.value "taskMode").isDouble && (s.m_interp.value "interpState").isDouble
        && (decide (truncToInt (s.m_task.value "taskMode").toDouble = ext.TaskModeAuto)
            || decide (truncToInt (s.m_task.value "taskMode").toDouble = ext.TaskModeMdi))
        && decide (truncToInt (s.m_interp.value "interpState").toDouble ≠ ext.InterpreterIdle))
        = true ↔
      ((s.m_task.value "taskMode").isDouble = true ∧
        (s.m_interp.value "interpState").isDouble = true ∧
        (truncToInt (s.m_task.value "taskMode").toDouble = ext.TaskModeAuto ∨
          truncToInt (s.m_task.value "taskMode").toDouble = ext.TaskModeMdi) ∧
        truncToInt (s.m_interp.value "interpState").toDouble ≠ ext.InterpreterIdle) := by
    simp [and_assoc]
  have hdef : ApplicationStatus.updateRunning ext s =
      if ((s.m_task.value "taskMode").isDouble && (s.m_interp.value "interpState").isDouble
        && (decide (truncToInt (s.m_task.value "taskMode").toDouble = ext.TaskModeAuto)
            || decide (truncToInt (s.m_task.value "taskMode").toDouble = ext.TaskModeMdi))
        && decide (truncToInt (s.m_interp.value "interpState").toDouble ≠ ext.InterpreterIdle))
          ≠ s.m_running then
        ApplicationStatus.emit (Signal.runningChanged
          ((s.m_task.value "taskMode").isDouble && (s.m_interp.value "interpState").isDouble
            && (decide (truncToInt (s.m_task.value "taskMode").toDouble = ext.TaskModeAuto)
              || decide (truncToInt (s.m_task.value "taskMode").toDouble = ext.TaskModeMdi))
            && decide (truncToInt (s.m_interp.value "interpState").toDouble
              ≠ ext.InterpreterIdle)))
          { s with m_running :=
            ((s.m_task.value "taskMode").isDouble && (s.m_interp.value "interpState").isDouble
              && (decide (truncToInt (s.m_task.value "taskMode").toDouble = ext.TaskModeAuto)
                || decide (truncToInt (s.m_task.value "taskMode").toDouble = ext.TaskModeMdi))
              && decide (truncToInt (s.m_interp.value "interpState").toDouble
                ≠ ext.InterpreterIdle)) }
      else s := rfl
  rw [hdef]
  rw [← hr]
  generalize ((s.m_task.value "taskMode").isDouble && (s.m_interp.value "interpState").isDouble
        && (decide (truncToInt (s.m_task.value "taskMode").toDouble = ext.TaskModeAuto)
            || decide (truncToInt (s.m_task.value "taskMode").toDouble = ext.TaskModeMdi))
        && decide (truncToInt (s.m_interp.value "interpState").toDouble ≠ ext.InterpreterIdle))
    = r
  by_cases h : r = s.m_running
  · simp [h]
  · simp [h, ApplicationStatus.emit]

/-- C40 at a sample state: the task mode is 2 (`TaskModeAuto`) and the interpreter state
is 2 (not idle), `m_running` was false; `updateRunning` sets it and emits
`runningChanged(true)`. -/
theorem c40_running_flag_witness :
    sampleStatusAuto.m_running = false ∧
    (ApplicationStatus.updateRunning External.sample sampleStatusAuto).m_running = true ∧
    (ApplicationStatus.updateRunning External.sample sampleStatusAuto).effects
      = sampleStatusAuto.effects ++ [Effect.emit (Signal.runningChanged true)] :=
  ⟨by decide, by decide,
    (c40_running_flag External.sample sampleStatusAuto).2.1 (by decide)⟩

/-- The launcher that misses the heartbeat of the subscribe channel while in `Timeout`
with `m_synced` raised again is reachable. -/
theorem sampleLauncherStale_reachable :
    ApplicationLauncher.Reachable External.sample sampleLauncherStale :=
  ApplicationLauncher.launcher_reachable_run External.sample sampleLauncherStaleRun _
    ApplicationLauncher.Reachable.init (by decide)

/-- C32 at the failing run.  The launcher is started and connected by a full update; the
second command heartbeat tick raises `Timeout` and leaves the subscribe socket state `Up`;
a further full update raises `m_synced` again and restarts the subscribe heartbeat timer;
the tick of that timer sets the subscribe socket state to `Down`.  An `MT_PING` on the
subscribe channel then moves the state to `Connecting` and resubscribes with the
subscribe socket state `Trying`, but `m_synced` is still true. -/
theorem c32_launcher_ping_keeps_synced_after_timeout :
    ApplicationLauncher.Reachable External.sample sampleLauncherStale ∧
    sampleLauncherStale.m_connectionState = Timeout ∧
    sampleLauncherStale.m_connected = false ∧
    sampleLauncherStale.m_subscribeSocket = true ∧
    sampleLauncherStale.m_subscribeSocketState = Down ∧
    sampleLauncherStale.m_synced = true ∧
    (ApplicationLauncher.subscribeMessageReceived External.sample "launcher"
      (Container.ofType MT_PING) sampleLauncherStale).m_connectionState = Connecting ∧
    (ApplicationLauncher.subscribeMessageReceived External.sample "launcher"
      (Container.ofType MT_PING) sampleLauncherStale).m_connected = false ∧
    (ApplicationLauncher.subscribeMessageReceived External.sample "launcher"
      (Container.ofType MT_PING) sampleLauncherStale).m_subscribeSocketState = Trying ∧
    transportCalls (ApplicationLauncher.subscribeMessageReceived External.sample "launcher"
      (Container.ofType MT_PING) sampleLauncherStale).effects
      = transportCalls sampleLauncherStale.effects
        ++ ["unsubscribeFrom launcher", "subscribeTo launcher"] ∧
    (ApplicationLauncher.subscribeMessageReceived External.sample "launcher"
      (Container.ofType MT_PING) sampleLauncherStale).m_synced = true :=
  ⟨sampleLauncherStale_reachable, by decide⟩

/-- C34. In every reachable state the status socket state is `Up` exactly when the
connection state is `Connected`; and an `MT_PING` received in `Connected` leaves the
connection state, the connected flag, the socket state, `m_synced`, the subscriptions, the
heartbeat timer and the whole effect log as they are: it announces no change of state and
calls nothing on the transport. -/
theorem c34_socket_up_iff_connected (ext : External) (s : ApplicationStatus)
    (hr : ApplicationStatus.Reachable ext s) :
    (s.m_statusSocketState = Up ↔ s.m_connectionState = Connected) ∧
    (∀ (topic : String) (rx : Container), rx.type = some MT_PING →
      s.m_connectionState = Connected →
      (ApplicationStatus.statusMessageReceived ext topic rx s).m_connectionState = Connected ∧
      (ApplicationStatus.statusMessageReceived ext topic rx s).m_connected = true ∧
      (ApplicationStatus.statusMessageReceived ext topic rx s).m_statusSocketState = Up ∧
      (ApplicationStatus.statusMessageReceived ext topic rx s).m_synced = s.m_synced ∧
      (ApplicationStatus.statusMessageReceived ext topic rx s).m_subscriptions
        = s.m_subscriptions ∧
      (ApplicationStatus.statusMessageReceived ext topic rx s).m_statusHeartbeatTimer
        = s.m_statusHeartbeatTimer ∧
      (ApplicationStatus.statusMessageReceived ext topic rx s).effects = s.effects) := by
  obtain ⟨h1, h2, _⟩ := ApplicationStatus.status_reachable_invariant ext s hr
  refine ⟨h2, fun topic rx hrx hc => ?_⟩
  have hup : s.m_statusSocketState = Up := h2.2 hc
  have hcon : s.m_connected = true := h1.2 hc
  refine ⟨?_, ?_, ?_, ?_, ?_, ?_, ?_⟩
  · simp only [ApplicationStatus.status_received_ping_up_frame ext topic rx s hrx hup, hc]
  · simp only [ApplicationStatus.status_received_ping_up_frame ext topic rx s hrx hup, hcon]
  · simp only [ApplicationStatus.status_received_ping_up_frame ext topic rx s hrx hup, hup]
  · simp only [ApplicationStatus.status_received_ping_up_frame ext topic rx s hrx hup]
  · simp only [ApplicationStatus.status_received_ping_up_frame ext topic rx s hrx hup]
  · simp only [ApplicationStatus.status_received_ping_up_frame ext topic rx s hrx hup]
  · exact ApplicationStatus.status_received_ping_up_effects ext topic rx s hrx hup

/-- C34 at a sample state: the connected status client has the socket state `Up`, and a
ping leaves it `Connected` with the effect log unchanged. -/
theorem c34_socket_up_iff_connected_witness :
    sampleStatusConnected.m_connectionState = Connected ∧
    sampleStatusConnected.m_statusSocketState = Up ∧
    (ApplicationStatus.statusMessageReceived External.sample "" (Container.ofType MT_PING)
      sampleStatusConnected).m_connectionState = Connected ∧
    (ApplicationStatus.statusMessageReceived External.sample "" (Container.ofType MT_PING)
      sampleStatusConnected).effects = sampleStatusConnected.effects :=
  ⟨by decide,
    (c34_socket_up_iff_connected External.sample sampleStatusConnected
      sampleStatusConnected_reachable).1.2 (by decide),
    ((c34_socket_up_iff_connected External.sample sampleStatusConnected
      sampleStatusConnected_reachable).2 "" (Container.ofType MT_PING) rfl (by decide)).1,
    ((c34_socket_up_iff_connected External.sample sampleStatusConnected
      sampleStatusConnected_reachable).2 "" (Container.ofType MT_PING) rfl
      (by decide)).2.2.2.2.2.2⟩

/-- C33. Whatever `start()` and `stop()` do: `setReady(r)` with `r` equal to `m_ready`
returns the component as it is and calls neither; `setReady(true)` on a component that is
not completed and not ready only records the flag and emits `readyChanged(true)`, and the
`componentComplete()` that follows sets `m_componentCompleted` and then calls `start()`,
once, as its last statement; on a completed component `setReady(true)` records the flag,
emits the signal and calls `start()`, and `setReady(false)` does the same with `stop()`;
`componentComplete()` on a component that is not ready calls nothing.  With trigger
functions that only record their call, the log counts one `start()` and no `stop()` for
`setReady(true)` followed by `componentComplete()`. -/
theorem c33_ready_gating (impl : ConfigBase.Triggers) (s : ConfigBase) :
    (∀ r : Bool, s.m_ready = r → ConfigBase.setReady impl r s = s) ∧
    (s.m_componentCompleted = false → s.m_ready = false →
      ConfigBase.setReady impl true s =
        { s with m_ready := true, effects := s.effects ++ [ConfigBase.Effect.readyChanged true] } ∧
      ConfigBase.componentComplete impl (ConfigBase.setReady impl true s) =
        impl.start { s with m_componentCompleted := true, m_ready := true, effects := s.effects ++ [ConfigBase.Effect.readyChanged true] }) ∧
    (s.m_componentCompleted = true → s.m_ready = false →
      ConfigBase.setReady impl true s =
        impl.start { s with m_ready := true, effects := s.effects ++ [ConfigBase.Effect.readyChanged true] }) ∧
    (s.m_componentCompleted = true → s.m_ready = true →
      ConfigBase.setReady impl false s =
        impl.stop { s with m_ready := false, effects := s.effects ++ [ConfigBase.Effect.readyChanged false] }) ∧
    (s.m_ready = false →
      ConfigBase.componentComplete impl s = { s with m_componentCompleted := true }) ∧
    (s.m_componentCompleted = false → s.m_ready = false →
      ConfigBase.startCalls
          (ConfigBase.setReady ConfigBase.Triggers.logged true s).effects
        = ConfigBase.startCalls s.effects ∧
      ConfigBase.startCalls
          (ConfigBase.componentComplete ConfigBase.Triggers.logged
            (ConfigBase.setReady ConfigBase.Triggers.logged true s)).effects
        = ConfigBase.startCalls s.effects + 1 ∧
      ConfigBase.stopCalls
          (ConfigBase.componentComplete ConfigBase.Triggers.logged
            (ConfigBase.setReady ConfigBase.Triggers.logged true s)).effects
        = ConfigBase.stopCalls s.effects) := by
  refine ⟨fun r hr => ?_, fun hc hr => ?_, fun hc hr => ?_, fun hc hr => ?_, fun hr => ?_,
    fun hc hr => ?_⟩
  · simp [ConfigBase.setReady, hr]
  · simp [ConfigBase.setReady, ConfigBase.componentComplete, hc, hr]
  · simp [ConfigBase.setReady, hc, hr]
  · simp [ConfigBase.setReady, hc, hr]
  · simp [ConfigBase.componentComplete, hr]
  · simp [ConfigBase.setReady, ConfigBase.componentComplete, ConfigBase.Triggers.logged,
      ConfigBase.startCalls, ConfigBase.stopCalls, hc, hr, List.count_append]

/-- C33 at a sample component: neither completed nor ready, it is set ready and then
completed; `start()` is recorded once, after `readyChanged(true)`, and `stop()` never;
setting it ready again changes nothing, and setting it not ready records one `stop()`. -/
theorem c33_ready_gating_witness :
    sampleConfig.m_componentCompleted = false ∧ sampleConfig.m_ready = false ∧
    (ConfigBase.setReady ConfigBase.Triggers.logged true sampleConfig).effects
      = [ConfigBase.Effect.readyChanged true] ∧
    (ConfigBase.componentComplete ConfigBase.Triggers.logged
      (ConfigBase.setReady ConfigBase.Triggers.logged true sampleConfig)).effects
      = [ConfigBase.Effect.readyChanged true, ConfigBase.Effect.startCalled] ∧
    ConfigBase.startCalls
      (ConfigBase.componentComplete ConfigBase.Triggers.logged
        (ConfigBase.setReady ConfigBase.Triggers.logged true sampleConfig)).effects
      = ConfigBase.startCalls sampleConfig.effects + 1 ∧
    ConfigBase.setReady ConfigBase.Triggers.logged true
      (ConfigBase.componentComplete ConfigBase.Triggers.logged
        (ConfigBase.setReady ConfigBase.Triggers.logged true sampleConfig))
      = ConfigBase.componentComplete ConfigBase.Triggers.logged
        (ConfigBase.setReady ConfigBase.Triggers.logged true sampleConfig) ∧
    (ConfigBase.setReady ConfigBase.Triggers.logged false
      (ConfigBase.componentComplete ConfigBase.Triggers.logged
        (ConfigBase.setReady ConfigBase.Triggers.logged true sampleConfig))).effects
      = [ConfigBase.Effect.readyChanged true, ConfigBase.Effect.startCalled,
         ConfigBase.Effect.readyChanged false, ConfigBase.Effect.stopCalled] :=
  ⟨by decide, by decide, by decide, by decide,
    ((c33_ready_gating ConfigBase.Triggers.logged sampleConfig).2.2.2.2.2 (by decide)
      (by decide)).2.1,
    (c33_ready_gating ConfigBase.Triggers.logged
      (ConfigBase.componentComplete ConfigBase.Triggers.logged
        (ConfigBase.setReady ConfigBase.Triggers.logged true sampleConfig))).1 true
      (by decide),
    by decide⟩

/-- C39. An `MT_LAUNCHER_ERROR` or `MT_ERROR` frame in `ApplicationLauncher`, and an
`MT_HALRCOMP_BIND_REJECT`, `MT_HALRCOMP_SET_REJECT` or `MT_HALRCOMP_ERROR` frame in
`RemoteComponentBase`, leaves as error string the concatenation of each note of the frame
followed by one newline, whatever the error string was before: in `RemoteComponentBase`
the previous string is replaced, not extended.  The concatenation is empty for a frame
without notes, is the first note, a newline and the concatenation of the other notes
otherwise, and then ends with the last note and a newline. -/
theorem c39_error_string_is_each_note_and_newline (ext : External) (topic : String)
    (rx : Container) (previous : String) (l : ApplicationLauncher) (c : RemoteComponentBase) :
    (rx.type = some MT_LAUNCHER_ERROR →
      (ApplicationLauncher.subscribeMessageReceived ext topic rx
        { l with m_errorString := previous }).m_errorString
        = String.join (rx.note.map (fun n => n ++ "\n"))) ∧
    (rx.type = some MT_ERROR →
      (ApplicationLauncher.commandMessageReceived rx
        { l with m_errorString := previous }).m_errorString
        = String.join (rx.note.map (fun n => n ++ "\n"))) ∧
    (rx.type = some MT_HALRCOMP_BIND_REJECT →
      (RemoteComponentBase.processHalrcmdChannelMessage rx
        { c with m_errorString := previous }).m_errorString
        = String.join (rx.note.map (fun n => n ++ "\n"))) ∧
    (rx.type = some MT_HALRCOMP_SET_REJECT →
      (RemoteComponentBase.processHalrcmdChannelMessage rx
        { c with m_errorString := previous }).m_errorString
        = String.join (rx.note.map (fun n => n ++ "\n"))) ∧
    (rx.type = some MT_HALRCOMP_ERROR →
      (RemoteComponentBase.processHalrcompChannelMessage topic rx
        { c with m_errorString := previous }).m_errorString
        = String.join (rx.note.map (fun n => n ++ "\n"))) ∧
    noteLines [] = "" ∧
    (∀ (n : String) (rest : List String), noteLines (n :: rest) = n ++ "\n" ++ noteLines rest) ∧
    (∀ (front : List String) (n : String),
      noteLines (front ++ [n]) = noteLines front ++ n ++ "\n") := by
  have hn : String.join (rx.note.map (fun n => n ++ "\n")) = noteLines rx.note := rfl
  rw [hn]
  refine ⟨fun h => ?_, fun h => ?_, fun h => ?_, fun h => ?_, fun h => ?_, rfl, noteLines_cons,
    noteLines_concat⟩
  · simp only [ApplicationLauncher.launcher_subscribe_error_frame ext topic rx _ h,
      appendNotes_eq_noteLines]
  · simp only [ApplicationLauncher.launcher_command_error_frame rx _ h,
      appendNotes_eq_noteLines]
  · rw [RemoteComponentBase.component_halrcmd_bind_reject_eq rx _ h,
      ← appendNotes_eq_noteLines]
    by_cases hb : c.m_state = RemoteComponentBase.State.Binding <;>
      simp [hb, RemoteComponentBase.fsmBindingBindRejectedEvent, RemoteComponentBase.emit,
        RemoteComponentBase.fsmError, RemoteComponentBase.fsmErrorEntry,
        RemoteComponentBase.call, RemoteComponentBase.stopHalrcmdChannel]
  · rw [RemoteComponentBase.component_halrcmd_set_reject_eq rx _ h,
      ← appendNotes_eq_noteLines]
    by_cases hb : c.m_state = RemoteComponentBase.State.Synced <;>
      simp [hb, RemoteComponentBase.fsmSyncedSetRejectedEvent, RemoteComponentBase.emit,
        RemoteComponentBase.fsmError, RemoteComponentBase.fsmErrorEntry,
        RemoteComponentBase.call, RemoteComponentBase.stopHalrcmdChannel,
        RemoteComponentBase.stopHalrcompChannel]
  · rw [RemoteComponentBase.component_halrcomp_error_eq topic rx _ h,
      ← appendNotes_eq_noteLines]
    by_cases hb : c.m_state = RemoteComponentBase.State.Syncing <;>
      simp [hb, RemoteComponentBase.fsmSyncingSyncFailedEvent, RemoteComponentBase.emit,
        RemoteComponentBase.fsmError, RemoteComponentBase.fsmErrorEntry,
        RemoteComponentBase.call, RemoteComponentBase.stopHalrcmdChannel,
        RemoteComponentBase.stopHalrcompChannel]

/-- C39 at sample frames with the two note lines `first` and `second`, received by a
component whose error string was `old`: after a bind reject the error string is the two
lines, each followed by a newline, without `old`; a frame without notes leaves the empty
string. -/
theorem c39_error_string_is_each_note_and_newline_witness :
    (sampleRejection MT_HALRCOMP_BIND_REJECT).type = some MT_HALRCOMP_BIND_REJECT ∧
    (RemoteComponentBase.processHalrcmdChannelMessage (sampleRejection MT_HALRCOMP_BIND_REJECT)
      { sampleComponentBinding with m_errorString := "old" }).m_errorString
      = String.join ((sampleRejection MT_HALRCOMP_BIND_REJECT).note.map (fun n => n ++ "\n")) ∧
    String.join ((sampleRejection MT_HALRCOMP_BIND_REJECT).note.map (fun n => n ++ "\n"))
      = "first\nsecond\n" ∧
    (RemoteComponentBase.processHalrcmdChannelMessage (Container.ofType MT_HALRCOMP_BIND_REJECT)
      { sampleComponentBinding with m_errorString := "old" }).m_errorString = "" :=
  ⟨rfl,
    (c39_error_string_is_each_note_and_newline External.sample ""
      (sampleRejection MT_HALRCOMP_BIND_REJECT) "old" sampleLauncherStarted
      sampleComponentBinding).2.2.1 rfl,
    by decide,
    (c39_error_string_is_each_note_and_newline External.sample ""
      (Container.ofType MT_HALRCOMP_BIND_REJECT) "old" sampleLauncherStarted
      sampleComponentBinding).2.2.1 rfl⟩

end QtQuickVcp
